import Mathlib

/-!
# quack6502: the MOS 6502 core, the bus and the NES devices (`qk-emulator/src`)

A shallow embedding of the CPU of the emulator (`cpu.h`, `cpu.cpp`, `cpu-ops.cpp`), of the
bus and its memory devices (`bus.cpp`, `memory.cpp`, `mem-mirror.cpp`) and of the NES
cartridge, mapper, ROM file and PPU registers, and theorems about them.

Conventions of the embedding

* `byte` and `word` values are natural numbers; every place where the C++ code
  converts to `byte` or `word` (assignment to a variable or register of that
  type, argument passing, a return value) reduces modulo `2^8` or `2^16`.
* `int` values are integers.
* The CPU reaches the rest of the machine only through `Bus::ReadFromBus` and
  `Bus::WriteToBus`.  The devices behind the bus are kept abstract: the CPU
  functions take the two bus operations as a `BusAccess` acting on a device
  state `β`, and a read may change that state (PPU and controller registers do).
  `ramBus` is the instance in which the whole address space is one RAM device.
* Where C++ leaves the order of two bus reads inside one expression unspecified,
  the reads are performed in the order in which the operands are written.
* The members of `MOS6502::InstructionHandler` are kept in the same record as
  the members of `MOS6502`.
-/

namespace Qk

/-! ## util.cpp -/

namespace Util

/-- `Util::BCDtoBIN`. -/
def BCDtoBIN (bcd : Nat) : Nat :=
  let tens := (bcd >>> 4) % 256
  let ones := (bcd &&& 0x0F) % 256
  (tens * 10 + ones) % 256

/-- `Util::BINtoBCD`. -/
def BINtoBCD (bin : Nat) : Nat :=
  let tens := (if bin > 9 then bin / 10 else 0) % 256
  let ones := (bin + 256 * 10 - tens * 10) % 256
  (((tens <<< 4) &&& 0xF0) ||| (ones &&& 0x0F)) % 256

/-- `Util::ValidateBCD`. -/
def ValidateBCD (bcd : Nat) : Bool :=
  ((bcd &&& 0xF0) < 0xA0) && ((bcd &&& 0x0F) < 0x0A)

end Util

/-! ## Bus access -/

/-- The two bus operations the CPU uses, over the state `β` of the attached
devices: `Bus::ReadFromBus` returns the byte and the new device state,
`Bus::WriteToBus` the new device state. -/
structure BusAccess (β : Type) where
  ReadFromBus : β → Nat → Nat × β
  WriteToBus : β → Nat → Nat → β

/-- A bus whose whole address space is one RAM device (`RAM::ReadFromDevice`,
`RAM::WriteToDevice` in `memory.cpp`): a read returns the stored byte and
changes nothing, a write replaces the byte at the address. -/
def ramBus : BusAccess (Nat → Nat) where
  ReadFromBus := fun m address => (m address, m)
  WriteToBus := fun m address data => fun x => if x = address then data else m x

/-! ## CPU state -/

/-- `MOS6502::Flag`. -/
inductive Flag where
  | Carry
  | Zero
  | InterruptDisable
  | DecimalMode
  | Break
  | Expansion
  | Overflow
  | Negative
  deriving DecidableEq, Repr

/-- The enumerator values of `MOS6502::Flag`. -/
def Flag.val : Flag → Nat
  | .Carry => 0x01
  | .Zero => 0x02
  | .InterruptDisable => 0x04
  | .DecimalMode => 0x08
  | .Break => 0x10
  | .Expansion => 0x20
  | .Overflow => 0x40
  | .Negative => 0x80

/-- The data members of `MOS6502` (registers first) and of its
`InstructionHandler`, and the state `BUS` of the devices behind the bus. -/
structure MOS6502 (β : Type) where
  A : Nat
  X : Nat
  Y : Nat
  PC : Nat
  P : Nat
  S : Nat
  m_opcode : Nat
  m_cacheAbsoluteWorkingAddress : Nat
  m_cacheFetchedData : Nat
  m_doFetch : Bool
  m_additionalCyclesNeeded : Int
  m_didIRQ : Bool
  m_didNMI : Bool
  m_remainingCycles : Int
  m_decimalModeAvailable : Bool
  m_cpuCycleCount : Nat
  m_irqPending : Bool
  m_nmiPending : Bool
  m_halted : Bool
  BUS : β

/-- The C++ operator `~` on an `int` operand, as a 32-bit pattern. -/
def bitNot (x : Nat) : Nat := 0xFFFFFFFF ^^^ x

namespace MOS6502

variable {β : Type}

/-- `MOS6502::Read`: the byte read and the CPU with the new device state. -/
def Read (bus : BusAccess β) (c : MOS6502 β) (address : Nat) : Nat × MOS6502 β :=
  let r := bus.ReadFromBus c.BUS (address % 65536)
  (r.1 % 256, { c with BUS := r.2 })

/-- `MOS6502::Write`. -/
def Write (bus : BusAccess β) (c : MOS6502 β) (address data : Nat) : MOS6502 β :=
  { c with BUS := bus.WriteToBus c.BUS (address % 65536) (data % 256) }

/-- `MOS6502::CheckFlag`. -/
def CheckFlag (c : MOS6502 β) (flag : Flag) : Bool :=
  (c.P &&& flag.val) != 0

/-- `MOS6502::SetFlag(Flag)`. -/
def SetFlag (c : MOS6502 β) (flag : Flag) : MOS6502 β :=
  { c with P := (c.P ||| flag.val) % 256 }

/-- `MOS6502::ClearFlag`. -/
def ClearFlag (c : MOS6502 β) (flag : Flag) : MOS6502 β :=
  { c with P := (c.P &&& bitNot flag.val) % 256 }

/-- `MOS6502::SetFlag(Flag, bool)`. -/
def SetFlagTo (c : MOS6502 β) (flag : Flag) (state : Bool) : MOS6502 β :=
  if state then { c with P := (c.P ||| flag.val) % 256 }
  else { c with P := (c.P &&& bitNot flag.val) % 256 }

/-- `MOS6502::ClearFlags`. -/
def ClearFlags (c : MOS6502 β) : MOS6502 β :=
  { c with P := 0x20 }

/-- `MOS6502::GetStackPointerAddress`. -/
def GetStackPointerAddress (c : MOS6502 β) : Nat :=
  (0x0100 ||| c.S) % 65536

end MOS6502

namespace InstructionHandler

open MOS6502

variable {β : Type}

/-- `InstructionHandler::Fetch`: the operand byte and the CPU after the read. -/
def Fetch (bus : BusAccess β) (c : MOS6502 β) : Nat × MOS6502 β :=
  if c.m_doFetch then
    let r := Read bus c c.m_cacheAbsoluteWorkingAddress
    (r.1, { r.2 with m_cacheFetchedData := r.1 })
  else
    (c.m_cacheFetchedData % 256, c)

/-- The expression `CPU.Read(CPU.Registers.PC++)`: the byte at `PC`, and the
CPU with `PC` incremented as a `word`. -/
def ReadPCInc (bus : BusAccess β) (c : MOS6502 β) : Nat × MOS6502 β :=
  let r := Read bus { c with PC := (c.PC + 1) % 65536 } c.PC
  (r.1, r.2)

/-! ### Addressing modes -/

/-- `InstructionHandler::IMP`. -/
def IMP (_bus : BusAccess β) (c : MOS6502 β) : MOS6502 β :=
  { c with m_cacheFetchedData := 0, m_doFetch := false }

/-- `InstructionHandler::IMM`. -/
def IMM (_bus : BusAccess β) (c : MOS6502 β) : MOS6502 β :=
  { c with m_cacheAbsoluteWorkingAddress := c.PC % 65536, PC := (c.PC + 1) % 65536 }

/-- `InstructionHandler::ACC`. -/
def ACC (_bus : BusAccess β) (c : MOS6502 β) : MOS6502 β :=
  { c with m_cacheFetchedData := c.A % 256, m_doFetch := false }

/-- `InstructionHandler::ZP0`. -/
def ZP0 (bus : BusAccess β) (c : MOS6502 β) : MOS6502 β :=
  let r := ReadPCInc bus c
  let address := r.1
  { r.2 with m_cacheAbsoluteWorkingAddress := (address &&& 0x00FF) % 65536 }

/-- `InstructionHandler::ZPX`. -/
def ZPX (bus : BusAccess β) (c : MOS6502 β) : MOS6502 β :=
  let r := ReadPCInc bus c
  let address := r.1
  let c := r.2
  { c with m_cacheAbsoluteWorkingAddress := ((address + c.X) &&& 0x00FF) % 65536 }

/-- `InstructionHandler::ZPY`. -/
def ZPY (bus : BusAccess β) (c : MOS6502 β) : MOS6502 β :=
  let r := ReadPCInc bus c
  let address := r.1
  let c := r.2
  { c with m_cacheAbsoluteWorkingAddress := ((address + c.Y) &&& 0x00FF) % 65536 }

/-- `InstructionHandler::REL`.  The subtraction is an `int` computation whose
result is converted to `word`. -/
def REL (bus : BusAccess β) (c : MOS6502 β) : MOS6502 β :=
  let r := ReadPCInc bus c
  let offset := r.1
  let c := r.2
  let c :=
    if offset > 0x7F then
      { c with m_cacheAbsoluteWorkingAddress :=
          (c.PC + 65536 - (128 - (offset &&& 0x7F))) % 65536 }
    else
      { c with m_cacheAbsoluteWorkingAddress := (c.PC + offset) % 65536 }
  { c with m_additionalCyclesNeeded := c.m_additionalCyclesNeeded + 1 }

/-- `InstructionHandler::ABS`. -/
def ABS (bus : BusAccess β) (c : MOS6502 β) : MOS6502 β :=
  let r := ReadPCInc bus c
  let lowerByte := r.1
  let r := ReadPCInc bus r.2
  let upperByte := (r.1 <<< 8) % 65536
  { r.2 with m_cacheAbsoluteWorkingAddress := (upperByte ||| lowerByte) % 65536 }

/-- `InstructionHandler::ABX`. -/
def ABX (bus : BusAccess β) (c : MOS6502 β) : MOS6502 β :=
  let r := ReadPCInc bus c
  let lowerByte := r.1
  let r := ReadPCInc bus r.2
  let upperByte := (r.1 <<< 8) % 65536
  let c := r.2
  let c := { c with m_cacheAbsoluteWorkingAddress := ((upperByte ||| lowerByte) + c.X) % 65536 }
  if (c.m_cacheAbsoluteWorkingAddress &&& 0xFF00) != upperByte then
    { c with m_additionalCyclesNeeded := c.m_additionalCyclesNeeded + 1 }
  else c

/-- `InstructionHandler::ABY`. -/
def ABY (bus : BusAccess β) (c : MOS6502 β) : MOS6502 β :=
  let r := ReadPCInc bus c
  let lowerByte := r.1
  let r := ReadPCInc bus r.2
  let upperByte := (r.1 <<< 8) % 65536
  let c := r.2
  let c := { c with m_cacheAbsoluteWorkingAddress := ((upperByte ||| lowerByte) + c.Y) % 65536 }
  if (c.m_cacheAbsoluteWorkingAddress &&& 0xFF00) != upperByte then
    { c with m_additionalCyclesNeeded := c.m_additionalCyclesNeeded + 1 }
  else c

/-- `InstructionHandler::IND`. -/
def IND (bus : BusAccess β) (c : MOS6502 β) : MOS6502 β :=
  let r := ReadPCInc bus c
  let ptrLowerByte := r.1
  let r := ReadPCInc bus r.2
  let ptrUpperByte := (r.1 <<< 8) % 65536
  let c := r.2
  let ptrAddress := (ptrUpperByte ||| ptrLowerByte) % 65536
  if ptrLowerByte == 0x00FF then
    let h := Read bus c (ptrAddress &&& 0xFF00)
    let l := Read bus h.2 ptrAddress
    { l.2 with m_cacheAbsoluteWorkingAddress := ((h.1 <<< 8) ||| l.1) % 65536 }
  else
    let h := Read bus c (ptrAddress + 1)
    let l := Read bus h.2 ptrAddress
    { l.2 with m_cacheAbsoluteWorkingAddress := ((h.1 <<< 8) ||| l.1) % 65536 }

/-- `InstructionHandler::IZX`. -/
def IZX (bus : BusAccess β) (c : MOS6502 β) : MOS6502 β :=
  let r := ReadPCInc bus c
  let c := r.2
  let ptr := (r.1 + c.X) % 65536
  let l := Read bus c (ptr &&& 0x00FF)
  let lowerByte := l.1
  let h := Read bus l.2 ((ptr + 1) &&& 0x00FF)
  let upperByte := (h.1 <<< 8) % 65536
  { h.2 with m_cacheAbsoluteWorkingAddress := (upperByte ||| lowerByte) % 65536 }

/-- `InstructionHandler::IZY`. -/
def IZY (bus : BusAccess β) (c : MOS6502 β) : MOS6502 β :=
  let r := ReadPCInc bus c
  let c := r.2
  let ptr := r.1
  let l := Read bus c (ptr &&& 0x00FF)
  let lowerByte := l.1
  let h := Read bus l.2 ((ptr + 1) &&& 0x00FF)
  let upperByte := (h.1 <<< 8) % 65536
  let c := h.2
  let c := { c with m_cacheAbsoluteWorkingAddress := ((upperByte ||| lowerByte) + c.Y) % 65536 }
  if (c.m_cacheAbsoluteWorkingAddress &&& 0xFF00) != upperByte then
    { c with m_additionalCyclesNeeded := c.m_additionalCyclesNeeded + 1 }
  else c

/-! ### System interrupts -/

/-- `InstructionHandler::IRQ`. -/
def IRQ (bus : BusAccess β) (c : MOS6502 β) : MOS6502 β :=
  if !CheckFlag c Flag.InterruptDisable then
    let upperByte := ((c.PC >>> 8) &&& 0x00FF) % 256
    let lowerByte := (c.PC &&& 0x00FF) % 256
    let c := Write bus c (GetStackPointerAddress c) upperByte
    let c := { c with S := (c.S + 255) % 256 }
    let c := Write bus c (GetStackPointerAddress c) lowerByte
    let c := { c with S := (c.S + 255) % 256 }
    let c := ClearFlag c Flag.Break
    let c := SetFlag c Flag.InterruptDisable
    let c := Write bus c (GetStackPointerAddress c) c.P
    let c := { c with S := (c.S + 255) % 256 }
    let h := Read bus c 0xFFFF
    let l := Read bus h.2 0xFFFE
    let c := { l.2 with PC := (((h.1 % 65536) <<< 8) ||| (l.1 % 65536)) % 65536 }
    { c with m_didNMI := true }
  else c

/-- `InstructionHandler::NMI`. -/
def NMI (bus : BusAccess β) (c : MOS6502 β) : MOS6502 β :=
  let upperByte := ((c.PC >>> 8) &&& 0x00FF) % 256
  let lowerByte := (c.PC &&& 0x00FF) % 256
  let c := Write bus c (GetStackPointerAddress c) upperByte
  let c := { c with S := (c.S + 255) % 256 }
  let c := Write bus c (GetStackPointerAddress c) lowerByte
  let c := { c with S := (c.S + 255) % 256 }
  let c := ClearFlag c Flag.Break
  let c := SetFlag c Flag.InterruptDisable
  let c := Write bus c (GetStackPointerAddress c) c.P
  let c := { c with S := (c.S + 255) % 256 }
  let h := Read bus c 0xFFFB
  let l := Read bus h.2 0xFFFA
  let c := { l.2 with PC := (((h.1 % 65536) <<< 8) ||| (l.1 % 65536)) % 65536 }
  { c with m_didNMI := true }

/-! ### Instructions -/

/-- `InstructionHandler::XXX`. -/
def XXX (_bus : BusAccess β) (c : MOS6502 β) : MOS6502 β := c

/-- `InstructionHandler::NOP`. -/
def NOP (_bus : BusAccess β) (c : MOS6502 β) : MOS6502 β := c

/-- `InstructionHandler::BRK`. -/
def BRK (bus : BusAccess β) (c : MOS6502 β) : MOS6502 β :=
  let c := { c with PC := (c.PC + 1) % 65536 }
  let c := SetFlag c Flag.Break
  let upperByte := ((c.PC >>> 8) &&& 0xFF00) % 256
  let lowerByte := (c.PC &&& 0x00FF) % 256
  let c := Write bus c (GetStackPointerAddress c) upperByte
  let c := { c with S := (c.S + 255) % 256 }
  let c := Write bus c (GetStackPointerAddress c) lowerByte
  let c := { c with S := (c.S + 255) % 256 }
  let c := SetFlag c Flag.Break
  let c := Write bus c (GetStackPointerAddress c) c.P
  let c := { c with S := (c.S + 255) % 256 }
  let c := ClearFlag c Flag.Break
  let l := Read bus c 0xFFFE
  let h := Read bus l.2 0xFFFF
  { h.2 with PC := ((l.1 % 65536) ||| ((h.1 % 65536) <<< 8)) % 65536 }

/-- `InstructionHandler::RTI`. -/
def RTI (bus : BusAccess β) (c : MOS6502 β) : MOS6502 β :=
  let c := { c with S := (c.S + 1) % 256 }
  let r := Read bus c (GetStackPointerAddress c)
  let c := r.2
  let p :=
    if CheckFlag c Flag.Break then (r.1 ||| Flag.Break.val) % 256
    else (r.1 &&& bitNot Flag.Break.val) % 256
  let c := { c with P := p }
  let c := SetFlag c Flag.Expansion
  let c := { c with S := (c.S + 1) % 256 }
  let l := Read bus c (GetStackPointerAddress c)
  let lowerByte := l.1
  let c := { l.2 with S := (l.2.S + 1) % 256 }
  let h := Read bus c (GetStackPointerAddress c)
  let upperByte := h.1
  { h.2 with PC := ((upperByte <<< 8) ||| lowerByte) % 65536 }

/-- `InstructionHandler::LDA`. -/
def LDA (bus : BusAccess β) (c : MOS6502 β) : MOS6502 β :=
  let f := Fetch bus c
  let c := { f.2 with A := f.1 }
  let c := SetFlagTo c Flag.Zero (c.A == 0)
  let c := SetFlagTo c Flag.Negative ((c.A &&& 0x80) != 0)
  { c with m_additionalCyclesNeeded := c.m_additionalCyclesNeeded + 1 }

/-- `InstructionHandler::LDX`. -/
def LDX (bus : BusAccess β) (c : MOS6502 β) : MOS6502 β :=
  let f := Fetch bus c
  let c := { f.2 with X := f.1 }
  let c := SetFlagTo c Flag.Zero (c.X == 0)
  let c := SetFlagTo c Flag.Negative ((c.X &&& 0x80) != 0)
  { c with m_additionalCyclesNeeded := c.m_additionalCyclesNeeded + 1 }

/-- `InstructionHandler::LDY`. -/
def LDY (bus : BusAccess β) (c : MOS6502 β) : MOS6502 β :=
  let f := Fetch bus c
  let c := { f.2 with Y := f.1 }
  let c := SetFlagTo c Flag.Zero (c.Y == 0)
  let c := SetFlagTo c Flag.Negative ((c.Y &&& 0x80) != 0)
  { c with m_additionalCyclesNeeded := c.m_additionalCyclesNeeded + 1 }

/-- `InstructionHandler::STA`. -/
def STA (bus : BusAccess β) (c : MOS6502 β) : MOS6502 β :=
  Write bus c c.m_cacheAbsoluteWorkingAddress c.A

/-- `InstructionHandler::STX`. -/
def STX (bus : BusAccess β) (c : MOS6502 β) : MOS6502 β :=
  Write bus c c.m_cacheAbsoluteWorkingAddress c.X

/-- `InstructionHandler::STY`. -/
def STY (bus : BusAccess β) (c : MOS6502 β) : MOS6502 β :=
  Write bus c c.m_cacheAbsoluteWorkingAddress c.Y

/-- `InstructionHandler::TAX`. -/
def TAX (_bus : BusAccess β) (c : MOS6502 β) : MOS6502 β :=
  let c := { c with X := c.A % 256 }
  let c := SetFlagTo c Flag.Zero (c.X == 0)
  SetFlagTo c Flag.Negative ((c.X &&& 0x80) != 0)

/-- `InstructionHandler::TAY`. -/
def TAY (_bus : BusAccess β) (c : MOS6502 β) : MOS6502 β :=
  let c := { c with Y := c.A % 256 }
  let c := SetFlagTo c Flag.Zero (c.Y == 0)
  SetFlagTo c Flag.Negative ((c.Y &&& 0x80) != 0)

/-- `InstructionHandler::TXA`. -/
def TXA (_bus : BusAccess β) (c : MOS6502 β) : MOS6502 β :=
  let c := { c with A := c.X % 256 }
  let c := SetFlagTo c Flag.Zero (c.A == 0)
  SetFlagTo c Flag.Negative ((c.A &&& 0x80) != 0)

/-- `InstructionHandler::TYA`. -/
def TYA (_bus : BusAccess β) (c : MOS6502 β) : MOS6502 β :=
  let c := { c with A := c.Y % 256 }
  let c := SetFlagTo c Flag.Zero (c.Y == 0)
  SetFlagTo c Flag.Negative ((c.Y &&& 0x80) != 0)

/-- `InstructionHandler::TSX`. -/
def TSX (_bus : BusAccess β) (c : MOS6502 β) : MOS6502 β :=
  let c := { c with X := c.S % 256 }
  let c := SetFlagTo c Flag.Zero (c.X == 0)
  SetFlagTo c Flag.Negative ((c.X &&& 0x80) != 0)

/-- `InstructionHandler::TXS`. -/
def TXS (_bus : BusAccess β) (c : MOS6502 β) : MOS6502 β :=
  { c with S := c.X % 256 }

/-- `InstructionHandler::PHA`. -/
def PHA (bus : BusAccess β) (c : MOS6502 β) : MOS6502 β :=
  let c := Write bus c (GetStackPointerAddress c) c.A
  { c with S := (c.S + 255) % 256 }

/-- `InstructionHandler::PHP`. -/
def PHP (bus : BusAccess β) (c : MOS6502 β) : MOS6502 β :=
  let c := SetFlag c Flag.Break
  let c := Write bus c (GetStackPointerAddress c) c.P
  let c := { c with S := (c.S + 255) % 256 }
  ClearFlag c Flag.Break

/-- `InstructionHandler::PLA`. -/
def PLA (bus : BusAccess β) (c : MOS6502 β) : MOS6502 β :=
  let c := { c with S := (c.S + 1) % 256 }
  let r := Read bus c (GetStackPointerAddress c)
  let c := { r.2 with A := r.1 }
  let c := SetFlagTo c Flag.Zero (c.A == 0)
  SetFlagTo c Flag.Negative ((c.A &&& 0x80) != 0)

/-- `InstructionHandler::PLP`. -/
def PLP (bus : BusAccess β) (c : MOS6502 β) : MOS6502 β :=
  let c := { c with S := (c.S + 1) % 256 }
  let r := Read bus c (GetStackPointerAddress c)
  let c := r.2
  let p :=
    if CheckFlag c Flag.Break then (r.1 ||| Flag.Break.val) % 256
    else (r.1 &&& bitNot Flag.Break.val) % 256
  let c := { c with P := p }
  SetFlag c Flag.Expansion

/-- `InstructionHandler::AND`. -/
def AND (bus : BusAccess β) (c : MOS6502 β) : MOS6502 β :=
  let f := Fetch bus c
  let c := f.2
  let c := { c with A := (c.A &&& f.1) % 256 }
  let c := SetFlagTo c Flag.Zero (c.A == 0)
  let c := SetFlagTo c Flag.Negative ((c.A &&& 0x80) != 0)
  { c with m_additionalCyclesNeeded := c.m_additionalCyclesNeeded + 1 }

/-- `InstructionHandler::EOR`. -/
def EOR (bus : BusAccess β) (c : MOS6502 β) : MOS6502 β :=
  let f := Fetch bus c
  let c := f.2
  let c := { c with A := (c.A ^^^ f.1) % 256 }
  let c := SetFlagTo c Flag.Zero (c.A == 0)
  let c := SetFlagTo c Flag.Negative ((c.A &&& 0x80) != 0)
  { c with m_additionalCyclesNeeded := c.m_additionalCyclesNeeded + 1 }

/-- `InstructionHandler::ORA`. -/
def ORA (bus : BusAccess β) (c : MOS6502 β) : MOS6502 β :=
  let f := Fetch bus c
  let c := f.2
  let c := { c with A := (c.A ||| f.1) % 256 }
  let c := SetFlagTo c Flag.Zero (c.A == 0)
  let c := SetFlagTo c Flag.Negative ((c.A &&& 0x80) != 0)
  { c with m_additionalCyclesNeeded := c.m_additionalCyclesNeeded + 1 }

/-- `InstructionHandler::BIT`. -/
def BIT (bus : BusAccess β) (c : MOS6502 β) : MOS6502 β :=
  let f := Fetch bus c
  let data := f.1
  let c := f.2
  let c := SetFlagTo c Flag.Zero ((data &&& c.A) == 0)
  let c := SetFlagTo c Flag.Overflow ((data &&& 0x40) != 0)
  SetFlagTo c Flag.Negative ((data &&& 0x80) != 0)

/-- `InstructionHandler::ADC`. -/
def ADC (bus : BusAccess β) (c : MOS6502 β) : MOS6502 β :=
  let c1 :=
    if !CheckFlag c Flag.DecimalMode || !c.m_decimalModeAvailable then
      let aval := c.A % 65536
      let f := Fetch bus c
      let value := f.1
      let c := f.2
      let temp := (aval + value + (if CheckFlag c Flag.Carry then 0x01 else 0x00)) % 65536
      let c := SetFlagTo c Flag.Carry ((temp &&& 0xFF00) != 0)
      let c := SetFlagTo c Flag.Zero ((temp &&& 0x00FF) == 0)
      let c := SetFlagTo c Flag.Overflow
        (((bitNot (aval ^^^ value) &&& (aval ^^^ temp)) &&& 0x0080) != 0)
      let c := SetFlagTo c Flag.Negative ((temp &&& 0x0080) != 0)
      { c with A := (temp &&& 0x00FF) % 256 }
    else
      let f := Fetch bus c
      let valueBCD := f.1
      let c := f.2
      let avalBCD := c.A % 256
      let temp := (Util.BCDtoBIN avalBCD + Util.BCDtoBIN valueBCD
        + (if CheckFlag c Flag.Carry then 0x01 else 0x00)) % 256
      let resultBCD :=
        if temp > 99 then Util.BINtoBCD ((temp - 100) &&& 0x00FF)
        else Util.BINtoBCD (temp &&& 0x00FF)
      let c := SetFlagTo c Flag.Carry (decide (temp > 99))
      let c := SetFlagTo c Flag.Zero (resultBCD == 0)
      let c := SetFlagTo c Flag.Negative ((resultBCD &&& 0x80) != 0)
      let c := ClearFlag c Flag.Overflow
      { c with A := resultBCD }
  { c1 with m_additionalCyclesNeeded := c1.m_additionalCyclesNeeded + 1 }

/-- `InstructionHandler::SBC`. -/
def SBC (bus : BusAccess β) (c : MOS6502 β) : MOS6502 β :=
  let c1 :=
    if !CheckFlag c Flag.DecimalMode || !c.m_decimalModeAvailable then
      let aval := c.A % 65536
      let f := Fetch bus c
      let value := f.1
      let c := f.2
      let value := (value ^^^ 0x00FF) % 65536
      let temp := (aval + value + (if CheckFlag c Flag.Carry then 0x01 else 0x00)) % 65536
      let c := SetFlagTo c Flag.Carry ((temp &&& 0xFF00) != 0)
      let c := SetFlagTo c Flag.Zero ((temp &&& 0x00FF) == 0)
      let c := SetFlagTo c Flag.Overflow
        (((bitNot (aval ^^^ value) &&& (aval ^^^ temp)) &&& 0x0080) != 0)
      let c := SetFlagTo c Flag.Negative ((temp &&& 0x0080) != 0)
      { c with A := (temp &&& 0x00FF) % 256 }
    else
      let f := Fetch bus c
      let valueBCD := f.1
      let c := f.2
      let avalBCD := c.A % 256
      let temp : Int := (Util.BCDtoBIN avalBCD : Int) - (Util.BCDtoBIN valueBCD : Int)
        - (if CheckFlag c Flag.Carry then 0x00 else 0x01)
      let resultBCD :=
        if temp < 0 then Util.BINtoBCD (((99 + temp) % 256).toNat)
        else Util.BINtoBCD ((temp % 256).toNat)
      let c := SetFlagTo c Flag.Carry (decide (temp < 0))
      let c := SetFlagTo c Flag.Zero (resultBCD == 0)
      let c := SetFlagTo c Flag.Negative ((resultBCD &&& 0x80) != 0)
      let c := ClearFlag c Flag.Overflow
      { c with A := resultBCD }
  { c1 with m_additionalCyclesNeeded := c1.m_additionalCyclesNeeded + 1 }

/-- `InstructionHandler::CMP`.  The difference `A - data` is an `int`; its bit 7
is the bit 7 of the difference modulo 256. -/
def CMP (bus : BusAccess β) (c : MOS6502 β) : MOS6502 β :=
  let f := Fetch bus c
  let data := f.1
  let c := f.2
  let c := SetFlagTo c Flag.Carry (decide (c.A ≥ data))
  let c := SetFlagTo c Flag.Zero (c.A == data)
  let c := SetFlagTo c Flag.Negative (((c.A + 256 - data) % 256 &&& 0x80) != 0)
  { c with m_additionalCyclesNeeded := c.m_additionalCyclesNeeded + 1 }

/-- `InstructionHandler::CPX`.  The difference `X - data` is an `int`; its bit 7
is the bit 7 of the difference modulo 256. -/
def CPX (bus : BusAccess β) (c : MOS6502 β) : MOS6502 β :=
  let f := Fetch bus c
  let data := f.1
  let c := f.2
  let c := SetFlagTo c Flag.Carry (decide (c.X ≥ data))
  let c := SetFlagTo c Flag.Zero (c.X == data)
  SetFlagTo c Flag.Negative (((c.X + 256 - data) % 256 &&& 0x80) != 0)

/-- `InstructionHandler::CPY`.  The difference `Y - data` is an `int`; its bit 7
is the bit 7 of the difference modulo 256. -/
def CPY (bus : BusAccess β) (c : MOS6502 β) : MOS6502 β :=
  let f := Fetch bus c
  let data := f.1
  let c := f.2
  let c := SetFlagTo c Flag.Carry (decide (c.Y ≥ data))
  let c := SetFlagTo c Flag.Zero (c.Y == data)
  SetFlagTo c Flag.Negative (((c.Y + 256 - data) % 256 &&& 0x80) != 0)

/-- `InstructionHandler::INC`. -/
def INC (bus : BusAccess β) (c : MOS6502 β) : MOS6502 β :=
  let f := Fetch bus c
  let data := (f.1 + 1) % 256
  let c := f.2
  let c := SetFlagTo c Flag.Zero (data == 0)
  let c := SetFlagTo c Flag.Negative ((data &&& 0x80) != 0)
  Write bus c c.m_cacheAbsoluteWorkingAddress data

/-- `InstructionHandler::INX`. -/
def INX (_bus : BusAccess β) (c : MOS6502 β) : MOS6502 β :=
  let c := { c with X := (c.X + 1) % 256 }
  let c := SetFlagTo c Flag.Zero (c.X == 0)
  SetFlagTo c Flag.Negative ((c.X &&& 0x80) != 0)

/-- `InstructionHandler::INY`. -/
def INY (_bus : BusAccess β) (c : MOS6502 β) : MOS6502 β :=
  let c := { c with Y := (c.Y + 1) % 256 }
  let c := SetFlagTo c Flag.Zero (c.Y == 0)
  SetFlagTo c Flag.Negative ((c.Y &&& 0x80) != 0)

/-- `InstructionHandler::DEC`. -/
def DEC (bus : BusAccess β) (c : MOS6502 β) : MOS6502 β :=
  let f := Fetch bus c
  let data := (f.1 + 255) % 256
  let c := f.2
  let c := SetFlagTo c Flag.Zero (data == 0)
  let c := SetFlagTo c Flag.Negative ((data &&& 0x80) != 0)
  Write bus c c.m_cacheAbsoluteWorkingAddress data

/-- `InstructionHandler::DEX`. -/
def DEX (_bus : BusAccess β) (c : MOS6502 β) : MOS6502 β :=
  let c := { c with X := (c.X + 255) % 256 }
  let c := SetFlagTo c Flag.Zero (c.X == 0)
  SetFlagTo c Flag.Negative ((c.X &&& 0x80) != 0)

/-- `InstructionHandler::DEY`. -/
def DEY (_bus : BusAccess β) (c : MOS6502 β) : MOS6502 β :=
  let c := { c with Y := (c.Y + 255) % 256 }
  let c := SetFlagTo c Flag.Zero (c.Y == 0)
  SetFlagTo c Flag.Negative ((c.Y &&& 0x80) != 0)

/-- `InstructionHandler::ASL`. -/
def ASL (bus : BusAccess β) (c : MOS6502 β) : MOS6502 β :=
  let f := Fetch bus c
  let data := f.1
  let c := f.2
  let c := SetFlagTo c Flag.Carry ((data &&& 0x80) != 0)
  let data := (data <<< 1) % 256
  let c := SetFlagTo c Flag.Zero (data == 0x00)
  let c := SetFlagTo c Flag.Negative ((data &&& 0x80) != 0)
  if !c.m_doFetch then { c with A := data }
  else Write bus c c.m_cacheAbsoluteWorkingAddress data

/-- `InstructionHandler::LSR`. -/
def LSR (bus : BusAccess β) (c : MOS6502 β) : MOS6502 β :=
  let f := Fetch bus c
  let data := f.1
  let c := f.2
  let c := SetFlagTo c Flag.Carry ((data &&& 0x01) != 0)
  let data := (data >>> 1) % 256
  let c := SetFlagTo c Flag.Zero (data == 0x00)
  let c := SetFlagTo c Flag.Negative ((data &&& 0x80) != 0)
  if !c.m_doFetch then { c with A := data }
  else Write bus c c.m_cacheAbsoluteWorkingAddress data

/-- `InstructionHandler::ROL`. -/
def ROL (bus : BusAccess β) (c : MOS6502 β) : MOS6502 β :=
  let f := Fetch bus c
  let data := f.1
  let c := f.2
  let oldCarryFlag := CheckFlag c Flag.Carry
  let c := SetFlagTo c Flag.Carry ((data &&& 0x80) != 0)
  let data := (data <<< 1) % 256
  let data := (data ||| (if oldCarryFlag then 0x01 else 0x00)) % 256
  let c := SetFlagTo c Flag.Zero (data == 0x00)
  let c := SetFlagTo c Flag.Negative ((data &&& 0x80) != 0)
  if !c.m_doFetch then { c with A := data }
  else Write bus c c.m_cacheAbsoluteWorkingAddress data

/-- `InstructionHandler::ROR`. -/
def ROR (bus : BusAccess β) (c : MOS6502 β) : MOS6502 β :=
  let f := Fetch bus c
  let data := f.1
  let c := f.2
  let oldCarryFlag := CheckFlag c Flag.Carry
  let c := SetFlagTo c Flag.Carry ((data &&& 0x01) != 0)
  let data := (data >>> 1) % 256
  let data := (data ||| (if oldCarryFlag then 0x80 else 0x00)) % 256
  let c := SetFlagTo c Flag.Zero (data == 0x00)
  let c := SetFlagTo c Flag.Negative ((data &&& 0x80) != 0)
  if !c.m_doFetch then { c with A := data }
  else Write bus c c.m_cacheAbsoluteWorkingAddress data

/-- `InstructionHandler::JMP`. -/
def JMP (_bus : BusAccess β) (c : MOS6502 β) : MOS6502 β :=
  { c with PC := c.m_cacheAbsoluteWorkingAddress % 65536 }

/-- `InstructionHandler::JSR`. -/
def JSR (bus : BusAccess β) (c : MOS6502 β) : MOS6502 β :=
  let c := { c with PC := (c.PC + 65535) % 65536 }
  let pcUpperByte := ((c.PC >>> 8) &&& 0x00FF) % 256
  let pcLowerByte := (c.PC &&& 0x00FF) % 256
  let c := Write bus c (GetStackPointerAddress c) pcUpperByte
  let c := { c with S := (c.S + 255) % 256 }
  let c := Write bus c (GetStackPointerAddress c) pcLowerByte
  let c := { c with S := (c.S + 255) % 256 }
  { c with PC := c.m_cacheAbsoluteWorkingAddress % 65536 }

/-- `InstructionHandler::RTS`. -/
def RTS (bus : BusAccess β) (c : MOS6502 β) : MOS6502 β :=
  let c := { c with S := (c.S + 1) % 256 }
  let l := Read bus c (GetStackPointerAddress c)
  let pc := l.1
  let c := { l.2 with S := (l.2.S + 1) % 256 }
  let h := Read bus c (GetStackPointerAddress c)
  let pc := (pc ||| ((h.1 % 65536) <<< 8) % 65536) % 65536
  { h.2 with PC := (pc + 1) % 65536 }

/-- `InstructionHandler::BCC`. -/
def BCC (_bus : BusAccess β) (c : MOS6502 β) : MOS6502 β :=
  if !CheckFlag c Flag.Carry then
    let c := { c with m_additionalCyclesNeeded := c.m_additionalCyclesNeeded + 1 }
    let c :=
      if (c.PC &&& 0xFF00) != (c.m_cacheAbsoluteWorkingAddress &&& 0xFF00) then
        { c with m_additionalCyclesNeeded := c.m_additionalCyclesNeeded + 1 }
      else c
    { c with PC := c.m_cacheAbsoluteWorkingAddress % 65536 }
  else c

/-- `InstructionHandler::BCS`. -/
def BCS (_bus : BusAccess β) (c : MOS6502 β) : MOS6502 β :=
  if CheckFlag c Flag.Carry then
    let c := { c with m_additionalCyclesNeeded := c.m_additionalCyclesNeeded + 1 }
    let c :=
      if (c.PC &&& 0xFF00) != (c.m_cacheAbsoluteWorkingAddress &&& 0xFF00) then
        { c with m_additionalCyclesNeeded := c.m_additionalCyclesNeeded + 1 }
      else c
    { c with PC := c.m_cacheAbsoluteWorkingAddress % 65536 }
  else c

/-- `InstructionHandler::BEQ`. -/
def BEQ (_bus : BusAccess β) (c : MOS6502 β) : MOS6502 β :=
  if CheckFlag c Flag.Zero then
    let c := { c with m_additionalCyclesNeeded := c.m_additionalCyclesNeeded + 1 }
    let c :=
      if (c.PC &&& 0xFF00) != (c.m_cacheAbsoluteWorkingAddress &&& 0xFF00) then
        { c with m_additionalCyclesNeeded := c.m_additionalCyclesNeeded + 1 }
      else c
    { c with PC := c.m_cacheAbsoluteWorkingAddress % 65536 }
  else c

/-- `InstructionHandler::BMI`. -/
def BMI (_bus : BusAccess β) (c : MOS6502 β) : MOS6502 β :=
  if CheckFlag c Flag.Negative then
    let c := { c with m_additionalCyclesNeeded := c.m_additionalCyclesNeeded + 1 }
    let c :=
      if (c.PC &&& 0xFF00) != (c.m_cacheAbsoluteWorkingAddress &&& 0xFF00) then
        { c with m_additionalCyclesNeeded := c.m_additionalCyclesNeeded + 1 }
      else c
    { c with PC := c.m_cacheAbsoluteWorkingAddress % 65536 }
  else c

/-- `InstructionHandler::BNE`. -/
def BNE (_bus : BusAccess β) (c : MOS6502 β) : MOS6502 β :=
  if !CheckFlag c Flag.Zero then
    let c := { c with m_additionalCyclesNeeded := c.m_additionalCyclesNeeded + 1 }
    let c :=
      if (c.PC &&& 0xFF00) != (c.m_cacheAbsoluteWorkingAddress &&& 0xFF00) then
        { c with m_additionalCyclesNeeded := c.m_additionalCyclesNeeded + 1 }
      else c
    { c with PC := c.m_cacheAbsoluteWorkingAddress % 65536 }
  else c

/-- `InstructionHandler::BPL`. -/
def BPL (_bus : BusAccess β) (c : MOS6502 β) : MOS6502 β :=
  if !CheckFlag c Flag.Negative then
    let c := { c with m_additionalCyclesNeeded := c.m_additionalCyclesNeeded + 1 }
    let c :=
      if (c.PC &&& 0xFF00) != (c.m_cacheAbsoluteWorkingAddress &&& 0xFF00) then
        { c with m_additionalCyclesNeeded := c.m_additionalCyclesNeeded + 1 }
      else c
    { c with PC := c.m_cacheAbsoluteWorkingAddress % 65536 }
  else c

/-- `InstructionHandler::BVC`. -/
def BVC (_bus : BusAccess β) (c : MOS6502 β) : MOS6502 β :=
  if !CheckFlag c Flag.Overflow then
    let c := { c with m_additionalCyclesNeeded := c.m_additionalCyclesNeeded + 1 }
    let c :=
      if (c.PC &&& 0xFF00) != (c.m_cacheAbsoluteWorkingAddress &&& 0xFF00) then
        { c with m_additionalCyclesNeeded := c.m_additionalCyclesNeeded + 1 }
      else c
    { c with PC := c.m_cacheAbsoluteWorkingAddress % 65536 }
  else c

/-- `InstructionHandler::BVS`. -/
def BVS (_bus : BusAccess β) (c : MOS6502 β) : MOS6502 β :=
  if CheckFlag c Flag.Overflow then
    let c := { c with m_additionalCyclesNeeded := c.m_additionalCyclesNeeded + 1 }
    let c :=
      if (c.PC &&& 0xFF00) != (c.m_cacheAbsoluteWorkingAddress &&& 0xFF00) then
        { c with m_additionalCyclesNeeded := c.m_additionalCyclesNeeded + 1 }
      else c
    { c with PC := c.m_cacheAbsoluteWorkingAddress % 65536 }
  else c

/-- `InstructionHandler::CLC`. -/
def CLC (_bus : BusAccess β) (c : MOS6502 β) : MOS6502 β :=
  ClearFlag c Flag.Carry

/-- `InstructionHandler::CLD`. -/
def CLD (_bus : BusAccess β) (c : MOS6502 β) : MOS6502 β :=
  ClearFlag c Flag.DecimalMode

/-- `InstructionHandler::CLI`. -/
def CLI (_bus : BusAccess β) (c : MOS6502 β) : MOS6502 β :=
  ClearFlag c Flag.InterruptDisable

/-- `InstructionHandler::CLV`. -/
def CLV (_bus : BusAccess β) (c : MOS6502 β) : MOS6502 β :=
  ClearFlag c Flag.Overflow

/-- `InstructionHandler::SEC`. -/
def SEC (_bus : BusAccess β) (c : MOS6502 β) : MOS6502 β :=
  SetFlag c Flag.Carry

/-- `InstructionHandler::SED`. -/
def SED (_bus : BusAccess β) (c : MOS6502 β) : MOS6502 β :=
  SetFlag c Flag.DecimalMode

/-- `InstructionHandler::SEI`. -/
def SEI (_bus : BusAccess β) (c : MOS6502 β) : MOS6502 β :=
  SetFlag c Flag.InterruptDisable

/-! ### Opcode table and dispatch -/

/-- The addressing-mode member functions an `Instruction` can point to. -/
inductive AddressingFunction where
  | IMP
  | IMM
  | ACC
  | ZP0
  | ZPX
  | ZPY
  | REL
  | ABS
  | ABX
  | ABY
  | IND
  | IZX
  | IZY
  deriving DecidableEq, Repr

/-- The operation member functions an `Instruction` can point to. -/
inductive OperationFunction where
  | XXX
  | NOP
  | BRK
  | RTI
  | LDA
  | LDX
  | LDY
  | STA
  | STX
  | STY
  | TAX
  | TAY
  | TXA
  | TYA
  | TSX
  | TXS
  | PHA
  | PHP
  | PLA
  | PLP
  | AND
  | EOR
  | ORA
  | BIT
  | ADC
  | SBC
  | CMP
  | CPX
  | CPY
  | INC
  | INX
  | INY
  | DEC
  | DEX
  | DEY
  | ASL
  | LSR
  | ROL
  | ROR
  | JMP
  | JSR
  | RTS
  | BCC
  | BCS
  | BEQ
  | BMI
  | BNE
  | BPL
  | BVC
  | BVS
  | CLC
  | CLD
  | CLI
  | CLV
  | SEC
  | SED
  | SEI
  deriving DecidableEq, Repr

/-- `InstructionHandler::Instruction`. -/
structure Instruction where
  Mnemonic : String
  Opcode : Nat
  BaseCycles : Int
  AdressingFunction : AddressingFunction
  OperationFunction : OperationFunction
  deriving DecidableEq, Repr

set_option maxHeartbeats 4000000 in
/-- `InstructionHandler::OpcodeMap`, in the order of the initializer list. -/
def OpcodeMap : List Instruction := [
  Instruction.mk "BRK" 0x00 7 AddressingFunction.IMM OperationFunction.BRK,
  Instruction.mk "ORA" 0x01 6 AddressingFunction.IZX OperationFunction.ORA,
  Instruction.mk "XXX" 0x02 2 AddressingFunction.IMP OperationFunction.XXX,
  Instruction.mk "XXX" 0x03 8 AddressingFunction.IMP OperationFunction.XXX,
  Instruction.mk "XXX" 0x04 3 AddressingFunction.IMP OperationFunction.NOP,
  Instruction.mk "ORA" 0x05 3 AddressingFunction.ZP0 OperationFunction.ORA,
  Instruction.mk "ASL" 0x06 5 AddressingFunction.ZP0 OperationFunction.ASL,
  Instruction.mk "XXX" 0x07 5 AddressingFunction.IMP OperationFunction.XXX,
  Instruction.mk "PHP" 0x08 3 AddressingFunction.IMP OperationFunction.PHP,
  Instruction.mk "ORA" 0x09 2 AddressingFunction.IMM OperationFunction.ORA,
  Instruction.mk "ASL" 0x0a 2 AddressingFunction.ACC OperationFunction.ASL,
  Instruction.mk "XXX" 0x0b 2 AddressingFunction.IMP OperationFunction.XXX,
  Instruction.mk "XXX" 0x0c 4 AddressingFunction.IMP OperationFunction.NOP,
  Instruction.mk "ORA" 0x0d 4 AddressingFunction.ABS OperationFunction.ORA,
  Instruction.mk "ASL" 0x0e 6 AddressingFunction.ABS OperationFunction.ASL,
  Instruction.mk "XXX" 0x0f 6 AddressingFunction.IMP OperationFunction.XXX,
  Instruction.mk "BPL" 0x10 2 AddressingFunction.REL OperationFunction.BPL,
  Instruction.mk "ORA" 0x11 5 AddressingFunction.IZY OperationFunction.ORA,
  Instruction.mk "XXX" 0x12 2 AddressingFunction.IMP OperationFunction.XXX,
  Instruction.mk "XXX" 0x13 8 AddressingFunction.IMP OperationFunction.XXX,
  Instruction.mk "XXX" 0x14 4 AddressingFunction.IMP OperationFunction.NOP,
  Instruction.mk "ORA" 0x15 4 AddressingFunction.ZPX OperationFunction.ORA,
  Instruction.mk "ASL" 0x16 6 AddressingFunction.ZPX OperationFunction.ASL,
  Instruction.mk "XXX" 0x17 6 AddressingFunction.IMP OperationFunction.XXX,
  Instruction.mk "CLC" 0x18 2 AddressingFunction.IMP OperationFunction.CLC,
  Instruction.mk "ORA" 0x19 4 AddressingFunction.ABY OperationFunction.ORA,
  Instruction.mk "XXX" 0x1a 2 AddressingFunction.IMP OperationFunction.NOP,
  Instruction.mk "XXX" 0x1b 7 AddressingFunction.IMP OperationFunction.XXX,
  Instruction.mk "XXX" 0x1c 4 AddressingFunction.IMP OperationFunction.NOP,
  Instruction.mk "ORA" 0x1d 4 AddressingFunction.ABX OperationFunction.ORA,
  Instruction.mk "ASL" 0x1e 7 AddressingFunction.ABX OperationFunction.ASL,
  Instruction.mk "XXX" 0x1f 7 AddressingFunction.IMP OperationFunction.XXX,
  Instruction.mk "JSR" 0x20 6 AddressingFunction.ABS OperationFunction.JSR,
  Instruction.mk "AND" 0x21 6 AddressingFunction.IZX OperationFunction.AND,
  Instruction.mk "XXX" 0x22 2 AddressingFunction.IMP OperationFunction.XXX,
  Instruction.mk "XXX" 0x23 8 AddressingFunction.IMP OperationFunction.XXX,
  Instruction.mk "BIT" 0x24 3 AddressingFunction.ZP0 OperationFunction.BIT,
  Instruction.mk "AND" 0x25 3 AddressingFunction.ZP0 OperationFunction.AND,
  Instruction.mk "ROL" 0x26 5 AddressingFunction.ZP0 OperationFunction.ROL,
  Instruction.mk "XXX" 0x27 5 AddressingFunction.IMP OperationFunction.XXX,
  Instruction.mk "PLP" 0x28 4 AddressingFunction.IMP OperationFunction.PLP,
  Instruction.mk "AND" 0x29 2 AddressingFunction.IMM OperationFunction.AND,
  Instruction.mk "ROL" 0x2a 2 AddressingFunction.ACC OperationFunction.ROL,
  Instruction.mk "XXX" 0x2b 2 AddressingFunction.IMP OperationFunction.XXX,
  Instruction.mk "BIT" 0x2c 4 AddressingFunction.ABS OperationFunction.BIT,
  Instruction.mk "AND" 0x2d 4 AddressingFunction.ABS OperationFunction.AND,
  Instruction.mk "ROL" 0x2e 6 AddressingFunction.ABS OperationFunction.ROL,
  Instruction.mk "XXX" 0x2f 6 AddressingFunction.IMP OperationFunction.XXX,
  Instruction.mk "BMI" 0x30 2 AddressingFunction.REL OperationFunction.BMI,
  Instruction.mk "AND" 0x31 5 AddressingFunction.IZY OperationFunction.AND,
  Instruction.mk "XXX" 0x32 2 AddressingFunction.IMP OperationFunction.XXX,
  Instruction.mk "XXX" 0x33 8 AddressingFunction.IMP OperationFunction.XXX,
  Instruction.mk "XXX" 0x34 4 AddressingFunction.IMP OperationFunction.NOP,
  Instruction.mk "AND" 0x35 4 AddressingFunction.ZPX OperationFunction.AND,
  Instruction.mk "ROL" 0x36 6 AddressingFunction.ZPX OperationFunction.ROL,
  Instruction.mk "XXX" 0x37 6 AddressingFunction.IMP OperationFunction.XXX,
  Instruction.mk "SEC" 0x38 2 AddressingFunction.IMP OperationFunction.SEC,
  Instruction.mk "AND" 0x39 4 AddressingFunction.ABY OperationFunction.AND,
  Instruction.mk "XXX" 0x3a 2 AddressingFunction.IMP OperationFunction.NOP,
  Instruction.mk "XXX" 0x3b 7 AddressingFunction.IMP OperationFunction.XXX,
  Instruction.mk "XXX" 0x3c 4 AddressingFunction.IMP OperationFunction.NOP,
  Instruction.mk "AND" 0x3d 4 AddressingFunction.ABX OperationFunction.AND,
  Instruction.mk "ROL" 0x3e 7 AddressingFunction.ABX OperationFunction.ROL,
  Instruction.mk "XXX" 0x3f 7 AddressingFunction.IMP OperationFunction.XXX,
  Instruction.mk "RTI" 0x40 6 AddressingFunction.IMP OperationFunction.RTI,
  Instruction.mk "EOR" 0x41 6 AddressingFunction.IZX OperationFunction.EOR,
  Instruction.mk "XXX" 0x42 2 AddressingFunction.IMP OperationFunction.XXX,
  Instruction.mk "XXX" 0x43 8 AddressingFunction.IMP OperationFunction.XXX,
  Instruction.mk "XXX" 0x44 3 AddressingFunction.IMP OperationFunction.NOP,
  Instruction.mk "EOR" 0x45 3 AddressingFunction.ZP0 OperationFunction.EOR,
  Instruction.mk "LSR" 0x46 5 AddressingFunction.ZP0 OperationFunction.LSR,
  Instruction.mk "XXX" 0x47 5 AddressingFunction.IMP OperationFunction.XXX,
  Instruction.mk "PHA" 0x48 3 AddressingFunction.IMP OperationFunction.PHA,
  Instruction.mk "EOR" 0x49 2 AddressingFunction.IMM OperationFunction.EOR,
  Instruction.mk "LSR" 0x4a 2 AddressingFunction.ACC OperationFunction.LSR,
  Instruction.mk "XXX" 0x4b 2 AddressingFunction.IMP OperationFunction.XXX,
  Instruction.mk "JMP" 0x4c 3 AddressingFunction.ABS OperationFunction.JMP,
  Instruction.mk "EOR" 0x4d 4 AddressingFunction.ABS OperationFunction.EOR,
  Instruction.mk "LSR" 0x4e 6 AddressingFunction.ABS OperationFunction.LSR,
  Instruction.mk "XXX" 0x4f 6 AddressingFunction.IMP OperationFunction.XXX,
  Instruction.mk "BVC" 0x50 2 AddressingFunction.REL OperationFunction.BVC,
  Instruction.mk "EOR" 0x51 5 AddressingFunction.IZY OperationFunction.EOR,
  Instruction.mk "XXX" 0x52 2 AddressingFunction.IMP OperationFunction.XXX,
  Instruction.mk "XXX" 0x53 8 AddressingFunction.IMP OperationFunction.XXX,
  Instruction.mk "XXX" 0x54 4 AddressingFunction.IMP OperationFunction.NOP,
  Instruction.mk "EOR" 0x55 4 AddressingFunction.ZPX OperationFunction.EOR,
  Instruction.mk "LSR" 0x56 6 AddressingFunction.ZPX OperationFunction.LSR,
  Instruction.mk "XXX" 0x57 6 AddressingFunction.IMP OperationFunction.XXX,
  Instruction.mk "CLI" 0x58 2 AddressingFunction.IMP OperationFunction.CLI,
  Instruction.mk "EOR" 0x59 4 AddressingFunction.ABY OperationFunction.EOR,
  Instruction.mk "XXX" 0x5a 2 AddressingFunction.IMP OperationFunction.NOP,
  Instruction.mk "XXX" 0x5b 7 AddressingFunction.IMP OperationFunction.XXX,
  Instruction.mk "XXX" 0x5c 4 AddressingFunction.IMP OperationFunction.NOP,
  Instruction.mk "EOR" 0x5d 4 AddressingFunction.ABX OperationFunction.EOR,
  Instruction.mk "LSR" 0x5e 7 AddressingFunction.ABX OperationFunction.LSR,
  Instruction.mk "XXX" 0x5f 7 AddressingFunction.IMP OperationFunction.XXX,
  Instruction.mk "RTS" 0x60 6 AddressingFunction.IMP OperationFunction.RTS,
  Instruction.mk "ADC" 0x61 6 AddressingFunction.IZX OperationFunction.ADC,
  Instruction.mk "XXX" 0x62 2 AddressingFunction.IMP OperationFunction.XXX,
  Instruction.mk "XXX" 0x63 8 AddressingFunction.IMP OperationFunction.XXX,
  Instruction.mk "XXX" 0x64 3 AddressingFunction.IMP OperationFunction.NOP,
  Instruction.mk "ADC" 0x65 3 AddressingFunction.ZP0 OperationFunction.ADC,
  Instruction.mk "ROR" 0x66 5 AddressingFunction.ZP0 OperationFunction.ROR,
  Instruction.mk "XXX" 0x67 5 AddressingFunction.IMP OperationFunction.XXX,
  Instruction.mk "PLA" 0x68 4 AddressingFunction.IMP OperationFunction.PLA,
  Instruction.mk "ADC" 0x69 2 AddressingFunction.IMM OperationFunction.ADC,
  Instruction.mk "ROR" 0x6a 2 AddressingFunction.ACC OperationFunction.ROR,
  Instruction.mk "XXX" 0x6b 2 AddressingFunction.IMP OperationFunction.XXX,
  Instruction.mk "JMP" 0x6c 5 AddressingFunction.IND OperationFunction.JMP,
  Instruction.mk "ADC" 0x6d 4 AddressingFunction.ABS OperationFunction.ADC,
  Instruction.mk "ROR" 0x6e 6 AddressingFunction.ABS OperationFunction.ROR,
  Instruction.mk "XXX" 0x6f 6 AddressingFunction.IMP OperationFunction.XXX,
  Instruction.mk "BVS" 0x70 2 AddressingFunction.REL OperationFunction.BVS,
  Instruction.mk "ADC" 0x71 5 AddressingFunction.IZY OperationFunction.ADC,
  Instruction.mk "XXX" 0x72 2 AddressingFunction.IMP OperationFunction.XXX,
  Instruction.mk "XXX" 0x73 8 AddressingFunction.IMP OperationFunction.XXX,
  Instruction.mk "XXX" 0x74 4 AddressingFunction.IMP OperationFunction.NOP,
  Instruction.mk "ADC" 0x75 4 AddressingFunction.ZPX OperationFunction.ADC,
  Instruction.mk "ROR" 0x76 6 AddressingFunction.ZPX OperationFunction.ROR,
  Instruction.mk "XXX" 0x77 6 AddressingFunction.IMP OperationFunction.XXX,
  Instruction.mk "SEI" 0x78 2 AddressingFunction.IMP OperationFunction.SEI,
  Instruction.mk "ADC" 0x79 4 AddressingFunction.ABY OperationFunction.ADC,
  Instruction.mk "XXX" 0x7a 2 AddressingFunction.IMP OperationFunction.NOP,
  Instruction.mk "XXX" 0x7b 7 AddressingFunction.IMP OperationFunction.XXX,
  Instruction.mk "XXX" 0x7c 4 AddressingFunction.IMP OperationFunction.NOP,
  Instruction.mk "ADC" 0x7d 4 AddressingFunction.ABX OperationFunction.ADC,
  Instruction.mk "ROR" 0x7e 7 AddressingFunction.ABX OperationFunction.ROR,
  Instruction.mk "XXX" 0x7f 7 AddressingFunction.IMP OperationFunction.XXX,
  Instruction.mk "XXX" 0x80 2 AddressingFunction.IMP OperationFunction.NOP,
  Instruction.mk "STA" 0x81 6 AddressingFunction.IZX OperationFunction.STA,
  Instruction.mk "XXX" 0x82 2 AddressingFunction.IMP OperationFunction.NOP,
  Instruction.mk "XXX" 0x83 6 AddressingFunction.IMP OperationFunction.XXX,
  Instruction.mk "STY" 0x84 3 AddressingFunction.ZP0 OperationFunction.STY,
  Instruction.mk "STA" 0x85 3 AddressingFunction.ZP0 OperationFunction.STA,
  Instruction.mk "STX" 0x86 3 AddressingFunction.ZP0 OperationFunction.STX,
  Instruction.mk "XXX" 0x87 3 AddressingFunction.IMP OperationFunction.XXX,
  Instruction.mk "DEY" 0x88 2 AddressingFunction.IMP OperationFunction.DEY,
  Instruction.mk "XXX" 0x89 2 AddressingFunction.IMP OperationFunction.NOP,
  Instruction.mk "TXA" 0x8a 2 AddressingFunction.IMP OperationFunction.TXA,
  Instruction.mk "XXX" 0x8b 2 AddressingFunction.IMP OperationFunction.XXX,
  Instruction.mk "STY" 0x8c 4 AddressingFunction.ABS OperationFunction.STY,
  Instruction.mk "STA" 0x8d 4 AddressingFunction.ABS OperationFunction.STA,
  Instruction.mk "STX" 0x8e 4 AddressingFunction.ABS OperationFunction.STX,
  Instruction.mk "XXX" 0x8f 4 AddressingFunction.IMP OperationFunction.XXX,
  Instruction.mk "BCC" 0x90 2 AddressingFunction.REL OperationFunction.BCC,
  Instruction.mk "STA" 0x91 6 AddressingFunction.IZY OperationFunction.STA,
  Instruction.mk "XXX" 0x92 2 AddressingFunction.IMP OperationFunction.XXX,
  Instruction.mk "XXX" 0x93 6 AddressingFunction.IMP OperationFunction.XXX,
  Instruction.mk "STY" 0x94 4 AddressingFunction.ZPX OperationFunction.STY,
  Instruction.mk "STA" 0x95 4 AddressingFunction.ZPX OperationFunction.STA,
  Instruction.mk "STX" 0x96 4 AddressingFunction.ZPY OperationFunction.STX,
  Instruction.mk "XXX" 0x97 4 AddressingFunction.IMP OperationFunction.XXX,
  Instruction.mk "TYA" 0x98 2 AddressingFunction.IMP OperationFunction.TYA,
  Instruction.mk "STA" 0x99 5 AddressingFunction.ABY OperationFunction.STA,
  Instruction.mk "TXS" 0x9a 2 AddressingFunction.IMP OperationFunction.TXS,
  Instruction.mk "XXX" 0x9b 5 AddressingFunction.IMP OperationFunction.XXX,
  Instruction.mk "XXX" 0x9c 5 AddressingFunction.IMP OperationFunction.NOP,
  Instruction.mk "STA" 0x9d 5 AddressingFunction.ABX OperationFunction.STA,
  Instruction.mk "XXX" 0x9e 5 AddressingFunction.IMP OperationFunction.XXX,
  Instruction.mk "XXX" 0x9f 5 AddressingFunction.IMP OperationFunction.XXX,
  Instruction.mk "LDY" 0xa0 2 AddressingFunction.IMM OperationFunction.LDY,
  Instruction.mk "LDA" 0xa1 6 AddressingFunction.IZX OperationFunction.LDA,
  Instruction.mk "LDX" 0xa2 2 AddressingFunction.IMM OperationFunction.LDX,
  Instruction.mk "XXX" 0xa3 6 AddressingFunction.IMP OperationFunction.XXX,
  Instruction.mk "LDY" 0xa4 3 AddressingFunction.ZP0 OperationFunction.LDY,
  Instruction.mk "LDA" 0xa5 3 AddressingFunction.ZP0 OperationFunction.LDA,
  Instruction.mk "LDX" 0xa6 3 AddressingFunction.ZP0 OperationFunction.LDX,
  Instruction.mk "XXX" 0xa7 3 AddressingFunction.IMP OperationFunction.XXX,
  Instruction.mk "TAY" 0xa8 2 AddressingFunction.IMP OperationFunction.TAY,
  Instruction.mk "LDA" 0xa9 2 AddressingFunction.IMM OperationFunction.LDA,
  Instruction.mk "TAX" 0xaa 2 AddressingFunction.IMP OperationFunction.TAX,
  Instruction.mk "XXX" 0xab 2 AddressingFunction.IMP OperationFunction.XXX,
  Instruction.mk "LDY" 0xac 4 AddressingFunction.ABS OperationFunction.LDY,
  Instruction.mk "LDA" 0xad 4 AddressingFunction.ABS OperationFunction.LDA,
  Instruction.mk "LDX" 0xae 4 AddressingFunction.ABS OperationFunction.LDX,
  Instruction.mk "XXX" 0xaf 4 AddressingFunction.IMP OperationFunction.XXX,
  Instruction.mk "BCS" 0xb0 2 AddressingFunction.REL OperationFunction.BCS,
  Instruction.mk "LDA" 0xb1 5 AddressingFunction.IZY OperationFunction.LDA,
  Instruction.mk "XXX" 0xb2 2 AddressingFunction.IMP OperationFunction.XXX,
  Instruction.mk "XXX" 0xb3 5 AddressingFunction.IMP OperationFunction.XXX,
  Instruction.mk "LDY" 0xb4 4 AddressingFunction.ZPX OperationFunction.LDY,
  Instruction.mk "LDA" 0xb5 4 AddressingFunction.ZPX OperationFunction.LDA,
  Instruction.mk "LDX" 0xb6 4 AddressingFunction.ZPY OperationFunction.LDX,
  Instruction.mk "XXX" 0xb7 4 AddressingFunction.IMP OperationFunction.XXX,
  Instruction.mk "CLV" 0xb8 2 AddressingFunction.IMP OperationFunction.CLV,
  Instruction.mk "LDA" 0xb9 4 AddressingFunction.ABY OperationFunction.LDA,
  Instruction.mk "TSX" 0xba 2 AddressingFunction.IMP OperationFunction.TSX,
  Instruction.mk "XXX" 0xbb 4 AddressingFunction.IMP OperationFunction.XXX,
  Instruction.mk "LDY" 0xbc 4 AddressingFunction.ABX OperationFunction.LDY,
  Instruction.mk "LDA" 0xbd 4 AddressingFunction.ABX OperationFunction.LDA,
  Instruction.mk "LDX" 0xbe 4 AddressingFunction.ABY OperationFunction.LDX,
  Instruction.mk "XXX" 0xbf 4 AddressingFunction.IMP OperationFunction.XXX,
  Instruction.mk "CPY" 0xc0 2 AddressingFunction.IMM OperationFunction.CPY,
  Instruction.mk "CMP" 0xc1 6 AddressingFunction.IZX OperationFunction.CMP,
  Instruction.mk "XXX" 0xc2 2 AddressingFunction.IMP OperationFunction.NOP,
  Instruction.mk "XXX" 0xc3 8 AddressingFunction.IMP OperationFunction.XXX,
  Instruction.mk "CPY" 0xc4 3 AddressingFunction.ZP0 OperationFunction.CPY,
  Instruction.mk "CMP" 0xc5 3 AddressingFunction.ZP0 OperationFunction.CMP,
  Instruction.mk "DEC" 0xc6 5 AddressingFunction.ZP0 OperationFunction.DEC,
  Instruction.mk "XXX" 0xc7 5 AddressingFunction.IMP OperationFunction.XXX,
  Instruction.mk "INY" 0xc8 2 AddressingFunction.IMP OperationFunction.INY,
  Instruction.mk "CMP" 0xc9 2 AddressingFunction.IMM OperationFunction.CMP,
  Instruction.mk "DEX" 0xca 2 AddressingFunction.IMP OperationFunction.DEX,
  Instruction.mk "XXX" 0xcb 2 AddressingFunction.IMP OperationFunction.XXX,
  Instruction.mk "CPY" 0xcc 4 AddressingFunction.ABS OperationFunction.CPY,
  Instruction.mk "CMP" 0xcd 4 AddressingFunction.ABS OperationFunction.CMP,
  Instruction.mk "DEC" 0xce 6 AddressingFunction.ABS OperationFunction.DEC,
  Instruction.mk "XXX" 0xcf 6 AddressingFunction.IMP OperationFunction.XXX,
  Instruction.mk "BNE" 0xd0 2 AddressingFunction.REL OperationFunction.BNE,
  Instruction.mk "CMP" 0xd1 5 AddressingFunction.IZY OperationFunction.CMP,
  Instruction.mk "XXX" 0xd2 2 AddressingFunction.IMP OperationFunction.XXX,
  Instruction.mk "XXX" 0xd3 8 AddressingFunction.IMP OperationFunction.XXX,
  Instruction.mk "XXX" 0xd4 4 AddressingFunction.IMP OperationFunction.NOP,
  Instruction.mk "CMP" 0xd5 4 AddressingFunction.ZPX OperationFunction.CMP,
  Instruction.mk "DEC" 0xd6 6 AddressingFunction.ZPX OperationFunction.DEC,
  Instruction.mk "XXX" 0xd7 6 AddressingFunction.IMP OperationFunction.XXX,
  Instruction.mk "CLD" 0xd8 2 AddressingFunction.IMP OperationFunction.CLD,
  Instruction.mk "CMP" 0xd9 4 AddressingFunction.ABY OperationFunction.CMP,
  Instruction.mk "NOP" 0xda 2 AddressingFunction.IMP OperationFunction.NOP,
  Instruction.mk "XXX" 0xdb 7 AddressingFunction.IMP OperationFunction.XXX,
  Instruction.mk "XXX" 0xdc 4 AddressingFunction.IMP OperationFunction.NOP,
  Instruction.mk "CMP" 0xdd 4 AddressingFunction.ABX OperationFunction.CMP,
  Instruction.mk "DEC" 0xde 7 AddressingFunction.ABX OperationFunction.DEC,
  Instruction.mk "XXX" 0xdf 7 AddressingFunction.IMP OperationFunction.XXX,
  Instruction.mk "CPX" 0xe0 2 AddressingFunction.IMM OperationFunction.CPX,
  Instruction.mk "SBC" 0xe1 6 AddressingFunction.IZX OperationFunction.SBC,
  Instruction.mk "XXX" 0xe2 2 AddressingFunction.IMP OperationFunction.NOP,
  Instruction.mk "XXX" 0xe3 8 AddressingFunction.IMP OperationFunction.XXX,
  Instruction.mk "CPX" 0xe4 3 AddressingFunction.ZP0 OperationFunction.CPX,
  Instruction.mk "SBC" 0xe5 3 AddressingFunction.ZP0 OperationFunction.SBC,
  Instruction.mk "INC" 0xe6 5 AddressingFunction.ZP0 OperationFunction.INC,
  Instruction.mk "XXX" 0xe7 5 AddressingFunction.IMP OperationFunction.XXX,
  Instruction.mk "INX" 0xe8 2 AddressingFunction.IMP OperationFunction.INX,
  Instruction.mk "SBC" 0xe9 2 AddressingFunction.IMM OperationFunction.SBC,
  Instruction.mk "NOP" 0xea 2 AddressingFunction.IMP OperationFunction.NOP,
  Instruction.mk "XXX" 0xeb 2 AddressingFunction.IMP OperationFunction.SBC,
  Instruction.mk "CPX" 0xec 4 AddressingFunction.ABS OperationFunction.CPX,
  Instruction.mk "SBC" 0xed 4 AddressingFunction.ABS OperationFunction.SBC,
  Instruction.mk "INC" 0xee 6 AddressingFunction.ABS OperationFunction.INC,
  Instruction.mk "XXX" 0xef 6 AddressingFunction.IMP OperationFunction.XXX,
  Instruction.mk "BEQ" 0xf0 2 AddressingFunction.REL OperationFunction.BEQ,
  Instruction.mk "SBC" 0xf1 5 AddressingFunction.IZY OperationFunction.SBC,
  Instruction.mk "XXX" 0xf2 2 AddressingFunction.IMP OperationFunction.XXX,
  Instruction.mk "XXX" 0xf3 8 AddressingFunction.IMP OperationFunction.XXX,
  Instruction.mk "XXX" 0xf4 4 AddressingFunction.IMP OperationFunction.NOP,
  Instruction.mk "SBC" 0xf5 4 AddressingFunction.ZPX OperationFunction.SBC,
  Instruction.mk "INC" 0xf6 6 AddressingFunction.ZPX OperationFunction.INC,
  Instruction.mk "XXX" 0xf7 6 AddressingFunction.IMP OperationFunction.XXX,
  Instruction.mk "SED" 0xf8 2 AddressingFunction.IMP OperationFunction.SED,
  Instruction.mk "SBC" 0xf9 4 AddressingFunction.ABY OperationFunction.SBC,
  Instruction.mk "NOP" 0xfa 2 AddressingFunction.IMP OperationFunction.NOP,
  Instruction.mk "XXX" 0xfb 7 AddressingFunction.IMP OperationFunction.XXX,
  Instruction.mk "XXX" 0xfc 4 AddressingFunction.IMP OperationFunction.NOP,
  Instruction.mk "SBC" 0xfd 4 AddressingFunction.ABX OperationFunction.SBC,
  Instruction.mk "INC" 0xfe 7 AddressingFunction.ABX OperationFunction.INC,
  Instruction.mk "XXX" 0xff 7 AddressingFunction.IMP OperationFunction.XXX
]

/-- The array access `OpcodeMap[opcode]` for a `byte` index.  The list has 256
entries, so the alternative is never taken. -/
def OpcodeMapAt (opcode : Nat) : Instruction :=
  List.getD OpcodeMap (opcode % 256) ⟨"XXX", 0xff, 7, .IMP, .XXX⟩

/-- `InstructionHandler::CallFuncPtr` on an addressing-mode pointer. -/
def CallAddressingFunction (bus : BusAccess β) (ptr : AddressingFunction) (c : MOS6502 β) :
    MOS6502 β :=
  match ptr with
  | .IMP => IMP bus c
  | .IMM => IMM bus c
  | .ACC => ACC bus c
  | .ZP0 => ZP0 bus c
  | .ZPX => ZPX bus c
  | .ZPY => ZPY bus c
  | .REL => REL bus c
  | .ABS => ABS bus c
  | .ABX => ABX bus c
  | .ABY => ABY bus c
  | .IND => IND bus c
  | .IZX => IZX bus c
  | .IZY => IZY bus c

/-- `InstructionHandler::CallFuncPtr` on an operation pointer. -/
def CallOperationFunction (bus : BusAccess β) (ptr : OperationFunction) (c : MOS6502 β) :
    MOS6502 β :=
  match ptr with
  | .XXX => XXX bus c
  | .NOP => NOP bus c
  | .BRK => BRK bus c
  | .RTI => RTI bus c
  | .LDA => LDA bus c
  | .LDX => LDX bus c
  | .LDY => LDY bus c
  | .STA => STA bus c
  | .STX => STX bus c
  | .STY => STY bus c
  | .TAX => TAX bus c
  | .TAY => TAY bus c
  | .TXA => TXA bus c
  | .TYA => TYA bus c
  | .TSX => TSX bus c
  | .TXS => TXS bus c
  | .PHA => PHA bus c
  | .PHP => PHP bus c
  | .PLA => PLA bus c
  | .PLP => PLP bus c
  | .AND => AND bus c
  | .EOR => EOR bus c
  | .ORA => ORA bus c
  | .BIT => BIT bus c
  | .ADC => ADC bus c
  | .SBC => SBC bus c
  | .CMP => CMP bus c
  | .CPX => CPX bus c
  | .CPY => CPY bus c
  | .INC => INC bus c
  | .INX => INX bus c
  | .INY => INY bus c
  | .DEC => DEC bus c
  | .DEX => DEX bus c
  | .DEY => DEY bus c
  | .ASL => ASL bus c
  | .LSR => LSR bus c
  | .ROL => ROL bus c
  | .ROR => ROR bus c
  | .JMP => JMP bus c
  | .JSR => JSR bus c
  | .RTS => RTS bus c
  | .BCC => BCC bus c
  | .BCS => BCS bus c
  | .BEQ => BEQ bus c
  | .BMI => BMI bus c
  | .BNE => BNE bus c
  | .BPL => BPL bus c
  | .BVC => BVC bus c
  | .BVS => BVS bus c
  | .CLC => CLC bus c
  | .CLD => CLD bus c
  | .CLI => CLI bus c
  | .CLV => CLV bus c
  | .SEC => SEC bus c
  | .SED => SED bus c
  | .SEI => SEI bus c

/-- `InstructionHandler::ExecuteNextInstruction`. -/
def ExecuteNextInstruction (bus : BusAccess β) (c : MOS6502 β) : MOS6502 β :=
  let c := { c with
    m_opcode := 0xEA
    m_cacheAbsoluteWorkingAddress := 0
    m_cacheFetchedData := 0
    m_doFetch := true
    m_additionalCyclesNeeded := 0
    m_didIRQ := false
    m_didNMI := false }
  let r := ReadPCInc bus c
  let c := { r.2 with m_opcode := r.1 }
  let op := OpcodeMapAt c.m_opcode
  let c := CallAddressingFunction bus op.AdressingFunction c
  CallOperationFunction bus op.OperationFunction c

/-- `InstructionHandler::GetLastInstructionOpcode`. -/
def GetLastInstructionOpcode (c : MOS6502 β) : Nat := c.m_opcode

/-- `InstructionHandler::GetLastInstructionCycles`. -/
def GetLastInstructionCycles (c : MOS6502 β) : Int :=
  if c.m_didIRQ then 7
  else if c.m_didNMI then 8
  else
    let cycles := (OpcodeMapAt c.m_opcode).BaseCycles
    if c.m_additionalCyclesNeeded ≥ 2 then cycles + c.m_additionalCyclesNeeded - 1 else cycles

end InstructionHandler

namespace MOS6502

open InstructionHandler

variable {β : Type}

/-- `MOS6502::Reset(word programCounter)`. -/
def ResetTo (c : MOS6502 β) (programCounter : Nat) : MOS6502 β :=
  { c with A := 0, X := 0, Y := 0, PC := programCounter % 65536, P := 0x24, S := 0xFD }

/-- `MOS6502::Reset()`. -/
def Reset (bus : BusAccess β) (c : MOS6502 β) : MOS6502 β :=
  let h := Read bus c 0xFFFD
  let l := Read bus h.2 0xFFFC
  let addr := (((h.1 % 65536) <<< 8) % 65536 ||| l.1) % 65536
  ResetTo l.2 addr

/-- `MOS6502::Cycle`. -/
def Cycle (bus : BusAccess β) (c : MOS6502 β) : MOS6502 β :=
  if c.m_halted then c
  else
    let c :=
      if c.m_remainingCycles ≤ 0 then
        let c :=
          if c.m_nmiPending then
            NMI bus { c with m_nmiPending := false }
          else if c.m_irqPending then
            IRQ bus { c with m_irqPending := false }
          else
            ExecuteNextInstruction bus c
        { c with m_remainingCycles := c.m_remainingCycles + GetLastInstructionCycles c }
      else c
    { c with m_remainingCycles := c.m_remainingCycles - 1,
             m_cpuCycleCount := c.m_cpuCycleCount + 1 }

/-- `MOS6502::SetDecimalModeAvailable`. -/
def SetDecimalModeAvailable (c : MOS6502 β) (available : Bool) : MOS6502 β :=
  { c with m_decimalModeAvailable := available }

/-- `MOS6502::GenerateInterrupt`. -/
def GenerateInterrupt (c : MOS6502 β) : MOS6502 β :=
  { c with m_irqPending := true }

/-- `MOS6502::GenerateNonMaskableInterrupt`. -/
def GenerateNonMaskableInterrupt (c : MOS6502 β) : MOS6502 β :=
  { c with m_nmiPending := true }

/-- `SIGNAL_CPU_IRQ` (`bus.h`). -/
def SIGNAL_CPU_IRQ : Int := 510

/-- `SIGNAL_CPU_NMI` (`bus.h`). -/
def SIGNAL_CPU_NMI : Int := 520

/-- `SIGNAL_CPU_HLT` (`bus.h`). -/
def SIGNAL_CPU_HLT : Int := 577

/-- `SIGNAL_CPU_RSM` (`bus.h`). -/
def SIGNAL_CPU_RSM : Int := 578

/-- `MOS6502::OnBusSignal`. -/
def OnBusSignal (c : MOS6502 β) (signalId : Int) : MOS6502 β :=
  if signalId = SIGNAL_CPU_IRQ then GenerateInterrupt c
  else if signalId = SIGNAL_CPU_NMI then GenerateNonMaskableInterrupt c
  else if signalId = SIGNAL_CPU_HLT then { c with m_halted := true }
  else if signalId = SIGNAL_CPU_RSM then { c with m_halted := false }
  else c

/-- The state the constructor `MOS6502::MOS6502` leaves: the member initializers
of `cpu.h` followed by `Reset(0x0000)`, over the device state `b`. -/
def construct (b : β) : MOS6502 β :=
  ResetTo
    { A := 0, X := 0, Y := 0, PC := 0, P := 0, S := 0,
      m_opcode := 0xEA, m_cacheAbsoluteWorkingAddress := 0, m_cacheFetchedData := 0,
      m_doFetch := true, m_additionalCyclesNeeded := 0, m_didIRQ := false, m_didNMI := false,
      m_remainingCycles := 0, m_decimalModeAvailable := true, m_cpuCycleCount := 0,
      m_irqPending := false, m_nmiPending := false, m_halted := false, BUS := b }
    0x0000

end MOS6502

/-! # The bus, the memory devices and the NES devices

Conventions of this part

* The devices of a machine share one state type `σ`; a device object is the
  record `Bus.Device` of its range and its virtual functions, which act on `σ`.
* A call that throws a `QkError`, uses a null pointer or indexes a
  `std::vector` outside its size returns `Except.error` with the `Fault`; the
  state is then no longer followed.
* Fixed-size arrays are functions of the index, `std::vector<byte>` is a list.
* `unsigned int` values are reduced modulo `2^32` where the code can wrap.
* The counters of type `unsigned long` (cycles, clock calls, frames) are natural
  numbers: they count up from 0 and are followed without wrap.
-/

/-! ## definitions.h -/

/-- The ways a call can leave the normal flow of the program: a thrown
`QkError` (with the value of `code()`), the use of a null pointer, or an index
outside a container. -/
inductive Fault
  | QkError (code : Nat)
  | nullDereference
  | outOfBounds
  deriving DecidableEq, Repr

structure AddressRange where
  Min : Nat
  Max : Nat
  deriving DecidableEq, Repr

/-- Element access `v[i]` of a `std::vector<byte>`. -/
def vectorAt (v : List Nat) (i : Nat) : Except Fault Nat :=
  match v[i]? with
  | some x => Except.ok x
  | none => Except.error Fault.outOfBounds

/-- Element assignment `v[i] = data` of a `std::vector<byte>`. -/
def vectorAssign (v : List Nat) (i : Nat) (data : Nat) : Except Fault (List Nat) :=
  if i < v.length then Except.ok (v.set i (data % 256)) else Except.error Fault.outOfBounds

/-- The call `v.resize(n)` of a `std::vector<byte>`: new elements are zero. -/
def vectorResize (v : List Nat) (n : Nat) : List Nat :=
  v.take n ++ List.replicate (n - v.length) 0

/-! ## bus.cpp

The devices of a machine share one state type `σ`; a device object is the
record of its range and of its virtual functions, which act on `σ`.  The bus
itself holds only the two device lists and the cached device pointer. -/

/-- The class `Bus::Device` as the bus sees an object of it. -/
structure Bus.Device (σ : Type) where
  m_addressableRange : AddressRange
  m_isAddressable : Bool
  ReadFromDevice : σ → Nat → Bool → Except Fault (Nat × σ)
  WriteToDevice : σ → Nat → Nat → Except Fault σ
  OnBusSignal : σ → Int → σ

namespace Bus.Device

variable {σ : Type}

/-- The virtual functions of the base class (release build): a read returns
0, a write and a signal do nothing. -/
def base (isAddressable : Bool) (addressRange : AddressRange) : Bus.Device σ where
  m_addressableRange := addressRange
  m_isAddressable := isAddressable
  ReadFromDevice := fun s _ _ => Except.ok (0, s)
  WriteToDevice := fun s _ _ => Except.ok s
  OnBusSignal := fun s _ => s

def GetAddressableRange (d : Bus.Device σ) : AddressRange := d.m_addressableRange

def IsAddressable (d : Bus.Device σ) : Bool := d.m_isAddressable

end Bus.Device

/-- The class `Bus`; `m_cachedDevicePtr` is `none` while the pointer is
null. -/
structure Bus (σ : Type) where
  m_addressableDevices : List (Bus.Device σ) := []
  m_nonAddressableDevices : List (Bus.Device σ) := []
  m_cachedDevicePtr : Option (Bus.Device σ) := none

namespace Bus

variable {σ : Type}

def CheckAddressBelongsTo (device : Bus.Device σ) (address : Nat) : Bool :=
  let devRange := device.GetAddressableRange
  address >= devRange.Min && address <= devRange.Max

def CheckAddressRangeConflict (device : Bus.Device σ) (range : AddressRange) : Bool :=
  let devRange := device.GetAddressableRange
  (range.Min >= devRange.Min && range.Min <= devRange.Max) ||
    (range.Max >= devRange.Min && range.Max <= devRange.Max)

def CheckRangeAvailable (b : Bus σ) (range : AddressRange) : Bool :=
  !(b.m_addressableDevices.any (fun device => CheckAddressRangeConflict device range))

/-- `Bus::GetDeviceAt`: the device found (`none` for `nullptr`) and the bus
with its cached pointer.  The first test dereferences the cached pointer. -/
def GetDeviceAt (b : Bus σ) (address : Nat) : Except Fault (Option (Bus.Device σ) × Bus σ) :=
  match b.m_cachedDevicePtr with
  | none => Except.error Fault.nullDereference
  | some cached =>
    if CheckAddressBelongsTo cached address then Except.ok (some cached, b)
    else
      match b.m_addressableDevices.find? (fun device => CheckAddressBelongsTo device address) with
      | some device => Except.ok (some device, { b with m_cachedDevicePtr := some device })
      | none => Except.ok (none, b)

def ConnectDevice (b : Bus σ) (device : Bus.Device σ) : Except Fault (Bus σ) :=
  if !device.IsAddressable then
    Except.ok { b with m_nonAddressableDevices := b.m_nonAddressableDevices ++ [device] }
  else if b.CheckRangeAvailable device.GetAddressableRange then
    Except.ok { b with m_addressableDevices := b.m_addressableDevices ++ [device],
                       m_cachedDevicePtr := some device }
  else
    Except.error (Fault.QkError 301)

/-- The constructor `Bus::Device::Device` of a device object `device`. -/
def Device.construct (b : Bus σ) (device : Bus.Device σ) : Except Fault (Bus σ) :=
  if device.m_addressableRange.Min > device.m_addressableRange.Max then
    Except.error (Fault.QkError 310)
  else
    b.ConnectDevice device

def ReadFromBus (b : Bus σ) (s : σ) (address : Nat) : Except Fault (Nat × σ × Bus σ) :=
  match b.GetDeviceAt address with
  | Except.error e => Except.error e
  | Except.ok (dev, b) =>
    match dev with
    | some dev =>
      match dev.ReadFromDevice s address false with
      | Except.error e => Except.error e
      | Except.ok (v, s) => Except.ok (v, s, b)
    | none => Except.ok (0, s, b)

def WriteToBus (b : Bus σ) (s : σ) (address data : Nat) : Except Fault (σ × Bus σ) :=
  match b.GetDeviceAt address with
  | Except.error e => Except.error e
  | Except.ok (dev, b) =>
    match dev with
    | some dev =>
      match dev.WriteToDevice s address data with
      | Except.error e => Except.error e
      | Except.ok s => Except.ok (s, b)
    | none => Except.ok (s, b)

def EmitSignal (b : Bus σ) (s : σ) (signalId : Int) : σ :=
  let s := b.m_addressableDevices.foldl (fun s ptr => ptr.OnBusSignal s signalId) s
  b.m_nonAddressableDevices.foldl (fun s ptr => ptr.OnBusSignal s signalId) s

def Peek (b : Bus σ) (s : σ) (address : Nat) : Except Fault (Nat × σ × Bus σ) :=
  match b.GetDeviceAt address with
  | Except.error e => Except.error e
  | Except.ok (dev, b) =>
    match dev with
    | some dev =>
      match dev.ReadFromDevice s address true with
      | Except.error e => Except.error e
      | Except.ok (v, s) => Except.ok (v, s, b)
    | none => Except.ok (0, s, b)

end Bus

/-! ## memory.cpp -/

/-- The class `RAM`: the heap array `m_data` and its length `m_size`. -/
structure RAM where
  m_data : Nat → Nat := fun _ => 0
  m_size : Nat := 0

namespace RAM

/-- The constructor `RAM::RAM`, after the base constructor has accepted the
range. -/
def construct (addressableRange : AddressRange) : RAM where
  m_size := (addressableRange.Max + 65536 - addressableRange.Min + 1) % 65536
  m_data := fun _ => 0

def LocalizeAddress (m_addressableRange : AddressRange) (addressOnBus : Nat) : Nat :=
  (addressOnBus + 65536 - m_addressableRange.Min % 65536) % 65536

def GetSize (r : RAM) : Nat := r.m_size

def ReadFromDevice (m_addressableRange : AddressRange) (r : RAM) (address : Nat) (_peek : Bool) :
    Except Fault Nat :=
  let localAddress := LocalizeAddress m_addressableRange address
  if localAddress < r.m_size then Except.ok (r.m_data localAddress)
  else Except.error Fault.outOfBounds

def WriteToDevice (m_addressableRange : AddressRange) (r : RAM) (address data : Nat) :
    Except Fault RAM :=
  let localAddress := LocalizeAddress m_addressableRange address
  if localAddress < r.m_size then
    Except.ok { r with m_data := fun i => if i = localAddress then data % 256 else r.m_data i }
  else Except.error Fault.outOfBounds

/-- The `RAM` object kept in the field of `σ` that `get` and `set` access, as
a device. -/
def device {σ : Type} (addressableRange : AddressRange) (get : σ → RAM) (set : σ → RAM → σ) :
    Bus.Device σ where
  m_addressableRange := addressableRange
  m_isAddressable := true
  ReadFromDevice := fun s address peek =>
    match ReadFromDevice addressableRange (get s) address peek with
    | Except.error e => Except.error e
    | Except.ok v => Except.ok (v, s)
  WriteToDevice := fun s address data =>
    match WriteToDevice addressableRange (get s) address data with
    | Except.error e => Except.error e
    | Except.ok r => Except.ok (set s r)
  OnBusSignal := fun s _ => s

end RAM

/-! ## mem-mirror.cpp -/

structure MemoryMirror (σ : Type) where
  m_addressableRange : AddressRange
  m_mirroredDevice : Bus.Device σ
  m_mirroredDeviceBaseAddress : Nat := 0
  m_mirrorLength : Nat := 0

namespace MemoryMirror

variable {σ : Type}

/-- The constructor `MemoryMirror::MemoryMirror`, after the base constructor
has accepted the range. -/
def construct (mirroredDevice : Bus.Device σ) (mirrorRange : AddressRange) : MemoryMirror σ :=
  let r := mirroredDevice.GetAddressableRange
  { m_addressableRange := mirrorRange
    m_mirroredDevice := mirroredDevice
    m_mirrorLength := (r.Max + 4294967296 - r.Min) % 4294967296
    m_mirroredDeviceBaseAddress := r.Min % 65536 }

def GetMirroredAddress (m : MemoryMirror σ) (address : Nat) : Nat :=
  let relative := (address + 65536 - m.m_addressableRange.Min % 65536) % 65536
  let relative := (relative &&& m.m_mirrorLength) % 65536
  (m.m_mirroredDeviceBaseAddress + relative) % 65536

/-- `MemoryMirror::ReadFromDevice`.  The call of the mirrored device passes
one argument, so its `peek` takes the default `false`. -/
def ReadFromDevice (m : MemoryMirror σ) (s : σ) (address : Nat) (_peek : Bool) :
    Except Fault (Nat × σ) :=
  m.m_mirroredDevice.ReadFromDevice s (m.GetMirroredAddress address) false

def WriteToDevice (m : MemoryMirror σ) (s : σ) (address data : Nat) : Except Fault σ :=
  m.m_mirroredDevice.WriteToDevice s (m.GetMirroredAddress address) data

/-- The mirror as a device. -/
def device (m : MemoryMirror σ) : Bus.Device σ where
  m_addressableRange := m.m_addressableRange
  m_isAddressable := true
  ReadFromDevice := m.ReadFromDevice
  WriteToDevice := m.WriteToDevice
  OnBusSignal := fun s _ => s

end MemoryMirror

namespace NES

/-! ## nes-definitions.h -/

inductive NametableMirrorMode
  | Horizontal
  | Vertical
  | FourScreen
  deriving DecidableEq, Repr

inductive CartridgeMetadata.FileFormatType
  | iNES
  | NES2
  | Archaic
  | INVALID
  deriving DecidableEq, Repr

inductive CartridgeMetadata.TVSystemType
  | NTSC
  | PAL
  | DualCompatability
  deriving DecidableEq, Repr

inductive CartridgeMetadata.ConsoleType
  | NES
  | VsSystem
  | PlayChoice10
  | Other
  deriving DecidableEq, Repr

structure CartridgeMetadata where
  FileFormat : CartridgeMetadata.FileFormatType := CartridgeMetadata.FileFormatType.INVALID
  TVSystem : CartridgeMetadata.TVSystemType := CartridgeMetadata.TVSystemType.NTSC
  Console : CartridgeMetadata.ConsoleType := CartridgeMetadata.ConsoleType.NES
  DefaultMirrorMode : NametableMirrorMode := NametableMirrorMode.Horizontal
  PRGROMSize : Nat := 0
  CHRROMSize : Nat := 0
  PRGRAMSize : Nat := 0
  MapperNumber : Nat := 0
  ContainsTrainer : Bool := false
  ContainsPersistentMemory : Bool := false
  deriving DecidableEq, Repr

/-! ## nes-romfile.cpp

The file on disk is the list of its bytes; a path that cannot be opened is
`none`.  `unsigned int` values are kept below `2 ^ 32`. -/

structure ROMFile where
  m_meta : CartridgeMetadata := {}
  m_header : List Nat := List.replicate 16 0
  m_infile : List Nat := []
  m_fileSize : Nat := 0
  deriving DecidableEq, Repr

namespace ROMFile

/-- The header byte `m_header[i]`. -/
def header (r : ROMFile) (i : Nat) : Nat := r.m_header.getD i 0

def GetFileFormat (r : ROMFile) : CartridgeMetadata.FileFormatType :=
  if !(r.header 0 == 0x4E && r.header 1 == 0x45 && r.header 2 == 0x53 && r.header 3 == 0x1A) then
    CartridgeMetadata.FileFormatType.INVALID
  else if (r.header 7 &&& 0x0C) == 0x08 then
    CartridgeMetadata.FileFormatType.NES2
  else
    CartridgeMetadata.FileFormatType.iNES

def ParseHeaderiNES (r : ROMFile) : ROMFile :=
  let m := r.m_meta
  let m := { m with PRGROMSize := r.header 4 * 16 * 1024 % 4294967296 }
  let m := { m with CHRROMSize := r.header 5 * 8 * 1024 % 4294967296 }
  let m := { m with DefaultMirrorMode :=
    if (r.header 6 &&& 0x01) == 1 then NametableMirrorMode.Vertical
    else NametableMirrorMode.Horizontal }
  let m := { m with ContainsPersistentMemory := if (r.header 6 &&& 0x02) == 1 then true else false }
  let m := { m with ContainsTrainer := if (r.header 6 &&& 0x04) == 1 then true else false }
  let m :=
    if (r.header 6 &&& 0x08) == 1 then
      { m with DefaultMirrorMode := NametableMirrorMode.FourScreen }
    else m
  let mapperNumberLowerNibble := (r.header 6 &&& 0xF0) % 256
  let m :=
    if (r.header 7 &&& 0x01) == 1 then
      { m with Console := CartridgeMetadata.ConsoleType.VsSystem }
    else if (r.header 7 &&& 0x02) == 1 then
      { m with Console := CartridgeMetadata.ConsoleType.PlayChoice10 }
    else m
  let mapperNumberUpperNibble := (r.header 7 &&& 0xF0) % 256
  let m :=
    if r.header 8 == 0 then { m with PRGRAMSize := 8 * 1024 }
    else { m with PRGRAMSize := r.header 8 * 8 * 1024 % 4294967296 }
  let m := { m with TVSystem :=
    if (r.header 9 &&& 0x01) == 1 then CartridgeMetadata.TVSystemType.PAL
    else CartridgeMetadata.TVSystemType.NTSC }
  let m := { m with MapperNumber :=
    ((mapperNumberUpperNibble <<< 8) % 4294967296) ||| mapperNumberLowerNibble }
  { r with m_meta := m }

/-- The constructor `ROMFile(filepath)`, given what the path holds. -/
def construct (file : Option (List Nat)) : Except Fault ROMFile :=
  match file with
  | none => Except.error (Fault.QkError 550)
  | some bytes =>
    let r : ROMFile := { m_infile := bytes.map (fun b => b % 256) }
    let r := { r with m_fileSize := r.m_infile.length % 4294967296 }
    if r.m_fileSize < 16 then
      Except.ok { r with m_meta :=
        { r.m_meta with FileFormat := CartridgeMetadata.FileFormatType.INVALID } }
    else
      let r := { r with m_header := r.m_infile.take 16 }
      let r := { r with m_meta := { r.m_meta with FileFormat := r.GetFileFormat } }
      if r.m_meta.FileFormat == CartridgeMetadata.FileFormatType.iNES then
        Except.ok r.ParseHeaderiNES
      else
        Except.ok r.ParseHeaderiNES

def GetMetadata (r : ROMFile) : CartridgeMetadata := r.m_meta

/-- The bytes `m_infile.read` stores into `buffer` after `seekg(offset)`:
those the file holds from `offset` on, at most `buffer.size()` of them; the
rest of the buffer keeps its contents. -/
def readAt (r : ROMFile) (offset : Nat) (buffer : List Nat) : List Nat :=
  let got := (r.m_infile.drop offset).take buffer.length
  got ++ buffer.drop got.length

/-- The local `offset` of `LoadPRGROM` at the call of `seekg`. -/
def offsetPRGROM (r : ROMFile) : Nat :=
  let offset := 16
  if r.m_meta.ContainsTrainer then (offset + 512) % 4294967296 else offset

def LoadPRGROM (r : ROMFile) (buffer : List Nat) : List Nat :=
  if r.m_meta.PRGROMSize == 0 then buffer
  else
    let offset := r.offsetPRGROM
    let buffer := vectorResize buffer r.m_meta.PRGROMSize
    r.readAt offset buffer

/-- The local `offset` of `LoadCHRROM` at the call of `seekg`. -/
def offsetCHRROM (r : ROMFile) : Nat :=
  let offset := 16
  let offset := if r.m_meta.ContainsTrainer then (offset + 512) % 4294967296 else offset
  (offset + r.m_meta.PRGROMSize) % 4294967296

def LoadCHRROM (r : ROMFile) (buffer : List Nat) : List Nat :=
  if r.m_meta.CHRROMSize == 0 then buffer
  else
    let offset := r.offsetCHRROM
    let buffer := vectorResize buffer r.m_meta.CHRROMSize
    r.readAt offset buffer

end ROMFile

/-! ## nes-mapper.cpp -/

inductive Mapper.Memory
  | NONE
  | PRGROM
  | CHRROM
  | PRGRAM
  deriving DecidableEq, Repr

structure Mapper.MappedAddress where
  Target : Mapper.Memory := Mapper.Memory.NONE
  Offset : Nat := 0
  deriving DecidableEq, Repr

/-- The mapper object.  `Mapper000` is the only class derived from `Mapper`,
so the virtual calls go to the functions of namespace `Mapper000`. -/
structure Mapper where
  m_prgromSize : Nat
  m_prgramSize : Nat
  m_chrromSize : Nat
  deriving DecidableEq, Repr

def Mapper.GetMapper (mapperId PRGROMSize CHRROMSize PRGRAMSize : Nat) : Except Fault Mapper :=
  if mapperId = 0 then
    Except.ok { m_prgromSize := PRGROMSize, m_prgramSize := PRGRAMSize, m_chrromSize := CHRROMSize }
  else
    Except.error (Fault.QkError 511)

namespace Mapper000

/-- The value `size - 1` of an `unsigned int`. -/
def sizeMask (size : Nat) : Nat := (size + 4294967295) % 4294967296

def MapBusAddress (m : Mapper) (address : Nat) (isWrite : Bool) : Mapper.MappedAddress :=
  let addr : Mapper.MappedAddress := {}
  if m.m_prgramSize > 0 && address >= 0x6000 && address <= 0x7FFF then
    let addr := { addr with Target := Mapper.Memory.PRGRAM }
    { addr with Offset := (address - 0x6000) &&& sizeMask m.m_prgramSize }
  else if address >= 0x8000 && address <= 0xFFFF && isWrite == false then
    let addr := { addr with Target := Mapper.Memory.PRGROM }
    { addr with Offset := (address - 0x8000) &&& sizeMask m.m_prgromSize }
  else
    { addr with Target := Mapper.Memory.NONE }

def MapPPUAddress (m : Mapper) (address : Nat) (isWrite : Bool) : Mapper.MappedAddress :=
  let addr : Mapper.MappedAddress := {}
  if address >= 0x0000 && address <= 0x1FFF && isWrite == false then
    let addr := { addr with Target := Mapper.Memory.CHRROM }
    { addr with Offset := address &&& sizeMask m.m_chrromSize }
  else
    { addr with Target := Mapper.Memory.NONE }

def GetNametableMirrorMode (_m : Mapper) (defaultMode : NametableMirrorMode) :
    NametableMirrorMode :=
  defaultMode

end Mapper000

/-! ## nes-cartridge.cpp -/

structure Cartridge where
  Metadata : CartridgeMetadata
  m_PRGROM : List Nat
  m_CHRROM : List Nat
  m_PRGRAM : List Nat
  m_mapper : Mapper
  deriving DecidableEq, Repr

namespace Cartridge

/-- The constructor `Cartridge(filepath)`, given what the path holds. -/
def construct (file : Option (List Nat)) : Except Fault Cartridge :=
  match ROMFile.construct file with
  | Except.error e => Except.error e
  | Except.ok rom =>
    let Metadata := rom.GetMetadata
    if Metadata.FileFormat == CartridgeMetadata.FileFormatType.INVALID then
      Except.error (Fault.QkError 510)
    else
      let m_PRGROM := rom.LoadPRGROM []
      let m_CHRROM := rom.LoadCHRROM []
      let m_PRGRAM := if Metadata.PRGRAMSize > 0 then vectorResize [] Metadata.PRGRAMSize else []
      match Mapper.GetMapper Metadata.MapperNumber Metadata.PRGROMSize Metadata.CHRROMSize
          Metadata.PRGRAMSize with
      | Except.error e => Except.error e
      | Except.ok m_mapper =>
        Except.ok { Metadata := Metadata, m_PRGROM := m_PRGROM, m_CHRROM := m_CHRROM,
                    m_PRGRAM := m_PRGRAM, m_mapper := m_mapper }

def ReadInternal (c : Cartridge) (address : Mapper.MappedAddress) : Except Fault Nat :=
  match address.Target with
  | Mapper.Memory.PRGROM => vectorAt c.m_PRGROM address.Offset
  | Mapper.Memory.CHRROM => vectorAt c.m_CHRROM address.Offset
  | Mapper.Memory.PRGRAM => vectorAt c.m_PRGRAM address.Offset
  | Mapper.Memory.NONE => Except.ok 0

/-- The `switch` of `WriteInternal`; the case `PRGROM` has no `break` and runs
on into the case `CHRROM`. -/
def WriteInternal (c : Cartridge) (address : Mapper.MappedAddress) (data : Nat) :
    Except Fault Cartridge :=
  match address.Target with
  | Mapper.Memory.PRGRAM =>
    match vectorAssign c.m_PRGRAM address.Offset data with
    | Except.error e => Except.error e
    | Except.ok v => Except.ok { c with m_PRGRAM := v }
  | Mapper.Memory.PRGROM =>
    match vectorAssign c.m_PRGROM address.Offset data with
    | Except.error e => Except.error e
    | Except.ok v =>
      let c := { c with m_PRGROM := v }
      match vectorAssign c.m_CHRROM address.Offset data with
      | Except.error e => Except.error e
      | Except.ok v => Except.ok { c with m_CHRROM := v }
  | Mapper.Memory.CHRROM =>
    match vectorAssign c.m_CHRROM address.Offset data with
    | Except.error e => Except.error e
    | Except.ok v => Except.ok { c with m_CHRROM := v }
  | Mapper.Memory.NONE => Except.ok c

def MainBusRead (c : Cartridge) (address : Nat) : Except Fault Nat :=
  c.ReadInternal (Mapper000.MapBusAddress c.m_mapper address false)

def MainBusWrite (c : Cartridge) (address data : Nat) : Except Fault Cartridge :=
  c.WriteInternal (Mapper000.MapBusAddress c.m_mapper address true) data

def PPUBusRead (c : Cartridge) (address : Nat) : Except Fault Nat :=
  c.ReadInternal (Mapper000.MapPPUAddress c.m_mapper address false)

def PPUBusWrite (c : Cartridge) (address data : Nat) : Except Fault Cartridge :=
  c.WriteInternal (Mapper000.MapPPUAddress c.m_mapper address true) data

def GetNametableMirrorMode (c : Cartridge) : NametableMirrorMode :=
  Mapper000.GetNametableMirrorMode c.m_mapper c.Metadata.DefaultMirrorMode

end Cartridge

/-- The cartridge slot; `m_cart` is `none` while the pointer is null. -/
structure CartridgeSlot where
  m_cart : Option Cartridge := none
  deriving DecidableEq, Repr

namespace CartridgeSlot

def InsertCartridge (_s : CartridgeSlot) (cartridge : Option Cartridge) : CartridgeSlot :=
  { m_cart := cartridge }

def GetMetadata (s : CartridgeSlot) : Except Fault CartridgeMetadata :=
  match s.m_cart with
  | some c => Except.ok c.Metadata
  | none => Except.error Fault.nullDereference

def GetNametableMirrorMode (s : CartridgeSlot) : Except Fault NametableMirrorMode :=
  match s.m_cart with
  | some c => Except.ok c.GetNametableMirrorMode
  | none => Except.error Fault.nullDereference

def ReadFromDevice (s : CartridgeSlot) (address : Nat) (_peek : Bool) : Except Fault Nat :=
  match s.m_cart with
  | some c => c.MainBusRead address
  | none => Except.ok 0

def WriteToDevice (s : CartridgeSlot) (address data : Nat) : Except Fault CartridgeSlot :=
  match s.m_cart with
  | some c =>
    match c.MainBusWrite address data with
    | Except.error e => Except.error e
    | Except.ok c => Except.ok { s with m_cart := some c }
  | none => Except.ok s

def PPUReadFromDevice (s : CartridgeSlot) (address : Nat) (_peek : Bool) : Except Fault Nat :=
  match s.m_cart with
  | some c => c.PPUBusRead address
  | none => Except.ok 0

def PPUWriteToDevice (s : CartridgeSlot) (address data : Nat) : Except Fault CartridgeSlot :=
  match s.m_cart with
  | some c =>
    match c.PPUBusWrite address data with
    | Except.error e => Except.error e
    | Except.ok c => Except.ok { s with m_cart := some c }
  | none => Except.ok s

end CartridgeSlot

end NES

namespace NES

/-! ## nes-ppu.cpp: registers and the PPU bus

Fixed-size arrays are functions of the index.  The bit-fields of
`VRAMAddress` share the storage of `Address`, the first declared field in
the lowest bits. -/

structure Pixel where
  Red : Nat := 0
  Green : Nat := 0
  Blue : Nat := 0
  deriving DecidableEq, Repr

namespace RP2C02

inductive CtrlFlag
  | IncrementMode
  | SpritePatternTable
  | BackgroundPatternTable
  | SpriteHeight
  | PPUMasterSlave
  | NMIEnable
  deriving DecidableEq, Repr

def CtrlFlag.val : CtrlFlag → Nat
  | IncrementMode => 0x04
  | SpritePatternTable => 0x08
  | BackgroundPatternTable => 0x10
  | SpriteHeight => 0x20
  | PPUMasterSlave => 0x40
  | NMIEnable => 0x80

inductive MaskFlag
  | Greyscale
  | BackgroundLeftColEnable
  | SpriteLeftColEnable
  | BackgroundEnable
  | SpriteEnable
  | EmphasizeRed
  | EmphasizeGreen
  | EmphasizeBlue
  deriving DecidableEq, Repr

def MaskFlag.val : MaskFlag → Nat
  | Greyscale => 0x01
  | BackgroundLeftColEnable => 0x02
  | SpriteLeftColEnable => 0x04
  | BackgroundEnable => 0x08
  | SpriteEnable => 0x10
  | EmphasizeRed => 0x20
  | EmphasizeGreen => 0x40
  | EmphasizeBlue => 0x80

inductive StatusFlag
  | SpriteOverflow
  | SpriteZeroHit
  | VBlank
  deriving DecidableEq, Repr

def StatusFlag.val : StatusFlag → Nat
  | SpriteOverflow => 0x20
  | SpriteZeroHit => 0x40
  | VBlank => 0x80

/-- The type of the member `Registers`. -/
structure RegisterFile where
  PPUCtrl : Nat := 0
  PPUMask : Nat := 0
  PPUStatus : Nat := 0
  OAMAddr : Nat := 0
  OAMData : Nat := 0
  PPUScroll : Nat := 0
  PPUAddr : Nat := 0
  PPUData : Nat := 0
  deriving DecidableEq, Repr

/-- The type of the member `VRAM`. -/
structure VideoRAM where
  Nametable : Nat → Nat → Nat := fun _ _ => 0
  Palette : Nat → Nat := fun i => if i = 0 then 0x0f else 0
  OAM : Nat → Nat := fun _ => 0

namespace RenderState

structure VRAMAddress where
  Address : Nat := 0
  deriving DecidableEq, Repr

namespace VRAMAddress

/-- The bit-field of `width` values (a power of two) that starts at the bit
of weight `pos`. -/
def field (v : VRAMAddress) (pos width : Nat) : Nat := v.Address / pos % width

/-- Assignment to that bit-field; the other bits of `Address` stay. -/
def setField (v : VRAMAddress) (pos width x : Nat) : VRAMAddress :=
  { Address := v.Address - v.field pos width * pos + x % width * pos }

def CoarseX (v : VRAMAddress) : Nat := v.field 1 32
def CoarseY (v : VRAMAddress) : Nat := v.field 32 32
def NametableX (v : VRAMAddress) : Nat := v.field 1024 2
def NametableY (v : VRAMAddress) : Nat := v.field 2048 2
def FineY (v : VRAMAddress) : Nat := v.field 4096 8
def Unused (v : VRAMAddress) : Nat := v.field 32768 2

def setCoarseX (v : VRAMAddress) (x : Nat) : VRAMAddress := v.setField 1 32 x
def setCoarseY (v : VRAMAddress) (x : Nat) : VRAMAddress := v.setField 32 32 x
def setNametableX (v : VRAMAddress) (x : Nat) : VRAMAddress := v.setField 1024 2 x
def setNametableY (v : VRAMAddress) (x : Nat) : VRAMAddress := v.setField 2048 2 x
def setFineY (v : VRAMAddress) (x : Nat) : VRAMAddress := v.setField 4096 8 x
def setUnused (v : VRAMAddress) (x : Nat) : VRAMAddress := v.setField 32768 2 x

end VRAMAddress

/-- The type of the member `ScanPos`. -/
structure ScanPosition where
  Dots : Int := 0
  Scanline : Int := 261
  VisibleFrameDone : Bool := false
  deriving DecidableEq, Repr

structure BgRow where
  TileIndex : Nat := 0
  LSB : Nat := 0
  MSB : Nat := 0
  Attribute : Nat := 0
  deriving DecidableEq, Repr

/-- The type of the member `ShiftBg`. -/
structure BgShift where
  TileLSB : Nat := 0
  TileMSB : Nat := 0
  ColorLSB : Nat := 0
  ColorMSB : Nat := 0
  deriving DecidableEq, Repr

structure SpriteRow where
  PositionX : Nat := 0
  Palette : Nat := 0
  Priority : Nat := 0
  RowLSB : Nat := 0
  RowMSB : Nat := 0
  IsSpriteZero : Bool := false
  deriving DecidableEq, Repr

/-- The type of the member `VCache`. -/
structure VideoCache where
  BufferBg : BgRow := {}
  ShiftBg : BgShift := {}
  BufferSpr : Nat → SpriteRow := fun _ => {}
  SpriteCount : Int := 0

end RenderState

structure RenderState where
  V : RenderState.VRAMAddress := {}
  T : RenderState.VRAMAddress := {}
  FineX : Nat := 0
  WriteLatch : Bool := false
  ScanPos : RenderState.ScanPosition := {}
  VCache : RenderState.VideoCache := {}

end RP2C02

/-- The class `RP2C02`.  The reference `m_cart` is not a field: the functions
that use the cartridge slot take it as an argument, and those that write to it
return it.  The range of the device is an argument too. -/
structure RP2C02 where
  Registers : RP2C02.RegisterFile := {}
  VRAM : RP2C02.VideoRAM := {}
  m_state : RP2C02.RenderState := {}
  m_videoModeCheck : Bool := false
  m_ppuRegWriteBuf : Nat := 0
  m_doDMA : Bool := false
  m_remainingOAMDMACycles : Int := 0
  m_frameCounter : Nat := 0
  m_framebuffer : Nat → Pixel := fun _ => {}

/-- `SIGNAL_PPU_DMA`. -/
def SIGNAL_PPU_DMA : Int := 1100

namespace RP2C02

def Reset (p : RP2C02) : RP2C02 :=
  { p with
    Registers := { PPUCtrl := 0, PPUMask := 0, PPUStatus := 0, OAMAddr := 0, OAMData := 0,
                   PPUScroll := 0, PPUAddr := 0, PPUData := 0 }
    m_doDMA := false
    m_videoModeCheck := false }

/-- `CheckFlag(MaskFlag)`. -/
def CheckFlagMask (p : RP2C02) (flag : MaskFlag) : Bool :=
  (p.Registers.PPUMask &&& flag.val) != 0

/-- `CheckFlag(StatusFlag)`. -/
def CheckFlagStatus (p : RP2C02) (flag : StatusFlag) : Bool :=
  (p.Registers.PPUStatus &&& flag.val) != 0

/-- `CheckFlag(CtrlFlag)`. -/
def CheckFlagCtrl (p : RP2C02) (flag : CtrlFlag) : Bool :=
  (p.Registers.PPUCtrl &&& flag.val) != 0

/-- `SetFlag(MaskFlag, bool)`. -/
def SetFlagMask (p : RP2C02) (flag : MaskFlag) (state : Bool) : RP2C02 :=
  if state then
    { p with Registers := { p.Registers with PPUMask := (p.Registers.PPUMask ||| flag.val) % 256 } }
  else
    { p with Registers :=
      { p.Registers with PPUMask := (p.Registers.PPUMask &&& bitNot flag.val) % 256 } }

/-- `SetFlag(StatusFlag, bool)`. -/
def SetFlagStatus (p : RP2C02) (flag : StatusFlag) (state : Bool) : RP2C02 :=
  if state then
    { p with Registers :=
      { p.Registers with PPUStatus := (p.Registers.PPUStatus ||| flag.val) % 256 } }
  else
    { p with Registers :=
      { p.Registers with PPUStatus := (p.Registers.PPUStatus &&& bitNot flag.val) % 256 } }

/-- `SetFlag(CtrlFlag, bool)`. -/
def SetFlagCtrl (p : RP2C02) (flag : CtrlFlag) (state : Bool) : RP2C02 :=
  if state then
    { p with Registers := { p.Registers with PPUCtrl := (p.Registers.PPUCtrl ||| flag.val) % 256 } }
  else
    { p with Registers :=
      { p.Registers with PPUCtrl := (p.Registers.PPUCtrl &&& bitNot flag.val) % 256 } }

def ReadNametable (p : RP2C02) (m_cart : CartridgeSlot) (address : Nat) : Except Fault Nat :=
  match m_cart.GetNametableMirrorMode with
  | Except.error e => Except.error e
  | Except.ok mirrorMode =>
    if mirrorMode == NametableMirrorMode.Vertical then
      Except.ok (p.VRAM.Nametable ((address >>> 10) &&& 0x0001) (address &&& 0x03FF))
    else if mirrorMode == NametableMirrorMode.Horizontal then
      Except.ok (p.VRAM.Nametable ((address >>> 11) &&& 0x0001) (address &&& 0x03FF))
    else
      Except.error (Fault.QkError 620)

def WriteNametable (p : RP2C02) (m_cart : CartridgeSlot) (address data : Nat) :
    Except Fault RP2C02 :=
  match m_cart.GetNametableMirrorMode with
  | Except.error e => Except.error e
  | Except.ok mirrorMode =>
    let store (table : Nat) : RP2C02 :=
      { p with VRAM := { p.VRAM with Nametable := fun t i =>
          if t = table ∧ i = (address &&& 0x03FF) then data % 256 else p.VRAM.Nametable t i } }
    if mirrorMode == NametableMirrorMode.Vertical then
      Except.ok (store ((address >>> 10) &&& 0x0001))
    else if mirrorMode == NametableMirrorMode.Horizontal then
      Except.ok (store ((address >>> 11) &&& 0x0001))
    else
      Except.error (Fault.QkError 620)

/-- The palette address after the mirrors `0x3F10/14/18/1C` and the mask. -/
def paletteIndex (address : Nat) : Nat :=
  let address :=
    if address == 0x3F10 then 0x3F00
    else if address == 0x3F14 then 0x3F04
    else if address == 0x3F18 then 0x3F08
    else if address == 0x3F1C then 0x3F0C
    else address
  address &&& 0x001F

def InternalBusRead (p : RP2C02) (m_cart : CartridgeSlot) (address : Nat) : Except Fault Nat :=
  if address >= 0x0000 && address <= 0x1FFF then
    m_cart.PPUReadFromDevice address false
  else if address >= 0x2000 && address <= 0x3EFF then
    p.ReadNametable m_cart address
  else if address >= 0x3F00 && address <= 0x3FFF then
    let address := paletteIndex address
    if p.CheckFlagMask MaskFlag.Greyscale then
      Except.ok (p.VRAM.Palette address &&& 0x30)
    else
      Except.ok (p.VRAM.Palette address)
  else
    Except.ok 0

def InternalBusWrite (p : RP2C02) (m_cart : CartridgeSlot) (address data : Nat) :
    Except Fault (RP2C02 × CartridgeSlot) :=
  if address >= 0x0000 && address <= 0x1FFF then
    match m_cart.PPUWriteToDevice address data with
    | Except.error e => Except.error e
    | Except.ok m_cart => Except.ok (p, m_cart)
  else if address >= 0x2000 && address <= 0x3EFF then
    match p.WriteNametable m_cart address data with
    | Except.error e => Except.error e
    | Except.ok p => Except.ok (p, m_cart)
  else if address >= 0x3F00 && address <= 0x3FFF then
    let address := paletteIndex address
    Except.ok ({ p with VRAM := { p.VRAM with Palette := fun i =>
      if i = address then data % 256 else p.VRAM.Palette i } }, m_cart)
  else
    Except.ok (p, m_cart)

/-- The amount `CheckFlag(CtrlFlag::IncrementMode) ? 32 : 1` added to `V`. -/
def increment (p : RP2C02) : Nat := if p.CheckFlagCtrl CtrlFlag.IncrementMode then 32 else 1

/-- `RP2C02::ReadFromDevice`: the byte read and the PPU after the read. -/
def ReadFromDevice (m_addressableRange : AddressRange) (p : RP2C02) (m_cart : CartridgeSlot)
    (address : Nat) (peek : Bool) : Except Fault (Nat × RP2C02) :=
  let register : Int := (address : Int) - (m_addressableRange.Min : Int)
  if register == 0x00 then
    if peek then Except.ok (p.Registers.PPUCtrl, p) else Except.ok (0, p)
  else if register == 0x01 then
    if peek then Except.ok (p.Registers.PPUMask, p) else Except.ok (0, p)
  else if register == 0x02 then
    if peek then Except.ok (p.Registers.PPUStatus, p)
    else
      let p := { p with Registers := { p.Registers with PPUStatus :=
        ((p.Registers.PPUStatus &&& 0xE0) ||| (p.m_ppuRegWriteBuf &&& 0x1F)) % 256 } }
      let tmp := p.Registers.PPUStatus
      let p := p.SetFlagStatus StatusFlag.VBlank false
      let p := { p with m_state := { p.m_state with WriteLatch := false } }
      Except.ok (tmp, p)
  else if register == 0x03 then
    if peek then Except.ok (p.Registers.OAMAddr, p) else Except.ok (0, p)
  else if register == 0x04 then
    Except.ok (p.VRAM.OAM p.Registers.OAMAddr, p)
  else if register == 0x05 then
    if peek then Except.ok (p.Registers.PPUScroll, p) else Except.ok (0, p)
  else if register == 0x06 then
    if peek then Except.ok (p.Registers.PPUAddr, p) else Except.ok (0, p)
  else if register == 0x07 then
    if peek then Except.ok (p.Registers.PPUData, p)
    else
      let tmp := p.Registers.PPUData
      match p.InternalBusRead m_cart p.m_state.V.Address with
      | Except.error e => Except.error e
      | Except.ok v =>
        let p := { p with Registers := { p.Registers with PPUData := v % 256 } }
        let tmp :=
          if p.m_state.V.Address >= 0x3F00 && p.m_state.V.Address <= 0x3FFF then
            p.Registers.PPUData
          else tmp
        let p := { p with m_state := { p.m_state with
          V := { Address := (p.m_state.V.Address + p.increment) % 65536 } } }
        Except.ok (tmp, p)
  else
    Except.ok (0, p)

/-- `RP2C02::WriteToDevice`: the PPU and the cartridge slot after the
write. -/
def WriteToDevice (m_addressableRange : AddressRange) (p : RP2C02) (m_cart : CartridgeSlot)
    (address data : Nat) : Except Fault (RP2C02 × CartridgeSlot) :=
  let data := data % 256
  let p := { p with m_ppuRegWriteBuf := data }
  let register : Int := (address : Int) - (m_addressableRange.Min : Int)
  if register == 0x00 then
    let p := { p with Registers := { p.Registers with PPUCtrl := data } }
    let p := { p with m_state := { p.m_state with
      T := p.m_state.T.setNametableX (p.Registers.PPUCtrl &&& 0x01) } }
    let p := { p with m_state := { p.m_state with
      T := p.m_state.T.setNametableY ((p.Registers.PPUCtrl &&& 0x02) >>> 1) } }
    Except.ok (p, m_cart)
  else if register == 0x01 then
    Except.ok ({ p with Registers := { p.Registers with PPUMask := data } }, m_cart)
  else if register == 0x02 then
    Except.ok (p, m_cart)
  else if register == 0x03 then
    Except.ok ({ p with Registers := { p.Registers with OAMAddr := data } }, m_cart)
  else if register == 0x04 then
    let p := { p with Registers := { p.Registers with OAMData := data } }
    let p := { p with VRAM := { p.VRAM with OAM := fun i =>
      if i = p.Registers.OAMAddr then data else p.VRAM.OAM i } }
    let p := { p with Registers := { p.Registers with OAMAddr := (p.Registers.OAMAddr + 1) % 256 } }
    Except.ok (p, m_cart)
  else if register == 0x05 then
    let p := { p with Registers := { p.Registers with PPUScroll := data } }
    if !p.m_state.WriteLatch then
      let p := { p with m_state := { p.m_state with FineX := data &&& 0x07 } }
      let p := { p with m_state := { p.m_state with T := p.m_state.T.setCoarseX (data >>> 3) } }
      Except.ok ({ p with m_state := { p.m_state with WriteLatch := true } }, m_cart)
    else
      let p := { p with m_state := { p.m_state with T := p.m_state.T.setFineY (data &&& 0x07) } }
      let p := { p with m_state := { p.m_state with T := p.m_state.T.setCoarseY (data >>> 3) } }
      Except.ok ({ p with m_state := { p.m_state with WriteLatch := false } }, m_cart)
  else if register == 0x06 then
    let p := { p with Registers := { p.Registers with PPUAddr := data } }
    if !p.m_state.WriteLatch then
      let p := { p with m_state := { p.m_state with T := { Address :=
        ((((data &&& 0x3F) % 65536) <<< 8) ||| (p.m_state.T.Address &&& 0x00FF)) % 65536 } } }
      Except.ok ({ p with m_state := { p.m_state with WriteLatch := true } }, m_cart)
    else
      let p := { p with m_state := { p.m_state with T := { Address :=
        ((p.m_state.T.Address &&& 0xFF00) ||| data) % 65536 } } }
      let p := { p with m_state := { p.m_state with WriteLatch := false } }
      Except.ok ({ p with m_state := { p.m_state with V := { Address := p.m_state.T.Address } } },
        m_cart)
  else if register == 0x07 then
    match p.InternalBusWrite m_cart p.m_state.V.Address data with
    | Except.error e => Except.error e
    | Except.ok (p, m_cart) =>
      Except.ok ({ p with m_state := { p.m_state with
        V := { Address := (p.m_state.V.Address + p.increment) % 65536 } } }, m_cart)
  else
    Except.ok (p, m_cart)

def OnBusSignal (p : RP2C02) (signalId : Int) : RP2C02 :=
  if signalId == SIGNAL_PPU_DMA then
    { p with m_doDMA := true, m_remainingOAMDMACycles := 513 * 3 }
  else p

end RP2C02

end NES

namespace NES

/-- The cartridge slot kept in the field of `σ` that `get` and `set` access,
as a device. -/
def CartridgeSlot.device {σ : Type} (addressableRange : AddressRange)
    (get : σ → CartridgeSlot) (set : σ → CartridgeSlot → σ) : Bus.Device σ where
  m_addressableRange := addressableRange
  m_isAddressable := true
  ReadFromDevice := fun s address peek =>
    match (get s).ReadFromDevice address peek with
    | Except.error e => Except.error e
    | Except.ok v => Except.ok (v, s)
  WriteToDevice := fun s address data =>
    match (get s).WriteToDevice address data with
    | Except.error e => Except.error e
    | Except.ok c => Except.ok (set s c)
  OnBusSignal := fun s _ => s

/-- The PPU kept in the field of `σ` that `get` and `set` access, as a
device; `getCart` and `setCart` access the slot its `m_cart` refers to. -/
def RP2C02.device {σ : Type} (addressableRange : AddressRange)
    (get : σ → RP2C02) (set : σ → RP2C02 → σ)
    (getCart : σ → CartridgeSlot) (setCart : σ → CartridgeSlot → σ) : Bus.Device σ where
  m_addressableRange := addressableRange
  m_isAddressable := true
  ReadFromDevice := fun s address peek =>
    match (get s).ReadFromDevice addressableRange (getCart s) address peek with
    | Except.error e => Except.error e
    | Except.ok (v, p) => Except.ok (v, set s p)
  WriteToDevice := fun s address data =>
    match (get s).WriteToDevice addressableRange (getCart s) address data with
    | Except.error e => Except.error e
    | Except.ok (p, c) => Except.ok (setCart (set s p) c)
  OnBusSignal := fun s signalId => set s ((get s).OnBusSignal signalId)

end NES

/-! ## nes-system.cpp: the devices on the bus of the console

The APU and the controller interface are parameters: `apu` and `ctr` are
their device objects, and `m_io` is their state. -/

namespace NESConsole

/-- The state of the devices behind the bus of the console. -/
structure Devices (α : Type) where
  m_ram : RAM := {}
  m_cas : NES.CartridgeSlot := {}
  m_ppu : NES.RP2C02 := {}
  m_io : α

variable {α : Type}

/-- The object `m_ram`. -/
def ramDevice : Bus.Device (Devices α) :=
  RAM.device (AddressRange.mk 0x000 0x07FF) (fun s => s.m_ram) (fun s r => { s with m_ram := r })

/-- The object `m_rmm`. -/
def rmmDevice : Bus.Device (Devices α) :=
  (MemoryMirror.construct ramDevice (AddressRange.mk 0x0800 0x1FFF)).device

/-- The object `m_cas`. -/
def casDevice : Bus.Device (Devices α) :=
  NES.CartridgeSlot.device (AddressRange.mk 0x4020 0xFFFF) (fun s => s.m_cas)
    (fun s c => { s with m_cas := c })

/-- The object `m_ppu`. -/
def ppuDevice : Bus.Device (Devices α) :=
  NES.RP2C02.device (AddressRange.mk 0x2000 0x2007) (fun s => s.m_ppu)
    (fun s p => { s with m_ppu := p }) (fun s => s.m_cas) (fun s c => { s with m_cas := c })

/-- The object `m_pmm`. -/
def pmmDevice : Bus.Device (Devices α) :=
  (MemoryMirror.construct ppuDevice (AddressRange.mk 0x2008 0x3FFF)).device

/-- The object `m_apu`, with the range the console gives it. -/
def apuDevice (apu : Bus.Device (Devices α)) : Bus.Device (Devices α) :=
  { apu with m_addressableRange := AddressRange.mk 0x4000 0x4015, m_isAddressable := true }

/-- The object `m_ctr`, with the range the console gives it. -/
def ctrDevice (ctr : Bus.Device (Devices α)) : Bus.Device (Devices α) :=
  { ctr with m_addressableRange := AddressRange.mk 0x4016 0x4017, m_isAddressable := true }

/-- The constructor `NESConsole::NESConsole` from the construction of `m_ram`
to that of `m_ctr`, on the bus `b` that holds the CPU. -/
def connectDevices (apu ctr : Bus.Device (Devices α)) (b : Bus (Devices α)) :
    Except Fault (Bus (Devices α)) :=
  (Bus.Device.construct b ramDevice).bind fun b =>
  (Bus.Device.construct b rmmDevice).bind fun b =>
  (Bus.Device.construct b casDevice).bind fun b =>
  (Bus.Device.construct b ppuDevice).bind fun b =>
  (Bus.Device.construct b pmmDevice).bind fun b =>
  (Bus.Device.construct b (apuDevice apu)).bind fun b =>
  Bus.Device.construct b (ctrDevice ctr)

end NESConsole

/-! ## util.cpp, util.h: bit reversal and the circular buffer -/

namespace Util

/-- `Util::ReverseBits`: the loop runs `i` from 7 down to 0 and ors bit `i`
of `data` into `b` at position `7 - i`. -/
def ReverseBits (data : Nat) : Nat :=
  [7, 6, 5, 4, 3, 2, 1, 0].foldl
    (fun b i => (b ||| (((data >>> i) &&& 0x01) <<< (7 - i))) % 256) 0

/-- The class template `Util::CircularBuffer<T>`. -/
structure CircularBuffer (τ : Type) where
  m_vec : List τ
  m_maxSize : Int

namespace CircularBuffer

variable {τ : Type}

/-- The constructor: `m_vec.resize(m_maxSize)` fills the empty vector with
value-initialized elements, here `zero`. -/
def construct (zero : τ) (size : Nat) : CircularBuffer τ where
  m_vec := List.replicate size zero
  m_maxSize := size

def GetSize (b : CircularBuffer τ) : Int := b.m_vec.length

/-- `Push`; erasing the first element of an empty vector is a fault. -/
def Push (b : CircularBuffer τ) (value : τ) : Except Fault (CircularBuffer τ) :=
  if (b.m_vec.length : Int) = b.m_maxSize then
    match b.m_vec with
    | [] => Except.error Fault.outOfBounds
    | _ :: rest => Except.ok { b with m_vec := rest ++ [value] }
  else
    Except.ok { b with m_vec := b.m_vec ++ [value] }

/-- `std::copy(first, last, target)` for the elements `source` of the range:
the array `target` afterwards.  Writing past its end is a fault. -/
def stdCopy (source target : List τ) : Except Fault (List τ) :=
  if source.length ≤ target.length then
    Except.ok (source ++ target.drop source.length)
  else
    Except.error Fault.outOfBounds

/-- `Copy(target, size)`: the array `target` afterwards.  In the second
branch the range ends at `m_vec.begin() + (size - 1)`; with `size = 0` the
unsigned `size - 1` puts that iterator outside the vector, a fault. -/
def Copy (b : CircularBuffer τ) (target : List τ) (size : Nat) : Except Fault (List τ) :=
  if size ≥ b.m_vec.length then
    stdCopy b.m_vec target
  else if size = 0 then
    Except.error Fault.outOfBounds
  else
    stdCopy (b.m_vec.take (size - 1)) target

end CircularBuffer

end Util

/-! ## nes-controller.cpp -/

namespace NES

/-- `SIGNAL_APU_FRC_NONE`. -/
def SIGNAL_APU_FRC_NONE : Int := 1200

/-- `SIGNAL_APU_FRC_I`. -/
def SIGNAL_APU_FRC_I : Int := 1201

/-- `SIGNAL_APU_FRC_M`. -/
def SIGNAL_APU_FRC_M : Int := 1202

/-- `SIGNAL_APU_FRC_MI`. -/
def SIGNAL_APU_FRC_MI : Int := 1203

inductive Controller.Button
  | Right
  | Left
  | Down
  | Up
  | Start
  | Select
  | B
  | A
  deriving DecidableEq, Repr

def Controller.Button.val : Controller.Button → Nat
  | Right => 0x01
  | Left => 0x02
  | Down => 0x04
  | Up => 0x08
  | Start => 0x10
  | Select => 0x20
  | B => 0x40
  | A => 0x80

inductive Controller.Player
  | One
  | Two
  deriving DecidableEq, Repr

/-- The class `ControllerInterface`. -/
structure ControllerInterface where
  m_ctlr1Parallel : Nat := 0
  m_ctlr2Parallel : Nat := 0
  m_ctlr1Shift : Nat := 0
  m_ctlr2Shift : Nat := 0
  deriving DecidableEq, Repr

namespace ControllerInterface

def PressButton (c : ControllerInterface) (pad : Controller.Player)
    (button : Controller.Button) : ControllerInterface :=
  if pad == Controller.Player.One then
    { c with m_ctlr1Parallel := (c.m_ctlr1Parallel ||| button.val) % 256 }
  else
    { c with m_ctlr2Parallel := (c.m_ctlr2Parallel ||| button.val) % 256 }

def ReleaseButton (c : ControllerInterface) (pad : Controller.Player)
    (button : Controller.Button) : ControllerInterface :=
  if pad == Controller.Player.One then
    { c with m_ctlr1Parallel := (c.m_ctlr1Parallel &&& bitNot button.val) % 256 }
  else
    { c with m_ctlr2Parallel := (c.m_ctlr2Parallel &&& bitNot button.val) % 256 }

/-- `ControllerInterface::WriteToDevice`: the object afterwards and the
signals it emits on the bus. -/
def WriteToDevice (m_addressableRange : AddressRange) (c : ControllerInterface)
    (address data : Nat) : ControllerInterface × List Int :=
  if address == m_addressableRange.Min then
    ({ c with m_ctlr1Shift := c.m_ctlr1Parallel, m_ctlr2Shift := c.m_ctlr2Parallel }, [])
  else
    let flag := ((data % 256) &&& 0xC0) >>> 6
    (c, [((1200 ||| flag : Nat) : Int)])

/-- `ControllerInterface::ReadFromDevice`: the byte read and the object
afterwards. -/
def ReadFromDevice (m_addressableRange : AddressRange) (c : ControllerInterface)
    (address : Nat) (peek : Bool) : Nat × ControllerInterface :=
  if address == m_addressableRange.Min then
    let data := if (c.m_ctlr1Shift &&& 0x80) != 0 then 0x01 else 0x00
    if !peek then (data, { c with m_ctlr1Shift := (c.m_ctlr1Shift <<< 1) % 256 })
    else (data, c)
  else
    let data := if (c.m_ctlr2Shift &&& 0x80) != 0 then 0x01 else 0x00
    if !peek then (data, { c with m_ctlr2Shift := (c.m_ctlr2Shift <<< 1) % 256 })
    else (data, c)

/-- The controller interface kept in the field of `σ` that `get` and `set`
access, as a device; `emit` is `EmitSignal` of the bus it is connected to. -/
def device {σ : Type} (addressableRange : AddressRange) (get : σ → ControllerInterface)
    (set : σ → ControllerInterface → σ) (emit : σ → Int → σ) : Bus.Device σ where
  m_addressableRange := addressableRange
  m_isAddressable := true
  ReadFromDevice := fun s address peek =>
    let r := ReadFromDevice addressableRange (get s) address peek
    Except.ok (r.1, set s r.2)
  WriteToDevice := fun s address data =>
    let r := WriteToDevice addressableRange (get s) address data
    Except.ok (r.2.foldl emit (set s r.1))
  OnBusSignal := fun s _ => s

end ControllerInterface

end NES

/-! ## nes-apu.cpp

The mixer tables, which the constructor fills with floating-point
arithmetic, and the mutex are left out.  `NES_AUDIO_ENABLED` is defined
nowhere in the sources, so `APU::Cycle` returns at its first statement. -/

namespace NES

/-- `APU_SAMPLE_BUFFER_SIZE`. -/
def APU_SAMPLE_BUFFER_SIZE : Nat := 2048

namespace APU

/-- The type of the member `Status`. -/
structure StatusRegister where
  EnableDMC : Bool := false
  EnableNoise : Bool := false
  EnableTriangle : Bool := false
  EnablePulse1 : Bool := false
  EnablePulse2 : Bool := false
  DMCInterrupt : Bool := false
  deriving DecidableEq, Repr

/-- The type of the member `FrameCounter`. -/
structure FrameCounterState where
  Period : Nat := 4
  IRQInhibit : Bool := false
  Count : Int := 0
  deriving DecidableEq, Repr

/-- `m_tableLength`. -/
def m_tableLength : List Nat :=
  [10, 254, 20, 2, 40, 4, 80, 6, 160, 8, 60, 10, 14, 12, 26, 14,
   12, 16, 24, 18, 48, 20, 96, 22, 192, 24, 72, 26, 16, 28, 32, 30]

/-- `m_tableNoise`. -/
def m_tableNoise : List Nat :=
  [4, 8, 16, 32, 64, 96, 128, 160, 202, 254, 380, 508, 762, 1016, 2034, 4068]

structure PulseChannel where
  DutyCycle : Nat := 0
  SequencerStep : Nat := 0
  LengthCounter : Nat := 0
  LengthCounterHalt : Bool := false
  MaintainConstantVolume : Bool := false
  ConstantVolumeLevel : Nat := 0
  EnvelopeStart : Bool := true
  EnvelopePeriod : Nat := 0
  EnvelopeCounter : Nat := 0
  EnvelopeDecay : Nat := 0
  SweepEnabled : Bool := false
  SweepStart : Bool := true
  SweepNegate : Bool := false
  SweepPeriod : Nat := 0
  SweepCounter : Nat := 0
  SweepShift : Nat := 0
  TimerCounter : Nat := 0
  TimerPeriod : Nat := 0
  m_pulseChId : Int
  deriving DecidableEq, Repr

namespace PulseChannel

def WriteRegisterControl (ch : PulseChannel) (data : Nat) : PulseChannel :=
  let ch := { ch with DutyCycle := (data >>> 6) &&& 0x03 }
  let ch := { ch with LengthCounterHalt := (data &&& 0x20) != 0 }
  let ch := { ch with MaintainConstantVolume := (data &&& 0x10) != 0 }
  let ch := { ch with EnvelopePeriod := data &&& 0x0F }
  let ch := { ch with ConstantVolumeLevel := ch.EnvelopePeriod }
  { ch with EnvelopeStart := true }

def WriteRegisterSweep (ch : PulseChannel) (data : Nat) : PulseChannel :=
  let ch := { ch with SweepEnabled := (data &&& 0x80) != 0 }
  let ch := { ch with SweepPeriod := (((data >>> 4) &&& 0x07) + 1) % 256 }
  let ch := { ch with SweepNegate := (data &&& 0x08) != 0 }
  let ch := { ch with SweepShift := data &&& 0x07 }
  { ch with SweepStart := true }

def WriteRegisterTimerLow (ch : PulseChannel) (data : Nat) : PulseChannel :=
  { ch with TimerPeriod := ((ch.TimerPeriod &&& 0xFF00) ||| data) % 65536 }

/-- `WriteRegisterTimerHigh`; `status` is the member `Status` of the APU. -/
def WriteRegisterTimerHigh (ch : PulseChannel) (status : StatusRegister) (data : Nat) :
    PulseChannel :=
  let ch := { ch with TimerPeriod := (((data &&& 0xF8) <<< 8) ||| (ch.TimerPeriod &&& 0x00FF)) % 65536 }
  let ch := { ch with TimerCounter := ch.TimerPeriod }
  if (ch.m_pulseChId == 1 && status.EnablePulse1) || (ch.m_pulseChId == 2 && status.EnablePulse2)
  then { ch with LengthCounter := m_tableLength.getD (data >>> 3) 0 }
  else ch

end PulseChannel

structure TriangleChannel where
  SequencerStep : Nat := 0
  LinearCounter : Nat := 0
  LinearCounterPeriod : Nat := 0
  LinearCounterStart : Bool := false
  LengthCounter : Nat := 0
  LengthCounterHalt : Bool := false
  TimerCounter : Nat := 0
  TimerPeriod : Nat := 0
  deriving DecidableEq, Repr

namespace TriangleChannel

def WriteRegisterControl (ch : TriangleChannel) (data : Nat) : TriangleChannel :=
  let ch := { ch with LengthCounterHalt := (data &&& 0x80) != 0 }
  { ch with LinearCounterPeriod := data &&& 0x7F }

def WriteRegisterTimerLow (ch : TriangleChannel) (data : Nat) : TriangleChannel :=
  { ch with TimerPeriod := ((ch.TimerPeriod &&& 0xFF00) ||| data) % 65536 }

def WriteRegisterTimerHigh (ch : TriangleChannel) (data : Nat) : TriangleChannel :=
  let ch := { ch with TimerPeriod := (((data &&& 0xF8) <<< 8) ||| (ch.TimerPeriod &&& 0x00FF)) % 65536 }
  let ch := { ch with LengthCounter := m_tableLength.getD (data >>> 3) 0 }
  { ch with LinearCounterStart := true }

end TriangleChannel

structure NoiseChannel where
  Mode : Bool := false
  ShiftRegister : Nat := 1
  EnvelopeStart : Bool := true
  EnvelopePeriod : Nat := 0
  EnvelopeCounter : Nat := 0
  EnvelopeDecay : Nat := 0
  MaintainConstantVolume : Bool := false
  ConstantVolumeLevel : Nat := 0
  LengthCounter : Nat := 0
  LengthCounterHalt : Bool := false
  TimerCounter : Nat := 0
  TimerPeriod : Nat := 0
  deriving DecidableEq, Repr

namespace NoiseChannel

def WriteRegisterControl (ch : NoiseChannel) (data : Nat) : NoiseChannel :=
  let ch := { ch with LengthCounterHalt := (data &&& 0x20) != 0 }
  let ch := { ch with MaintainConstantVolume := (data &&& 0x10) != 0 }
  let ch := { ch with EnvelopePeriod := data &&& 0x0F }
  let ch := { ch with ConstantVolumeLevel := ch.EnvelopePeriod }
  { ch with EnvelopeStart := true }

def WriteRegisterPeriod (ch : NoiseChannel) (data : Nat) : NoiseChannel :=
  let ch := { ch with Mode := (data &&& 0x80) != 0 }
  { ch with TimerPeriod := m_tableNoise.getD (data &&& 0x0F) 0 }

def WriteRegisterLength (ch : NoiseChannel) (data : Nat) : NoiseChannel :=
  let ch := { ch with LengthCounter := m_tableLength.getD (data >>> 3) 0 }
  { ch with EnvelopeStart := true }

/-- `NoiseChannel::UpdateTimer`.  The two statements on `ShiftRegister` are
the shift `>>= 1` and then the assignment `= (a ^ b) << 14`. -/
def UpdateTimer (ch : NoiseChannel) : NoiseChannel :=
  if ch.TimerCounter == 0 then
    let ch := { ch with TimerCounter := ch.TimerPeriod }
    let a := (ch.ShiftRegister &&& 0x01) % 256
    let b := ((ch.ShiftRegister >>> (if ch.Mode then 6 else 1)) &&& 0x01) % 256
    let ch := { ch with ShiftRegister := ch.ShiftRegister >>> 1 }
    { ch with ShiftRegister := ((a ^^^ b) <<< 14) % 65536 }
  else
    { ch with TimerCounter := (ch.TimerCounter + 65535) % 65536 }

end NoiseChannel

end APU

/-- The class `APU`. -/
structure APU where
  Status : APU.StatusRegister := {}
  FrameCounter : APU.FrameCounterState := {}
  ChPulse1 : APU.PulseChannel := { m_pulseChId := 1 }
  ChPulse2 : APU.PulseChannel := { m_pulseChId := 2 }
  ChTriangle : APU.TriangleChannel := {}
  ChNoise : APU.NoiseChannel := {}
  m_fcUpdateInterval : Int := 7457
  m_fcUpdateCounter : Int := 0
  m_updateLengths : Bool := true
  m_audiobuffer : Util.CircularBuffer Nat := Util.CircularBuffer.construct 0 APU_SAMPLE_BUFFER_SIZE
  m_sampleInterval : Int := 40
  m_sampleIntervalCounter : Int := 0
  m_addressDMA : Nat := 0

namespace APU

def Reset (u : APU) : APU :=
  { u with Status := { EnableDMC := false, EnableNoise := false, EnableTriangle := false,
                       EnablePulse1 := false, EnablePulse2 := false, DMCInterrupt := false } }

/-- The state the constructors leave: the member initializers, then
`Initialize`, which calls `Reset`. -/
def construct : APU := Reset {}

def GetAudioBufferSize (_u : APU) : Int := APU_SAMPLE_BUFFER_SIZE

/-- `APU::FillAudioBuffer`: the array `buffer` afterwards. -/
def FillAudioBuffer (u : APU) (buffer : List Nat) (numSamples : Nat) : Except Fault (List Nat) :=
  if (numSamples : Int) > u.m_audiobuffer.GetSize then
    Except.error (Fault.QkError 710)
  else
    u.m_audiobuffer.Copy buffer numSamples

/-- `APU::Cycle`, which returns at once. -/
def Cycle (u : APU) : APU := u

def ReadFromDevice (m_addressableRange : AddressRange) (u : APU) (address : Nat) (_peek : Bool) :
    Nat :=
  let register : Int := (address : Int) - (m_addressableRange.Min : Int)
  if register == 0x14 then u.m_addressDMA
  else if register == 0x15 then
    let data := 0
    let data := data ||| (if u.Status.DMCInterrupt then 0x80 else 0x00)
    let data := data ||| (if u.ChNoise.LengthCounter > 0 then 0x08 else 0x00)
    let data := data ||| (if u.ChTriangle.LengthCounter > 0 then 0x04 else 0x00)
    let data := data ||| (if u.ChPulse2.LengthCounter > 0 then 0x02 else 0x00)
    let data := data ||| (if u.ChPulse1.LengthCounter > 0 then 0x01 else 0x00)
    data
  else 0

/-- `APU::WriteToDevice`: the APU afterwards and the signals it emits on the
bus. -/
def WriteToDevice (m_addressableRange : AddressRange) (u : APU) (address data : Nat) :
    APU × List Int :=
  let data := data % 256
  let register : Int := (address : Int) - (m_addressableRange.Min : Int)
  if register == 0x00 then ({ u with ChPulse1 := u.ChPulse1.WriteRegisterControl data }, [])
  else if register == 0x01 then ({ u with ChPulse1 := u.ChPulse1.WriteRegisterSweep data }, [])
  else if register == 0x02 then ({ u with ChPulse1 := u.ChPulse1.WriteRegisterTimerLow data }, [])
  else if register == 0x03 then
    ({ u with ChPulse1 := u.ChPulse1.WriteRegisterTimerHigh u.Status data }, [])
  else if register == 0x04 then ({ u with ChPulse2 := u.ChPulse2.WriteRegisterControl data }, [])
  else if register == 0x05 then ({ u with ChPulse2 := u.ChPulse2.WriteRegisterSweep data }, [])
  else if register == 0x06 then ({ u with ChPulse2 := u.ChPulse2.WriteRegisterTimerLow data }, [])
  else if register == 0x07 then
    ({ u with ChPulse2 := u.ChPulse2.WriteRegisterTimerHigh u.Status data }, [])
  else if register == 0x08 then
    ({ u with ChTriangle := u.ChTriangle.WriteRegisterControl data }, [])
  else if register == 0x0A then
    ({ u with ChTriangle := u.ChTriangle.WriteRegisterTimerLow data }, [])
  else if register == 0x0B then
    ({ u with ChTriangle := u.ChTriangle.WriteRegisterTimerHigh data }, [])
  else if register == 0x0C then ({ u with ChNoise := u.ChNoise.WriteRegisterControl data }, [])
  else if register == 0x0E then ({ u with ChNoise := u.ChNoise.WriteRegisterPeriod data }, [])
  else if register == 0x0F then ({ u with ChNoise := u.ChNoise.WriteRegisterLength data }, [])
  else if register == 0x14 then ({ u with m_addressDMA := data }, [SIGNAL_PPU_DMA])
  else if register == 0x15 then
    ({ u with Status := { EnableDMC := (data &&& 0x10) != 0, EnableNoise := (data &&& 0x08) != 0,
                          EnableTriangle := (data &&& 0x04) != 0,
                          EnablePulse2 := (data &&& 0x02) != 0,
                          EnablePulse1 := (data &&& 0x01) != 0, DMCInterrupt := false } }, [])
  else (u, [])

def OnBusSignal (u : APU) (signalId : Int) : APU :=
  if signalId >= SIGNAL_APU_FRC_NONE && signalId <= SIGNAL_APU_FRC_MI then
    let u := { u with FrameCounter := { u.FrameCounter with
      IRQInhibit := (signalId.toNat &&& 0x01) != 0 } }
    { u with FrameCounter := { u.FrameCounter with
      Period := if (signalId.toNat &&& 0x02) != 0 then 5 else 4 } }
  else u

/-- The APU kept in the field of `σ` that `get` and `set` access, as a device
with the range both constructors give it; `emit` is `EmitSignal` of the bus
it is connected to. -/
def device {σ : Type} (get : σ → APU) (set : σ → APU → σ) (emit : σ → Int → σ) :
    Bus.Device σ where
  m_addressableRange := AddressRange.mk 0x4000 0x4015
  m_isAddressable := true
  ReadFromDevice := fun s address peek =>
    Except.ok (ReadFromDevice (AddressRange.mk 0x4000 0x4015) (get s) address peek, s)
  WriteToDevice := fun s address data =>
    let r := WriteToDevice (AddressRange.mk 0x4000 0x4015) (get s) address data
    Except.ok (r.2.foldl emit (set s r.1))
  OnBusSignal := fun s signalId => set s ((get s).OnBusSignal signalId)

end APU

end NES

/-! ## nes-apu.cpp: the frame counter

`APU::UpdateFrameCounter` and the channel functions it calls.  `Cycle` does
not reach them while `NES_AUDIO_ENABLED` is undefined.  The call of
`BUS.EmitSignal` is returned as the list of the signals emitted. -/

namespace NES

namespace APU

namespace PulseChannel

/-- `PulseChannel::UpdateEnvelope`. -/
def UpdateEnvelope (ch : PulseChannel) : PulseChannel :=
  if ch.EnvelopeStart then
    { ch with EnvelopeStart := false, EnvelopeCounter := ch.EnvelopePeriod, EnvelopeDecay := 15 }
  else if ch.EnvelopeCounter == 0 then
    let ch :=
      if ch.EnvelopeDecay > 0 then { ch with EnvelopeDecay := (ch.EnvelopeDecay + 255) % 256 }
      else if ch.LengthCounterHalt then { ch with EnvelopeDecay := 15 }
      else ch
    { ch with EnvelopeCounter := ch.EnvelopePeriod }
  else
    { ch with EnvelopeCounter := (ch.EnvelopeCounter + 255) % 256 }

/-- `PulseChannel::UpdateLength`. -/
def UpdateLength (ch : PulseChannel) : PulseChannel :=
  if !ch.LengthCounterHalt && ch.LengthCounter > 0 then
    { ch with LengthCounter := (ch.LengthCounter + 255) % 256 }
  else ch

/-- `PulseChannel::UpdateSweep`. -/
def UpdateSweep (ch : PulseChannel) : PulseChannel :=
  let doSweep := false
  let r : PulseChannel × Bool :=
    if ch.SweepStart then
      let ch := { ch with SweepStart := false }
      let doSweep := if ch.SweepEnabled && ch.SweepCounter == 0 then true else doSweep
      ({ ch with SweepCounter := ch.SweepPeriod }, doSweep)
    else if ch.SweepCounter == 0 then
      let doSweep := if ch.SweepEnabled then true else doSweep
      ({ ch with SweepCounter := ch.SweepPeriod }, doSweep)
    else
      ({ ch with SweepCounter := (ch.SweepCounter + 255) % 256 }, doSweep)
  let ch := r.1
  if r.2 then
    let diff := (ch.TimerPeriod >>> ch.SweepShift) % 256
    if ch.SweepNegate then
      { ch with TimerPeriod :=
        (ch.TimerPeriod + 2 * 65536 - diff - (if ch.m_pulseChId == 1 then 1 else 0)) % 65536 }
    else
      { ch with TimerPeriod := (ch.TimerPeriod + diff) % 65536 }
  else ch

end PulseChannel

namespace TriangleChannel

/-- `TriangleChannel::UpdateLinearCounter`. -/
def UpdateLinearCounter (ch : TriangleChannel) : TriangleChannel :=
  let ch :=
    if ch.LinearCounterStart then { ch with LinearCounter := ch.LinearCounterPeriod }
    else if ch.LinearCounter > 0 then { ch with LinearCounter := (ch.LinearCounter + 255) % 256 }
    else ch
  if !ch.LengthCounterHalt then { ch with LinearCounterStart := false } else ch

/-- `TriangleChannel::UpdateLength`. -/
def UpdateLength (ch : TriangleChannel) : TriangleChannel :=
  if !ch.LengthCounterHalt && ch.LengthCounter > 0 then
    { ch with LengthCounter := (ch.LengthCounter + 255) % 256 }
  else ch

end TriangleChannel

namespace NoiseChannel

/-- `NoiseChannel::UpdateEnvelope`. -/
def UpdateEnvelope (ch : NoiseChannel) : NoiseChannel :=
  if ch.EnvelopeStart then
    { ch with EnvelopeStart := false, EnvelopeDecay := 15, EnvelopeCounter := ch.EnvelopePeriod }
  else if ch.EnvelopeCounter > 0 then
    { ch with EnvelopeCounter := (ch.EnvelopeCounter + 255) % 256 }
  else
    let ch := { ch with EnvelopeCounter := ch.EnvelopePeriod }
    if ch.EnvelopeDecay > 0 then { ch with EnvelopeDecay := (ch.EnvelopeDecay + 255) % 256 }
    else if ch.LengthCounterHalt then { ch with EnvelopeDecay := 15 }
    else ch

/-- `NoiseChannel::UpdateLength`. -/
def UpdateLength (ch : NoiseChannel) : NoiseChannel :=
  if !ch.LengthCounterHalt && ch.LengthCounter > 0 then
    { ch with LengthCounter := (ch.LengthCounter + 255) % 256 }
  else ch

end NoiseChannel

/-- The lambda `envelopes` of `UpdateFrameCounter`. -/
def envelopes (u : APU) : APU :=
  let u := { u with ChPulse1 := u.ChPulse1.UpdateEnvelope }
  let u := { u with ChPulse2 := u.ChPulse2.UpdateEnvelope }
  let u := { u with ChTriangle := u.ChTriangle.UpdateLinearCounter }
  { u with ChNoise := u.ChNoise.UpdateEnvelope }

/-- The lambda `lengths` of `UpdateFrameCounter`. -/
def lengths (u : APU) : APU :=
  let u := { u with ChPulse1 := u.ChPulse1.UpdateLength }
  let u := { u with ChPulse2 := u.ChPulse2.UpdateLength }
  let u := { u with ChTriangle := u.ChTriangle.UpdateLength }
  { u with ChNoise := u.ChNoise.UpdateLength }

/-- The lambda `sweeps` of `UpdateFrameCounter`. -/
def sweeps (u : APU) : APU :=
  let u := { u with ChPulse1 := u.ChPulse1.UpdateSweep }
  { u with ChPulse2 := u.ChPulse2.UpdateSweep }

/-- The lambda `do_irq` of `UpdateFrameCounter`: the signals it emits. -/
def do_irq (u : APU) : List Int :=
  if !u.FrameCounter.IRQInhibit then [MOS6502.SIGNAL_CPU_IRQ] else []

/-- `APU::UpdateFrameCounter`: the APU afterwards and the signals emitted. -/
def UpdateFrameCounter (u : APU) : APU × List Int :=
  let u :=
    if u.FrameCounter.Count < (u.FrameCounter.Period : Int) then
      { u with FrameCounter := { u.FrameCounter with Count := u.FrameCounter.Count + 1 } }
    else
      { u with FrameCounter := { u.FrameCounter with Count := 0 } }
  if u.FrameCounter.Period == 4 then
    if u.FrameCounter.Count == 0 then (envelopes u, [])
    else if u.FrameCounter.Count == 1 then (envelopes (sweeps (lengths u)), [])
    else if u.FrameCounter.Count == 2 then (envelopes u, [])
    else if u.FrameCounter.Count == 3 then
      let u := envelopes (sweeps (lengths u))
      (u, do_irq u)
    else (u, [])
  else
    if u.FrameCounter.Count == 0 then (envelopes u, [])
    else if u.FrameCounter.Count == 1 then (envelopes (sweeps (lengths u)), [])
    else if u.FrameCounter.Count == 2 then (envelopes u, [])
    else if u.FrameCounter.Count == 3 then (u, [])
    else if u.FrameCounter.Count == 4 then (envelopes (sweeps (lengths u)), [])
    else (u, [])

end APU

end NES

/-! ## nes-ppu.cpp: rendering

`int` members and locals are `Int`.  `BufferSpr` has eight elements; the
loops index it below `SpriteCount`.  `DrawPixel` is that of the release
build, and a store outside `m_framebuffer` is a fault.  The functions that
emit bus signals return the signals, in order, with the new state. -/

namespace NES

namespace RP2C02

/-- `m_paletteRGB`. -/
def m_paletteRGB : List Pixel :=
  [⟨84, 84, 84⟩, ⟨0, 30, 116⟩, ⟨8, 16, 144⟩, ⟨48, 0, 136⟩,
   ⟨68, 0, 100⟩, ⟨92, 0, 48⟩, ⟨84, 4, 0⟩, ⟨60, 24, 0⟩,
   ⟨32, 42, 0⟩, ⟨8, 58, 0⟩, ⟨0, 64, 0⟩, ⟨0, 60, 0⟩,
   ⟨0, 50, 60⟩, ⟨0, 0, 0⟩, ⟨0, 0, 0⟩, ⟨0, 0, 0⟩,
   ⟨152, 150, 152⟩, ⟨8, 76, 196⟩, ⟨48, 50, 236⟩, ⟨92, 30, 228⟩,
   ⟨136, 20, 176⟩, ⟨160, 20, 100⟩, ⟨152, 34, 32⟩, ⟨120, 60, 0⟩,
   ⟨84, 90, 0⟩, ⟨40, 114, 0⟩, ⟨8, 124, 0⟩, ⟨0, 118, 40⟩,
   ⟨0, 102, 120⟩, ⟨0, 0, 0⟩, ⟨0, 0, 0⟩, ⟨0, 0, 0⟩,
   ⟨236, 238, 236⟩, ⟨76, 154, 236⟩, ⟨120, 124, 236⟩, ⟨176, 98, 236⟩,
   ⟨228, 84, 236⟩, ⟨236, 88, 180⟩, ⟨236, 106, 100⟩, ⟨212, 136, 32⟩,
   ⟨160, 170, 0⟩, ⟨116, 196, 0⟩, ⟨76, 208, 32⟩, ⟨56, 204, 108⟩,
   ⟨56, 180, 204⟩, ⟨60, 60, 60⟩, ⟨0, 0, 0⟩, ⟨0, 0, 0⟩,
   ⟨236, 238, 236⟩, ⟨168, 204, 236⟩, ⟨188, 188, 236⟩, ⟨212, 178, 236⟩,
   ⟨236, 174, 236⟩, ⟨236, 174, 212⟩, ⟨236, 180, 176⟩, ⟨228, 196, 144⟩,
   ⟨204, 210, 120⟩, ⟨180, 222, 120⟩, ⟨168, 226, 144⟩, ⟨152, 226, 180⟩,
   ⟨160, 214, 228⟩, ⟨160, 162, 160⟩, ⟨0, 0, 0⟩, ⟨0, 0, 0⟩]

/-- `SCREEN_WIDTH`. -/
def SCREEN_WIDTH : Int := 256

/-- `SCREEN_HEIGTH`. -/
def SCREEN_HEIGTH : Int := 240

namespace RenderState

def IncrementScanPos (s : RenderState) : RenderState :=
  let s := { s with ScanPos := { s.ScanPos with Dots := s.ScanPos.Dots + 1 } }
  if s.ScanPos.Dots > 340 then
    let s := { s with ScanPos := { s.ScanPos with Dots := 0 } }
    let s := { s with ScanPos := { s.ScanPos with Scanline := s.ScanPos.Scanline + 1 } }
    if s.ScanPos.Scanline > 261 then
      { s with ScanPos := { s.ScanPos with Scanline := 0 } }
    else s
  else s

def IncrementVerticalPos (s : RenderState) : RenderState :=
  if s.V.FineY < 7 then
    { s with V := s.V.setFineY (s.V.FineY + 1) }
  else
    let s := { s with V := s.V.setFineY 0 }
    if s.V.CoarseY == 29 then
      let s := { s with V := s.V.setCoarseY 0 }
      { s with V := s.V.setNametableY (bitNot s.V.NametableY) }
    else if s.V.CoarseY == 31 then
      { s with V := s.V.setCoarseY 0 }
    else
      { s with V := s.V.setCoarseY (s.V.CoarseY + 1) }

def IncrementHorizontalPos (s : RenderState) : RenderState :=
  if s.V.CoarseX == 31 then
    let s := { s with V := s.V.setCoarseX 0 }
    { s with V := s.V.setNametableX (bitNot s.V.NametableX) }
  else
    { s with V := s.V.setCoarseX (s.V.CoarseX + 1) }

def CopyHorizontalPos (s : RenderState) : RenderState :=
  let s := { s with V := s.V.setCoarseX s.T.CoarseX }
  { s with V := s.V.setNametableX s.T.NametableX }

def CopyVerticalPos (s : RenderState) : RenderState :=
  let s := { s with V := s.V.setFineY s.T.FineY }
  let s := { s with V := s.V.setCoarseY s.T.CoarseY }
  { s with V := s.V.setNametableY s.T.NametableY }

def ShiftBgRegisters (s : RenderState) : RenderState :=
  { s with VCache := { s.VCache with ShiftBg :=
    { TileLSB := (s.VCache.ShiftBg.TileLSB <<< 1) % 65536
      TileMSB := (s.VCache.ShiftBg.TileMSB <<< 1) % 65536
      ColorLSB := (s.VCache.ShiftBg.ColorLSB <<< 1) % 65536
      ColorMSB := (s.VCache.ShiftBg.ColorMSB <<< 1) % 65536 } } }

end RenderState

/-- Assignment to `m_state.VCache.BufferBg`. -/
def setBufferBg (p : RP2C02) (row : RenderState.BgRow) : RP2C02 :=
  { p with m_state := { p.m_state with VCache := { p.m_state.VCache with BufferBg := row } } }

def FetchNextBgAddress (p : RP2C02) (m_cart : CartridgeSlot) : Except Fault RP2C02 :=
  (p.InternalBusRead m_cart ((0x2000 ||| (p.m_state.V.Address &&& 0x0FFF)) % 65536)).map fun v =>
    p.setBufferBg { p.m_state.VCache.BufferBg with TileIndex := v % 256 }

def FetchNextBgAttribute (p : RP2C02) (m_cart : CartridgeSlot) : Except Fault RP2C02 :=
  (p.InternalBusRead m_cart
    ((0x23C0 ||| (p.m_state.V.Address &&& 0x0C00) ||| ((p.m_state.V.Address >>> 4) &&& 0x38)
      ||| ((p.m_state.V.Address >>> 2) &&& 0x07)) % 65536)).map fun v =>
    let data := v % 256
    let data := if (p.m_state.V.CoarseY &&& 0x02) != 0 then data >>> 4 else data
    let data := if (p.m_state.V.CoarseX &&& 0x02) != 0 then data >>> 2 else data
    p.setBufferBg { p.m_state.VCache.BufferBg with Attribute := data }

def FetchNextBgLSB (p : RP2C02) (m_cart : CartridgeSlot) : Except Fault RP2C02 :=
  (p.InternalBusRead m_cart
    (((if p.CheckFlagCtrl CtrlFlag.BackgroundPatternTable then 0x1000 else 0x000)
      + p.m_state.VCache.BufferBg.TileIndex * 16 + p.m_state.V.FineY) % 65536)).map fun v =>
    p.setBufferBg { p.m_state.VCache.BufferBg with LSB := v % 256 }

def FetchNextBgMSB (p : RP2C02) (m_cart : CartridgeSlot) : Except Fault RP2C02 :=
  (p.InternalBusRead m_cart
    (((if p.CheckFlagCtrl CtrlFlag.BackgroundPatternTable then 0x1000 else 0x000)
      + p.m_state.VCache.BufferBg.TileIndex * 16 + p.m_state.V.FineY + 0x0008) % 65536)).map
    fun v => p.setBufferBg { p.m_state.VCache.BufferBg with MSB := v % 256 }

def PushBgBufferToShiftRegisters (p : RP2C02) : RP2C02 :=
  let c := p.m_state.VCache
  { p with m_state := { p.m_state with VCache := { c with ShiftBg :=
    { TileLSB := ((c.ShiftBg.TileLSB &&& 0xFF00) ||| c.BufferBg.LSB) % 65536
      TileMSB := ((c.ShiftBg.TileMSB &&& 0xFF00) ||| c.BufferBg.MSB) % 65536
      ColorLSB := ((c.ShiftBg.ColorLSB &&& 0xFF00) |||
        (if (c.BufferBg.Attribute &&& 0b01) != 0 then 0xFF else 0x00)) % 65536
      ColorMSB := ((c.ShiftBg.ColorMSB &&& 0xFF00) |||
        (if (c.BufferBg.Attribute &&& 0b10) != 0 then 0xFF else 0x00)) % 65536 } } } }

/-- `FetchSpriteRow`: the two pattern bytes of the row as a `word`. -/
def FetchSpriteRow (p : RP2C02) (m_cart : CartridgeSlot) (tileIndex attributes : Nat) (row : Int) :
    Except Fault Nat :=
  let tile : Nat := tileIndex % 256
  let attr : Nat := attributes % 256
  let addr : Int :=
    if !p.CheckFlagCtrl CtrlFlag.SpriteHeight then
      let row := if (attr &&& 0x80) == 0 then 7 - row else row
      let table : Nat := if p.CheckFlagCtrl CtrlFlag.SpritePatternTable then 0x1000 else 0x0000
      (((table + (tile * 16) : Nat) : Int) + row) % 65536
    else
      let row := if (attr &&& 0x80) == 0 then 15 - row else row
      let table : Nat := if (tile &&& 1) != 0 then 0x1000 else 0x000
      let tile := tile &&& 0xFE
      let tile := if row > 7 then (tile + 1) % 65536 else tile
      let row := if row > 7 then row - 8 else row
      (((table + (tile * 16) : Nat) : Int) + row) % 65536
  (p.InternalBusRead m_cart addr.toNat).bind fun lsb =>
  (p.InternalBusRead m_cart ((addr + 8) % 65536).toNat).bind fun msb =>
    let lsb := lsb % 256
    let msb := msb % 256
    let lsb := if (attr &&& 0x40) != 0 then Util.ReverseBits lsb else lsb
    let msb := if (attr &&& 0x40) != 0 then Util.ReverseBits msb else msb
    Except.ok (((msb <<< 8) % 65536 ||| lsb) % 65536)

/-- Assignment to `m_state.VCache.BufferSpr[index]`. -/
def setBufferSpr (p : RP2C02) (index : Int) (row : RenderState.SpriteRow) : RP2C02 :=
  { p with m_state := { p.m_state with VCache := { p.m_state.VCache with
    BufferSpr := fun i => if i = index.toNat then row else p.m_state.VCache.BufferSpr i } } }

/-- The loop of `EvaluateSprites` over the OAM entries `entries`; the case
that sets the overflow flag ends it. -/
def EvaluateSpritesLoop (m_cart : CartridgeSlot) (scanl h : Int) :
    List Nat → RP2C02 → Except Fault RP2C02
  | [], p => Except.ok p
  | i :: entries, p =>
    let y := p.VRAM.OAM (4 * i)
    let row : Int := (y : Int) - scanl + 8
    if row >= 0 && row < h then
      let sprCount := p.m_state.VCache.SpriteCount
      if sprCount < 8 then
        let t := p.VRAM.OAM (4 * i + 1)
        let a := p.VRAM.OAM (4 * i + 2)
        let x := p.VRAM.OAM (4 * i + 3)
        let p := p.setBufferSpr sprCount { p.m_state.VCache.BufferSpr sprCount.toNat with
          PositionX := x
          Palette := ((a &&& 3) + 4) % 256
          Priority := if (a &&& 0x20) != 0 then 0x01 else 0x00 }
        (p.FetchSpriteRow m_cart t a row).bind fun pattern =>
          let p := p.setBufferSpr sprCount { p.m_state.VCache.BufferSpr sprCount.toNat with
            RowLSB := pattern &&& 0x00FF
            RowMSB := (pattern >>> 8) &&& 0x00FF
            IsSpriteZero := i == 0 }
          let p := { p with m_state := { p.m_state with VCache := { p.m_state.VCache with
            SpriteCount := sprCount + 1 } } }
          EvaluateSpritesLoop m_cart scanl h entries p
      else
        Except.ok (p.SetFlagStatus StatusFlag.SpriteOverflow true)
    else
      EvaluateSpritesLoop m_cart scanl h entries p

/-- `EvaluateSprites` from the assignment `sprCount = 0` on, for the value
`scanl` the first statements arrive at. -/
def EvaluateSpritesFor (p : RP2C02) (m_cart : CartridgeSlot) (scanl : Int) :
    Except Fault RP2C02 :=
  let p := { p with m_state := { p.m_state with VCache := { p.m_state.VCache with
    SpriteCount := 0 } } }
  let h : Int := if p.CheckFlagCtrl CtrlFlag.SpriteHeight then 16 else 8
  EvaluateSpritesLoop m_cart scanl h (List.range 64) p

def EvaluateSprites (p : RP2C02) (m_cart : CartridgeSlot) : Except Fault RP2C02 :=
  let scanl := p.m_state.ScanPos.Scanline
  if scanl == 261 then p.EvaluateSpritesFor m_cart 0
  else if scanl <= 238 then p.EvaluateSpritesFor m_cart (scanl + 1)
  else Except.ok p

/-- The locals of `Muxer` that describe the two pixels. -/
structure MuxerPixels where
  bgpix : Nat := 0
  bgpal : Nat := 0
  sppix : Nat := 0
  sppal : Nat := 0
  sppriority : Nat := 0
  spriteZero : Bool := false
  deriving DecidableEq, Repr

/-- The block `Get background pixel & palette` of `Muxer`. -/
def MuxerBackground (p : RP2C02) (x : MuxerPixels) : MuxerPixels :=
  if p.CheckFlagMask MaskFlag.BackgroundEnable then
    let bitmux := (0x8000 >>> p.m_state.FineX) % 65536
    let pixbit0 := if (p.m_state.VCache.ShiftBg.TileLSB &&& bitmux) != 0 then 0x01 else 0x00
    let pixbit1 := if (p.m_state.VCache.ShiftBg.TileMSB &&& bitmux) != 0 then 0x01 else 0x00
    let palbit0 := if (p.m_state.VCache.ShiftBg.ColorLSB &&& bitmux) != 0 then 0x01 else 0x00
    let palbit1 := if (p.m_state.VCache.ShiftBg.ColorMSB &&& bitmux) != 0 then 0x01 else 0x00
    { x with bgpix := ((pixbit1 <<< 1) ||| pixbit0) % 256,
             bgpal := ((palbit1 <<< 1) ||| palbit0) % 256 }
  else x

/-- The loop of the block `Get foreground pixel & palette` of `Muxer` over
the buffer entries `entries`; a non-zero sprite pixel ends it. -/
def MuxerSpritesLoop (p : RP2C02) : List Nat → MuxerPixels → MuxerPixels
  | [], x => x
  | i :: entries, x =>
    let spr := p.m_state.VCache.BufferSpr i
    let diff : Int := (p.m_state.ScanPos.Dots - 1) - (spr.PositionX : Int)
    if diff >= 0 && diff < 8 then
      let pixbit2 := (((spr.RowLSB <<< diff.toNat) &&& 0x80) >>> 7) % 256
      let pixbit3 := (((spr.RowMSB <<< diff.toNat) &&& 0x80) >>> 7) % 256
      let x := { x with sppix := ((pixbit3 <<< 1) ||| pixbit2) % 256 }
      let x := { x with sppal := spr.Palette }
      let x := { x with sppriority := spr.Priority }
      let x := { x with spriteZero := spr.IsSpriteZero }
      if x.sppix != 0 then x else MuxerSpritesLoop p entries x
    else
      MuxerSpritesLoop p entries x

/-- The block `Get foreground pixel & palette` of `Muxer`. -/
def MuxerSprites (p : RP2C02) (x : MuxerPixels) : MuxerPixels :=
  if p.CheckFlagMask MaskFlag.SpriteEnable then
    MuxerSpritesLoop p (List.range p.m_state.VCache.SpriteCount.toNat) x
  else x

/-- The block `Left column enable flags` of `Muxer`. -/
def MuxerLeftColumn (p : RP2C02) (x : MuxerPixels) : MuxerPixels :=
  if p.m_state.ScanPos.Dots < 8 then
    let x := if !p.CheckFlagMask MaskFlag.BackgroundLeftColEnable then
      { x with bgpix := 0, bgpal := 0 } else x
    if !p.CheckFlagMask MaskFlag.SpriteLeftColEnable then
      { x with sppal := 0, sppix := 0 } else x
  else x

/-- The values of the locals of `Muxer` when it reaches the priority
decision. -/
def MuxerInputs (p : RP2C02) : MuxerPixels :=
  p.MuxerLeftColumn (p.MuxerSprites (p.MuxerBackground {}))

def GetRGBColorFromPalette (p : RP2C02) (m_cart : CartridgeSlot)
    (paletteIndex twoBitPixelValue : Nat) : Except Fault Pixel :=
  let addr := (0x3F00 + paletteIndex * 4 + twoBitPixelValue) % 65536
  (p.InternalBusRead m_cart addr).map fun nesColor =>
    m_paletteRGB.getD ((nesColor % 256) &&& 0x3F) {}

/-- `Muxer`: the pixel and the PPU afterwards. -/
def Muxer (p : RP2C02) (m_cart : CartridgeSlot) : Except Fault (Pixel × RP2C02) :=
  let x := p.MuxerInputs
  let out : Nat × Nat × RP2C02 :=
    if x.bgpix == 0 && x.sppix == 0 then (0, 0, p)
    else if x.bgpix == 0 && x.sppix > 0 then (x.sppix, x.sppal, p)
    else if x.bgpix > 0 && x.sppix == 0 then (x.bgpix, x.bgpal, p)
    else if x.bgpix > 0 && x.sppix > 0 then
      let o : Nat × Nat := if x.sppriority == 0 then (x.sppix, x.sppal) else (x.bgpix, x.bgpal)
      (o.1, o.2, if x.spriteZero then p.SetFlagStatus StatusFlag.SpriteZeroHit true else p)
    else (0, 0, p)
  (out.2.2.GetRGBColorFromPalette m_cart out.2.1 out.1).map fun pixel => (pixel, out.2.2)

def DrawPixel (p : RP2C02) (pixel : Pixel) (x y : Int) : Except Fault RP2C02 :=
  let offset := y * SCREEN_WIDTH + x
  if 0 ≤ offset ∧ offset < SCREEN_WIDTH * SCREEN_HEIGTH then
    Except.ok { p with m_framebuffer := fun i =>
      if i = offset.toNat then pixel else p.m_framebuffer i }
  else
    Except.error Fault.outOfBounds

end RP2C02

end NES

namespace NES

namespace RP2C02

/-- The block `PPU FLAGS` of `CycleRenderer` at scanline `s`, dot `d`: the
PPU afterwards and the signals emitted. -/
def RendererFlags (p : RP2C02) (s d : Int) : RP2C02 × List Int :=
  let preLine := s == 261
  let vblankStart := s == 241 && d == 1
  let vblankEnd := preLine && d == 1
  if vblankStart then
    let p := p.SetFlagStatus StatusFlag.VBlank true
    let signals := if p.CheckFlagCtrl CtrlFlag.NMIEnable then [MOS6502.SIGNAL_CPU_NMI] else []
    ({ p with m_frameCounter := p.m_frameCounter + 1 }, signals)
  else if vblankEnd then
    let p := p.SetFlagStatus StatusFlag.VBlank false
    let p := p.SetFlagStatus StatusFlag.SpriteOverflow false
    (p.SetFlagStatus StatusFlag.SpriteZeroHit false, [])
  else (p, [])

/-- The block `BACKGROUND DATA FETCHES` of `CycleRenderer`. -/
def RendererFetches (p : RP2C02) (m_cart : CartridgeSlot) (s d : Int) : Except Fault RP2C02 :=
  let preLine := s == 261
  let visibleLine := s >= 0 && s <= 239
  let fetch := ((d >= 1 && d <= 256) || (d >= 321 && d <= 336)) && (visibleLine || preLine)
  if fetch then
    let p := { p with m_state := p.m_state.ShiftBgRegisters }
    if d % 8 == 1 then p.PushBgBufferToShiftRegisters.FetchNextBgAddress m_cart
    else if d % 8 == 3 then p.FetchNextBgAttribute m_cart
    else if d % 8 == 5 then p.FetchNextBgLSB m_cart
    else if d % 8 == 7 then p.FetchNextBgMSB m_cart
    else Except.ok p
  else Except.ok p

/-- The block `BACKGROUND V/T UPDATES` of `CycleRenderer`. -/
def RendererUpdates (p : RP2C02) (s d : Int) : RP2C02 :=
  let preLine := s == 261
  let visibleLine := s >= 0 && s <= 239
  let visibleDot := d >= 1 && d <= 256
  let renderEnable :=
    p.CheckFlagMask MaskFlag.BackgroundEnable || p.CheckFlagMask MaskFlag.SpriteEnable
  if renderEnable then
    if preLine then
      let p := if (visibleDot && ((d % 8) == 0)) || d == 328 || d == 336 then
        { p with m_state := p.m_state.IncrementHorizontalPos } else p
      if d >= 280 && d <= 304 then { p with m_state := p.m_state.CopyVerticalPos } else p
    else if visibleLine then
      let p := if (visibleDot && ((d % 8) == 0)) || d == 328 || d == 336 then
        { p with m_state := p.m_state.IncrementHorizontalPos } else p
      if d == 256 then { p with m_state := p.m_state.IncrementVerticalPos }
      else if d == 257 then { p with m_state := p.m_state.CopyHorizontalPos }
      else p
    else p
  else p

/-- The block `SPRITES` of `CycleRenderer`. -/
def RendererSprites (p : RP2C02) (m_cart : CartridgeSlot) (s d : Int) : Except Fault RP2C02 :=
  let preLine := s == 261
  let visibleLine := s >= 0 && s <= 239
  let renderEnable :=
    p.CheckFlagMask MaskFlag.BackgroundEnable || p.CheckFlagMask MaskFlag.SpriteEnable
  if renderEnable then
    if (visibleLine || preLine) && d == 257 then p.EvaluateSprites m_cart else Except.ok p
  else Except.ok p

/-- The block `RENDER PIXEL` of `CycleRenderer`. -/
def RendererPixel (p : RP2C02) (m_cart : CartridgeSlot) (s d : Int) : Except Fault RP2C02 :=
  let visibleLine := s >= 0 && s <= 239
  let visibleDot := d >= 1 && d <= 256
  let visibleFrame := visibleLine && visibleDot
  if visibleFrame then
    (p.Muxer m_cart).bind fun r => r.2.DrawPixel r.1 (d - 1) s
  else Except.ok p

/-- The last two blocks of `CycleRenderer`: the position update and the
cycle skip on odd frames. -/
def RendererAdvance (p : RP2C02) (s d : Int) : RP2C02 :=
  let p := { p with m_state := p.m_state.IncrementScanPos }
  if (p.m_frameCounter % 2) != 0 && s == 261 && d == 339 then
    { p with m_state := p.m_state.IncrementScanPos }
  else p

/-- `CycleRenderer`: the PPU afterwards and the signals emitted.  The blocks
run in the order of the source, each on the scan position read at the
start. -/
def CycleRenderer (p : RP2C02) (m_cart : CartridgeSlot) : Except Fault (RP2C02 × List Int) :=
  let s := p.m_state.ScanPos.Scanline
  let d := p.m_state.ScanPos.Dots
  let r := p.RendererFlags s d
  (r.1.RendererFetches m_cart s d).bind fun p =>
  ((p.RendererUpdates s d).RendererSprites m_cart s d).bind fun p =>
  (p.RendererPixel m_cart s d).bind fun p =>
  Except.ok (p.RendererAdvance s d, r.2)

end RP2C02

/-- What a device uses of the bus it is connected to, over the state `μ` of
the machine: `Bus::ReadFromBus` and `Bus::EmitSignal`. -/
structure BusPort (μ : Type) where
  ReadFromBus : μ → Nat → Except Fault (Nat × μ)
  EmitSignal : μ → Int → μ

namespace RP2C02

variable {μ : Type}

/-- The loop of `OAMDMA` over the values `lsbs` of `lsb`.  Each store follows
the bus read that gives its value. -/
def OAMDMALoop (port : BusPort μ) (get : μ → RP2C02) (set : μ → RP2C02 → μ) (addr : Nat) :
    List Nat → μ → Except Fault μ
  | [], x => Except.ok x
  | lsb :: lsbs, x =>
    (port.ReadFromBus x ((addr ||| lsb) % 65536)).bind fun r =>
      let p := get r.2
      let p := { p with VRAM := { p.VRAM with OAM := fun i =>
        if i = lsb then r.1 % 256 else p.VRAM.OAM i } }
      OAMDMALoop port get set addr lsbs (set r.2 p)

/-- `RP2C02::OAMDMA`, for the PPU kept in the field of `μ` that `get` and
`set` access. -/
def OAMDMA (port : BusPort μ) (get : μ → RP2C02) (set : μ → RP2C02 → μ) (x : μ) :
    Except Fault μ :=
  (port.ReadFromBus x 0x4014).bind fun r =>
    OAMDMALoop port get set (((r.1 % 256) <<< 8) % 65536) (List.range 256) r.2

/-- `RP2C02::Cycle`, for the PPU kept in the field of `μ` that `get` and
`set` access; `getCart` accesses the slot its `m_cart` refers to. -/
def Cycle (port : BusPort μ) (get : μ → RP2C02) (set : μ → RP2C02 → μ)
    (getCart : μ → CartridgeSlot) (x : μ) : Except Fault μ :=
  (if !(get x).m_videoModeCheck then
    (getCart x).GetMetadata.bind fun metadata =>
      if metadata.TVSystem != CartridgeMetadata.TVSystemType.NTSC then
        Except.error (Fault.QkError 630)
      else
        Except.ok (set x { (get x) with m_videoModeCheck := true })
  else Except.ok x).bind fun x =>
  (if (get x).m_remainingOAMDMACycles > 0 then
    (if (get x).m_doDMA then
      let p := { (get x) with m_doDMA := false }
      OAMDMA port get set (port.EmitSignal (set x p) MOS6502.SIGNAL_CPU_HLT)
    else if (get x).m_remainingOAMDMACycles == 1 then
      Except.ok (port.EmitSignal x MOS6502.SIGNAL_CPU_RSM)
    else Except.ok x).bind fun x =>
      Except.ok (set x { (get x) with m_remainingOAMDMACycles := (get x).m_remainingOAMDMACycles - 1 })
  else Except.ok x).bind fun x =>
  ((get x).CycleRenderer (getCart x)).bind fun r =>
    Except.ok (r.2.foldl port.EmitSignal (set x r.1))

end RP2C02

end NES

/-! ## nes-system.cpp: the console

The CPU is connected to the bus as a device without addresses, so
`Bus::EmitSignal` reaches it after the addressable devices.  Here it is kept
beside the bus: a signal emitted by the PPU goes to the devices and then to
the CPU, and a signal emitted by the APU or the controller interface during
a write, `SIGNAL_PPU_DMA` or one of `SIGNAL_APU_FRC_*`, none of which
`MOS6502::OnBusSignal` handles, goes to the devices.  The counters are
unbounded. -/

/-- The CPU `c` with the device state `b` behind its bus. -/
def MOS6502.withBus {α β : Type} (c : MOS6502 α) (b : β) : MOS6502 β where
  A := c.A
  X := c.X
  Y := c.Y
  PC := c.PC
  P := c.P
  S := c.S
  m_opcode := c.m_opcode
  m_cacheAbsoluteWorkingAddress := c.m_cacheAbsoluteWorkingAddress
  m_cacheFetchedData := c.m_cacheFetchedData
  m_doFetch := c.m_doFetch
  m_additionalCyclesNeeded := c.m_additionalCyclesNeeded
  m_didIRQ := c.m_didIRQ
  m_didNMI := c.m_didNMI
  m_remainingCycles := c.m_remainingCycles
  m_decimalModeAvailable := c.m_decimalModeAvailable
  m_cpuCycleCount := c.m_cpuCycleCount
  m_irqPending := c.m_irqPending
  m_nmiPending := c.m_nmiPending
  m_halted := c.m_halted
  BUS := b

namespace NESConsole

/-- The objects `m_apu` and `m_ctr`. -/
structure Peripherals where
  m_apu : NES.APU := NES.APU.construct
  m_ctr : NES.ControllerInterface := {}

/-- `Bus::EmitSignal` for the devices of the console: of their `OnBusSignal`
functions those of the PPU and of the APU are not the one of the base
class. -/
def signalDevices (s : Devices Peripherals) (signalId : Int) : Devices Peripherals :=
  let s := { s with m_ppu := s.m_ppu.OnBusSignal signalId }
  { s with m_io := { s.m_io with m_apu := s.m_io.m_apu.OnBusSignal signalId } }

/-- The object `m_apu` as a device. -/
def apu : Bus.Device (Devices Peripherals) :=
  NES.APU.device (fun s => s.m_io.m_apu) (fun s u => { s with m_io := { s.m_io with m_apu := u } })
    signalDevices

/-- The object `m_ctr` as a device. -/
def ctr : Bus.Device (Devices Peripherals) :=
  NES.ControllerInterface.device (AddressRange.mk 0x4016 0x4017) (fun s => s.m_io.m_ctr)
    (fun s c => { s with m_io := { s.m_io with m_ctr := c } }) signalDevices

/-- The bus and the devices as the CPU accesses them: `Except.error` once an
access has thrown. -/
abbrev Board : Type := Except Fault (Devices Peripherals × Bus (Devices Peripherals))

/-- The bus operations of the CPU of the console. -/
def boardAccess : BusAccess Board where
  ReadFromBus := fun x address =>
    match x with
    | Except.error e => (0, Except.error e)
    | Except.ok (s, b) =>
      match b.ReadFromBus s address with
      | Except.error e => (0, Except.error e)
      | Except.ok (v, s, b) => (v, Except.ok (s, b))
  WriteToBus := fun x address data =>
    match x with
    | Except.error e => Except.error e
    | Except.ok (s, b) =>
      match b.WriteToBus s address data with
      | Except.error e => Except.error e
      | Except.ok (s, b) => Except.ok (s, b)

end NESConsole

/-- The class `NESConsole`: the bus, the devices behind it, the CPU and the
clock count. -/
structure NESConsole where
  m_bus : Bus (NESConsole.Devices NESConsole.Peripherals)
  m_dev : NESConsole.Devices NESConsole.Peripherals
  m_cpu : MOS6502 Unit
  m_systemClockCount : Nat := 0

namespace NESConsole

/-- The bus as the PPU of the console uses it. -/
def port : NES.BusPort NESConsole where
  ReadFromBus := fun n address =>
    (n.m_bus.ReadFromBus n.m_dev address).map fun r =>
      (r.1, { n with m_dev := r.2.1, m_bus := r.2.2 })
  EmitSignal := fun n signalId =>
    { n with m_dev := n.m_bus.EmitSignal n.m_dev signalId,
             m_cpu := n.m_cpu.OnBusSignal signalId }

/-- The call `m_ppu->Cycle()`. -/
def ppuCycle (n : NESConsole) : Except Fault NESConsole :=
  NES.RP2C02.Cycle port (fun n => n.m_dev.m_ppu)
    (fun n p => { n with m_dev := { n.m_dev with m_ppu := p } }) (fun n => n.m_dev.m_cas) n

/-- The call `m_cpu->Cycle()`. -/
def cpuCycle (n : NESConsole) : Except Fault NESConsole :=
  let c := MOS6502.Cycle boardAccess (n.m_cpu.withBus (Except.ok (n.m_dev, n.m_bus)))
  match c.BUS with
  | Except.error e => Except.error e
  | Except.ok (s, b) => Except.ok { n with m_cpu := c.withBus (), m_dev := s, m_bus := b }

/-- The call `m_apu->Cycle()`. -/
def apuCycle (n : NESConsole) : NESConsole :=
  { n with m_dev := { n.m_dev with m_io := { n.m_dev.m_io with
    m_apu := n.m_dev.m_io.m_apu.Cycle } } }

/-- `NESConsole::Clock`. -/
def Clock (n : NESConsole) : Except Fault NESConsole :=
  n.ppuCycle.bind fun n =>
  (if n.m_systemClockCount % 3 == 0 then
    n.cpuCycle.bind fun n => Except.ok n.apuCycle
  else Except.ok n).bind fun n =>
  Except.ok { n with m_systemClockCount := n.m_systemClockCount + 1 }

/-- `NESConsole::InsertCartridge`. -/
def InsertCartridge (n : NESConsole) (cartridge : Option NES.Cartridge) : NESConsole :=
  { n with m_dev := { n.m_dev with m_cas := n.m_dev.m_cas.InsertCartridge cartridge } }

/-- The constructor `NESConsole::NESConsole`. -/
def construct : Except Fault NESConsole :=
  (connectDevices apu ctr {}).bind fun m_bus =>
    let m_dev : Devices Peripherals :=
      { m_ram := RAM.construct (AddressRange.mk 0x000 0x07FF), m_cas := {}, m_ppu := NES.RP2C02.Reset {},
        m_io := {} }
    let c := MOS6502.Reset boardAccess ((MOS6502.construct ()).withBus (Except.ok (m_dev, m_bus)))
    match c.BUS with
    | Except.error e => Except.error e
    | Except.ok (s, b) =>
      Except.ok { m_bus := b, m_dev := { s with m_ppu := s.m_ppu.Reset },
                  m_cpu := (c.withBus ()).SetDecimalModeAvailable false }

end NESConsole

/-! ## Auxiliary definitions used in the statements -/

/-- The bit position of a flag in `P`: `flag.val = 2 ^ flag.bit`. -/
def Flag.bit : Flag → Nat
  | .Carry => 0
  | .Zero => 1
  | .InterruptDisable => 2
  | .DecimalMode => 3
  | .Break => 4
  | .Expansion => 5
  | .Overflow => 6
  | .Negative => 7

/-- The status byte after `SetFlag(flag, b)` on the status byte `p`. -/
def setP (p : Nat) (f : Flag) (b : Bool) : Nat :=
  if b then (p ||| f.val) % 256 else (p &&& bitNot f.val) % 256

/-- A byte read as a two's-complement number. -/
def toSigned (b : Nat) : Int := if b < 128 then (b : Int) else (b : Int) - 256

/-- A RAM image holding `bytes` from address `base` on and zero elsewhere. -/
def ramImage (base : Nat) (bytes : List Nat) : Nat → Nat :=
  fun a => if base ≤ a then bytes.getD (a - base) 0 else 0

/-- The CPU as constructed over a RAM bus with content `m`, then reset to `pc`. -/
def ramCPU (m : Nat → Nat) (pc : Nat) : MOS6502 (Nat → Nat) :=
  MOS6502.ResetTo (MOS6502.construct m) pc

/-- The CPU in which `ADC #$50` (at `0x8000`) finds itself after the immediate addressing
mode, with `A = 0x50` and C clear. -/
def adcOperandState : MOS6502 (Nat → Nat) :=
  InstructionHandler.IMM ramBus { ramCPU (ramImage 0x8000 [0x69, 0x50]) 0x8001 with A := 0x50 }

/-- The CPU in which `SBC #$10` (at `0x8000`) finds itself after the immediate addressing
mode, with `A = 0x50` and C clear. -/
def sbcOperandState : MOS6502 (Nat → Nat) :=
  InstructionHandler.IMM ramBus { ramCPU (ramImage 0x8000 [0xE9, 0x10]) 0x8001 with A := 0x50 }

/-- The registers of `sbcOperandState` with the operand `0x10 XOR 0xFF` in the operand cache. -/
def sbcAsAdcState : MOS6502 (Nat → Nat) :=
  { sbcOperandState with m_doFetch := false, m_cacheFetchedData := 0xEF }

/-- The device state after the bytes of a list are pushed in order: each byte is written
at `0x0100 | S` and `S` is then decremented as a byte. -/
def pushAll {β : Type} (bus : BusAccess β) (b : β) (S : Nat) : List Nat → β
  | [] => b
  | d :: ds =>
    pushAll bus (bus.WriteToBus b ((0x0100 ||| S) % 65536) (d % 256)) ((S + 255) % 256) ds

/-- The CPU states reachable from a reset (of any prior state, with or without the reset
vector) by executing instructions, servicing interrupts, clock cycles, bus signals, the
decimal-mode switch, and changes other devices make behind the bus. -/
inductive Reachable {β : Type} (bus : BusAccess β) : MOS6502 β → Prop where
  | resetTo (c : MOS6502 β) (pc : Nat) : Reachable bus (MOS6502.ResetTo c pc)
  | reset (c : MOS6502 β) : Reachable bus (MOS6502.Reset bus c)
  | execute {c : MOS6502 β} : Reachable bus c → Reachable bus (InstructionHandler.ExecuteNextInstruction bus c)
  | irq {c : MOS6502 β} : Reachable bus c → Reachable bus (InstructionHandler.IRQ bus c)
  | nmi {c : MOS6502 β} : Reachable bus c → Reachable bus (InstructionHandler.NMI bus c)
  | cycle {c : MOS6502 β} : Reachable bus c → Reachable bus (MOS6502.Cycle bus c)
  | signal {c : MOS6502 β} (signalId : Int) :
      Reachable bus c → Reachable bus (MOS6502.OnBusSignal c signalId)
  | decimal {c : MOS6502 β} (available : Bool) :
      Reachable bus c → Reachable bus (MOS6502.SetDecimalModeAvailable c available)
  | devices {c : MOS6502 β} (b : β) : Reachable bus c → Reachable bus { c with BUS := b }

/-- RAM holding `JMP ($02FF)` at `0x8000`, with `[$02FF] = 0x34`, `[$0300] = 0xCD`,
`[$0200] = 0x12`. -/
def jmpBugRam : Nat → Nat := fun a =>
  if a = 0x8000 then 0x6C else if a = 0x8001 then 0xFF else if a = 0x8002 then 0x02
  else if a = 0x02FF then 0x34 else if a = 0x0300 then 0xCD else if a = 0x0200 then 0x12
  else 0

/-- The CPU reset onto a `PHA` at `0x8000`, with `S = 0x00` and `A = 0x77`. -/
def phaState : MOS6502 (Nat → Nat) :=
  { ramCPU (ramImage 0x8000 [0x48]) 0x8000 with S := 0x00, A := 0x77 }

/-- RAM with the NMI vector `0x9000` at `0xFFFA/0xFFFB`, the IRQ vector `0xA000` at
`0xFFFE/0xFFFF`, a `NOP` (`0xEA`) at each handler and zero (`BRK`) elsewhere. -/
def irqRam : Nat → Nat := fun a =>
  if a = 0xFFFA then 0x00 else if a = 0xFFFB then 0x90
  else if a = 0xFFFE then 0x00 else if a = 0xFFFF then 0xA0
  else if a = 0x9000 then 0xEA else if a = 0xA000 then 0xEA else 0

/-- The CPU over `irqRam` at `PC = 0x1234`, `S = 0xFD`, with I clear (`P = 0x20`). -/
def irqState : MOS6502 (Nat → Nat) :=
  { ramCPU irqRam 0x1234 with P := 0x20 }

/-- The CPU reset onto the `BRK` opcode at `0x1234` over `irqRam` (`S = 0xFD`, `P = 0x24`). -/
def brkState : MOS6502 (Nat → Nat) := ramCPU irqRam 0x1234

/-! ## Auxiliary definitions for the bus and cartridge statements -/

namespace NESConsole

variable {α : Type}

/-- The addressable devices of the console, in the order of their
construction. -/
def addressableDevices (apu ctr : Bus.Device (Devices α)) : List (Bus.Device (Devices α)) :=
  [ramDevice, rmmDevice, casDevice, ppuDevice, pmmDevice, apuDevice apu, ctrDevice ctr]

/-- A bus that holds the addressable devices of the console and whose cached
pointer is one of them, as it is from the construction on. -/
def Wired (apu ctr : Bus.Device (Devices α)) (b : Bus (Devices α)) : Prop :=
  b.m_addressableDevices = addressableDevices apu ctr ∧
    ∃ d, d ∈ addressableDevices apu ctr ∧ b.m_cachedDevicePtr = some d

/-- The device of the console that owns an address below `0x4000`. -/
def owner (a : Nat) : Bus.Device (Devices α) :=
  if a ≤ 0x07FF then ramDevice else if a ≤ 0x1FFF then rmmDevice
  else if a ≤ 0x2007 then ppuDevice else pmmDevice

end NESConsole

/-- A cartridge with 16 KiB of PRG-ROM, each byte the low byte of its
offset. -/
def nromCartridge : NES.Cartridge where
  Metadata := { FileFormat := NES.CartridgeMetadata.FileFormatType.iNES, PRGROMSize := 16384,
                CHRROMSize := 8192, PRGRAMSize := 8192 }
  m_PRGROM := (List.range 16384).map (fun i => i % 256)
  m_CHRROM := List.replicate 8192 0
  m_PRGRAM := List.replicate 8192 0
  m_mapper := { m_prgromSize := 16384, m_prgramSize := 8192, m_chrromSize := 8192 }

/-- A 16-byte iNES header with one PRG-ROM and one CHR-ROM unit and the
given bytes 6 and 7. -/
def headerWith (byte6 byte7 : Nat) : List Nat :=
  [0x4E, 0x45, 0x53, 0x1A, 1, 1, byte6, byte7, 0, 0, 0, 0, 0, 0, 0, 0]

/-- A device of the base class with the range `[lo, hi]`. -/
def plainDevice (lo hi : Nat) : Bus.Device Unit := Bus.Device.base true (AddressRange.mk lo hi)

/-- The bus of the console where the APU and the controller interface are
devices of the base class. -/
def plainBus : Bus (NESConsole.Devices Unit) :=
  Bus.mk (NESConsole.addressableDevices (Bus.Device.base true (AddressRange.mk 0 0))
      (Bus.Device.base true (AddressRange.mk 0 0))) []
    (some (NESConsole.ctrDevice (Bus.Device.base true (AddressRange.mk 0 0))))

/-- The devices of the console after construction, no cartridge inserted. -/
def powerOnDevices : NESConsole.Devices Unit where
  m_ram := RAM.construct (AddressRange.mk 0x000 0x07FF)
  m_cas := {}
  m_ppu := NES.RP2C02.Reset {}
  m_io := ()

/-- The devices of the console with the VBlank flag and the write latch set,
`V = 0x3F00` and `0x11` in the read buffer of PPUDATA. -/
def vblankDevices : NESConsole.Devices Unit :=
  { powerOnDevices with m_ppu := { powerOnDevices.m_ppu with
      Registers := { powerOnDevices.m_ppu.Registers with PPUStatus := 0x80, PPUData := 0x11 }
      m_state := { powerOnDevices.m_ppu.m_state with
        WriteLatch := true, V := { Address := 0x3F00 } } } }

/-! ## Auxiliary definitions for the cycle-count statements -/

section CycleCount

open MOS6502 InstructionHandler

variable {β : Type}

/-- The operations `ADC, SBC, AND, ORA, EOR, CMP, LDA, LDX, LDY`. -/
def isReadOperation : OperationFunction → Bool
  | .ADC | .SBC | .AND | .ORA | .EOR | .CMP | .LDA | .LDX | .LDY => true
  | _ => false

/-- The conditional branches. -/
def isBranchOperation : OperationFunction → Bool
  | .BCC | .BCS | .BEQ | .BMI | .BNE | .BPL | .BVC | .BVS => true
  | _ => false

/-- Whether a conditional branch is taken in the state `c`; `false` for the
other operations. -/
def branchTaken (c : MOS6502 β) : OperationFunction → Bool
  | .BCC => !CheckFlag c Flag.Carry
  | .BCS => CheckFlag c Flag.Carry
  | .BEQ => CheckFlag c Flag.Zero
  | .BMI => CheckFlag c Flag.Negative
  | .BNE => !CheckFlag c Flag.Zero
  | .BPL => !CheckFlag c Flag.Negative
  | .BVC => !CheckFlag c Flag.Overflow
  | .BVS => CheckFlag c Flag.Overflow
  | _ => false

/-- The modes `ABX, ABY, IZY`. -/
def isIndexedMode : AddressingFunction → Bool
  | .ABX | .ABY | .IZY => true
  | _ => false

/-- The cycles an operation adds to `m_additionalCyclesNeeded`. -/
def operationCost (c : MOS6502 β) (o : OperationFunction) : Int :=
  if isReadOperation o then 1
  else if branchTaken c o then
    if (c.PC &&& 0xFF00) != (c.m_cacheAbsoluteWorkingAddress &&& 0xFF00) then 2 else 1
  else 0

/-- The CPU reset onto `LDA #$42` at `0x8000` (I set, `P = 0x24`), at an
instruction boundary with an IRQ pending. -/
def maskedIrqState : MOS6502 (Nat → Nat) :=
  { ramCPU (ramImage 0x8000 [0xA9, 0x42]) 0x8000 with m_irqPending := true }

/-- The CPU reset onto the three bytes `b0 b1 b2` at `0x80FD`, with
`X = 0x01` and the zero flag clear. -/
def crossingState (b0 b1 b2 : Nat) : MOS6502 (Nat → Nat) :=
  { ramCPU (ramImage 0x80FD [b0, b1, b2]) 0x80FD with X := 0x01 }

end CycleCount

/-! ## Auxiliary definitions for the PPU, controller and audio statements -/

/-- The controller interface after the reads `ops`, each an address and the
`peek` argument, in order. -/
def readsOf (m_addressableRange : AddressRange) (c : NES.ControllerInterface)
    (ops : List (Nat × Bool)) : NES.ControllerInterface :=
  ops.foldl (fun c op => (NES.ControllerInterface.ReadFromDevice m_addressableRange c op.1 op.2).2) c

/-- The number of reads of `address` in `ops` that are not peeks. -/
def plainReads (address : Nat) (ops : List (Nat × Bool)) : Nat :=
  (ops.filter (fun op => op.1 == address && !op.2)).length

/-- The byte in which exactly the given buttons are pressed. -/
def buttonByte (pressed : List NES.Controller.Button) : Nat :=
  (pressed.foldl (fun c b => NES.ControllerInterface.PressButton c NES.Controller.Player.One b)
    {}).m_ctlr1Parallel

/-- An APU whose sample buffer holds the samples `1, 2, ..., 2048` modulo 256,
oldest first. -/
def rampAPU : NES.APU :=
  { m_audiobuffer := { m_vec := (List.range 2048).map (fun i => (i + 1) % 256), m_maxSize := 2048 } }

/-- The noise channel after `n` calls of `UpdateTimer` that find the timer
expired (timer period 0). -/
def noiseUpdates (ch : NES.APU.NoiseChannel) : Nat → NES.APU.NoiseChannel
  | 0 => ch
  | n + 1 => (noiseUpdates ch n).UpdateTimer

/-- The bit position of a PPU status flag: `flag.val = 2 ^ flag.bit`. -/
def NES.RP2C02.StatusFlag.bit : NES.RP2C02.StatusFlag → Nat
  | .SpriteOverflow => 5
  | .SpriteZeroHit => 6
  | .VBlank => 7

/-- The bit position of a PPUCTRL flag. -/
def NES.RP2C02.CtrlFlag.bit : NES.RP2C02.CtrlFlag → Nat
  | .IncrementMode => 2
  | .SpritePatternTable => 3
  | .BackgroundPatternTable => 4
  | .SpriteHeight => 5
  | .PPUMasterSlave => 6
  | .NMIEnable => 7

/-- The bit position of a PPUMASK flag. -/
def NES.RP2C02.MaskFlag.bit : NES.RP2C02.MaskFlag → Nat
  | .Greyscale => 0
  | .BackgroundLeftColEnable => 1
  | .SpriteLeftColEnable => 2
  | .BackgroundEnable => 3
  | .SpriteEnable => 4
  | .EmphasizeRed => 5
  | .EmphasizeGreen => 6
  | .EmphasizeBlue => 7

/-- The index of the nametable that the mirroring mode gives the PPU address
`address`. -/
def nametableOf (mode : NES.NametableMirrorMode) (address : Nat) : Nat :=
  if mode == NES.NametableMirrorMode.Vertical then (address >>> 10) &&& 0x0001
  else (address >>> 11) &&& 0x0001

/-- The PPU address `hi`, `lo` give when written to PPUADDR. -/
def vramAddress (hi lo : Nat) : Nat := ((hi &&& 0x3F) <<< 8) ||| lo

/-- Setting the PPU address by the bytes `hi` and `lo`, writing `d` to
PPUDATA, setting the address again and reading PPUDATA twice: the bytes the
two reads return. -/
def vramRoundTrip (range : AddressRange) (p : NES.RP2C02) (cart : NES.CartridgeSlot)
    (hi lo d : Nat) : Except Fault (Nat × Nat) :=
  (p.WriteToDevice range cart (range.Min + 6) hi).bind fun r =>
  (r.1.WriteToDevice range r.2 (range.Min + 6) lo).bind fun r =>
  (r.1.WriteToDevice range r.2 (range.Min + 7) d).bind fun r =>
  (r.1.WriteToDevice range r.2 (range.Min + 6) hi).bind fun r =>
  (r.1.WriteToDevice range r.2 (range.Min + 6) lo).bind fun r =>
  (r.1.ReadFromDevice range r.2 (range.Min + 7) false).bind fun r1 =>
  (r1.2.ReadFromDevice range r.2 (range.Min + 7) false).map fun r2 => (r1.1, r2.1)

/-- The pairs of palette addresses of which the first is a mirror of the
second. -/
def palettePairs : List (Nat × Nat) :=
  [(0x3F10, 0x3F00), (0x3F14, 0x3F04), (0x3F18, 0x3F08), (0x3F1C, 0x3F0C)]

/-- The cartridge slot with the 16 KiB cartridge inserted. -/
def nromSlot : NES.CartridgeSlot := { m_cart := some nromCartridge }

/-- The PPU as its constructor leaves it. -/
def powerOnPPU : NES.RP2C02 := NES.RP2C02.Reset {}

/-- The bytes that `n` successive reads of `address` return, none a peek. -/
def serialReads (m_addressableRange : AddressRange) (address : Nat) :
    Nat → NES.ControllerInterface → List Nat
  | 0, _ => []
  | n + 1, c =>
    (NES.ControllerInterface.ReadFromDevice m_addressableRange c address false).1 ::
      serialReads m_addressableRange address n
        (NES.ControllerInterface.ReadFromDevice m_addressableRange c address false).2

/-! ## Auxiliary definitions for the rendering statements -/

/-- Whether the sprite buffer entry `i` covers the dot the PPU is at: the
test `diff >= 0 && diff < 8` of `Muxer`. -/
def spriteCovers (p : NES.RP2C02) (i : Nat) : Bool :=
  ((p.m_state.ScanPos.Dots - 1) - ((p.m_state.VCache.BufferSpr i).PositionX : Int) >= 0)
    && ((p.m_state.ScanPos.Dots - 1) - ((p.m_state.VCache.BufferSpr i).PositionX : Int) < 8)

/-- The 2-bit pixel of the sprite buffer entry `i` at the dot the PPU is at. -/
def spritePixelAt (p : NES.RP2C02) (i : Nat) : Nat :=
  let spr := p.m_state.VCache.BufferSpr i
  let diff : Int := (p.m_state.ScanPos.Dots - 1) - (spr.PositionX : Int)
  let pixbit2 := (((spr.RowLSB <<< diff.toNat) &&& 0x80) >>> 7) % 256
  let pixbit3 := (((spr.RowMSB <<< diff.toNat) &&& 0x80) >>> 7) % 256
  ((pixbit3 <<< 1) ||| pixbit2) % 256

/-- The output column of the priority table of the specification, as the
pair of palette and pixel value, for the two pixels `x` the multiplexer
decides between. -/
def specMuxerOutput (x : NES.RP2C02.MuxerPixels) : Nat × Nat :=
  if x.bgpix = 0 ∧ x.sppix = 0 then (0, 0)
  else if x.bgpix = 0 then (x.sppal, x.sppix)
  else if x.sppix = 0 then (x.bgpal, x.bgpix)
  else if x.sppriority = 0 then (x.sppal, x.sppix)
  else (x.bgpal, x.bgpix)

/-- A PPU with both layers enabled whose first sprite buffer entry, the one
of OAM entry 0, lies over an opaque background pixel at dot 9. -/
def overlapPPU : NES.RP2C02 :=
  { Registers := { PPUMask := 0x18 }
    m_state :=
      { ScanPos := { Dots := 9, Scanline := 10 }
        VCache :=
          { ShiftBg := { TileLSB := 0x8000 }
            SpriteCount := 1
            BufferSpr := fun _ =>
              { PositionX := 8, RowLSB := 0x80, Palette := 5, Priority := 1,
                IsSpriteZero := true } } } }

/-- The cartridge slot answers the PPU: its nametable mirroring is one the
PPU supports and a read of the pattern tables succeeds. -/
def answersPPU (cart : NES.CartridgeSlot) : Prop :=
  (∃ mode, cart.GetNametableMirrorMode = Except.ok mode
      ∧ mode ≠ NES.NametableMirrorMode.FourScreen)
    ∧ ∀ a, a ≤ 0x1FFF → ∃ v, cart.PPUReadFromDevice a false = Except.ok v

/-- The PPU `q` has what the PPU `p` has in the members that the fetch, update,
sprite and pixel blocks of `CycleRenderer` leave alone: the scan position, the
frame counter, PPUCTRL, PPUMASK, the VBlank bit, the members of the OAM DMA,
the video memory and the video mode check. -/
def keepsTiming (p q : NES.RP2C02) : Prop :=
  q.m_state.ScanPos = p.m_state.ScanPos ∧ q.m_frameCounter = p.m_frameCounter
    ∧ q.Registers.PPUCtrl = p.Registers.PPUCtrl ∧ q.Registers.PPUMask = p.Registers.PPUMask
    ∧ q.Registers.PPUStatus.testBit 7 = p.Registers.PPUStatus.testBit 7
    ∧ q.m_doDMA = p.m_doDMA ∧ q.m_remainingOAMDMACycles = p.m_remainingOAMDMACycles
    ∧ q.VRAM = p.VRAM ∧ q.m_videoModeCheck = p.m_videoModeCheck

/-- The first `n` calls of `CycleRenderer` on the PPU `p`: the PPU afterwards
and the signals emitted, in order.  Before call `k` (counted from 0) the
PPU is changed by `between k`, which stands for what the rest of the machine
does to it between two ticks. -/
def renderTicks (cart : NES.CartridgeSlot) (between : Nat → NES.RP2C02 → NES.RP2C02) :
    Nat → NES.RP2C02 → Except Fault (NES.RP2C02 × List Int)
  | 0, p => Except.ok (p, [])
  | n + 1, p =>
    (renderTicks cart between n p).bind fun r =>
      ((between n r.1).CycleRenderer cart).bind fun t =>
        Except.ok (t.1, r.2 ++ t.2)

/-- The PPU after power-on with the NMI enabled in PPUCTRL. -/
def nmiPPU : NES.RP2C02 := { powerOnPPU with Registers := { PPUCtrl := 0x80 } }

/-! ## Auxiliary definitions for the console statements -/

/-- The console can run an OAM DMA from the RAM: its bus is the one the
constructor wires and holds no device beside the addressable ones, the RAM
has its 2 KiB, the cartridge answers the PPU, the video mode is checked and
the NMI is disabled in PPUCTRL. -/
def dmaReady (n : NESConsole) : Prop :=
  NESConsole.Wired NESConsole.apu NESConsole.ctr n.m_bus
    ∧ n.m_bus.m_nonAddressableDevices = []
    ∧ n.m_dev.m_ram.m_size = 0x0800
    ∧ answersPPU n.m_dev.m_cas
    ∧ n.m_dev.m_ppu.m_videoModeCheck = true
    ∧ n.m_dev.m_ppu.Registers.PPUCtrl.testBit 7 = false

/-- The console `n1` is the console `n` but for the bus, the PPU and the CPU
(and the clock count). -/
def sameBoard (n n1 : NESConsole) : Prop :=
  n1.m_dev.m_ram = n.m_dev.m_ram ∧ n1.m_dev.m_cas = n.m_dev.m_cas ∧ n1.m_dev.m_io = n.m_dev.m_io

/-- The first `k` calls of `NESConsole::Clock`. -/
def clocks : Nat → NESConsole → Except Fault NESConsole
  | 0, n => Except.ok n
  | k + 1, n => (clocks k n).bind NESConsole.Clock

/-- RAM of the OAM DMA scenario: `STA $4014` at address 0, and `3 a + 1` in
the low byte elsewhere. -/
def dmaRam : Nat → Nat := fun a =>
  if a = 0 then 0x8D else if a = 1 then 0x14 else if a = 2 then 0x40 else (3 * a + 1) % 256

/-- The console after construction with the 16 KiB cartridge inserted, the
RAM of the scenario and `A = 2`. -/
def dmaConsole : NESConsole where
  m_bus := Bus.mk (NESConsole.addressableDevices NESConsole.apu NESConsole.ctr) []
    (some NESConsole.casDevice)
  m_dev := { m_ram := { m_data := dmaRam, m_size := 0x0800 }, m_cas := nromSlot,
             m_ppu := powerOnPPU, m_io := {} }
  m_cpu := { (MOS6502.construct ()).SetDecimalModeAvailable false with A := 2 }

/-- The console of the scenario after the call of `Clock` in which the CPU
executes the `STA $4014`. -/
def afterWrite : NESConsole :=
  match dmaConsole.Clock with
  | Except.ok n => n
  | Except.error _ => dmaConsole


/-! ## Auxiliary definitions for the CPU timing, the cartridge reads and the APU -/

/-- A CPU as constructed over a memory that holds the byte `opcode` at every
address, with the accumulator set to `a` and the program counter to 0x8000. -/
def filledMemoryCpu (opcode a : Nat) : MOS6502 (Nat → Nat) :=
  { MOS6502.construct (fun _ => opcode) with A := a, PC := 0x8000 }

/-- RAM with `JSR $9000` at `0x8000`, an `RTS` (`0x60`) at `0x9000` and zero elsewhere. -/
def jsrRam : Nat → Nat := fun a =>
  if a = 0x8000 then 0x20 else if a = 0x8001 then 0x00 else if a = 0x8002 then 0x90
  else if a = 0x9000 then 0x60 else 0

/-- A CPU about to run the `JSR` of `jsrRam`, with the stack pointer at `0x00`, so that
the second push wraps to `0x01FF`. -/
def jsrState : MOS6502 (Nat → Nat) :=
  { ramCPU jsrRam 0x8000 with S := 0x00 }

/-- A ROM file that is a 16-byte iNES header with one PRG-ROM unit and no CHR-ROM unit
(a cartridge with CHR-RAM), mapper 0. -/
def chrRamFile : List Nat :=
  [0x4E, 0x45, 0x53, 0x1A, 1, 0, 0, 0, 0, 0, 0, 0, 0, 0, 0, 0]

/-- The work `MOS6502::Cycle` does when the budget is used up: the pending NMI, else the
pending IRQ, else the next instruction (the `if` chain under `m_remainingCycles <= 0`). -/
def serviceNext {β : Type} (bus : BusAccess β) (c : MOS6502 β) : MOS6502 β :=
  if c.m_nmiPending then
    InstructionHandler.NMI bus { c with m_nmiPending := false }
  else if c.m_irqPending then
    InstructionHandler.IRQ bus { c with m_irqPending := false }
  else
    InstructionHandler.ExecuteNextInstruction bus c

/-- The scan position of the PPU lies on the 341 x 262 grid of a frame. -/
def scanInRange (p : NES.RP2C02) : Prop :=
  0 ≤ p.m_state.ScanPos.Dots ∧ p.m_state.ScanPos.Dots ≤ 340
    ∧ 0 ≤ p.m_state.ScanPos.Scanline ∧ p.m_state.ScanPos.Scanline ≤ 261

/-- The PPU states a run of the machine reaches from the constructed PPU: by a tick
(`CycleRenderer`, with a cartridge slot that answers the PPU), by a read or a write of a
PPU register, by a bus signal, and by the part of `RP2C02::Cycle` before the tick, which
sets the video mode check, starts and counts down the OAM DMA and fills the OAM. -/
inductive ppuReaches : NES.RP2C02 → Prop where
  | start : ppuReaches powerOnPPU
  | tick (p q : NES.RP2C02) (cart : NES.CartridgeSlot) (signals : List Int) :
      ppuReaches p → answersPPU cart → p.CycleRenderer cart = Except.ok (q, signals) →
      ppuReaches q
  | read (range : AddressRange) (p q : NES.RP2C02) (cart : NES.CartridgeSlot) (a v : Nat)
      (peek : Bool) :
      ppuReaches p → p.ReadFromDevice range cart a peek = Except.ok (v, q) → ppuReaches q
  | write (range : AddressRange) (p q : NES.RP2C02) (cart cart1 : NES.CartridgeSlot)
      (a w : Nat) :
      ppuReaches p → p.WriteToDevice range cart a w = Except.ok (q, cart1) → ppuReaches q
  | signal (p : NES.RP2C02) (signalId : Int) : ppuReaches p → ppuReaches (p.OnBusSignal signalId)
  | dma (p : NES.RP2C02) (oam : Nat → Nat) (check doDMA : Bool) (remaining : Int) :
      ppuReaches p →
      ppuReaches { p with VRAM := { p.VRAM with OAM := oam }, m_videoModeCheck := check,
                          m_doDMA := doDMA, m_remainingOAMDMACycles := remaining }

/-- The PPU after the first tick, with the cartridge of `nromSlot`; the constructed PPU
if the tick fails. -/
def firstTickPPU : NES.RP2C02 :=
  match powerOnPPU.CycleRenderer nromSlot with
  | Except.ok r => r.1
  | Except.error _ => powerOnPPU

/-- The PPU and the cartridge slot after the writes `ws` to the PPU registers, in order:
each entry is the number of the register (0 for PPUCTRL to 7 for PPUDATA) and the byte
written.  The registers lie at `0x2000..0x2007`. -/
def registerWrites : List (Nat × Nat) → NES.RP2C02 × NES.CartridgeSlot →
    Except Fault (NES.RP2C02 × NES.CartridgeSlot)
  | [], r => Except.ok r
  | w :: ws, r =>
    (r.1.WriteToDevice (AddressRange.mk 0x2000 0x2007) r.2 (0x2000 + w.1) w.2).bind
      (registerWrites ws)

/-- The writes that lead `V` out of its 15 bits: both PPUSCROLL bytes `0xFF` (fine Y 7,
coarse X and Y 31 in `T`), PPUCTRL `0x03` (both nametable bits of `T`), PPUSCROLL once more
to set the write latch, the low PPUADDR byte `0xFF` (which copies `T = 0x7FFF` to `V`),
then one byte to PPUDATA. -/
def unusedBitWrites : List (Nat × Nat) :=
  [(5, 0xFF), (5, 0xFF), (0, 0x03), (5, 0xFF), (6, 0xFF), (7, 0x00)]

/-- The sprite `i` of the OAM is in range of the target scanline `scanl` for the sprite
height `h`: `row = y - scanl + 8` lies in `[0, h)`. -/
def spriteInRange (p : NES.RP2C02) (scanl h : Int) (i : Nat) : Bool :=
  decide ((p.VRAM.OAM (4 * i) : Int) - scanl + 8 ≥ 0)
    && decide ((p.VRAM.OAM (4 * i) : Int) - scanl + 8 < h)

/-- The sprites in range of the target scanline, in ascending OAM index. -/
def spritesInRange (p : NES.RP2C02) (scanl h : Int) : List Nat :=
  (List.range 64).filter (spriteInRange p scanl h)

/-- The entry `e` of the sprite buffer holds the sprite `i` of the OAM of `p` for the target
scanline `scanl`: its position, palette and priority, whether it is sprite zero, and the two
bytes of the pattern row that `FetchSpriteRow` returns. -/
def spriteEntryOf (p : NES.RP2C02) (cart : NES.CartridgeSlot) (scanl : Int) (i : Nat)
    (e : NES.RP2C02.RenderState.SpriteRow) : Prop :=
  e.PositionX = p.VRAM.OAM (4 * i + 3)
    ∧ e.Palette = ((p.VRAM.OAM (4 * i + 2) &&& 3) + 4) % 256
    ∧ e.Priority = (if (p.VRAM.OAM (4 * i + 2) &&& 0x20) != 0 then 0x01 else 0x00)
    ∧ e.IsSpriteZero = (i == 0)
    ∧ ∃ pattern, p.FetchSpriteRow cart (p.VRAM.OAM (4 * i + 1)) (p.VRAM.OAM (4 * i + 2))
          ((p.VRAM.OAM (4 * i) : Int) - scanl + 8) = Except.ok pattern
        ∧ e.RowLSB = pattern &&& 0x00FF ∧ e.RowMSB = (pattern >>> 8) &&& 0x00FF

/-- The constructed PPU at scanline 0 with an OAM whose first `n` sprites have `y = 0`,
tile 0, attributes 0 and `x = 0` and whose other bytes are `0xFF`: for the target scanline 1
the first `n` sprites are in range (row 7) and the others are not. -/
def spritesPPU (n : Nat) : NES.RP2C02 :=
  { powerOnPPU with
    VRAM := { powerOnPPU.VRAM with OAM := fun a => if a < 4 * n then 0 else 0xFF }
    m_state := { powerOnPPU.m_state with ScanPos := { Dots := 257, Scanline := 0 } } }

/-- The PPU after the body of the loop of `EvaluateSprites` has stored the sprite `i`, whose
pattern row is `pattern`, in the entry `SpriteCount` of the sprite buffer. -/
def storeSprite (p : NES.RP2C02) (i pattern : Nat) : NES.RP2C02 :=
  let sprCount := p.m_state.VCache.SpriteCount
  let a := p.VRAM.OAM (4 * i + 2)
  let x := p.VRAM.OAM (4 * i + 3)
  let p := p.setBufferSpr sprCount { p.m_state.VCache.BufferSpr sprCount.toNat with
    PositionX := x
    Palette := ((a &&& 3) + 4) % 256
    Priority := if (a &&& 0x20) != 0 then 0x01 else 0x00 }
  let p := p.setBufferSpr sprCount { p.m_state.VCache.BufferSpr sprCount.toNat with
    RowLSB := pattern &&& 0x00FF
    RowMSB := (pattern >>> 8) &&& 0x00FF
    IsSpriteZero := i == 0 }
  { p with m_state := { p.m_state with VCache := { p.m_state.VCache with
    SpriteCount := sprCount + 1 } } }

/-- The first `n` calls of `APU::UpdateFrameCounter`: the APU afterwards and, call by
call, the signals emitted. -/
def frameTicks : Nat → NES.APU → NES.APU × List (List Int)
  | 0, u => (u, [])
  | n + 1, u =>
    let r := frameTicks n u
    let t := r.1.UpdateFrameCounter
    (t.1, r.2 ++ [t.2])

/-- The values of `FrameCounter.Count` after each of the first `n` calls of
`UpdateFrameCounter`. -/
def frameCounts (n : Nat) (u : NES.APU) : List Int :=
  (List.range n).map fun k => (frameTicks (k + 1) u).1.FrameCounter.Count

/-- The length counter of the triangle channel after each of the first `n` calls of
`UpdateFrameCounter`. -/
def triangleLengths (n : Nat) (u : NES.APU) : List Nat :=
  (List.range n).map fun k => (frameTicks (k + 1) u).1.ChTriangle.LengthCounter

/-- The constructed APU after the bus signal `signalId` (which sets the mode and the IRQ
inhibit flag of the frame counter), with 10 in the length counter of the triangle
channel. -/
def frameProbe (signalId : Int) : NES.APU :=
  { (NES.APU.construct.OnBusSignal signalId) with ChTriangle := { LengthCounter := 10 } }

/-! ## Bit-level lemmas -/

theorem Flag.val_eq (f : Flag) : f.val = 2 ^ f.bit := by cases f <;> rfl

theorem Flag.bit_lt (f : Flag) : f.bit < 8 := by cases f <;> decide

theorem Flag.bit_Carry : Flag.Carry.bit = 0 := rfl

theorem Flag.bit_Zero : Flag.Zero.bit = 1 := rfl

theorem Flag.bit_InterruptDisable : Flag.InterruptDisable.bit = 2 := rfl

theorem Flag.bit_DecimalMode : Flag.DecimalMode.bit = 3 := rfl

theorem Flag.bit_Break : Flag.Break.bit = 4 := rfl

theorem Flag.bit_Expansion : Flag.Expansion.bit = 5 := rfl

theorem Flag.bit_Overflow : Flag.Overflow.bit = 6 := rfl

theorem Flag.bit_Negative : Flag.Negative.bit = 7 := rfl

theorem and_two_pow_bne (x j : Nat) : ((x &&& 2 ^ j) != 0) = x.testBit j := by
  rw [Nat.and_two_pow]
  cases h : x.testBit j <;> simp [h]

theorem and_two_pow_beq (x j : Nat) : ((x &&& 2 ^ j) == 0) = !x.testBit j := by
  rw [Nat.and_two_pow]
  cases h : x.testBit j <;> simp [h]

theorem testBit_bitNot (x j : Nat) :
    (bitNot x).testBit j = (decide (j < 32) ^^ x.testBit j) := by
  unfold bitNot
  rw [Nat.testBit_xor, show (0xFFFFFFFF : Nat) = 2 ^ 32 - 1 from rfl,
    Nat.testBit_two_pow_sub_one]

theorem testBit_mod_256 (x j : Nat) :
    (x % 256).testBit j = (decide (j < 8) && x.testBit j) := by
  rw [show (256 : Nat) = 2 ^ 8 from rfl, Nat.testBit_mod_two_pow]

theorem testBit7_eq (x : Nat) : x.testBit 7 = decide (128 ≤ x % 256) := by
  rw [Nat.testBit_to_div_mod, show (2 : Nat) ^ 7 = 128 from rfl]
  congr 1
  apply propext
  omega

theorem testBit_setP (p : Nat) (f : Flag) (b : Bool) (j : Nat) :
    (setP p f b).testBit j = (decide (j < 8) && (if j = f.bit then b else p.testBit j)) := by
  have hf := f.bit_lt
  unfold setP
  cases b
  · simp only [Bool.false_eq_true, ↓reduceIte, testBit_mod_256, Nat.testBit_and, testBit_bitNot,
      Flag.val_eq, Nat.testBit_two_pow]
    by_cases hj : j = f.bit
    · subst hj; simp; omega
    · have : ¬ f.bit = j := fun h => hj h.symm
      by_cases h8 : j < 8
      · have : j < 32 := by omega
        simp [*]
      · simp [*]
  · simp only [↓reduceIte, testBit_mod_256, Nat.testBit_or, Flag.val_eq, Nat.testBit_two_pow]
    by_cases hj : j = f.bit
    · subst hj; simp
    · have : ¬ f.bit = j := fun h => hj h.symm
      simp [*]

set_option maxRecDepth 100000 in
theorem and_FF00_bne (t : Nat) (h : t < 512) : ((t &&& 0xFF00) != 0) = decide (t > 255) := by
  revert t
  decide

/-- The overflow expression of `ADC` is signed overflow of the 8-bit addition. -/
theorem adc_overflow (a m cin : Nat) (ha : a < 256) (hm : m < 256) (hc : cin ≤ 1) :
    ((((bitNot (a ^^^ m)) &&& (a ^^^ ((a + m + cin) % 65536))) &&& 0x0080) != 0)
      = decide (toSigned a + toSigned m + cin < -128 ∨ 127 < toSigned a + toSigned m + cin) := by
  have e : (0x0080 : Nat) = 2 ^ 7 := rfl
  have ht : (a + m + cin) % 65536 = a + m + cin := Nat.mod_eq_of_lt (by omega)
  rw [e, and_two_pow_bne, Nat.testBit_and, testBit_bitNot, Nat.testBit_xor, Nat.testBit_xor, ht,
    testBit7_eq a, testBit7_eq m, testBit7_eq (a + m + cin)]
  rw [Nat.mod_eq_of_lt ha, Nat.mod_eq_of_lt hm]
  unfold toSigned
  by_cases h1 : 128 ≤ a <;> by_cases h2 : 128 ≤ m <;>
    by_cases h3 : 128 ≤ (a + m + cin) % 256 <;>
    simp only [h1, h2, h3, decide_True, decide_False, Bool.xor_true, Bool.xor_false,
      Bool.true_xor, Bool.false_xor, Bool.not_true, Bool.not_false, Bool.and_true,
      Bool.and_false, Bool.true_and, Bool.false_and, show decide (7 < 32) = true from rfl] <;>
    symm <;> simp only [decide_eq_true_eq, decide_eq_false_iff_not] <;>
    split_ifs <;> omega

/-! ## Lemmas on the CPU primitives -/

section Primitives

open MOS6502 InstructionHandler

variable {β : Type}

theorem CheckFlag_eq (c : MOS6502 β) (f : Flag) : CheckFlag c f = c.P.testBit f.bit := by
  unfold CheckFlag
  rw [Flag.val_eq, and_two_pow_bne]

theorem SetFlagTo_eq (c : MOS6502 β) (f : Flag) (b : Bool) :
    SetFlagTo c f b = { c with P := setP c.P f b } := by
  unfold SetFlagTo setP
  cases b <;> rfl

theorem SetFlag_eq (c : MOS6502 β) (f : Flag) :
    SetFlag c f = { c with P := setP c.P f true } := rfl

theorem ClearFlag_eq (c : MOS6502 β) (f : Flag) :
    ClearFlag c f = { c with P := setP c.P f false } := rfl

theorem Fetch_fst_lt (bus : BusAccess β) (c : MOS6502 β) : (Fetch bus c).1 < 256 := by
  unfold Fetch Read
  split
  · exact Nat.mod_lt _ (by decide)
  · exact Nat.mod_lt _ (by decide)

theorem Fetch_P (bus : BusAccess β) (c : MOS6502 β) : (Fetch bus c).2.P = c.P := by
  unfold Fetch Read
  split <;> rfl

theorem Fetch_A (bus : BusAccess β) (c : MOS6502 β) : (Fetch bus c).2.A = c.A := by
  unfold Fetch Read
  split <;> rfl

theorem Fetch_snd (bus : BusAccess β) (c : MOS6502 β) :
    (Fetch bus c).2 = { c with BUS := (Fetch bus c).2.BUS,
                               m_cacheFetchedData := (Fetch bus c).2.m_cacheFetchedData } := by
  unfold Fetch Read
  split <;> rfl

@[simp] theorem Fetch_X (bus : BusAccess β) (c : MOS6502 β) :
    (Fetch bus c).2.X = c.X := by
  rw [Fetch_snd]

@[simp] theorem Fetch_Y (bus : BusAccess β) (c : MOS6502 β) :
    (Fetch bus c).2.Y = c.Y := by
  rw [Fetch_snd]

@[simp] theorem Fetch_PC (bus : BusAccess β) (c : MOS6502 β) :
    (Fetch bus c).2.PC = c.PC := by
  rw [Fetch_snd]

@[simp] theorem Fetch_S (bus : BusAccess β) (c : MOS6502 β) :
    (Fetch bus c).2.S = c.S := by
  rw [Fetch_snd]

@[simp] theorem Fetch_m_opcode (bus : BusAccess β) (c : MOS6502 β) :
    (Fetch bus c).2.m_opcode = c.m_opcode := by
  rw [Fetch_snd]

@[simp] theorem Fetch_m_cacheAbsoluteWorkingAddress (bus : BusAccess β) (c : MOS6502 β) :
    (Fetch bus c).2.m_cacheAbsoluteWorkingAddress = c.m_cacheAbsoluteWorkingAddress := by
  rw [Fetch_snd]

@[simp] theorem Fetch_m_doFetch (bus : BusAccess β) (c : MOS6502 β) :
    (Fetch bus c).2.m_doFetch = c.m_doFetch := by
  rw [Fetch_snd]

@[simp] theorem Fetch_m_additionalCyclesNeeded (bus : BusAccess β) (c : MOS6502 β) :
    (Fetch bus c).2.m_additionalCyclesNeeded = c.m_additionalCyclesNeeded := by
  rw [Fetch_snd]

@[simp] theorem Fetch_m_didIRQ (bus : BusAccess β) (c : MOS6502 β) :
    (Fetch bus c).2.m_didIRQ = c.m_didIRQ := by
  rw [Fetch_snd]

@[simp] theorem Fetch_m_didNMI (bus : BusAccess β) (c : MOS6502 β) :
    (Fetch bus c).2.m_didNMI = c.m_didNMI := by
  rw [Fetch_snd]

@[simp] theorem Fetch_m_remainingCycles (bus : BusAccess β) (c : MOS6502 β) :
    (Fetch bus c).2.m_remainingCycles = c.m_remainingCycles := by
  rw [Fetch_snd]

@[simp] theorem Fetch_m_decimalModeAvailable (bus : BusAccess β) (c : MOS6502 β) :
    (Fetch bus c).2.m_decimalModeAvailable = c.m_decimalModeAvailable := by
  rw [Fetch_snd]

@[simp] theorem Fetch_m_cpuCycleCount (bus : BusAccess β) (c : MOS6502 β) :
    (Fetch bus c).2.m_cpuCycleCount = c.m_cpuCycleCount := by
  rw [Fetch_snd]

@[simp] theorem Fetch_m_irqPending (bus : BusAccess β) (c : MOS6502 β) :
    (Fetch bus c).2.m_irqPending = c.m_irqPending := by
  rw [Fetch_snd]

@[simp] theorem Fetch_m_nmiPending (bus : BusAccess β) (c : MOS6502 β) :
    (Fetch bus c).2.m_nmiPending = c.m_nmiPending := by
  rw [Fetch_snd]

@[simp] theorem Fetch_m_halted (bus : BusAccess β) (c : MOS6502 β) :
    (Fetch bus c).2.m_halted = c.m_halted := by
  rw [Fetch_snd]

set_option maxRecDepth 100000 in
theorem xor_FF_eq (m : Nat) (h : m < 256) : m ^^^ 0x00FF = 255 - m := by
  revert m
  decide

@[simp] theorem Read_A (bus : BusAccess β) (c : MOS6502 β) (a : Nat) :
    (Read bus c a).2.A = c.A := rfl

@[simp] theorem Read_X (bus : BusAccess β) (c : MOS6502 β) (a : Nat) :
    (Read bus c a).2.X = c.X := rfl

@[simp] theorem Read_Y (bus : BusAccess β) (c : MOS6502 β) (a : Nat) :
    (Read bus c a).2.Y = c.Y := rfl

@[simp] theorem Read_PC (bus : BusAccess β) (c : MOS6502 β) (a : Nat) :
    (Read bus c a).2.PC = c.PC := rfl

@[simp] theorem Read_P (bus : BusAccess β) (c : MOS6502 β) (a : Nat) :
    (Read bus c a).2.P = c.P := rfl

@[simp] theorem Read_S (bus : BusAccess β) (c : MOS6502 β) (a : Nat) :
    (Read bus c a).2.S = c.S := rfl

@[simp] theorem Read_m_opcode (bus : BusAccess β) (c : MOS6502 β) (a : Nat) :
    (Read bus c a).2.m_opcode = c.m_opcode := rfl

@[simp] theorem Read_m_cacheAbsoluteWorkingAddress (bus : BusAccess β) (c : MOS6502 β) (a : Nat) :
    (Read bus c a).2.m_cacheAbsoluteWorkingAddress = c.m_cacheAbsoluteWorkingAddress := rfl

@[simp] theorem Read_m_cacheFetchedData (bus : BusAccess β) (c : MOS6502 β) (a : Nat) :
    (Read bus c a).2.m_cacheFetchedData = c.m_cacheFetchedData := rfl

@[simp] theorem Read_m_doFetch (bus : BusAccess β) (c : MOS6502 β) (a : Nat) :
    (Read bus c a).2.m_doFetch = c.m_doFetch := rfl

@[simp] theorem Read_m_additionalCyclesNeeded (bus : BusAccess β) (c : MOS6502 β) (a : Nat) :
    (Read bus c a).2.m_additionalCyclesNeeded = c.m_additionalCyclesNeeded := rfl

@[simp] theorem Read_m_didIRQ (bus : BusAccess β) (c : MOS6502 β) (a : Nat) :
    (Read bus c a).2.m_didIRQ = c.m_didIRQ := rfl

@[simp] theorem Read_m_didNMI (bus : BusAccess β) (c : MOS6502 β) (a : Nat) :
    (Read bus c a).2.m_didNMI = c.m_didNMI := rfl

@[simp] theorem Read_m_remainingCycles (bus : BusAccess β) (c : MOS6502 β) (a : Nat) :
    (Read bus c a).2.m_remainingCycles = c.m_remainingCycles := rfl

@[simp] theorem Read_m_decimalModeAvailable (bus : BusAccess β) (c : MOS6502 β) (a : Nat) :
    (Read bus c a).2.m_decimalModeAvailable = c.m_decimalModeAvailable := rfl

@[simp] theorem Read_m_cpuCycleCount (bus : BusAccess β) (c : MOS6502 β) (a : Nat) :
    (Read bus c a).2.m_cpuCycleCount = c.m_cpuCycleCount := rfl

@[simp] theorem Read_m_irqPending (bus : BusAccess β) (c : MOS6502 β) (a : Nat) :
    (Read bus c a).2.m_irqPending = c.m_irqPending := rfl

@[simp] theorem Read_m_nmiPending (bus : BusAccess β) (c : MOS6502 β) (a : Nat) :
    (Read bus c a).2.m_nmiPending = c.m_nmiPending := rfl

@[simp] theorem Read_m_halted (bus : BusAccess β) (c : MOS6502 β) (a : Nat) :
    (Read bus c a).2.m_halted = c.m_halted := rfl

@[simp] theorem Write_A (bus : BusAccess β) (c : MOS6502 β) (a d : Nat) :
    (Write bus c a d).A = c.A := rfl

@[simp] theorem Write_X (bus : BusAccess β) (c : MOS6502 β) (a d : Nat) :
    (Write bus c a d).X = c.X := rfl

@[simp] theorem Write_Y (bus : BusAccess β) (c : MOS6502 β) (a d : Nat) :
    (Write bus c a d).Y = c.Y := rfl

@[simp] theorem Write_PC (bus : BusAccess β) (c : MOS6502 β) (a d : Nat) :
    (Write bus c a d).PC = c.PC := rfl

@[simp] theorem Write_P (bus : BusAccess β) (c : MOS6502 β) (a d : Nat) :
    (Write bus c a d).P = c.P := rfl

@[simp] theorem Write_S (bus : BusAccess β) (c : MOS6502 β) (a d : Nat) :
    (Write bus c a d).S = c.S := rfl

@[simp] theorem Write_m_opcode (bus : BusAccess β) (c : MOS6502 β) (a d : Nat) :
    (Write bus c a d).m_opcode = c.m_opcode := rfl

@[simp] theorem Write_m_cacheAbsoluteWorkingAddress (bus : BusAccess β) (c : MOS6502 β) (a d : Nat) :
    (Write bus c a d).m_cacheAbsoluteWorkingAddress = c.m_cacheAbsoluteWorkingAddress := rfl

@[simp] theorem Write_m_cacheFetchedData (bus : BusAccess β) (c : MOS6502 β) (a d : Nat) :
    (Write bus c a d).m_cacheFetchedData = c.m_cacheFetchedData := rfl

@[simp] theorem Write_m_doFetch (bus : BusAccess β) (c : MOS6502 β) (a d : Nat) :
    (Write bus c a d).m_doFetch = c.m_doFetch := rfl

@[simp] theorem Write_m_additionalCyclesNeeded (bus : BusAccess β) (c : MOS6502 β) (a d : Nat) :
    (Write bus c a d).m_additionalCyclesNeeded = c.m_additionalCyclesNeeded := rfl

@[simp] theorem Write_m_didIRQ (bus : BusAccess β) (c : MOS6502 β) (a d : Nat) :
    (Write bus c a d).m_didIRQ = c.m_didIRQ := rfl

@[simp] theorem Write_m_didNMI (bus : BusAccess β) (c : MOS6502 β) (a d : Nat) :
    (Write bus c a d).m_didNMI = c.m_didNMI := rfl

@[simp] theorem Write_m_remainingCycles (bus : BusAccess β) (c : MOS6502 β) (a d : Nat) :
    (Write bus c a d).m_remainingCycles = c.m_remainingCycles := rfl

@[simp] theorem Write_m_decimalModeAvailable (bus : BusAccess β) (c : MOS6502 β) (a d : Nat) :
    (Write bus c a d).m_decimalModeAvailable = c.m_decimalModeAvailable := rfl

@[simp] theorem Write_m_cpuCycleCount (bus : BusAccess β) (c : MOS6502 β) (a d : Nat) :
    (Write bus c a d).m_cpuCycleCount = c.m_cpuCycleCount := rfl

@[simp] theorem Write_m_irqPending (bus : BusAccess β) (c : MOS6502 β) (a d : Nat) :
    (Write bus c a d).m_irqPending = c.m_irqPending := rfl

@[simp] theorem Write_m_nmiPending (bus : BusAccess β) (c : MOS6502 β) (a d : Nat) :
    (Write bus c a d).m_nmiPending = c.m_nmiPending := rfl

@[simp] theorem Write_m_halted (bus : BusAccess β) (c : MOS6502 β) (a d : Nat) :
    (Write bus c a d).m_halted = c.m_halted := rfl

@[simp] theorem ReadPCInc_A (bus : BusAccess β) (c : MOS6502 β) :
    (ReadPCInc bus c).2.A = c.A := rfl

@[simp] theorem ReadPCInc_X (bus : BusAccess β) (c : MOS6502 β) :
    (ReadPCInc bus c).2.X = c.X := rfl

@[simp] theorem ReadPCInc_Y (bus : BusAccess β) (c : MOS6502 β) :
    (ReadPCInc bus c).2.Y = c.Y := rfl

@[simp] theorem ReadPCInc_P (bus : BusAccess β) (c : MOS6502 β) :
    (ReadPCInc bus c).2.P = c.P := rfl

@[simp] theorem ReadPCInc_S (bus : BusAccess β) (c : MOS6502 β) :
    (ReadPCInc bus c).2.S = c.S := rfl

@[simp] theorem ReadPCInc_m_opcode (bus : BusAccess β) (c : MOS6502 β) :
    (ReadPCInc bus c).2.m_opcode = c.m_opcode := rfl

@[simp] theorem ReadPCInc_m_cacheAbsoluteWorkingAddress (bus : BusAccess β) (c : MOS6502 β) :
    (ReadPCInc bus c).2.m_cacheAbsoluteWorkingAddress = c.m_cacheAbsoluteWorkingAddress := rfl

@[simp] theorem ReadPCInc_m_cacheFetchedData (bus : BusAccess β) (c : MOS6502 β) :
    (ReadPCInc bus c).2.m_cacheFetchedData = c.m_cacheFetchedData := rfl

@[simp] theorem ReadPCInc_m_doFetch (bus : BusAccess β) (c : MOS6502 β) :
    (ReadPCInc bus c).2.m_doFetch = c.m_doFetch := rfl

@[simp] theorem ReadPCInc_m_additionalCyclesNeeded (bus : BusAccess β) (c : MOS6502 β) :
    (ReadPCInc bus c).2.m_additionalCyclesNeeded = c.m_additionalCyclesNeeded := rfl

@[simp] theorem ReadPCInc_m_didIRQ (bus : BusAccess β) (c : MOS6502 β) :
    (ReadPCInc bus c).2.m_didIRQ = c.m_didIRQ := rfl

@[simp] theorem ReadPCInc_m_didNMI (bus : BusAccess β) (c : MOS6502 β) :
    (ReadPCInc bus c).2.m_didNMI = c.m_didNMI := rfl

@[simp] theorem ReadPCInc_m_remainingCycles (bus : BusAccess β) (c : MOS6502 β) :
    (ReadPCInc bus c).2.m_remainingCycles = c.m_remainingCycles := rfl

@[simp] theorem ReadPCInc_m_decimalModeAvailable (bus : BusAccess β) (c : MOS6502 β) :
    (ReadPCInc bus c).2.m_decimalModeAvailable = c.m_decimalModeAvailable := rfl

@[simp] theorem ReadPCInc_m_cpuCycleCount (bus : BusAccess β) (c : MOS6502 β) :
    (ReadPCInc bus c).2.m_cpuCycleCount = c.m_cpuCycleCount := rfl

@[simp] theorem ReadPCInc_m_irqPending (bus : BusAccess β) (c : MOS6502 β) :
    (ReadPCInc bus c).2.m_irqPending = c.m_irqPending := rfl

@[simp] theorem ReadPCInc_m_nmiPending (bus : BusAccess β) (c : MOS6502 β) :
    (ReadPCInc bus c).2.m_nmiPending = c.m_nmiPending := rfl

@[simp] theorem ReadPCInc_m_halted (bus : BusAccess β) (c : MOS6502 β) :
    (ReadPCInc bus c).2.m_halted = c.m_halted := rfl

@[simp] theorem ReadPCInc_PC (bus : BusAccess β) (c : MOS6502 β) :
    (ReadPCInc bus c).2.PC = (c.PC + 1) % 65536 := rfl

@[simp] theorem Read_BUS (bus : BusAccess β) (c : MOS6502 β) (a : Nat) :
    (Read bus c a).2.BUS = (bus.ReadFromBus c.BUS (a % 65536)).2 := rfl

@[simp] theorem Read_fst (bus : BusAccess β) (c : MOS6502 β) (a : Nat) :
    (Read bus c a).1 = (bus.ReadFromBus c.BUS (a % 65536)).1 % 256 := rfl

@[simp] theorem Write_BUS (bus : BusAccess β) (c : MOS6502 β) (a d : Nat) :
    (Write bus c a d).BUS = bus.WriteToBus c.BUS (a % 65536) (d % 256) := rfl

@[simp] theorem ReadPCInc_BUS (bus : BusAccess β) (c : MOS6502 β) :
    (ReadPCInc bus c).2.BUS = (bus.ReadFromBus c.BUS (c.PC % 65536)).2 := rfl

@[simp] theorem ReadPCInc_fst (bus : BusAccess β) (c : MOS6502 β) :
    (ReadPCInc bus c).1 = (bus.ReadFromBus c.BUS (c.PC % 65536)).1 % 256 := rfl

theorem word_of_bytes (h l : Nat) (hh : h < 256) (hl : l < 256) :
    (h <<< 8 ||| l) < 65536 := by
  have h1 : h <<< 8 < 2 ^ 16 := by rw [Nat.shiftLeft_eq]; omega
  have h2 : l < 2 ^ 16 := by omega
  exact Nat.or_lt_two_pow h1 h2

theorem shl8_lt (h : Nat) (hh : h < 256) : h <<< 8 < 65536 := by
  rw [Nat.shiftLeft_eq]; omega

set_option maxRecDepth 1000000 in
theorem OpcodeMap_opcodes : OpcodeMap.map Instruction.Opcode = List.range 256 := by
  decide

theorem OpcodeMap_length : OpcodeMap.length = 256 := by
  have h := congrArg List.length OpcodeMap_opcodes
  simpa using h

theorem OpcodeMapAt_eq (k : Nat) (hk : k < 256) :
    OpcodeMap.get? k = some (OpcodeMapAt k) ∧ (OpcodeMapAt k).Opcode = k := by
  have hl : k < OpcodeMap.length := by rw [OpcodeMap_length]; exact hk
  have h1 : OpcodeMap[k]? = some OpcodeMap[k] := List.getElem?_eq_getElem hl
  have h2 : OpcodeMapAt k = OpcodeMap[k] := by
    unfold OpcodeMapAt
    rw [Nat.mod_eq_of_lt hk, List.getD_eq_getElem?_getD, h1]
    rfl
  have h3 : (OpcodeMap.map Instruction.Opcode)[k]? = some k := by
    rw [OpcodeMap_opcodes]
    exact List.getElem?_range hk
  rw [List.getElem?_map, h1] at h3
  refine ⟨?_, ?_⟩
  · rw [List.get?_eq_getElem?, h1, h2]
  · rw [h2]
    simpa using h3

theorem testBit5_setP (p : Nat) (f : Flag) (b : Bool) :
    (setP p f b).testBit 5 = (if f = Flag.Expansion then b else p.testBit 5) := by
  rw [testBit_setP]
  cases f <;> simp [Flag.bit]

theorem addressing_P (bus : BusAccess β) (m : AddressingFunction) (c : MOS6502 β) :
    (CallAddressingFunction bus m c).P = c.P := by
  cases m <;>
    simp only [CallAddressingFunction, IMP, IMM, ACC, ZP0, ZPX, ZPY, REL, ABS, ABX, ABY, IND,
      IZX, IZY] <;>
    (try split_ifs) <;> simp only [ReadPCInc_P, Read_P]

theorem operation_bit5 (bus : BusAccess β) (o : OperationFunction) (c : MOS6502 β)
    (h : c.P.testBit 5 = true) :
    (CallOperationFunction bus o c).P.testBit 5 = true := by
  cases o <;>
    simp only [CallOperationFunction, XXX, NOP, BRK, RTI, LDA, LDX, LDY, STA, STX, STY, TAX, TAY,
      TXA, TYA, TSX, TXS, PHA, PHP, PLA, PLP, AND, EOR, ORA, BIT, ADC, SBC, CMP, CPX, CPY, INC,
      INX, INY, DEC, DEX, DEY, ASL, LSR, ROL, ROR, JMP, JSR, RTS, BCC, BCS, BEQ, BMI, BNE, BPL,
      BVC, BVS, CLC, CLD, CLI, CLV, SEC, SED, SEI, SetFlagTo_eq, SetFlag_eq, ClearFlag_eq] <;>
    (try split_ifs) <;>
    simp only [Read_P, Write_P, Fetch_P, testBit5_setP, h, if_true, if_false, reduceCtorEq]

theorem execute_bit5 (bus : BusAccess β) (c : MOS6502 β) (h : c.P.testBit 5 = true) :
    (ExecuteNextInstruction bus c).P.testBit 5 = true := by
  unfold ExecuteNextInstruction
  apply operation_bit5
  rw [addressing_P]
  exact h

theorem irq_bit5 (bus : BusAccess β) (c : MOS6502 β) (h : c.P.testBit 5 = true) :
    (IRQ bus c).P.testBit 5 = true := by
  unfold IRQ
  split_ifs
  · simp [SetFlag_eq, ClearFlag_eq, Read, Write, testBit5_setP, h]
  · exact h

theorem nmi_bit5 (bus : BusAccess β) (c : MOS6502 β) (h : c.P.testBit 5 = true) :
    (NMI bus c).P.testBit 5 = true := by
  unfold NMI
  simp [SetFlag_eq, ClearFlag_eq, Read, Write, testBit5_setP, h]

theorem Cycle_P (bus : BusAccess β) (c : MOS6502 β) :
    (Cycle bus c).P =
      if c.m_halted then c.P
      else if c.m_remainingCycles ≤ 0 then
        if c.m_nmiPending then (NMI bus { c with m_nmiPending := false }).P
        else if c.m_irqPending then (IRQ bus { c with m_irqPending := false }).P
        else (ExecuteNextInstruction bus c).P
      else c.P := by
  unfold MOS6502.Cycle
  by_cases h1 : c.m_halted = true <;> by_cases h2 : c.m_remainingCycles ≤ 0 <;>
    by_cases h3 : c.m_nmiPending = true <;> by_cases h4 : c.m_irqPending = true <;>
    simp only [h1, h2, h3, h4, if_true, if_false, Bool.false_eq_true]

theorem cycle_bit5 (bus : BusAccess β) (c : MOS6502 β) (h : c.P.testBit 5 = true) :
    (Cycle bus c).P.testBit 5 = true := by
  rw [Cycle_P]
  split_ifs
  · exact h
  · exact nmi_bit5 bus _ h
  · exact irq_bit5 bus _ h
  · exact execute_bit5 bus _ h
  · exact h

theorem reachable_bit5 (bus : BusAccess β) (c : MOS6502 β) (h : Reachable bus c) :
    c.P.testBit 5 = true := by
  induction h with
  | resetTo c pc => show Nat.testBit 0x24 5 = true; decide
  | reset c => show Nat.testBit 0x24 5 = true; decide
  | execute _ ih => exact execute_bit5 bus _ ih
  | irq _ ih => exact irq_bit5 bus _ ih
  | nmi _ ih => exact nmi_bit5 bus _ ih
  | cycle _ ih => exact cycle_bit5 bus _ ih
  | signal id _ ih =>
    unfold OnBusSignal GenerateInterrupt GenerateNonMaskableInterrupt
    split_ifs <;> exact ih
  | decimal a _ ih => exact ih
  | devices b _ ih => exact ih


theorem setP_lt (p : Nat) (f : Flag) (b : Bool) : setP p f b < 256 := by
  unfold setP
  split <;> exact Nat.mod_lt _ (by decide)

theorem setP_mod (p : Nat) (f : Flag) (b : Bool) : setP p f b % 256 = setP p f b :=
  Nat.mod_eq_of_lt (setP_lt p f b)

theorem setP_idem (p : Nat) (f : Flag) (b : Bool) : setP (setP p f b) f b = setP p f b := by
  apply Nat.eq_of_testBit_eq
  intro j
  simp only [testBit_setP]
  by_cases hj : j = f.bit <;> by_cases h8 : j < 8 <;> simp [hj, h8]

theorem bytes_of_word (w : Nat) : (w / 256 % 256) <<< 8 ||| w % 256 = w % 65536 := by
  rw [Nat.shiftLeft_eq, Nat.mul_comm,
    ← Nat.mul_add_lt_is_or (show w % 256 < 2 ^ 8 from Nat.mod_lt _ (by decide))]
  omega

theorem OpcodeMapAt_6C : OpcodeMapAt 0x6C = ⟨"JMP", 0x6c, 5, .IND, .JMP⟩ := by decide

theorem OpcodeMapAt_48 : OpcodeMapAt 0x48 = ⟨"PHA", 0x48, 3, .IMP, .PHA⟩ := by decide

theorem or_0100 (S : Nat) (h : S < 256) : 0x0100 ||| S = 0x0100 + S := by
  have := Nat.mul_add_lt_is_or (show S < 2 ^ 8 from h) 1
  simpa using this.symm

set_option maxRecDepth 100000 in
theorem status_on_interrupt (p : Nat) (h : p < 256) :
    setP (setP p Flag.Break false) Flag.InterruptDisable true = (p &&& 0xEF) ||| 0x04 := by
  revert p
  decide

theorem high_byte (w : Nat) (h : w < 65536) : ((w >>> 8) &&& 0x00FF) % 256 = w / 256 := by
  rw [show (0x00FF : Nat) = 2 ^ 8 - 1 from rfl, Nat.and_pow_two_sub_one_eq_mod,
    Nat.shiftRight_eq_div_pow]
  omega

theorem low_byte (w : Nat) : (w &&& 0x00FF) % 256 = w % 256 := by
  rw [show (0x00FF : Nat) = 2 ^ 8 - 1 from rfl, Nat.and_pow_two_sub_one_eq_mod]
  omega

end Primitives

/-! ## Lemmas on the cartridge, the bus and the console -/

section DeviceLemmas

open NES

theorem sizeMask_pow (k : Nat) (hk2 : k < 32) (x : Nat) :
    x &&& Mapper000.sizeMask (2 ^ k) = x % 2 ^ k := by
  have h1 : (1:Nat) ≤ 2 ^ k := Nat.one_le_two_pow
  have h2 : 2 ^ k < 4294967296 := by
    have : 2 ^ k < 2 ^ 32 := Nat.pow_lt_pow_right (by decide) hk2
    simpa using this
  have : Mapper000.sizeMask (2 ^ k) = 2 ^ k - 1 := by
    unfold Mapper000.sizeMask
    omega
  rw [this, Nat.and_pow_two_sub_one_eq_mod]

theorem vectorAt_of_lt (v : List Nat) (i : Nat) (h : i < v.length) :
    vectorAt v i = Except.ok (v.getD i 0) := by
  unfold vectorAt
  rw [List.getElem?_eq_getElem h]
  simp [List.getD, List.getElem?_eq_getElem h]

theorem MapBusAddress_read_rom (m : Mapper) (a : Nat) (h1 : 0x8000 ≤ a) (h2 : a ≤ 0xFFFF) :
    Mapper000.MapBusAddress m a false =
      { Target := Mapper.Memory.PRGROM, Offset := (a - 0x8000) &&& Mapper000.sizeMask m.m_prgromSize } := by
  unfold Mapper000.MapBusAddress
  have h3 : ¬ a ≤ 0x7FFF := by omega
  simp [h1, h2, h3]

theorem MapBusAddress_write_rom (m : Mapper) (a : Nat) (h1 : 0x8000 ≤ a) :
    Mapper000.MapBusAddress m a true = { Target := Mapper.Memory.NONE, Offset := 0 } := by
  unfold Mapper000.MapBusAddress
  have h3 : ¬ a ≤ 0x7FFF := by omega
  simp [h3]

theorem MapPPUAddress_write (m : Mapper) (a : Nat) :
    Mapper000.MapPPUAddress m a true = { Target := Mapper.Memory.NONE, Offset := 0 } := by
  unfold Mapper000.MapPPUAddress
  simp


theorem nromCartridge_length :
    nromCartridge.m_PRGROM.length = nromCartridge.m_mapper.m_prgromSize := by
  simp only [nromCartridge, List.length_map, List.length_range]


namespace NESConsole
variable {α : Type}



theorem belongs_iff {σ : Type} (d : Bus.Device σ) (a : Nat) :
    Bus.CheckAddressBelongsTo d a = true ↔
      d.m_addressableRange.Min ≤ a ∧ a ≤ d.m_addressableRange.Max := by
  simp [Bus.CheckAddressBelongsTo, Bus.Device.GetAddressableRange]

theorem find_wired (apu ctr : Bus.Device (Devices α)) (a : Nat) (ha : a ≤ 0x3FFF) :
    (addressableDevices apu ctr).find? (fun device => Bus.CheckAddressBelongsTo device a) =
      some (owner a) := by
  unfold owner
  have r1 : Bus.CheckAddressBelongsTo (ramDevice : Bus.Device (Devices α)) a = decide (a ≤ 0x7FF) := by
    rw [Bool.eq_iff_iff, belongs_iff]; simp [ramDevice, RAM.device]
  have r2 : Bus.CheckAddressBelongsTo (rmmDevice : Bus.Device (Devices α)) a = decide (0x800 ≤ a ∧ a ≤ 0x1FFF) := by
    rw [Bool.eq_iff_iff, belongs_iff]; simp [rmmDevice, MemoryMirror.device, MemoryMirror.construct]
  have r3 : Bus.CheckAddressBelongsTo (casDevice : Bus.Device (Devices α)) a = decide (0x4020 ≤ a ∧ a ≤ 0xFFFF) := by
    rw [Bool.eq_iff_iff, belongs_iff]; simp [casDevice, CartridgeSlot.device]
  have r4 : Bus.CheckAddressBelongsTo (ppuDevice : Bus.Device (Devices α)) a = decide (0x2000 ≤ a ∧ a ≤ 0x2007) := by
    rw [Bool.eq_iff_iff, belongs_iff]; simp [ppuDevice, RP2C02.device]
  have r5 : Bus.CheckAddressBelongsTo (pmmDevice : Bus.Device (Devices α)) a = decide (0x2008 ≤ a ∧ a ≤ 0x3FFF) := by
    rw [Bool.eq_iff_iff, belongs_iff]; simp [pmmDevice, MemoryMirror.device, MemoryMirror.construct]
  unfold addressableDevices
  simp only [List.find?_cons, r1, r2, r3, r4, r5]
  by_cases h1 : a ≤ 0x7FF
  · simp [h1]
  · by_cases h2 : a ≤ 0x1FFF
    · have : 0x800 ≤ a := by omega
      simp [h1, h2, this]
    · by_cases h3 : a ≤ 0x2007
      · have : 0x2000 ≤ a := by omega
        have h4 : ¬ 0x4020 ≤ a := by omega
        simp [h1, h2, h3, h4, this]
      · have : 0x2008 ≤ a := by omega
        have h4 : ¬ 0x4020 ≤ a := by omega
        simp [h1, h2, h3, h4, this, ha]


theorem range_ram : (ramDevice : Bus.Device (Devices α)).m_addressableRange = AddressRange.mk 0 0x7FF := rfl
theorem range_rmm : (rmmDevice : Bus.Device (Devices α)).m_addressableRange = AddressRange.mk 0x800 0x1FFF := rfl
theorem range_cas : (casDevice : Bus.Device (Devices α)).m_addressableRange = AddressRange.mk 0x4020 0xFFFF := rfl
theorem range_ppu : (ppuDevice : Bus.Device (Devices α)).m_addressableRange = AddressRange.mk 0x2000 0x2007 := rfl
theorem range_pmm : (pmmDevice : Bus.Device (Devices α)).m_addressableRange = AddressRange.mk 0x2008 0x3FFF := rfl

theorem range_apu (apu : Bus.Device (Devices α)) : (apuDevice apu).m_addressableRange = AddressRange.mk 0x4000 0x4015 := rfl
theorem range_ctr (ctr : Bus.Device (Devices α)) : (ctrDevice ctr).m_addressableRange = AddressRange.mk 0x4016 0x4017 := rfl

theorem bind_ok {ε β γ : Type} (a : β) (f : β → Except ε γ) :
    (Except.ok a : Except ε β).bind f = f a := rfl

theorem construct_step {σ : Type} (devs non : List (Bus.Device σ)) (cache : Option (Bus.Device σ))
    (d : Bus.Device σ)
    (h1 : d.m_addressableRange.Min ≤ d.m_addressableRange.Max)
    (h2 : d.m_isAddressable = true)
    (h3 : ∀ e ∈ devs,
      (d.m_addressableRange.Min < e.m_addressableRange.Min ∨
        e.m_addressableRange.Max < d.m_addressableRange.Min) ∧
      (d.m_addressableRange.Max < e.m_addressableRange.Min ∨
        e.m_addressableRange.Max < d.m_addressableRange.Max)) :
    Bus.Device.construct (Bus.mk devs non cache) d = Except.ok (Bus.mk (devs ++ [d]) non (some d)) := by
  have h4 : Bus.CheckRangeAvailable (Bus.mk devs non cache) d.m_addressableRange = true := by
    simp only [Bus.CheckRangeAvailable, Bool.not_eq_true', List.any_eq_false,
      Bus.CheckAddressRangeConflict, Bus.Device.GetAddressableRange]
    intro e he
    have := h3 e he
    simp only [Bool.or_eq_true, Bool.and_eq_true, decide_eq_true_eq, ge_iff_le]
    omega
  unfold Bus.Device.construct Bus.ConnectDevice
  rw [if_neg (by omega)]
  simp only [Bus.Device.IsAddressable, Bus.Device.GetAddressableRange, h2, h4]
  rfl

theorem connectDevices_eq (apu ctr : Bus.Device (Devices α))
    (non : List (Bus.Device (Devices α))) (cache : Option (Bus.Device (Devices α))) :
    connectDevices apu ctr (Bus.mk [] non cache) =
      Except.ok (Bus.mk (addressableDevices apu ctr) non (some (ctrDevice ctr))) := by
  unfold connectDevices
  rw [construct_step [] non cache ramDevice (by rw [range_ram]; decide) rfl (by simp)]
  rw [bind_ok]
  rw [construct_step _ non _ rmmDevice (by rw [range_rmm]; decide) rfl
    (by simp [range_ram, range_rmm])]
  rw [bind_ok]
  rw [construct_step _ non _ casDevice (by rw [range_cas]; decide) rfl
    (by simp [range_ram, range_rmm, range_cas])]
  rw [bind_ok]
  rw [construct_step _ non _ ppuDevice (by rw [range_ppu]; decide) rfl
    (by simp [range_ram, range_rmm, range_cas, range_ppu])]
  rw [bind_ok]
  rw [construct_step _ non _ pmmDevice (by rw [range_pmm]; decide) rfl
    (by simp [range_ram, range_rmm, range_cas, range_ppu, range_pmm])]
  rw [bind_ok]
  rw [construct_step _ non _ (apuDevice apu) (by rw [range_apu]; decide) rfl
    (by simp [range_ram, range_rmm, range_cas, range_ppu, range_pmm, range_apu])]
  rw [bind_ok]
  rw [construct_step _ non _ (ctrDevice ctr) (by rw [range_ctr]; decide) rfl
    (by simp [range_ram, range_rmm, range_cas, range_ppu, range_pmm, range_apu, range_ctr])]
  rfl


theorem owner_mem (apu ctr : Bus.Device (Devices α)) (a : Nat) :
    owner a ∈ addressableDevices apu ctr := by
  unfold owner addressableDevices
  split_ifs <;> simp

theorem belongs_wired (apu ctr : Bus.Device (Devices α)) (d : Bus.Device (Devices α))
    (hmem : d ∈ addressableDevices apu ctr) (a : Nat) (ha : a ≤ 0x3FFF)
    (hb : Bus.CheckAddressBelongsTo d a = true) : d = owner a := by
  rw [belongs_iff] at hb
  unfold addressableDevices at hmem
  simp only [List.mem_cons, List.mem_singleton, List.not_mem_nil, or_false] at hmem
  unfold owner
  rcases hmem with h | h | h | h | h | h | h <;> subst h
  · rw [range_ram] at hb; simp only at hb; rw [if_pos hb.2]
  · rw [range_rmm] at hb; simp only at hb
    rw [if_neg (by omega), if_pos hb.2]
  · rw [range_cas] at hb; simp only at hb; omega
  · rw [range_ppu] at hb; simp only at hb
    rw [if_neg (by omega), if_neg (by omega), if_pos hb.2]
  · rw [range_pmm] at hb; simp only at hb
    rw [if_neg (by omega), if_neg (by omega), if_neg (by omega)]
  · rw [range_apu] at hb; simp only at hb; omega
  · rw [range_ctr] at hb; simp only at hb; omega

theorem GetDeviceAt_wired (apu ctr : Bus.Device (Devices α)) (b : Bus (Devices α))
    (h : Wired apu ctr b) (a : Nat) (ha : a ≤ 0x3FFF) :
    ∃ b', Wired apu ctr b' ∧ Bus.GetDeviceAt b a = Except.ok (some (owner a), b') := by
  obtain ⟨hd, d, hmem, hc⟩ := h
  unfold Bus.GetDeviceAt
  rw [hc]
  simp only []
  by_cases hb : Bus.CheckAddressBelongsTo d a = true
  · rw [if_pos hb, belongs_wired apu ctr d hmem a ha hb]
    refine ⟨b, ⟨hd, owner a, owner_mem apu ctr a, ?_⟩, rfl⟩
    rw [hc, belongs_wired apu ctr d hmem a ha hb]
  · rw [if_neg hb, hd, find_wired apu ctr a ha]
    exact ⟨Bus.mk (addressableDevices apu ctr) b.m_nonAddressableDevices (some (owner a)),
      ⟨rfl, owner a, owner_mem apu ctr a, rfl⟩, rfl⟩


theorem mirrored_construct {σ : Type} (d : Bus.Device σ) (r : AddressRange) :
    (MemoryMirror.construct d r).m_mirroredDevice = d := rfl

theorem mirror_read {σ : Type} (m : MemoryMirror σ) :
    m.device.ReadFromDevice = m.ReadFromDevice := rfl

theorem mirror_write {σ : Type} (m : MemoryMirror σ) :
    m.device.WriteToDevice = m.WriteToDevice := rfl

theorem mirror_read_eq {σ : Type} (m : MemoryMirror σ) (s : σ) (a : Nat) (peek : Bool) :
    m.ReadFromDevice s a peek = m.m_mirroredDevice.ReadFromDevice s (m.GetMirroredAddress a) false :=
  rfl

theorem mirror_write_eq {σ : Type} (m : MemoryMirror σ) (s : σ) (a d : Nat) :
    m.WriteToDevice s a d = m.m_mirroredDevice.WriteToDevice s (m.GetMirroredAddress a) d :=
  rfl

theorem mirrored_rmm (a : Nat) (h1 : 0x0800 ≤ a) (h2 : a ≤ 0x1FFF) :
    (MemoryMirror.construct (ramDevice : Bus.Device (Devices α))
      (AddressRange.mk 0x0800 0x1FFF)).GetMirroredAddress a = a &&& 0x07FF := by
  have e := Nat.and_pow_two_sub_one_eq_mod ((a + 65536 - 2048) % 65536) 11
  have e2 := Nat.and_pow_two_sub_one_eq_mod a 11
  norm_num at e e2
  simp only [MemoryMirror.GetMirroredAddress, MemoryMirror.construct,
    Bus.Device.GetAddressableRange, range_ram]
  norm_num
  rw [e, e2]
  omega

theorem mirrored_pmm (a : Nat) (h1 : 0x2008 ≤ a) (h2 : a ≤ 0x3FFF) :
    (MemoryMirror.construct (ppuDevice : Bus.Device (Devices α))
      (AddressRange.mk 0x2008 0x3FFF)).GetMirroredAddress a = 0x2000 + (a &&& 7) := by
  have e := Nat.and_pow_two_sub_one_eq_mod ((a + 65536 - 8200) % 65536) 3
  have e2 := Nat.and_pow_two_sub_one_eq_mod a 3
  norm_num at e e2
  simp only [MemoryMirror.GetMirroredAddress, MemoryMirror.construct,
    Bus.Device.GetAddressableRange, range_ppu]
  norm_num
  rw [e, e2]
  omega

theorem ram_read (s : Devices α) (hsize : s.m_ram.m_size = 0x0800) (a : Nat) (ha : a ≤ 0x07FF)
    (peek : Bool) :
    (ramDevice : Bus.Device (Devices α)).ReadFromDevice s a peek =
      Except.ok (s.m_ram.m_data a, s) := by
  have e : RAM.LocalizeAddress (AddressRange.mk 0x000 0x07FF) a = a := by
    simp only [RAM.LocalizeAddress]; omega
  simp only [ramDevice, RAM.device, RAM.ReadFromDevice, e, hsize]
  rw [if_pos (by omega)]

theorem ram_write (s : Devices α) (hsize : s.m_ram.m_size = 0x0800) (a d : Nat) (ha : a ≤ 0x07FF) :
    (ramDevice : Bus.Device (Devices α)).WriteToDevice s a d =
      Except.ok { s with m_ram := { s.m_ram with
        m_data := fun i => if i = a then d % 256 else s.m_ram.m_data i } } := by
  have e : RAM.LocalizeAddress (AddressRange.mk 0x000 0x07FF) a = a := by
    simp only [RAM.LocalizeAddress]; omega
  simp only [ramDevice, RAM.device, RAM.WriteToDevice, e, hsize]
  rw [if_pos (by omega)]

theorem and_7FF_le (a : Nat) : a &&& 0x07FF ≤ 0x07FF := by
  have e2 := Nat.and_pow_two_sub_one_eq_mod a 11
  norm_num at e2
  omega

theorem owner_read_ram (s : Devices α) (hsize : s.m_ram.m_size = 0x0800) (a : Nat)
    (ha : a ≤ 0x1FFF) (peek : Bool) :
    (owner a : Bus.Device (Devices α)).ReadFromDevice s a peek =
      Except.ok (s.m_ram.m_data (a &&& 0x07FF), s) := by
  unfold owner
  by_cases h : a ≤ 0x07FF
  · have e2 := Nat.and_pow_two_sub_one_eq_mod a 11
    norm_num at e2
    have e3 : a &&& 2047 = a := by omega
    rw [if_pos h, ram_read s hsize a h, e3]
  · rw [if_neg h, if_pos ha]
    unfold rmmDevice
    rw [mirror_read]
    rw [mirror_read_eq]
    rw [mirrored_rmm a (by omega) ha, mirrored_construct]
    exact ram_read s hsize _ (and_7FF_le a) false

theorem owner_write_ram (s : Devices α) (hsize : s.m_ram.m_size = 0x0800) (a d : Nat)
    (ha : a ≤ 0x1FFF) :
    (owner a : Bus.Device (Devices α)).WriteToDevice s a d =
      Except.ok { s with m_ram := { s.m_ram with
        m_data := fun i => if i = (a &&& 0x07FF) then d % 256 else s.m_ram.m_data i } } := by
  unfold owner
  by_cases h : a ≤ 0x07FF
  · have e2 := Nat.and_pow_two_sub_one_eq_mod a 11
    norm_num at e2
    have e3 : a &&& 2047 = a := by omega
    rw [if_pos h, ram_write s hsize a d h, e3]
  · rw [if_neg h, if_pos ha]
    unfold rmmDevice
    rw [mirror_write]
    rw [mirror_write_eq]
    rw [mirrored_rmm a (by omega) ha, mirrored_construct]
    exact ram_write s hsize _ d (and_7FF_le a)

theorem owner_read_ppu (s : Devices α) (a : Nat) (h1 : 0x2000 ≤ a) (h2 : a ≤ 0x3FFF) :
    (owner a : Bus.Device (Devices α)).ReadFromDevice s a false =
      (ppuDevice : Bus.Device (Devices α)).ReadFromDevice s (0x2000 + (a &&& 7)) false := by
  unfold owner
  have e2 := Nat.and_pow_two_sub_one_eq_mod a 3
  norm_num at e2
  rw [if_neg (by omega), if_neg (by omega)]
  by_cases h : a ≤ 0x2007
  · have e3 : 8192 + (a &&& 7) = a := by omega
    rw [if_pos h, e3]
  · rw [if_neg h]
    unfold pmmDevice
    rw [mirror_read]
    rw [mirror_read_eq]
    rw [mirrored_pmm a (by omega) h2, mirrored_construct]

theorem owner_write_ppu (s : Devices α) (a d : Nat) (h1 : 0x2000 ≤ a) (h2 : a ≤ 0x3FFF) :
    (owner a : Bus.Device (Devices α)).WriteToDevice s a d =
      (ppuDevice : Bus.Device (Devices α)).WriteToDevice s (0x2000 + (a &&& 7)) d := by
  unfold owner
  have e2 := Nat.and_pow_two_sub_one_eq_mod a 3
  norm_num at e2
  rw [if_neg (by omega), if_neg (by omega)]
  by_cases h : a ≤ 0x2007
  · have e3 : 8192 + (a &&& 7) = a := by omega
    rw [if_pos h, e3]
  · rw [if_neg h]
    unfold pmmDevice
    rw [mirror_write]
    rw [mirror_write_eq]
    rw [mirrored_pmm a (by omega) h2, mirrored_construct]

end NESConsole

namespace Bus

variable {σ : Type}

theorem ReadFromBus_of (b b' : Bus σ) (dev : Bus.Device σ) (s : σ) (a : Nat)
    (h : b.GetDeviceAt a = Except.ok (some dev, b')) :
    b.ReadFromBus s a = (dev.ReadFromDevice s a false).map (fun q => (q.1, q.2, b')) := by
  unfold Bus.ReadFromBus
  rw [h]
  simp only []
  cases dev.ReadFromDevice s a false <;> rfl

theorem WriteToBus_of (b b' : Bus σ) (dev : Bus.Device σ) (s : σ) (a d : Nat)
    (h : b.GetDeviceAt a = Except.ok (some dev, b')) :
    b.WriteToBus s a d = (dev.WriteToDevice s a d).map (fun q => (q, b')) := by
  unfold Bus.WriteToBus
  rw [h]
  simp only []
  cases dev.WriteToDevice s a d <;> rfl

theorem Peek_of (b b' : Bus σ) (dev : Bus.Device σ) (s : σ) (a : Nat)
    (h : b.GetDeviceAt a = Except.ok (some dev, b')) :
    b.Peek s a = (dev.ReadFromDevice s a true).map (fun q => (q.1, q.2, b')) := by
  unfold Bus.Peek
  rw [h]
  simp only []
  cases dev.ReadFromDevice s a true <;> rfl

end Bus

theorem map_ok {ε β γ : Type} (f : β → γ) (x : β) :
    (Except.ok x : Except ε β).map f = Except.ok (f x) := rfl

theorem map_map {ε β γ δ : Type} (f : β → γ) (g : γ → δ) (x : Except ε β) :
    (x.map f).map g = x.map (fun q => g (f q)) := by
  cases x <;> rfl

namespace NES

theorem RP2C02.device_read {σ : Type} (r : AddressRange) (get : σ → RP2C02)
    (set : σ → RP2C02 → σ) (getCart : σ → CartridgeSlot) (setCart : σ → CartridgeSlot → σ)
    (s : σ) (a : Nat) (peek : Bool) :
    (RP2C02.device r get set getCart setCart).ReadFromDevice s a peek =
      ((get s).ReadFromDevice r (getCart s) a peek).map (fun q => (q.1, set s q.2)) := by
  show (match (get s).ReadFromDevice r (getCart s) a peek with
    | Except.error e => Except.error e
    | Except.ok (v, p) => Except.ok (v, set s p)) = _
  cases (get s).ReadFromDevice r (getCart s) a peek <;> rfl

theorem RP2C02.device_write {σ : Type} (r : AddressRange) (get : σ → RP2C02)
    (set : σ → RP2C02 → σ) (getCart : σ → CartridgeSlot) (setCart : σ → CartridgeSlot → σ)
    (s : σ) (a d : Nat) :
    (RP2C02.device r get set getCart setCart).WriteToDevice s a d =
      ((get s).WriteToDevice r (getCart s) a d).map (fun q => setCart (set s q.1) q.2) := by
  show (match (get s).WriteToDevice r (getCart s) a d with
    | Except.error e => Except.error e
    | Except.ok (p, c) => Except.ok (setCart (set s p) c)) = _
  cases (get s).WriteToDevice r (getCart s) a d <;> rfl

end NES

namespace NESConsole

variable {α : Type}

theorem ppu_read (s : Devices α) (a : Nat) (peek : Bool) :
    (ppuDevice : Bus.Device (Devices α)).ReadFromDevice s a peek =
      (s.m_ppu.ReadFromDevice (AddressRange.mk 0x2000 0x2007) s.m_cas a peek).map
        (fun q => (q.1, { s with m_ppu := q.2 })) := by
  unfold ppuDevice
  rw [RP2C02.device_read]

theorem ppu_write (s : Devices α) (a d : Nat) :
    (ppuDevice : Bus.Device (Devices α)).WriteToDevice s a d =
      (s.m_ppu.WriteToDevice (AddressRange.mk 0x2000 0x2007) s.m_cas a d).map
        (fun q => { s with m_ppu := q.1, m_cas := q.2 }) := by
  unfold ppuDevice
  rw [RP2C02.device_write]

theorem wired_of_construction (apu ctr : Bus.Device (Devices α))
    (non : List (Bus.Device (Devices α))) (cache : Option (Bus.Device (Devices α))) :
    ∃ b, connectDevices apu ctr (Bus.mk [] non cache) = Except.ok b ∧ Wired apu ctr b := by
  refine ⟨_, connectDevices_eq apu ctr non cache, rfl, ctrDevice ctr, ?_, rfl⟩
  simp [addressableDevices]

theorem bus_read_ram (apu ctr : Bus.Device (Devices α)) (b : Bus (Devices α)) (s : Devices α)
    (hb : Wired apu ctr b) (hsize : s.m_ram.m_size = 0x0800) (a : Nat) (ha : a ≤ 0x1FFF) :
    ∃ b', Wired apu ctr b' ∧
      b.ReadFromBus s a = Except.ok (s.m_ram.m_data (a &&& 0x07FF), s, b') := by
  obtain ⟨b', hw, hg⟩ := GetDeviceAt_wired apu ctr b hb a (by omega)
  refine ⟨b', hw, ?_⟩
  rw [Bus.ReadFromBus_of b b' _ s a hg, owner_read_ram s hsize a ha, map_ok]

theorem bus_write_ram (apu ctr : Bus.Device (Devices α)) (b : Bus (Devices α)) (s : Devices α)
    (hb : Wired apu ctr b) (hsize : s.m_ram.m_size = 0x0800) (a d : Nat) (ha : a ≤ 0x1FFF) :
    ∃ b', Wired apu ctr b' ∧
      b.WriteToBus s a d = Except.ok ({ s with m_ram := { s.m_ram with
        m_data := fun i => if i = (a &&& 0x07FF) then d % 256 else s.m_ram.m_data i } }, b') := by
  obtain ⟨b', hw, hg⟩ := GetDeviceAt_wired apu ctr b hb a (by omega)
  refine ⟨b', hw, ?_⟩
  rw [Bus.WriteToBus_of b b' _ s a d hg, owner_write_ram s hsize a d ha, map_ok]

theorem bus_read_ppu (apu ctr : Bus.Device (Devices α)) (b : Bus (Devices α)) (s : Devices α)
    (hb : Wired apu ctr b) (a : Nat) (h1 : 0x2000 ≤ a) (h2 : a ≤ 0x3FFF) :
    ∃ b', Wired apu ctr b' ∧
      b.ReadFromBus s a =
        (s.m_ppu.ReadFromDevice (AddressRange.mk 0x2000 0x2007) s.m_cas (0x2000 + (a &&& 7))
          false).map (fun q => (q.1, { s with m_ppu := q.2 }, b')) := by
  obtain ⟨b', hw, hg⟩ := GetDeviceAt_wired apu ctr b hb a h2
  refine ⟨b', hw, ?_⟩
  rw [Bus.ReadFromBus_of b b' _ s a hg, owner_read_ppu s a h1 h2, ppu_read, map_map]

theorem bus_write_ppu (apu ctr : Bus.Device (Devices α)) (b : Bus (Devices α)) (s : Devices α)
    (hb : Wired apu ctr b) (a d : Nat) (h1 : 0x2000 ≤ a) (h2 : a ≤ 0x3FFF) :
    ∃ b', Wired apu ctr b' ∧
      b.WriteToBus s a d =
        (s.m_ppu.WriteToDevice (AddressRange.mk 0x2000 0x2007) s.m_cas (0x2000 + (a &&& 7))
          d).map (fun q => ({ s with m_ppu := q.1, m_cas := q.2 }, b')) := by
  obtain ⟨b', hw, hg⟩ := GetDeviceAt_wired apu ctr b hb a h2
  refine ⟨b', hw, ?_⟩
  rw [Bus.WriteToBus_of b b' _ s a d hg, owner_write_ppu s a d h1 h2, ppu_write, map_map]

theorem plainBus_wired :
    Wired (Bus.Device.base true (AddressRange.mk 0 0)) (Bus.Device.base true (AddressRange.mk 0 0))
      plainBus :=
  ⟨rfl, _, by simp [addressableDevices], rfl⟩

end NESConsole

end DeviceLemmas

/-! ## Lemmas on the cycle count -/

section CycleCountLemmas

open MOS6502 InstructionHandler

variable {β : Type}

set_option maxHeartbeats 4000000 in
theorem operation_cost (bus : BusAccess β) (o : OperationFunction) (c : MOS6502 β) :
    (CallOperationFunction bus o c).m_additionalCyclesNeeded =
      c.m_additionalCyclesNeeded + operationCost c o := by
  cases o <;>
    simp only [CallOperationFunction, XXX, NOP, BRK, RTI, LDA, LDX, LDY, STA, STX, STY, TAX, TAY,
      TXA, TYA, TSX, TXS, PHA, PHP, PLA, PLP, AND, EOR, ORA, BIT, ADC, SBC, CMP, CPX, CPY, INC,
      INX, INY, DEC, DEX, DEY, ASL, LSR, ROL, ROR, JMP, JSR, RTS, BCC, BCS, BEQ, BMI, BNE, BPL,
      BVC, BVS, CLC, CLD, CLI, CLV, SEC, SED, SEI, SetFlagTo_eq, SetFlag_eq, ClearFlag_eq,
      operationCost, isReadOperation, branchTaken] <;>
    (try split_ifs) <;>
    simp_all only [Read_m_additionalCyclesNeeded, Write_m_additionalCyclesNeeded,
      Fetch_m_additionalCyclesNeeded, if_true, if_false, reduceCtorEq, Bool.false_eq_true,
      Bool.not_eq_true', add_zero, Bool.not_eq_true, not_true_eq_false] <;>
    (try omega)

set_option maxHeartbeats 4000000 in
theorem operation_frame (bus : BusAccess β) (o : OperationFunction) (c : MOS6502 β) :
    (CallOperationFunction bus o c).m_opcode = c.m_opcode
    ∧ (CallOperationFunction bus o c).m_didIRQ = c.m_didIRQ
    ∧ (CallOperationFunction bus o c).m_didNMI = c.m_didNMI
    ∧ (CallOperationFunction bus o c).m_cacheAbsoluteWorkingAddress =
        c.m_cacheAbsoluteWorkingAddress := by
  cases o <;>
    simp only [CallOperationFunction, XXX, NOP, BRK, RTI, LDA, LDX, LDY, STA, STX, STY, TAX, TAY,
      TXA, TYA, TSX, TXS, PHA, PHP, PLA, PLP, AND, EOR, ORA, BIT, ADC, SBC, CMP, CPX, CPY, INC,
      INX, INY, DEC, DEX, DEY, ASL, LSR, ROL, ROR, JMP, JSR, RTS, BCC, BCS, BEQ, BMI, BNE, BPL,
      BVC, BVS, CLC, CLD, CLI, CLV, SEC, SED, SEI, SetFlagTo_eq, SetFlag_eq, ClearFlag_eq] <;>
    (try split_ifs) <;>
    simp only [Read_m_opcode, Write_m_opcode, Fetch_m_opcode, Read_m_didIRQ, Write_m_didIRQ,
      Fetch_m_didIRQ, Read_m_didNMI, Write_m_didNMI, Fetch_m_didNMI,
      Read_m_cacheAbsoluteWorkingAddress, Write_m_cacheAbsoluteWorkingAddress,
      Fetch_m_cacheAbsoluteWorkingAddress, and_self]

theorem addressing_frame (bus : BusAccess β) (m : AddressingFunction) (c : MOS6502 β) :
    (CallAddressingFunction bus m c).m_opcode = c.m_opcode
    ∧ (CallAddressingFunction bus m c).m_didIRQ = c.m_didIRQ
    ∧ (CallAddressingFunction bus m c).m_didNMI = c.m_didNMI := by
  cases m <;>
    simp only [CallAddressingFunction, IMP, IMM, ACC, ZP0, ZPX, ZPY, REL, ABS, ABX, ABY, IND,
      IZX, IZY] <;>
    (try split_ifs) <;>
    simp only [ReadPCInc_m_opcode, Read_m_opcode, ReadPCInc_m_didIRQ, Read_m_didIRQ,
      ReadPCInc_m_didNMI, Read_m_didNMI, and_self]

theorem addressing_cost_other (bus : BusAccess β) (m : AddressingFunction) (c : MOS6502 β)
    (h1 : isIndexedMode m = false) (h2 : m ≠ AddressingFunction.REL) :
    (CallAddressingFunction bus m c).m_additionalCyclesNeeded = c.m_additionalCyclesNeeded := by
  cases m <;>
    simp only [CallAddressingFunction, IMP, IMM, ACC, ZP0, ZPX, ZPY, ABS, IND, IZX] <;>
    (try split_ifs) <;>
    first
    | simp only [ReadPCInc_m_additionalCyclesNeeded, Read_m_additionalCyclesNeeded]
    | exact absurd h1 (by decide)
    | exact absurd rfl h2

theorem addressing_REL (bus : BusAccess β) (c : MOS6502 β) :
    (CallAddressingFunction bus AddressingFunction.REL c).m_additionalCyclesNeeded =
      c.m_additionalCyclesNeeded + 1
    ∧ (CallAddressingFunction bus AddressingFunction.REL c).PC = (c.PC + 1) % 65536
    ∧ (CallAddressingFunction bus AddressingFunction.REL c).m_cacheAbsoluteWorkingAddress < 65536 := by
  simp only [CallAddressingFunction, REL]
  split_ifs <;>
    simp only [ReadPCInc_m_additionalCyclesNeeded, ReadPCInc_PC, true_and] <;>
    exact Nat.mod_lt _ (by decide)

set_option maxRecDepth 100000 in
theorem shl8_and_FF00 (h : Nat) (hh : h < 256) : (h <<< 8) &&& 0xFF00 = h * 256 := by
  revert h
  decide

set_option maxRecDepth 100000 in
theorem byte_and_FF00 (l : Nat) (hl : l < 256) : l &&& 0xFF00 = 0 := by
  revert l
  decide

theorem and_FF00_page (w : Nat) (h : w < 65536) : w &&& 0xFF00 = w / 256 * 256 := by
  have e := bytes_of_word w
  rw [Nat.mod_eq_of_lt h] at e
  have h1 : w / 256 % 256 = w / 256 := Nat.mod_eq_of_lt (by omega)
  rw [h1] at e
  conv_lhs => rw [← e]
  rw [Nat.and_distrib_right, shl8_and_FF00 _ (by omega), byte_and_FF00 _ (Nat.mod_lt _ (by decide)),
    Nat.or_zero]

theorem ReadPCInc_index (bus : BusAccess β) (c : MOS6502 β) (x y : Nat) :
    ReadPCInc bus { c with X := x, Y := y } =
      ((ReadPCInc bus c).1, { (ReadPCInc bus c).2 with X := x, Y := y }) := rfl

theorem Read_index (bus : BusAccess β) (c : MOS6502 β) (x y a : Nat) :
    Read bus { c with X := x, Y := y } a =
      ((Read bus c a).1, { (Read bus c a).2 with X := x, Y := y }) := rfl

theorem page_cross (hi lo idx : Nat) (hhi : hi < 256) (hlo : lo < 256) :
    (((((hi <<< 8) % 65536 ||| lo) + idx) % 65536 &&& 0xFF00) != (hi <<< 8) % 65536) =
      decide (((((hi <<< 8) % 65536 ||| lo) + idx) % 65536) / 256 ≠
        ((((hi <<< 8) % 65536 ||| lo) + 0) % 65536) / 256) := by
  have e1 : (hi <<< 8) % 65536 = hi * 256 := by rw [Nat.shiftLeft_eq]; omega
  have e2 : hi * 256 ||| lo = hi * 256 + lo := by
    have := Nat.mul_add_lt_is_or (show lo < 2 ^ 8 from hlo) hi
    rw [Nat.mul_comm] at this
    norm_num at this
    omega
  rw [e1, e2, and_FF00_page _ (Nat.mod_lt _ (by decide))]
  have e3 : (hi * 256 + lo + 0) % 65536 / 256 = hi := by omega
  rw [e3, Bool.eq_iff_iff, bne_iff_ne, decide_eq_true_eq]
  constructor
  · intro h1 h2
    apply h1
    rw [h2]
  · intro h1 h2
    apply h1
    omega

theorem ABX_work (bus : BusAccess β) (c : MOS6502 β) :
    (ABX bus c).m_cacheAbsoluteWorkingAddress =
      ((((ReadPCInc bus (ReadPCInc bus c).2).1 <<< 8) % 65536 ||| (ReadPCInc bus c).1) + c.X)
        % 65536 := by
  unfold ABX
  simp only []
  split_ifs <;> simp only [ReadPCInc_X]

theorem ABX_cost (bus : BusAccess β) (c : MOS6502 β) :
    (ABX bus c).m_additionalCyclesNeeded = c.m_additionalCyclesNeeded +
      (if ((((((ReadPCInc bus (ReadPCInc bus c).2).1 <<< 8) % 65536 ||| (ReadPCInc bus c).1) + c.X)
        % 65536 &&& 0xFF00) != ((ReadPCInc bus (ReadPCInc bus c).2).1 <<< 8) % 65536) = true
       then 1 else 0) := by
  unfold ABX
  simp only [ReadPCInc_X]
  split_ifs <;> simp only [ReadPCInc_m_additionalCyclesNeeded, add_zero]

theorem addressing_ABX (bus : BusAccess β) (c : MOS6502 β) :
    (CallAddressingFunction bus AddressingFunction.ABX c).m_additionalCyclesNeeded =
      c.m_additionalCyclesNeeded +
        (if (CallAddressingFunction bus AddressingFunction.ABX c).m_cacheAbsoluteWorkingAddress / 256 ≠
            (CallAddressingFunction bus AddressingFunction.ABX
              { c with X := 0, Y := 0 }).m_cacheAbsoluteWorkingAddress / 256 then 1 else 0) := by
  have hlo : (ReadPCInc bus c).1 < 256 := by
    rw [ReadPCInc_fst]; exact Nat.mod_lt _ (by decide)
  have hhi : (ReadPCInc bus (ReadPCInc bus c).2).1 < 256 := by
    rw [ReadPCInc_fst]; exact Nat.mod_lt _ (by decide)
  simp only [CallAddressingFunction]
  rw [ABX_cost]
  simp only [ABX_work, ReadPCInc_index, page_cross _ _ _ hhi hlo, decide_eq_true_eq]

theorem ABY_work (bus : BusAccess β) (c : MOS6502 β) :
    (ABY bus c).m_cacheAbsoluteWorkingAddress =
      ((((ReadPCInc bus (ReadPCInc bus c).2).1 <<< 8) % 65536 ||| (ReadPCInc bus c).1) + c.Y)
        % 65536 := by
  unfold ABY
  simp only []
  split_ifs <;> simp only [ReadPCInc_Y]

theorem ABY_cost (bus : BusAccess β) (c : MOS6502 β) :
    (ABY bus c).m_additionalCyclesNeeded = c.m_additionalCyclesNeeded +
      (if ((((((ReadPCInc bus (ReadPCInc bus c).2).1 <<< 8) % 65536 ||| (ReadPCInc bus c).1) + c.Y)
        % 65536 &&& 0xFF00) != ((ReadPCInc bus (ReadPCInc bus c).2).1 <<< 8) % 65536) = true
       then 1 else 0) := by
  unfold ABY
  simp only [ReadPCInc_Y]
  split_ifs <;> simp only [ReadPCInc_m_additionalCyclesNeeded, add_zero]

theorem addressing_ABY (bus : BusAccess β) (c : MOS6502 β) :
    (CallAddressingFunction bus AddressingFunction.ABY c).m_additionalCyclesNeeded =
      c.m_additionalCyclesNeeded +
        (if (CallAddressingFunction bus AddressingFunction.ABY c).m_cacheAbsoluteWorkingAddress / 256 ≠
            (CallAddressingFunction bus AddressingFunction.ABY
              { c with X := 0, Y := 0 }).m_cacheAbsoluteWorkingAddress / 256 then 1 else 0) := by
  have hlo : (ReadPCInc bus c).1 < 256 := by
    rw [ReadPCInc_fst]; exact Nat.mod_lt _ (by decide)
  have hhi : (ReadPCInc bus (ReadPCInc bus c).2).1 < 256 := by
    rw [ReadPCInc_fst]; exact Nat.mod_lt _ (by decide)
  simp only [CallAddressingFunction]
  rw [ABY_cost]
  simp only [ABY_work, ReadPCInc_index, page_cross _ _ _ hhi hlo, decide_eq_true_eq]

theorem IZY_work (bus : BusAccess β) (c : MOS6502 β) :
    (IZY bus c).m_cacheAbsoluteWorkingAddress =
      ((((Read bus (Read bus (ReadPCInc bus c).2 ((ReadPCInc bus c).1 &&& 0x00FF)).2
            (((ReadPCInc bus c).1 + 1) &&& 0x00FF)).1 <<< 8) % 65536 |||
          (Read bus (ReadPCInc bus c).2 ((ReadPCInc bus c).1 &&& 0x00FF)).1) + c.Y) % 65536 := by
  unfold IZY
  simp only []
  split_ifs <;> simp only [ReadPCInc_Y, Read_Y]

theorem IZY_cost (bus : BusAccess β) (c : MOS6502 β) :
    (IZY bus c).m_additionalCyclesNeeded = c.m_additionalCyclesNeeded +
      (if ((((((Read bus (Read bus (ReadPCInc bus c).2 ((ReadPCInc bus c).1 &&& 0x00FF)).2
            (((ReadPCInc bus c).1 + 1) &&& 0x00FF)).1 <<< 8) % 65536 |||
          (Read bus (ReadPCInc bus c).2 ((ReadPCInc bus c).1 &&& 0x00FF)).1) + c.Y) % 65536
          &&& 0xFF00) !=
          ((Read bus (Read bus (ReadPCInc bus c).2 ((ReadPCInc bus c).1 &&& 0x00FF)).2
            (((ReadPCInc bus c).1 + 1) &&& 0x00FF)).1 <<< 8) % 65536) = true
       then 1 else 0) := by
  unfold IZY
  simp only [ReadPCInc_Y, Read_Y]
  split_ifs <;>
    simp only [ReadPCInc_m_additionalCyclesNeeded, Read_m_additionalCyclesNeeded, add_zero]

theorem addressing_IZY (bus : BusAccess β) (c : MOS6502 β) :
    (CallAddressingFunction bus AddressingFunction.IZY c).m_additionalCyclesNeeded =
      c.m_additionalCyclesNeeded +
        (if (CallAddressingFunction bus AddressingFunction.IZY c).m_cacheAbsoluteWorkingAddress / 256 ≠
            (CallAddressingFunction bus AddressingFunction.IZY
              { c with X := 0, Y := 0 }).m_cacheAbsoluteWorkingAddress / 256 then 1 else 0) := by
  have hlo : (Read bus (ReadPCInc bus c).2 ((ReadPCInc bus c).1 &&& 0x00FF)).1 < 256 := by
    rw [Read_fst]; exact Nat.mod_lt _ (by decide)
  have hhi : (Read bus (Read bus (ReadPCInc bus c).2 ((ReadPCInc bus c).1 &&& 0x00FF)).2
            (((ReadPCInc bus c).1 + 1) &&& 0x00FF)).1 < 256 := by
    rw [Read_fst]; exact Nat.mod_lt _ (by decide)
  simp only [CallAddressingFunction]
  rw [IZY_cost]
  simp only [IZY_work, ReadPCInc_index, Read_index, page_cross _ _ _ hhi hlo, decide_eq_true_eq]

theorem addressing_indexed (bus : BusAccess β) (m : AddressingFunction) (c : MOS6502 β)
    (h : isIndexedMode m = true) :
    (CallAddressingFunction bus m c).m_additionalCyclesNeeded =
      c.m_additionalCyclesNeeded +
        (if (CallAddressingFunction bus m c).m_cacheAbsoluteWorkingAddress / 256 ≠
            (CallAddressingFunction bus m
              { c with X := 0, Y := 0 }).m_cacheAbsoluteWorkingAddress / 256 then 1 else 0) := by
  cases m <;> first
    | exact absurd h (by decide)
    | exact addressing_ABX bus c
    | exact addressing_ABY bus c
    | exact addressing_IZY bus c

set_option maxRecDepth 1000000 in
theorem table_branches :
    OpcodeMap.all (fun e => isBranchOperation e.OperationFunction ==
      (e.AdressingFunction == AddressingFunction.REL)) = true := by
  decide

theorem OpcodeMapAt_mem (k : Nat) : OpcodeMapAt k ∈ OpcodeMap := by
  have hk : k % 256 < 256 := Nat.mod_lt _ (by decide)
  have h := (OpcodeMapAt_eq (k % 256) hk).1
  have e : OpcodeMapAt (k % 256) = OpcodeMapAt k := by
    unfold OpcodeMapAt
    rw [Nat.mod_mod]
  rw [e] at h
  exact List.get?_mem h

theorem branch_iff_REL (k : Nat) :
    isBranchOperation (OpcodeMapAt k).OperationFunction =
      ((OpcodeMapAt k).AdressingFunction == AddressingFunction.REL) := by
  have h := List.all_eq_true.mp table_branches _ (OpcodeMapAt_mem k)
  exact beq_iff_eq.mp h

theorem branchTaken_congr (a c : MOS6502 β) (o : OperationFunction) (h : a.P = c.P) :
    branchTaken a o = branchTaken c o := by
  cases o <;> simp only [branchTaken, CheckFlag, h]

theorem branchTaken_of_not_branch (c : MOS6502 β) (o : OperationFunction)
    (h : isBranchOperation o = false) : branchTaken c o = false := by
  cases o <;> first | rfl | exact absurd h (by decide)

theorem not_read_of_branch (o : OperationFunction) (h : isBranchOperation o = true) :
    isReadOperation o = false := by
  cases o <;> first | rfl | exact absurd h (by decide)

theorem page_ne (x y : Nat) (hx : x < 65536) (hy : y < 65536) :
    ((x &&& 0xFF00) != (y &&& 0xFF00)) = decide (y / 256 ≠ x / 256) := by
  rw [and_FF00_page x hx, and_FF00_page y hy, Bool.eq_iff_iff, bne_iff_ne, decide_eq_true_eq]
  omega

theorem cycles_core (bus : BusAccess β) (c1 : MOS6502 β)
    (h0 : c1.m_additionalCyclesNeeded = 0) (hI : c1.m_didIRQ = false) (hN : c1.m_didNMI = false) :
    GetLastInstructionCycles
        (CallOperationFunction bus (OpcodeMapAt c1.m_opcode).OperationFunction
          (CallAddressingFunction bus (OpcodeMapAt c1.m_opcode).AdressingFunction c1)) =
      (OpcodeMapAt c1.m_opcode).BaseCycles
      + (if isIndexedMode (OpcodeMapAt c1.m_opcode).AdressingFunction = true
            ∧ isReadOperation (OpcodeMapAt c1.m_opcode).OperationFunction = true
            ∧ (CallAddressingFunction bus (OpcodeMapAt c1.m_opcode).AdressingFunction
                c1).m_cacheAbsoluteWorkingAddress / 256 ≠
              (CallAddressingFunction bus (OpcodeMapAt c1.m_opcode).AdressingFunction
                { c1 with X := 0, Y := 0 }).m_cacheAbsoluteWorkingAddress / 256 then 1 else 0)
      + (if branchTaken c1 (OpcodeMapAt c1.m_opcode).OperationFunction = true then 1 else 0)
      + (if branchTaken c1 (OpcodeMapAt c1.m_opcode).OperationFunction = true
            ∧ (CallAddressingFunction bus (OpcodeMapAt c1.m_opcode).AdressingFunction
                c1).m_cacheAbsoluteWorkingAddress / 256 ≠ (c1.PC + 1) % 65536 / 256
          then 1 else 0) := by
  have hbr := branch_iff_REL c1.m_opcode
  obtain ⟨f1, f2, f3, _⟩ := operation_frame bus (OpcodeMapAt c1.m_opcode).OperationFunction
    (CallAddressingFunction bus (OpcodeMapAt c1.m_opcode).AdressingFunction c1)
  obtain ⟨g1, g2, g3⟩ := addressing_frame bus (OpcodeMapAt c1.m_opcode).AdressingFunction c1
  unfold GetLastInstructionCycles
  rw [f2, f3, g2, g3, hI, hN, f1, g1, operation_cost]
  simp only [Bool.false_eq_true, if_false]
  generalize (OpcodeMapAt c1.m_opcode).BaseCycles = base
  generalize (OpcodeMapAt c1.m_opcode).AdressingFunction = m at hbr ⊢
  generalize (OpcodeMapAt c1.m_opcode).OperationFunction = o at hbr ⊢
  clear f1 f2 f3 g1 g2 g3
  have hP : (CallAddressingFunction bus m c1).P = c1.P := addressing_P bus m c1
  by_cases hrel : m = AddressingFunction.REL
  · subst hrel
    have hb : isBranchOperation o = true := by rw [hbr]; rfl
    obtain ⟨a1, a2, a3⟩ := addressing_REL bus c1
    have hnr := not_read_of_branch o hb
    have hpn := page_ne ((c1.PC + 1) % 65536) _ (Nat.mod_lt _ (by decide)) a3
    simp only [operationCost, hnr, Bool.false_eq_true, if_false, a1, h0,
      branchTaken_congr _ c1 o hP, a2, hpn, decide_eq_true_eq,
      isIndexedMode, false_and]
    clear hpn a1 a2 a3 hbr hP
    split_ifs <;> simp_all <;> omega
  · have hb : isBranchOperation o = false := by
      rw [hbr]; exact beq_false_of_ne hrel
    have hnt := branchTaken_of_not_branch c1 o hb
    have hnt2 := branchTaken_of_not_branch (CallAddressingFunction bus m c1) o hb
    by_cases hix : isIndexedMode m = true
    · rw [addressing_indexed bus m c1 hix]
      simp only [operationCost, hnt, hnt2, h0, hix, Bool.false_eq_true, if_false, false_and,
        true_and]
      split_ifs <;> simp_all
      all_goals omega
    · have hix2 : isIndexedMode m = false := by simpa using hix
      rw [addressing_cost_other bus m c1 hix2 hrel]
      simp only [operationCost, hnt, hnt2, h0, hix2, Bool.false_eq_true, if_false, false_and]
      split_ifs
      all_goals simp_all

theorem execute_shape (bus : BusAccess β) (c : MOS6502 β) :
    ∃ c1 : MOS6502 β, c1.m_additionalCyclesNeeded = 0 ∧ c1.m_didIRQ = false ∧ c1.m_didNMI = false
      ∧ c1.P = c.P ∧ c1.PC = (c.PC + 1) % 65536
      ∧ ExecuteNextInstruction bus c =
          CallOperationFunction bus (OpcodeMapAt c1.m_opcode).OperationFunction
            (CallAddressingFunction bus (OpcodeMapAt c1.m_opcode).AdressingFunction c1)
      ∧ ExecuteNextInstruction bus { c with X := 0, Y := 0 } =
          CallOperationFunction bus (OpcodeMapAt c1.m_opcode).OperationFunction
            (CallAddressingFunction bus (OpcodeMapAt c1.m_opcode).AdressingFunction
              { c1 with X := 0, Y := 0 }) :=
  ⟨{ (ReadPCInc bus { c with
        m_opcode := 0xEA
        m_cacheAbsoluteWorkingAddress := 0
        m_cacheFetchedData := 0
        m_doFetch := true
        m_additionalCyclesNeeded := 0
        m_didIRQ := false
        m_didNMI := false }).2 with
      m_opcode := (ReadPCInc bus { c with
        m_opcode := 0xEA
        m_cacheAbsoluteWorkingAddress := 0
        m_cacheFetchedData := 0
        m_doFetch := true
        m_additionalCyclesNeeded := 0
        m_didIRQ := false
        m_didNMI := false }).1 },
    rfl, rfl, rfl, rfl, rfl, rfl, rfl⟩


end CycleCountLemmas

/-! ## Lemmas on the PPU registers, the controller and the sample buffer -/

section RegisterLemmas

open NES RP2C02

theorem bind_eq_ok {ε β γ : Type} {x : Except ε β} {f : β → Except ε γ} {c : γ}
    (h : x.bind f = Except.ok c) : ∃ a, x = Except.ok a ∧ f a = Except.ok c := by
  cases x with
  | error e => cases h
  | ok a => exact ⟨a, rfl, h⟩

theorem map_eq_ok {ε β γ : Type} {x : Except ε β} {f : β → γ} {c : γ}
    (h : x.map f = Except.ok c) : ∃ a, x = Except.ok a ∧ f a = c := by
  cases x with
  | error e => cases h
  | ok a => exact ⟨a, rfl, Except.ok.inj h⟩

theorem register_eq (range : AddressRange) (k : Nat) :
    (((range.Min + k : Nat) : Int) - (range.Min : Int)) = (k : Int) := by
  push_cast
  omega

theorem InternalBusWrite_buf (p p1 : RP2C02) (cart cart1 : CartridgeSlot) (a d : Nat)
    (h : p.InternalBusWrite cart a d = Except.ok (p1, cart1)) :
    p1.m_ppuRegWriteBuf = p.m_ppuRegWriteBuf ∧ p1.Registers = p.Registers
    ∧ p1.m_state = p.m_state := by
  unfold InternalBusWrite at h
  split_ifs at h
  · cases hc : cart.PPUWriteToDevice a d with
    | error e => rw [hc] at h; cases h
    | ok c => rw [hc] at h; cases h; exact ⟨rfl, rfl, rfl⟩
  · unfold WriteNametable at h
    cases hc : cart.GetNametableMirrorMode with
    | error e => rw [hc] at h; cases h
    | ok mode =>
      rw [hc] at h
      simp only [] at h
      split_ifs at h <;> cases h <;> exact ⟨rfl, rfl, rfl⟩
  · cases h; exact ⟨rfl, rfl, rfl⟩
  · cases h; exact ⟨rfl, rfl, rfl⟩

theorem WriteToDevice_buf (range : AddressRange) (p p1 : RP2C02) (cart cart1 : CartridgeSlot)
    (a w : Nat) (h : p.WriteToDevice range cart a w = Except.ok (p1, cart1)) :
    p1.m_ppuRegWriteBuf = w % 256 ∧ p1.Registers.PPUStatus = p.Registers.PPUStatus := by
  unfold WriteToDevice at h
  dsimp only at h
  by_cases h0 : (((a : Int) - (range.Min : Int)) == 0) = true
  · rw [if_pos h0] at h
    cases h; exact ⟨rfl, rfl⟩
  rw [if_neg h0] at h
  by_cases h1 : (((a : Int) - (range.Min : Int)) == 1) = true
  · rw [if_pos h1] at h
    cases h; exact ⟨rfl, rfl⟩
  rw [if_neg h1] at h
  by_cases h2 : (((a : Int) - (range.Min : Int)) == 2) = true
  · rw [if_pos h2] at h
    cases h; exact ⟨rfl, rfl⟩
  rw [if_neg h2] at h
  by_cases h3 : (((a : Int) - (range.Min : Int)) == 3) = true
  · rw [if_pos h3] at h
    cases h; exact ⟨rfl, rfl⟩
  rw [if_neg h3] at h
  by_cases h4 : (((a : Int) - (range.Min : Int)) == 4) = true
  · rw [if_pos h4] at h
    cases h; exact ⟨rfl, rfl⟩
  rw [if_neg h4] at h
  by_cases h5 : (((a : Int) - (range.Min : Int)) == 5) = true
  · rw [if_pos h5] at h
    split_ifs at h <;> cases h <;> exact ⟨rfl, rfl⟩
  rw [if_neg h5] at h
  by_cases h6 : (((a : Int) - (range.Min : Int)) == 6) = true
  · rw [if_pos h6] at h
    split_ifs at h <;> cases h <;> exact ⟨rfl, rfl⟩
  rw [if_neg h6] at h
  by_cases h7 : (((a : Int) - (range.Min : Int)) == 7) = true
  · rw [if_pos h7] at h
    cases hc : InternalBusWrite { p with m_ppuRegWriteBuf := w % 256 } cart
        p.m_state.V.Address (w % 256) with
    | error e => rw [hc] at h; cases h
    | ok r =>
      rw [hc] at h
      obtain ⟨r1, r2⟩ := r
      obtain ⟨e1, e2, e3⟩ := InternalBusWrite_buf _ _ _ _ _ _ hc
      cases h
      exact ⟨e1, by rw [e2]⟩
  rw [if_neg h7] at h
  cases h; exact ⟨rfl, rfl⟩

theorem ReadFromDevice_status (range : AddressRange) (p : RP2C02) (cart : CartridgeSlot) :
    p.ReadFromDevice range cart (range.Min + 2) false =
      Except.ok (((p.Registers.PPUStatus &&& 0xE0) ||| (p.m_ppuRegWriteBuf &&& 0x1F)) % 256,
        { ({ p with Registers := { p.Registers with PPUStatus :=
            ((p.Registers.PPUStatus &&& 0xE0) ||| (p.m_ppuRegWriteBuf &&& 0x1F)) % 256 } } :
            RP2C02).SetFlagStatus StatusFlag.VBlank false with
          m_state := { p.m_state with WriteLatch := false } }) := by
  unfold ReadFromDevice
  simp only [register_eq]
  rfl

theorem ReadFromDevice_data (range : AddressRange) (p : RP2C02) (cart : CartridgeSlot) :
    p.ReadFromDevice range cart (range.Min + 7) false =
      (p.InternalBusRead cart p.m_state.V.Address).map fun v =>
        (if p.m_state.V.Address >= 0x3F00 && p.m_state.V.Address <= 0x3FFF then v % 256
          else p.Registers.PPUData,
         { p with Registers := { p.Registers with PPUData := v % 256 }
                  m_state := { p.m_state with
                    V := { Address := (p.m_state.V.Address + p.increment) % 65536 } } }) := by
  unfold ReadFromDevice
  simp only [register_eq]
  cases h : p.InternalBusRead cart p.m_state.V.Address <;> rfl

theorem WriteToDevice_addr (range : AddressRange) (p : RP2C02) (cart : CartridgeSlot) (d : Nat) :
    p.WriteToDevice range cart (range.Min + 6) d =
      Except.ok (
        if p.m_state.WriteLatch = false then
          { p with m_ppuRegWriteBuf := d % 256
                   Registers := { p.Registers with PPUAddr := d % 256 }
                   m_state := { p.m_state with
                     T := { Address := ((((d % 256 &&& 0x3F) % 65536) <<< 8) |||
                       (p.m_state.T.Address &&& 0x00FF)) % 65536 }
                     WriteLatch := true } }
        else
          { p with m_ppuRegWriteBuf := d % 256
                   Registers := { p.Registers with PPUAddr := d % 256 }
                   m_state := { p.m_state with
                     T := { Address := ((p.m_state.T.Address &&& 0xFF00) ||| d % 256) % 65536 }
                     V := { Address := ((p.m_state.T.Address &&& 0xFF00) ||| d % 256) % 65536 }
                     WriteLatch := false } }, cart) := by
  unfold WriteToDevice
  simp only [register_eq]
  cases h : p.m_state.WriteLatch <;> rfl

theorem WriteToDevice_data (range : AddressRange) (p : RP2C02) (cart : CartridgeSlot) (d : Nat) :
    p.WriteToDevice range cart (range.Min + 7) d =
      (InternalBusWrite { p with m_ppuRegWriteBuf := d % 256 } cart p.m_state.V.Address
          (d % 256)).map fun r =>
        ({ r.1 with m_state := { r.1.m_state with
            V := { Address := (r.1.m_state.V.Address + r.1.increment) % 65536 } } }, r.2) := by
  unfold WriteToDevice
  simp only [register_eq]
  cases h : InternalBusWrite { p with m_ppuRegWriteBuf := d % 256 } cart p.m_state.V.Address
          (d % 256) <;> rfl

theorem CheckFlagStatus_eq (p : RP2C02) (f : StatusFlag) :
    p.CheckFlagStatus f = p.Registers.PPUStatus.testBit f.bit := by
  unfold CheckFlagStatus
  cases f
  · exact and_two_pow_bne _ 5
  · exact and_two_pow_bne _ 6
  · exact and_two_pow_bne _ 7

theorem CheckFlagCtrl_eq (p : RP2C02) (f : CtrlFlag) :
    p.CheckFlagCtrl f = p.Registers.PPUCtrl.testBit f.bit := by
  unfold CheckFlagCtrl
  cases f
  · exact and_two_pow_bne _ 2
  · exact and_two_pow_bne _ 3
  · exact and_two_pow_bne _ 4
  · exact and_two_pow_bne _ 5
  · exact and_two_pow_bne _ 6
  · exact and_two_pow_bne _ 7

theorem CheckFlagMask_eq (p : RP2C02) (f : MaskFlag) :
    p.CheckFlagMask f = p.Registers.PPUMask.testBit f.bit := by
  unfold CheckFlagMask
  cases f
  · exact and_two_pow_bne _ 0
  · exact and_two_pow_bne _ 1
  · exact and_two_pow_bne _ 2
  · exact and_two_pow_bne _ 3
  · exact and_two_pow_bne _ 4
  · exact and_two_pow_bne _ 5
  · exact and_two_pow_bne _ 6
  · exact and_two_pow_bne _ 7

theorem NES.RP2C02.StatusFlag.bit_lt_eight (f : StatusFlag) : f.bit < 8 := by cases f <;> decide

theorem NES.RP2C02.StatusFlag.val_eq_pow (f : StatusFlag) : f.val = 2 ^ f.bit := by cases f <;> rfl

/-- The status register after `SetFlag(StatusFlag, bool)`, bit by bit. -/
theorem SetFlagStatus_testBit (p : RP2C02) (f : StatusFlag) (b : Bool) (j : Nat) :
    (p.SetFlagStatus f b).Registers.PPUStatus.testBit j =
      (decide (j < 8) && (if j = f.bit then b else p.Registers.PPUStatus.testBit j)) := by
  have hf := f.bit_lt_eight
  unfold SetFlagStatus
  cases b
  · simp only [Bool.false_eq_true, ↓reduceIte, testBit_mod_256, Nat.testBit_and, testBit_bitNot,
      StatusFlag.val_eq_pow, Nat.testBit_two_pow]
    by_cases hj : j = f.bit
    · subst hj; simp; omega
    · have : ¬ f.bit = j := fun h => hj h.symm
      by_cases h8 : j < 8
      · have : j < 32 := by omega
        simp [*]
      · simp [*]
  · simp only [↓reduceIte, testBit_mod_256, Nat.testBit_or, StatusFlag.val_eq_pow, Nat.testBit_two_pow]
    by_cases hj : j = f.bit
    · subst hj; simp
    · have : ¬ f.bit = j := fun h => hj h.symm
      simp [*]

theorem increment_eq (p : RP2C02) :
    p.increment = if p.Registers.PPUCtrl.testBit 2 then 32 else 1 := by
  unfold increment
  rw [CheckFlagCtrl_eq]
  rfl

end RegisterLemmas

section VramLemmas

open NES RP2C02

theorem addr_compose (hi lo t : Nat) (hlo : lo < 256) :
    (((((((hi % 256 &&& 0x3F) % 65536) <<< 8) ||| (t &&& 0x00FF)) % 65536) &&& 0xFF00) |||
      lo % 256) % 65536 = ((hi % 256 &&& 0x3F) <<< 8) ||| lo := by
  have hh : hi % 256 &&& 0x3F < 64 := by
    have e := Nat.and_pow_two_sub_one_eq_mod (hi % 256) 6
    norm_num at e
    omega
  generalize hi % 256 &&& 0x3F = h at hh
  have hr : t &&& 0x00FF < 256 := by
    have e := Nat.and_pow_two_sub_one_eq_mod t 8
    norm_num at e
    omega
  generalize t &&& 0x00FF = r at hr
  have e1 : (h % 65536) <<< 8 = h * 256 := by rw [Nat.shiftLeft_eq]; omega
  have e1b : h <<< 8 = h * 256 := by rw [Nat.shiftLeft_eq]
  have e2 : ∀ x, x < 256 → h * 256 ||| x = h * 256 + x := by
    intro x hx
    have := Nat.mul_add_lt_is_or (show x < 2 ^ 8 from hx) h
    rw [Nat.mul_comm] at this
    norm_num at this
    omega
  have e3 : (h * 256 + r) % 65536 / 256 * 256 = h * 256 := by omega
  rw [e1, e1b, e2 r hr, Nat.mod_eq_of_lt hlo, and_FF00_page _ (Nat.mod_lt _ (by decide)), e3,
    e2 lo hlo]
  omega

theorem InternalBusRead_nametable (p : RP2C02) (cart : CartridgeSlot) (a : Nat)
    (h1 : 0x2000 ≤ a) (h2 : a ≤ 0x3EFF) :
    p.InternalBusRead cart a = p.ReadNametable cart a := by
  have n1 : ¬ a ≤ 0x1FFF := by omega
  unfold InternalBusRead
  simp [h1, h2, n1]

theorem InternalBusRead_palette (p : RP2C02) (cart : CartridgeSlot) (a : Nat)
    (h1 : 0x3F00 ≤ a) (h2 : a ≤ 0x3FFF) :
    p.InternalBusRead cart a =
      Except.ok (if p.Registers.PPUMask.testBit 0 then p.VRAM.Palette (paletteIndex a) &&& 0x30
        else p.VRAM.Palette (paletteIndex a)) := by
  have n1 : ¬ a ≤ 0x1FFF := by omega
  have n2 : ¬ a ≤ 0x3EFF := by omega
  unfold InternalBusRead
  rw [CheckFlagMask_eq]
  simp only [MaskFlag.bit]
  simp [h1, h2, n1, n2]
  split_ifs <;> rfl

theorem InternalBusWrite_palette (p : RP2C02) (cart : CartridgeSlot) (a d : Nat)
    (h1 : 0x3F00 ≤ a) (h2 : a ≤ 0x3FFF) :
    p.InternalBusWrite cart a d =
      Except.ok ({ p with VRAM := { p.VRAM with Palette := fun i =>
        if i = (paletteIndex a) then d % 256 else (p.VRAM.Palette i) } }, cart) := by
  have n1 : ¬ a ≤ 0x1FFF := by omega
  have n2 : ¬ a ≤ 0x3EFF := by omega
  unfold InternalBusWrite
  simp [h1, h2, n1, n2]

theorem InternalBusWrite_nametable (p : RP2C02) (cart : CartridgeSlot) (a d : Nat)
    (h1 : 0x2000 ≤ a) (h2 : a ≤ 0x3EFF) :
    p.InternalBusWrite cart a d = (p.WriteNametable cart a d).map fun q => (q, cart) := by
  have n1 : ¬ a ≤ 0x1FFF := by omega
  unfold InternalBusWrite
  simp only [ge_iff_le, Nat.zero_le, decide_True, Bool.true_and, decide_eq_true_eq, n1, if_false,
    h1, h2, Bool.and_self, if_true]
  cases p.WriteNametable cart a d <;> rfl

/-- The nametable cell that the mirroring mode `mode` gives the address. -/
theorem ReadNametable_eq (p : RP2C02) (cart : CartridgeSlot) (a : Nat)
    (mode : NametableMirrorMode) (hm : cart.GetNametableMirrorMode = Except.ok mode)
    (h4 : mode ≠ NametableMirrorMode.FourScreen) :
    p.ReadNametable cart a = Except.ok (p.VRAM.Nametable (nametableOf mode a) (a &&& 0x03FF)) := by
  unfold ReadNametable nametableOf
  rw [hm]
  cases mode
  · rfl
  · rfl
  · exact absurd rfl h4

theorem WriteNametable_eq (p : RP2C02) (cart : CartridgeSlot) (a d : Nat)
    (mode : NametableMirrorMode) (hm : cart.GetNametableMirrorMode = Except.ok mode)
    (h4 : mode ≠ NametableMirrorMode.FourScreen) :
    p.WriteNametable cart a d = Except.ok { p with VRAM := { p.VRAM with Nametable := fun t i =>
      if t = (nametableOf mode a) ∧ i = (a &&& 0x03FF) then d % 256
      else (p.VRAM.Nametable t i) } } := by
  unfold WriteNametable nametableOf
  rw [hm]
  cases mode
  · rfl
  · rfl
  · exact absurd rfl h4

end VramLemmas

section VramSteps

open NES RP2C02 NESConsole

theorem increment_congr (p q : RP2C02) (h : q.Registers.PPUCtrl = p.Registers.PPUCtrl) :
    q.increment = p.increment := by
  rw [increment_eq, increment_eq, h]

theorem increment_le (p : RP2C02) : 1 ≤ p.increment ∧ p.increment ≤ 32 := by
  rw [increment_eq]
  split_ifs <;> omega

theorem WriteToDevice_addr_first (range : AddressRange) (p : RP2C02) (cart : CartridgeSlot)
    (d : Nat) (hl : p.m_state.WriteLatch = false) :
    p.WriteToDevice range cart (range.Min + 6) d =
      Except.ok (
          { p with m_ppuRegWriteBuf := d % 256
                   Registers := { p.Registers with PPUAddr := d % 256 }
                   m_state := { p.m_state with
                     T := { Address := ((((d % 256 &&& 0x3F) % 65536) <<< 8) |||
                       (p.m_state.T.Address &&& 0x00FF)) % 65536 }
                     WriteLatch := true } }, cart) := by
  rw [WriteToDevice_addr, if_pos hl]

theorem WriteToDevice_addr_second (range : AddressRange) (p : RP2C02) (cart : CartridgeSlot)
    (d : Nat) (hl : p.m_state.WriteLatch = true) :
    p.WriteToDevice range cart (range.Min + 6) d =
      Except.ok (
          { p with m_ppuRegWriteBuf := d % 256
                   Registers := { p.Registers with PPUAddr := d % 256 }
                   m_state := { p.m_state with
                     T := { Address := ((p.m_state.T.Address &&& 0xFF00) ||| d % 256) % 65536 }
                     V := { Address := ((p.m_state.T.Address &&& 0xFF00) ||| d % 256) % 65536 }
                     WriteLatch := false } }, cart) := by
  rw [WriteToDevice_addr, if_neg (by simp [hl])]

/-- Two writes to PPUADDR with the write latch clear. -/
theorem setAddress (range : AddressRange) (p : RP2C02) (cart : CartridgeSlot) (hi lo : Nat)
    (hhi : hi < 256) (hlo : lo < 256) (hl : p.m_state.WriteLatch = false) :
    ∃ p1 p2, p.WriteToDevice range cart (range.Min + 6) hi = Except.ok (p1, cart)
      ∧ p1.WriteToDevice range cart (range.Min + 6) lo = Except.ok (p2, cart)
      ∧ p2.m_state.V.Address = vramAddress hi lo ∧ p2.m_state.T.Address = vramAddress hi lo
      ∧ p2.m_state.WriteLatch = false ∧ p2.VRAM = p.VRAM
      ∧ p2.Registers.PPUCtrl = p.Registers.PPUCtrl ∧ p2.Registers.PPUMask = p.Registers.PPUMask
      ∧ p2.Registers.PPUData = p.Registers.PPUData := by
  have e := addr_compose hi lo p.m_state.T.Address hlo
  rw [Nat.mod_eq_of_lt hhi] at e
  refine ⟨_, _, WriteToDevice_addr_first range p cart hi hl,
    WriteToDevice_addr_second range _ cart lo rfl, ?_⟩
  refine ⟨?_, ?_, rfl, rfl, rfl, rfl, rfl⟩
  · simp only [Nat.mod_eq_of_lt hhi]
    exact e
  · simp only [Nat.mod_eq_of_lt hhi]
    exact e

/-- A write to PPUDATA with `V` in the nametable range. -/
theorem writeData_nametable (range : AddressRange) (p : RP2C02) (cart : CartridgeSlot) (d : Nat)
    (mode : NametableMirrorMode) (hm : cart.GetNametableMirrorMode = Except.ok mode)
    (h4 : mode ≠ NametableMirrorMode.FourScreen)
    (h1 : 0x2000 ≤ p.m_state.V.Address) (h2 : p.m_state.V.Address ≤ 0x3EFF) :
    ∃ p3, p.WriteToDevice range cart (range.Min + 7) d = Except.ok (p3, cart)
      ∧ p3.VRAM.Nametable (nametableOf mode p.m_state.V.Address)
          (p.m_state.V.Address &&& 0x03FF) = d % 256
      ∧ p3.m_state.V.Address = (p.m_state.V.Address + p.increment) % 65536
      ∧ p3.m_state.WriteLatch = p.m_state.WriteLatch
      ∧ p3.Registers.PPUCtrl = p.Registers.PPUCtrl ∧ p3.Registers.PPUMask = p.Registers.PPUMask
      ∧ p3.Registers.PPUData = p.Registers.PPUData := by
  have w := WriteToDevice_data range p cart d
  rw [InternalBusWrite_nametable _ _ _ _ h1 h2, WriteNametable_eq _ _ _ _ mode hm h4, map_ok,
    map_ok] at w
  refine ⟨_, w, ?_, rfl, rfl, rfl, rfl, rfl⟩
  simp only [and_self, if_true, Nat.mod_mod]

/-- A read of PPUDATA with `V` in the nametable range. -/
theorem readData_nametable (range : AddressRange) (p : RP2C02) (cart : CartridgeSlot)
    (mode : NametableMirrorMode) (hm : cart.GetNametableMirrorMode = Except.ok mode)
    (h4 : mode ≠ NametableMirrorMode.FourScreen)
    (h1 : 0x2000 ≤ p.m_state.V.Address) (h2 : p.m_state.V.Address ≤ 0x3EFF) :
    ∃ p1, p.ReadFromDevice range cart (range.Min + 7) false =
        Except.ok (p.Registers.PPUData, p1)
      ∧ p1.Registers.PPUData = p.VRAM.Nametable (nametableOf mode p.m_state.V.Address)
          (p.m_state.V.Address &&& 0x03FF) % 256
      ∧ p1.m_state.V.Address = (p.m_state.V.Address + p.increment) % 65536
      ∧ p1.VRAM = p.VRAM ∧ p1.Registers.PPUCtrl = p.Registers.PPUCtrl := by
  have n : ¬ 0x3F00 ≤ p.m_state.V.Address := by omega
  have r := ReadFromDevice_data range p cart
  rw [InternalBusRead_nametable _ _ _ h1 h2, ReadNametable_eq _ _ _ mode hm h4, map_ok] at r
  simp only [ge_iff_le, n, decide_False, Bool.false_and, Bool.false_eq_true, if_false] at r
  exact ⟨_, r, rfl, rfl, rfl, rfl⟩

theorem vramRoundTrip_eq (range : AddressRange) (p : RP2C02) (cart : CartridgeSlot)
    (hi lo d : Nat) (hhi : hi < 256) (hlo : lo < 256) (hd : d < 256)
    (hl : p.m_state.WriteLatch = false)
    (mode : NametableMirrorMode) (hm : cart.GetNametableMirrorMode = Except.ok mode)
    (h4 : mode ≠ NametableMirrorMode.FourScreen)
    (h1 : 0x2000 ≤ vramAddress hi lo) (h2 : vramAddress hi lo + p.increment ≤ 0x3EFF) :
    vramRoundTrip range p cart hi lo d = Except.ok (p.Registers.PPUData, d) := by
  have hinc := increment_le p
  obtain ⟨p1, p2, w1, w2, v2, _, l2, _, c2, _, d2⟩ := setAddress range p cart hi lo hhi hlo hl
  obtain ⟨p3, w3, n3, v3, l3, c3, _, d3⟩ := writeData_nametable range p2 cart d mode hm h4
    (by rw [v2]; exact h1) (by rw [v2]; omega)
  obtain ⟨p4, p5, w4, w5, v5, _, _, m5, c5, _, d5⟩ :=
    setAddress range p3 cart hi lo hhi hlo (by rw [l3, l2])
  obtain ⟨p6, r6, d6, v6, m6, c6⟩ := readData_nametable range p5 cart mode hm h4
    (by rw [v5]; exact h1) (by rw [v5]; omega)
  have i5 : p5.increment = p.increment := by
    rw [increment_congr p3 p5 c5, increment_congr p2 p3 c3, increment_congr p p2 c2]
  have e6 : p6.m_state.V.Address = vramAddress hi lo + p.increment := by
    rw [v6, v5, i5]; omega
  obtain ⟨p7, r7, _⟩ := readData_nametable range p6 cart mode hm h4
    (by rw [e6]; omega) (by rw [e6]; omega)
  unfold vramRoundTrip
  rw [w1, bind_ok, w2, bind_ok, w3, bind_ok, w4, bind_ok, w5, bind_ok, r6, bind_ok, r7, map_ok,
    d6, v5, m5, ← v2, n3, Nat.mod_mod, Nat.mod_eq_of_lt hd, d5, d3, d2]

end VramSteps

section ControllerLemmas

open NES ControllerInterface

theorem shift_shift (x n : Nat) : (((x <<< 1) % 256) <<< n) % 256 = (x <<< (n + 1)) % 256 := by
  rw [Nat.shiftLeft_eq, Nat.shiftLeft_eq, Nat.shiftLeft_eq, Nat.mod_mul_mod]
  congr 1
  ring

set_option maxRecDepth 100000 in
theorem shifted_bit (b : Nat) (hb : b < 256) (k : Nat) (hk : k < 8) :
    ((((b <<< k) % 256) &&& 0x80) != 0) = b.testBit (7 - k) := by
  revert k b
  decide

theorem plainReads_cons (a : Nat) (op : Nat × Bool) (ops : List (Nat × Bool)) :
    plainReads a (op :: ops) = (if op.1 = a ∧ op.2 = false then 1 else 0) + plainReads a ops := by
  unfold plainReads
  rw [List.filter_cons]
  by_cases h : op.1 = a ∧ op.2 = false
  · have : (op.1 == a && !op.2) = true := by simp [h.1, h.2]
    rw [this, if_pos h]
    simp only [if_true, List.length_cons]
    omega
  · have : (op.1 == a && !op.2) = false := by
      rcases op with ⟨x, y⟩
      cases y <;> simp_all
    rw [this, if_neg h]
    simp

/-- The shift registers after a sequence of reads of `0x4016` and `0x4017`. -/
theorem readsOf_shift (ops : List (Nat × Bool)) (c : ControllerInterface)
    (hops : ∀ op ∈ ops, op.1 = 0x4016 ∨ op.1 = 0x4017) :
    (readsOf (AddressRange.mk 0x4016 0x4017) c ops).m_ctlr1Shift % 256 =
        (c.m_ctlr1Shift <<< plainReads 0x4016 ops) % 256
    ∧ (readsOf (AddressRange.mk 0x4016 0x4017) c ops).m_ctlr2Shift % 256 =
        (c.m_ctlr2Shift <<< plainReads 0x4017 ops) % 256
    ∧ (readsOf (AddressRange.mk 0x4016 0x4017) c ops).m_ctlr1Parallel = c.m_ctlr1Parallel
    ∧ (readsOf (AddressRange.mk 0x4016 0x4017) c ops).m_ctlr2Parallel = c.m_ctlr2Parallel := by
  induction ops generalizing c with
  | nil => exact ⟨rfl, rfl, rfl, rfl⟩
  | cons op ops ih =>
    have hop := hops op (List.mem_cons_self _ _)
    have ih2 := ih (ReadFromDevice (AddressRange.mk 0x4016 0x4017) c op.1 op.2).2
      (fun o ho => hops o (List.mem_cons_of_mem _ ho))
    have e : readsOf (AddressRange.mk 0x4016 0x4017) c (op :: ops) =
        readsOf (AddressRange.mk 0x4016 0x4017)
          (ReadFromDevice (AddressRange.mk 0x4016 0x4017) c op.1 op.2).2 ops := rfl
    rw [e, plainReads_cons, plainReads_cons]
    obtain ⟨a, pk⟩ := op
    obtain ⟨i1, i2, i3, i4⟩ := ih2
    rcases hop with h | h
    · simp only at h
      subst h
      cases pk
      · refine ⟨?_, ?_, ?_, ?_⟩
        · rw [i1]
          simp only [ReadFromDevice, beq_self_eq_true, if_true, Bool.not_false, and_self,
            Nat.add_comm 1]
          exact shift_shift _ _
        · rw [i2]
          simp [ReadFromDevice]
        · rw [i3]; simp [ReadFromDevice]
        · rw [i4]; simp [ReadFromDevice]
      · refine ⟨?_, ?_, ?_, ?_⟩
        · rw [i1]; simp [ReadFromDevice]
        · rw [i2]; simp [ReadFromDevice]
        · rw [i3]; simp [ReadFromDevice]
        · rw [i4]; simp [ReadFromDevice]
    · simp only at h
      subst h
      cases pk
      · refine ⟨?_, ?_, ?_, ?_⟩
        · rw [i1]; simp [ReadFromDevice]
        · rw [i2]
          simp only [ReadFromDevice, show ((0x4017 : Nat) == 0x4016) = false from rfl,
            Bool.false_eq_true, if_false, Bool.not_false, if_true, and_self, Nat.add_comm 1]
          exact shift_shift _ _
        · rw [i3]; simp [ReadFromDevice]
        · rw [i4]; simp [ReadFromDevice]
      · refine ⟨?_, ?_, ?_, ?_⟩
        · rw [i1]; simp [ReadFromDevice]
        · rw [i2]; simp [ReadFromDevice]
        · rw [i3]; simp [ReadFromDevice]
        · rw [i4]; simp [ReadFromDevice]

end ControllerLemmas

theorem and_80_mod (x : Nat) : x &&& 0x80 = (x % 256) &&& 0x80 := by
  have e := Nat.and_pow_two_sub_one_eq_mod x 8
  norm_num at e
  rw [← e, Nat.and_assoc]
  rfl

theorem Copy_short {τ : Type} (b : Util.CircularBuffer τ) (target : List τ) (n : Nat)
    (h1 : 0 < n) (h2 : n < b.m_vec.length) (h3 : n - 1 ≤ target.length) :
    b.Copy target n = Except.ok (b.m_vec.take (n - 1) ++ target.drop (n - 1)) := by
  have e : (List.take (n - 1) b.m_vec).length = n - 1 := by
    rw [List.length_take]; omega
  unfold Util.CircularBuffer.Copy Util.CircularBuffer.stdCopy
  rw [if_neg (by omega), if_neg (by omega), e, if_pos h3]

theorem construct_audiobuffer :
    NES.APU.construct.m_audiobuffer.m_vec = List.replicate 2048 0 := rfl

set_option maxRecDepth 100000 in
theorem ReverseBits_bits (b : Nat) (hb : b < 256) :
    Util.ReverseBits (Util.ReverseBits b) = b
    ∧ ∀ i, i < 8 → (Util.ReverseBits b).testBit i = b.testBit (7 - i) := by
  revert b
  decide

/-! ## Lemmas on the rendering, the frame timing and the OAM DMA -/

section MuxerLemmas

open NES RP2C02

theorem and_80_shift_le (x : Nat) : ((x &&& 0x80) >>> 7) % 256 ≤ 1 := by
  have h : x &&& 0x80 ≤ 0x80 := Nat.and_le_right
  rw [Nat.shiftRight_eq_div_pow]
  omega

theorem two_bits_lt (a b : Nat) (ha : a ≤ 1) (hb : b ≤ 1) : ((a <<< 1) ||| b) % 256 < 4 := by
  have h : (a <<< 1) ||| b < 2 ^ 2 :=
    @Nat.or_lt_two_pow _ _ 2 (by rw [Nat.shiftLeft_eq]; omega) (by omega)
  omega

theorem MuxerBackground_lt (p : RP2C02) (x : MuxerPixels) (h : x.bgpix < 4) :
    (p.MuxerBackground x).bgpix < 4 ∧ (p.MuxerBackground x).sppix = x.sppix := by
  unfold MuxerBackground
  split_ifs
  · refine ⟨?_, rfl⟩
    apply two_bits_lt <;> split_ifs <;> omega
  · exact ⟨h, rfl⟩

theorem MuxerSpritesLoop_lt (p : RP2C02) (entries : List Nat) (x : MuxerPixels)
    (h : x.sppix < 4) :
    (p.MuxerSpritesLoop entries x).sppix < 4
    ∧ (p.MuxerSpritesLoop entries x).bgpix = x.bgpix
    ∧ (p.MuxerSpritesLoop entries x).bgpal = x.bgpal := by
  induction entries generalizing x with
  | nil => exact ⟨h, rfl, rfl⟩
  | cons i entries ih =>
    unfold MuxerSpritesLoop
    dsimp only
    split_ifs with h1 h2
    · exact ⟨two_bits_lt _ _ (and_80_shift_le _) (and_80_shift_le _), rfl, rfl⟩
    · exact ih _ (two_bits_lt _ _ (and_80_shift_le _) (and_80_shift_le _))
    · exact ih x h

theorem MuxerLeftColumn_lt (p : RP2C02) (x : MuxerPixels) (h1 : x.bgpix < 4)
    (h2 : x.sppix < 4) :
    (p.MuxerLeftColumn x).bgpix < 4 ∧ (p.MuxerLeftColumn x).sppix < 4 := by
  have z : (0 : Nat) < 4 := by decide
  unfold MuxerLeftColumn
  split_ifs <;> exact ⟨by first | exact h1 | exact z, by first | exact h2 | exact z⟩

theorem MuxerInputs_lt (p : RP2C02) : p.MuxerInputs.bgpix < 4 ∧ p.MuxerInputs.sppix < 4 := by
  have hb := MuxerBackground_lt p {} (by decide)
  have hs : (p.MuxerSprites (p.MuxerBackground {})).sppix < 4
      ∧ (p.MuxerSprites (p.MuxerBackground {})).bgpix = (p.MuxerBackground {}).bgpix := by
    unfold MuxerSprites
    split_ifs
    · have := MuxerSpritesLoop_lt p (List.range p.m_state.VCache.SpriteCount.toNat)
        (p.MuxerBackground {}) (by rw [hb.2]; decide)
      exact ⟨this.1, this.2.1⟩
    · exact ⟨by rw [hb.2]; decide, rfl⟩
  exact MuxerLeftColumn_lt p _ (by rw [hs.2]; exact hb.1) hs.1

end MuxerLemmas

section MuxerSprite

open NES RP2C02

theorem range_split (n : Nat) (pre : List Nat) (i : Nat) (post : List Nat)
    (h : List.range n = pre ++ i :: post) :
    i < n ∧ ∀ j, j ∈ pre ↔ j < i := by
  have hl : n = pre.length + (post.length + 1) := by
    have := congrArg List.length h
    simpa using this
  have hi : i = pre.length := by
    have h1 : (List.range n)[pre.length]? = some pre.length :=
      List.getElem?_range (by omega)
    rw [h, List.getElem?_append_right (le_refl _)] at h1
    simpa using h1
  have hp : pre = List.range i := by
    have := congrArg (List.take pre.length) h
    rw [List.take_range, List.take_left' rfl, min_eq_left (by omega)] at this
    rw [hi]
    exact this.symm
  refine ⟨by omega, fun j => ?_⟩
  rw [hp, List.mem_range]

theorem MuxerSpritesLoop_cons (p : RP2C02) (i : Nat) (entries : List Nat) (x : MuxerPixels) :
    p.MuxerSpritesLoop (i :: entries) x =
      if spriteCovers p i = true then
        if spritePixelAt p i ≠ 0 then
          { x with sppix := spritePixelAt p i
                   sppal := (p.m_state.VCache.BufferSpr i).Palette
                   sppriority := (p.m_state.VCache.BufferSpr i).Priority
                   spriteZero := (p.m_state.VCache.BufferSpr i).IsSpriteZero }
        else
          p.MuxerSpritesLoop entries
            { x with sppix := spritePixelAt p i
                     sppal := (p.m_state.VCache.BufferSpr i).Palette
                     sppriority := (p.m_state.VCache.BufferSpr i).Priority
                     spriteZero := (p.m_state.VCache.BufferSpr i).IsSpriteZero }
      else p.MuxerSpritesLoop entries x := by
  rw [MuxerSpritesLoop]
  dsimp only
  unfold spriteCovers spritePixelAt
  dsimp only
  by_cases c : ((p.m_state.ScanPos.Dots - 1 - ((p.m_state.VCache.BufferSpr i).PositionX : Int)
      >= 0) && (p.m_state.ScanPos.Dots - 1 - ((p.m_state.VCache.BufferSpr i).PositionX : Int)
      < 8)) = true
  · rw [if_pos c, if_pos c]
    simp only [bne_iff_ne, ne_eq, ite_not]
  · rw [if_neg c, if_neg c]

/-- The sprite loop of `Muxer` stops at the first entry that covers the dot
with a pixel that is not 0. -/
theorem MuxerSpritesLoop_first (p : RP2C02) (entries : List Nat) (x : MuxerPixels)
    (hx : x.sppix = 0) (h : (p.MuxerSpritesLoop entries x).sppix ≠ 0) :
    ∃ pre i post, entries = pre ++ i :: post
      ∧ spriteCovers p i = true
      ∧ (∀ j ∈ pre, spriteCovers p j = true → spritePixelAt p j = 0)
      ∧ (p.MuxerSpritesLoop entries x).sppix = spritePixelAt p i
      ∧ (p.MuxerSpritesLoop entries x).sppal = (p.m_state.VCache.BufferSpr i).Palette
      ∧ (p.MuxerSpritesLoop entries x).sppriority = (p.m_state.VCache.BufferSpr i).Priority
      ∧ (p.MuxerSpritesLoop entries x).spriteZero =
          (p.m_state.VCache.BufferSpr i).IsSpriteZero := by
  induction entries generalizing x with
  | nil => exact absurd hx h
  | cons i entries ih =>
    rw [MuxerSpritesLoop_cons] at h ⊢
    by_cases c : spriteCovers p i = true
    · rw [if_pos c] at h ⊢
      by_cases z : spritePixelAt p i = 0
      · rw [if_neg (by simp [z])] at h ⊢
        obtain ⟨pre, k, post, e1, e2, e3, e4⟩ := ih _ z h
        refine ⟨i :: pre, k, post, by rw [e1]; rfl, e2, ?_, e4⟩
        intro j hj hc
        rcases List.mem_cons.mp hj with hj | hj
        · rw [hj]; exact z
        · exact e3 j hj hc
      · rw [if_pos z]
        exact ⟨[], i, entries, rfl, c, by simp, rfl, rfl, rfl, rfl⟩
    · rw [if_neg c] at h ⊢
      obtain ⟨pre, k, post, e1, e2, e3, e4⟩ := ih x hx h
      refine ⟨i :: pre, k, post, by rw [e1]; rfl, e2, ?_, e4⟩
      intro j hj hc
      rcases List.mem_cons.mp hj with hj | hj
      · rw [hj] at hc; exact absurd hc c
      · exact e3 j hj hc

end MuxerSprite

section MuxerOutput

open NES RP2C02

theorem InternalBusRead_SetFlagStatus (p : RP2C02) (cart : CartridgeSlot) (f : StatusFlag)
    (b : Bool) (a : Nat) :
    (p.SetFlagStatus f b).InternalBusRead cart a = p.InternalBusRead cart a := by
  cases b <;> rfl

theorem GetRGBColorFromPalette_SetFlagStatus (p : RP2C02) (cart : CartridgeSlot)
    (f : StatusFlag) (b : Bool) (pal pix : Nat) :
    (p.SetFlagStatus f b).GetRGBColorFromPalette cart pal pix =
      p.GetRGBColorFromPalette cart pal pix := by
  unfold GetRGBColorFromPalette
  dsimp only
  rw [InternalBusRead_SetFlagStatus]

/-- The colour `GetRGBColorFromPalette` returns for a palette below 8 and a
2-bit pixel value: the entry of the RGB table for the palette byte. -/
theorem GetRGBColorFromPalette_eq (p : RP2C02) (cart : CartridgeSlot) (pal pix : Nat)
    (hpal : pal < 8) (hpix : pix < 4) :
    p.GetRGBColorFromPalette cart pal pix =
      Except.ok (m_paletteRGB.getD
        (((if p.Registers.PPUMask.testBit 0
            then p.VRAM.Palette (paletteIndex (0x3F00 + pal * 4 + pix)) &&& 0x30
            else p.VRAM.Palette (paletteIndex (0x3F00 + pal * 4 + pix))) % 256) &&& 0x3F) {}) := by
  unfold GetRGBColorFromPalette
  dsimp only
  rw [Nat.mod_eq_of_lt (by omega), InternalBusRead_palette _ _ _ (by omega) (by omega), map_ok]

theorem Muxer_eq (p : RP2C02) (cart : CartridgeSlot) :
    p.Muxer cart =
      if p.MuxerInputs.bgpix = 0 ∧ p.MuxerInputs.sppix = 0 then
        (p.GetRGBColorFromPalette cart 0 0).map fun pixel => (pixel, p)
      else if p.MuxerInputs.bgpix = 0 then
        (p.GetRGBColorFromPalette cart p.MuxerInputs.sppal p.MuxerInputs.sppix).map
          fun pixel => (pixel, p)
      else if p.MuxerInputs.sppix = 0 then
        (p.GetRGBColorFromPalette cart p.MuxerInputs.bgpal p.MuxerInputs.bgpix).map
          fun pixel => (pixel, p)
      else
        (p.GetRGBColorFromPalette cart
          (if p.MuxerInputs.sppriority = 0 then p.MuxerInputs.sppal else p.MuxerInputs.bgpal)
          (if p.MuxerInputs.sppriority = 0 then p.MuxerInputs.sppix
            else p.MuxerInputs.bgpix)).map
          fun pixel => (pixel,
            if p.MuxerInputs.spriteZero = true then p.SetFlagStatus StatusFlag.SpriteZeroHit true
            else p) := by
  unfold Muxer
  dsimp only
  generalize p.MuxerInputs = x
  by_cases hb : x.bgpix = 0 <;> by_cases hs : x.sppix = 0
  · simp [hb, hs]
  · have : 0 < x.sppix := Nat.pos_of_ne_zero hs
    simp [hb, hs, this]
  · have : 0 < x.bgpix := Nat.pos_of_ne_zero hb
    simp [hb, hs, this]
  · have h1 : 0 < x.bgpix := Nat.pos_of_ne_zero hb
    have h2 : 0 < x.sppix := Nat.pos_of_ne_zero hs
    simp only [hb, hs, h1, h2, beq_iff_eq, false_and, and_false, and_self, if_false,
      Bool.and_eq_true, decide_eq_true_eq, gt_iff_lt, if_true]
    by_cases hz : x.spriteZero = true <;> by_cases hp : x.sppriority = 0 <;>
      simp [hz, hp, GetRGBColorFromPalette_SetFlagStatus]

end MuxerOutput

section MuxerClaim

open NES RP2C02

theorem MuxerLeftColumn_sprite (p : RP2C02) (y : MuxerPixels) :
    ((p.MuxerLeftColumn y).sppix = 0
      ∨ ((p.MuxerLeftColumn y).sppix = y.sppix ∧ (p.MuxerLeftColumn y).sppal = y.sppal))
    ∧ (p.MuxerLeftColumn y).sppriority = y.sppriority
    ∧ (p.MuxerLeftColumn y).spriteZero = y.spriteZero := by
  unfold MuxerLeftColumn
  dsimp only
  refine ⟨?_, ?_, ?_⟩
  · split_ifs <;> first | exact Or.inl rfl | exact Or.inr ⟨rfl, rfl⟩
  · split_ifs <;> rfl
  · split_ifs <;> rfl

theorem MuxerBackground_sppix (p : RP2C02) : (p.MuxerBackground {}).sppix = 0 := by
  unfold MuxerBackground; split_ifs <;> rfl

theorem MuxerInputs_sprite (p : RP2C02) :
    p.MuxerInputs.sppix = 0 ∨
      ∃ i, i < p.m_state.VCache.SpriteCount.toNat
        ∧ spriteCovers p i = true
        ∧ (∀ j, j < i → spriteCovers p j = true → spritePixelAt p j = 0)
        ∧ p.MuxerInputs.sppix = spritePixelAt p i
        ∧ p.MuxerInputs.sppal = (p.m_state.VCache.BufferSpr i).Palette
        ∧ p.MuxerInputs.sppriority = (p.m_state.VCache.BufferSpr i).Priority
        ∧ p.MuxerInputs.spriteZero = (p.m_state.VCache.BufferSpr i).IsSpriteZero := by
  have hbg := MuxerBackground_sppix p
  obtain ⟨hL, h3, h4⟩ := MuxerLeftColumn_sprite p (p.MuxerSprites (p.MuxerBackground {}))
  change (p.MuxerInputs.sppix = 0 ∨ (p.MuxerInputs.sppix = _ ∧ p.MuxerInputs.sppal = _)) at hL
  change p.MuxerInputs.sppriority = _ at h3
  change p.MuxerInputs.spriteZero = _ at h4
  rcases hL with h0 | ⟨h1, h2⟩
  · exact Or.inl h0
  by_cases h0 : p.MuxerInputs.sppix = 0
  · exact Or.inl h0
  right
  rw [h1] at h0
  rw [h1, h2, h3, h4]
  unfold MuxerSprites at h0 ⊢
  by_cases hen : p.CheckFlagMask MaskFlag.SpriteEnable = true
  · simp only [hen, if_true] at h0 ⊢
    obtain ⟨pre, i, post, e, hc, hpre, r1, r2, r3, r4⟩ :=
      MuxerSpritesLoop_first p _ _ hbg h0
    obtain ⟨hi, hmem⟩ := range_split _ _ _ _ e
    exact ⟨i, hi, hc, fun j hj => hpre j ((hmem j).2 hj), r1, r2, r3, r4⟩
  · rw [if_neg hen] at h0
    exact absurd hbg h0

end MuxerClaim

section RendererFrame

open NES RP2C02 NESConsole

theorem keepsTiming.refl (p : RP2C02) : keepsTiming p p :=
  ⟨rfl, rfl, rfl, rfl, rfl, rfl, rfl, rfl, rfl⟩

theorem keepsTiming.comp {p q r : RP2C02} (h1 : keepsTiming p q) (h2 : keepsTiming q r) :
    keepsTiming p r := by
  obtain ⟨a1, a2, a3, a4, a5, a6, a7, a8, a9⟩ := h1
  obtain ⟨b1, b2, b3, b4, b5, b6, b7, b8, b9⟩ := h2
  exact ⟨b1.trans a1, b2.trans a2, b3.trans a3, b4.trans a4, b5.trans a5, b6.trans a6,
    b7.trans a7, b8.trans a8, b9.trans a9⟩

theorem keepsTiming_state (p : RP2C02) (s : RenderState) (h : s.ScanPos = p.m_state.ScanPos) :
    keepsTiming p { p with m_state := s } :=
  ⟨h, rfl, rfl, rfl, rfl, rfl, rfl, rfl, rfl⟩

theorem keepsTiming_SetFlagStatus (p : RP2C02) (f : StatusFlag) (b : Bool)
    (hf : f ≠ StatusFlag.VBlank) : keepsTiming p (p.SetFlagStatus f b) := by
  have h7 : (p.SetFlagStatus f b).Registers.PPUStatus.testBit 7
      = p.Registers.PPUStatus.testBit 7 := by
    rw [SetFlagStatus_testBit]
    have : ¬ (7 = f.bit) := by cases f <;> first | decide | exact absurd rfl hf
    simp [this]
  refine ⟨?_, ?_, ?_, ?_, h7, ?_, ?_, ?_, ?_⟩ <;> cases b <;> rfl

theorem InternalBusRead_ok (cart : CartridgeSlot) (hcart : answersPPU cart) (p : RP2C02)
    (a : Nat) : ∃ v, p.InternalBusRead cart a = Except.ok v := by
  obtain ⟨⟨mode, hm, h4⟩, hchr⟩ := hcart
  unfold InternalBusRead
  by_cases h1 : (decide (a ≥ 0x0000) && decide (a ≤ 0x1FFF)) = true
  · rw [if_pos h1]
    simp only [Bool.and_eq_true, decide_eq_true_eq] at h1
    exact hchr a h1.2
  rw [if_neg h1]
  by_cases h2 : (decide (a ≥ 0x2000) && decide (a ≤ 0x3EFF)) = true
  · rw [if_pos h2]
    unfold ReadNametable
    rw [hm]
    cases mode
    · exact ⟨_, rfl⟩
    · exact ⟨_, rfl⟩
    · exact absurd rfl h4
  rw [if_neg h2]
  dsimp only
  split_ifs <;> exact ⟨_, rfl⟩

theorem FetchNextBgAddress_ok (cart : CartridgeSlot) (hcart : answersPPU cart) (p : RP2C02) :
    ∃ q, p.FetchNextBgAddress cart = Except.ok q ∧ keepsTiming p q := by
  unfold FetchNextBgAddress
  obtain ⟨v, hv⟩ := InternalBusRead_ok cart hcart p
    ((0x2000 ||| (p.m_state.V.Address &&& 0x0FFF)) % 65536)
  rw [hv]
  exact ⟨_, rfl, keepsTiming_state p _ rfl⟩

theorem FetchNextBgAttribute_ok (cart : CartridgeSlot) (hcart : answersPPU cart) (p : RP2C02) :
    ∃ q, p.FetchNextBgAttribute cart = Except.ok q ∧ keepsTiming p q := by
  unfold FetchNextBgAttribute
  obtain ⟨v, hv⟩ := InternalBusRead_ok cart hcart p
    ((0x23C0 ||| (p.m_state.V.Address &&& 0x0C00) ||| ((p.m_state.V.Address >>> 4) &&& 0x38)
      ||| ((p.m_state.V.Address >>> 2) &&& 0x07)) % 65536)
  rw [hv]
  exact ⟨_, rfl, keepsTiming_state p _ rfl⟩

theorem FetchNextBgLSB_ok (cart : CartridgeSlot) (hcart : answersPPU cart) (p : RP2C02) :
    ∃ q, p.FetchNextBgLSB cart = Except.ok q ∧ keepsTiming p q := by
  unfold FetchNextBgLSB
  obtain ⟨v, hv⟩ := InternalBusRead_ok cart hcart p
    (((if p.CheckFlagCtrl CtrlFlag.BackgroundPatternTable then 0x1000 else 0x000)
      + p.m_state.VCache.BufferBg.TileIndex * 16 + p.m_state.V.FineY) % 65536)
  rw [hv]
  exact ⟨_, rfl, keepsTiming_state p _ rfl⟩

theorem FetchNextBgMSB_ok (cart : CartridgeSlot) (hcart : answersPPU cart) (p : RP2C02) :
    ∃ q, p.FetchNextBgMSB cart = Except.ok q ∧ keepsTiming p q := by
  unfold FetchNextBgMSB
  obtain ⟨v, hv⟩ := InternalBusRead_ok cart hcart p
    (((if p.CheckFlagCtrl CtrlFlag.BackgroundPatternTable then 0x1000 else 0x000)
      + p.m_state.VCache.BufferBg.TileIndex * 16 + p.m_state.V.FineY + 0x0008) % 65536)
  rw [hv]
  exact ⟨_, rfl, keepsTiming_state p _ rfl⟩

theorem RendererFetches_ok (cart : CartridgeSlot) (hcart : answersPPU cart) (p : RP2C02)
    (s d : Int) : ∃ q, p.RendererFetches cart s d = Except.ok q ∧ keepsTiming p q := by
  unfold RendererFetches
  dsimp only
  have k1 : keepsTiming p { p with m_state := p.m_state.ShiftBgRegisters } :=
    keepsTiming_state p _ rfl
  have k2 : keepsTiming p
      (PushBgBufferToShiftRegisters { p with m_state := p.m_state.ShiftBgRegisters }) :=
    keepsTiming_state p _ rfl
  split_ifs
  · obtain ⟨q, hq, kq⟩ := FetchNextBgAddress_ok cart hcart
      (PushBgBufferToShiftRegisters { p with m_state := p.m_state.ShiftBgRegisters })
    exact ⟨q, hq, k2.comp kq⟩
  · obtain ⟨q, hq, kq⟩ := FetchNextBgAttribute_ok cart hcart
      { p with m_state := p.m_state.ShiftBgRegisters }
    exact ⟨q, hq, k1.comp kq⟩
  · obtain ⟨q, hq, kq⟩ := FetchNextBgLSB_ok cart hcart
      { p with m_state := p.m_state.ShiftBgRegisters }
    exact ⟨q, hq, k1.comp kq⟩
  · obtain ⟨q, hq, kq⟩ := FetchNextBgMSB_ok cart hcart
      { p with m_state := p.m_state.ShiftBgRegisters }
    exact ⟨q, hq, k1.comp kq⟩
  · exact ⟨_, rfl, k1⟩
  · exact ⟨_, rfl, keepsTiming.refl p⟩

theorem IncrementHorizontalPos_ScanPos (s : RenderState) :
    s.IncrementHorizontalPos.ScanPos = s.ScanPos := by
  unfold RenderState.IncrementHorizontalPos
  split_ifs <;> rfl

theorem IncrementVerticalPos_ScanPos (s : RenderState) :
    s.IncrementVerticalPos.ScanPos = s.ScanPos := by
  unfold RenderState.IncrementVerticalPos
  dsimp only
  split_ifs <;> rfl

theorem RendererUpdates_keeps (p : RP2C02) (s d : Int) :
    keepsTiming p (p.RendererUpdates s d) := by
  have kH : keepsTiming p { p with m_state := p.m_state.IncrementHorizontalPos } :=
    keepsTiming_state p _ (IncrementHorizontalPos_ScanPos _)
  have kC (q : RP2C02) : keepsTiming q { q with m_state := q.m_state.CopyVerticalPos } :=
    keepsTiming_state q _ rfl
  have kV (q : RP2C02) : keepsTiming q { q with m_state := q.m_state.IncrementVerticalPos } :=
    keepsTiming_state q _ (IncrementVerticalPos_ScanPos _)
  have kX (q : RP2C02) : keepsTiming q { q with m_state := q.m_state.CopyHorizontalPos } :=
    keepsTiming_state q _ rfl
  unfold RendererUpdates
  dsimp only
  split_ifs
  all_goals first
    | exact keepsTiming.refl p
    | exact kH
    | exact kC p
    | exact kV p
    | exact kX p
    | exact kH.comp (kC _)
    | exact kH.comp (kV _)

theorem FetchSpriteRow_ok (cart : CartridgeSlot) (hcart : answersPPU cart) (p : RP2C02)
    (t a : Nat) (row : Int) : ∃ v, p.FetchSpriteRow cart t a row = Except.ok v := by
  unfold FetchSpriteRow
  dsimp only
  generalize (if (!p.CheckFlagCtrl CtrlFlag.SpriteHeight) = true then _ else _ : Int) = addr
  obtain ⟨v1, h1⟩ := InternalBusRead_ok cart hcart p addr.toNat
  obtain ⟨v2, h2⟩ := InternalBusRead_ok cart hcart p ((addr + 8) % 65536).toNat
  rw [h1, bind_ok, h2, bind_ok]
  exact ⟨_, rfl⟩

theorem keepsTiming_setBufferSpr (p : RP2C02) (i : Int) (row : RenderState.SpriteRow) :
    keepsTiming p (p.setBufferSpr i row) :=
  keepsTiming_state p _ rfl

theorem ok_keeps_of (p p1 : RP2C02) (k : keepsTiming p p1) (x : Except Fault RP2C02)
    (h : ∃ q, x = Except.ok q ∧ keepsTiming p1 q) : ∃ q, x = Except.ok q ∧ keepsTiming p q :=
  h.imp fun _ hq => ⟨hq.1, k.comp hq.2⟩

theorem EvaluateSpritesLoop_ok (cart : CartridgeSlot) (hcart : answersPPU cart) (scanl h : Int)
    (entries : List Nat) (p : RP2C02) :
    ∃ q, EvaluateSpritesLoop cart scanl h entries p = Except.ok q ∧ keepsTiming p q := by
  induction entries generalizing p with
  | nil => exact ⟨p, rfl, keepsTiming.refl p⟩
  | cons i entries ih =>
    rw [EvaluateSpritesLoop]
    dsimp only
    by_cases c1 : (decide ((p.VRAM.OAM (4 * i) : Int) - scanl + 8 ≥ 0)
        && decide ((p.VRAM.OAM (4 * i) : Int) - scanl + 8 < h)) = true
    · rw [if_pos c1]
      by_cases c2 : p.m_state.VCache.SpriteCount < 8
      · rw [if_pos c2]
        generalize hp1 : p.setBufferSpr p.m_state.VCache.SpriteCount _ = p1
        have k1 : keepsTiming p p1 := by rw [← hp1]; exact keepsTiming_setBufferSpr _ _ _
        obtain ⟨pattern, hpat⟩ := FetchSpriteRow_ok cart hcart p1 (p.VRAM.OAM (4 * i + 1))
          (p.VRAM.OAM (4 * i + 2)) ((p.VRAM.OAM (4 * i) : Int) - scanl + 8)
        rw [hpat, bind_ok]
        refine ok_keeps_of p _ ?_ _ (ih _)
        exact k1.comp ((keepsTiming_setBufferSpr _ _ _).comp (keepsTiming_state _ _ rfl))
      · rw [if_neg c2]
        exact ⟨_, rfl, keepsTiming_SetFlagStatus p _ _ (by decide)⟩
    · rw [if_neg c1]
      exact ih p

theorem EvaluateSprites_ok (cart : CartridgeSlot) (hcart : answersPPU cart) (p : RP2C02) :
    ∃ q, p.EvaluateSprites cart = Except.ok q ∧ keepsTiming p q := by
  have key (scanl : Int) : ∃ q, p.EvaluateSpritesFor cart scanl = Except.ok q
      ∧ keepsTiming p q := by
    unfold EvaluateSpritesFor
    dsimp only
    obtain ⟨q, hq, kq⟩ := EvaluateSpritesLoop_ok cart hcart scanl
      (if CheckFlagCtrl { p with m_state := { p.m_state with VCache :=
          { p.m_state.VCache with SpriteCount := 0 } } } CtrlFlag.SpriteHeight = true
        then 16 else 8)
      (List.range 64)
      { p with m_state := { p.m_state with VCache :=
          { p.m_state.VCache with SpriteCount := 0 } } }
    exact ⟨q, hq, (keepsTiming_state p _ rfl).comp kq⟩
  unfold EvaluateSprites
  dsimp only
  split_ifs
  · exact key 0
  · exact key _
  · exact ⟨p, rfl, keepsTiming.refl p⟩

theorem RendererSprites_ok (cart : CartridgeSlot) (hcart : answersPPU cart) (p : RP2C02)
    (s d : Int) : ∃ q, p.RendererSprites cart s d = Except.ok q ∧ keepsTiming p q := by
  unfold RendererSprites
  dsimp only
  split_ifs
  · exact EvaluateSprites_ok cart hcart p
  · exact ⟨p, rfl, keepsTiming.refl p⟩
  · exact ⟨p, rfl, keepsTiming.refl p⟩

theorem Muxer_ok (cart : CartridgeSlot) (hcart : answersPPU cart) (p : RP2C02) :
    ∃ r, p.Muxer cart = Except.ok r ∧ keepsTiming p r.2 := by
  rw [Muxer_eq]
  have g (a b : Nat) : ∃ v, p.GetRGBColorFromPalette cart a b = Except.ok v := by
    unfold GetRGBColorFromPalette
    dsimp only
    obtain ⟨v, hv⟩ := InternalBusRead_ok cart hcart p ((0x3F00 + a * 4 + b) % 65536)
    rw [hv]
    exact ⟨_, rfl⟩
  split_ifs
  · obtain ⟨v, hv⟩ := g 0 0
    rw [hv]; exact ⟨_, rfl, keepsTiming.refl p⟩
  · obtain ⟨v, hv⟩ := g p.MuxerInputs.sppal p.MuxerInputs.sppix
    rw [hv]; exact ⟨_, rfl, keepsTiming.refl p⟩
  · obtain ⟨v, hv⟩ := g p.MuxerInputs.bgpal p.MuxerInputs.bgpix
    rw [hv]; exact ⟨_, rfl, keepsTiming.refl p⟩
  all_goals
    first
    | (obtain ⟨v, hv⟩ := g p.MuxerInputs.sppal p.MuxerInputs.sppix
       rw [hv]
       first
       | exact ⟨_, rfl, keepsTiming.refl p⟩
       | exact ⟨_, rfl, keepsTiming_SetFlagStatus p _ _ (by decide)⟩)
    | (obtain ⟨v, hv⟩ := g p.MuxerInputs.bgpal p.MuxerInputs.bgpix
       rw [hv]
       first
       | exact ⟨_, rfl, keepsTiming.refl p⟩
       | exact ⟨_, rfl, keepsTiming_SetFlagStatus p _ _ (by decide)⟩)

theorem RendererPixel_ok (cart : CartridgeSlot) (hcart : answersPPU cart) (p : RP2C02)
    (s d : Int) : ∃ q, p.RendererPixel cart s d = Except.ok q ∧ keepsTiming p q := by
  unfold RendererPixel
  dsimp only
  by_cases hv : ((decide (s ≥ 0) && decide (s ≤ 239)) && (decide (d ≥ 1) && decide (d ≤ 256)))
      = true
  · rw [if_pos hv]
    simp only [Bool.and_eq_true, decide_eq_true_eq] at hv
    obtain ⟨r, hr, kr⟩ := Muxer_ok cart hcart p
    rw [hr, bind_ok]
    unfold DrawPixel SCREEN_WIDTH SCREEN_HEIGTH
    dsimp only
    rw [if_pos (by omega)]
    exact ⟨_, rfl, kr.comp ⟨rfl, rfl, rfl, rfl, rfl, rfl, rfl, rfl, rfl⟩⟩
  · rw [if_neg hv]
    exact ⟨p, rfl, keepsTiming.refl p⟩

end RendererFrame

section RendererTick

open NES RP2C02 NESConsole

theorem CycleRenderer_ok (cart : CartridgeSlot) (hcart : answersPPU cart) (p : RP2C02) :
    ∃ q, p.CycleRenderer cart =
        Except.ok (q.RendererAdvance p.m_state.ScanPos.Scanline p.m_state.ScanPos.Dots,
          (p.RendererFlags p.m_state.ScanPos.Scanline p.m_state.ScanPos.Dots).2)
      ∧ keepsTiming (p.RendererFlags p.m_state.ScanPos.Scanline p.m_state.ScanPos.Dots).1 q := by
  unfold CycleRenderer
  dsimp only
  obtain ⟨q1, h1, k1⟩ := RendererFetches_ok cart hcart
    (p.RendererFlags p.m_state.ScanPos.Scanline p.m_state.ScanPos.Dots).1
    p.m_state.ScanPos.Scanline p.m_state.ScanPos.Dots
  rw [h1, bind_ok]
  obtain ⟨q2, h2, k2⟩ := RendererSprites_ok cart hcart
    (q1.RendererUpdates p.m_state.ScanPos.Scanline p.m_state.ScanPos.Dots)
    p.m_state.ScanPos.Scanline p.m_state.ScanPos.Dots
  rw [h2, bind_ok]
  obtain ⟨q3, h3, k3⟩ := RendererPixel_ok cart hcart q2
    p.m_state.ScanPos.Scanline p.m_state.ScanPos.Dots
  rw [h3, bind_ok]
  exact ⟨q3, rfl, k1.comp ((RendererUpdates_keeps _ _ _).comp (k2.comp k3))⟩

theorem RendererFlags_hit (p : RP2C02) :
    p.RendererFlags 241 1 =
      ({ (p.SetFlagStatus StatusFlag.VBlank true) with m_frameCounter := p.m_frameCounter + 1 },
        if p.Registers.PPUCtrl.testBit 7 then [MOS6502.SIGNAL_CPU_NMI] else []) := by
  unfold RendererFlags
  have e : (p.SetFlagStatus StatusFlag.VBlank true).CheckFlagCtrl CtrlFlag.NMIEnable
      = p.Registers.PPUCtrl.testBit 7 := by
    rw [CheckFlagCtrl_eq]; rfl
  simp only [e]
  rfl

theorem RendererFlags_miss (p : RP2C02) (s d : Int) (h : ¬ (s = 241 ∧ d = 1)) :
    (p.RendererFlags s d).2 = []
      ∧ (p.RendererFlags s d).1.m_frameCounter = p.m_frameCounter
      ∧ (p.RendererFlags s d).1.m_state = p.m_state
      ∧ (p.RendererFlags s d).1.Registers.PPUCtrl = p.Registers.PPUCtrl
      ∧ ((p.RendererFlags s d).1.Registers.PPUStatus.testBit 7 = true →
          p.Registers.PPUStatus.testBit 7 = true)
      ∧ (p.RendererFlags s d).1.m_doDMA = p.m_doDMA
      ∧ (p.RendererFlags s d).1.m_remainingOAMDMACycles = p.m_remainingOAMDMACycles
      ∧ (p.RendererFlags s d).1.VRAM = p.VRAM
      ∧ (p.RendererFlags s d).1.m_videoModeCheck = p.m_videoModeCheck := by
  unfold RendererFlags
  dsimp only
  have c : (s == 241 && d == 1) = false := by
    rw [Bool.eq_false_iff]
    intro hc
    simp only [Bool.and_eq_true, beq_iff_eq] at hc
    exact h hc
  rw [c]
  simp only [Bool.false_eq_true, if_false]
  split_ifs
  · refine ⟨rfl, rfl, rfl, rfl, ?_, rfl, rfl, rfl, rfl⟩
    intro ht
    rw [SetFlagStatus_testBit, SetFlagStatus_testBit, SetFlagStatus_testBit] at ht
    simp [StatusFlag.bit] at ht
  · exact ⟨rfl, rfl, rfl, rfl, fun x => x, rfl, rfl, rfl, rfl⟩

theorem RendererFlags_rest (p : RP2C02) (s d : Int) :
    (p.RendererFlags s d).1.m_state = p.m_state
      ∧ (p.RendererFlags s d).1.Registers.PPUCtrl = p.Registers.PPUCtrl
      ∧ (p.RendererFlags s d).1.m_doDMA = p.m_doDMA
      ∧ (p.RendererFlags s d).1.m_remainingOAMDMACycles = p.m_remainingOAMDMACycles
      ∧ (p.RendererFlags s d).1.VRAM = p.VRAM
      ∧ (p.RendererFlags s d).1.m_videoModeCheck = p.m_videoModeCheck := by
  unfold RendererFlags
  dsimp only
  split_ifs <;> exact ⟨rfl, rfl, rfl, rfl, rfl, rfl⟩

theorem RendererAdvance_rest (q : RP2C02) (s d : Int) :
    (q.RendererAdvance s d).m_frameCounter = q.m_frameCounter
      ∧ (q.RendererAdvance s d).Registers = q.Registers
      ∧ (q.RendererAdvance s d).m_doDMA = q.m_doDMA
      ∧ (q.RendererAdvance s d).m_remainingOAMDMACycles = q.m_remainingOAMDMACycles
      ∧ (q.RendererAdvance s d).VRAM = q.VRAM
      ∧ (q.RendererAdvance s d).m_videoModeCheck = q.m_videoModeCheck := by
  unfold RendererAdvance
  dsimp only
  split_ifs <;> exact ⟨rfl, rfl, rfl, rfl, rfl, rfl⟩

theorem IncrementScanPos_eq (s : RenderState) :
    s.IncrementScanPos.ScanPos.Dots = (if s.ScanPos.Dots + 1 > 340 then 0 else s.ScanPos.Dots + 1)
      ∧ s.IncrementScanPos.ScanPos.Scanline =
        (if s.ScanPos.Dots + 1 > 340 then
          (if s.ScanPos.Scanline + 1 > 261 then 0 else s.ScanPos.Scanline + 1)
        else s.ScanPos.Scanline) := by
  unfold RenderState.IncrementScanPos
  dsimp only
  split_ifs <;> exact ⟨rfl, rfl⟩

/-- The scan position after `RendererAdvance` when the odd-frame skip does
not apply. -/
theorem RendererAdvance_pos (q : RP2C02) (s d : Int)
    (h : ¬ (q.m_frameCounter % 2 ≠ 0 ∧ s = 261 ∧ d = 339)) :
    (q.RendererAdvance s d).m_state.ScanPos.Dots =
        (if q.m_state.ScanPos.Dots + 1 > 340 then 0 else q.m_state.ScanPos.Dots + 1)
      ∧ (q.RendererAdvance s d).m_state.ScanPos.Scanline =
        (if q.m_state.ScanPos.Dots + 1 > 340 then
          (if q.m_state.ScanPos.Scanline + 1 > 261 then 0 else q.m_state.ScanPos.Scanline + 1)
        else q.m_state.ScanPos.Scanline) := by
  unfold RendererAdvance
  dsimp only
  have c : ((q.m_frameCounter % 2 != 0) && s == 261 && d == 339) = false := by
    rw [Bool.eq_false_iff]
    intro hc
    simp only [Bool.and_eq_true, beq_iff_eq, bne_iff_ne, ne_eq] at hc
    exact h ⟨hc.1.1, hc.1.2, hc.2⟩
  rw [c]
  simp only [Bool.false_eq_true, if_false]
  exact IncrementScanPos_eq q.m_state

end RendererTick

section RendererRun

open NES RP2C02 NESConsole

/-- One call of `CycleRenderer` with a cartridge that answers: it returns,
and what it leaves in the members that time the frame. -/
theorem CycleRenderer_tick (cart : CartridgeSlot) (hcart : answersPPU cart) (p : RP2C02) :
    ∃ r, p.CycleRenderer cart = Except.ok r
      ∧ r.2 = (p.RendererFlags p.m_state.ScanPos.Scanline p.m_state.ScanPos.Dots).2
      ∧ r.1.m_frameCounter =
          (p.RendererFlags p.m_state.ScanPos.Scanline p.m_state.ScanPos.Dots).1.m_frameCounter
      ∧ r.1.Registers.PPUStatus.testBit 7 =
          (p.RendererFlags p.m_state.ScanPos.Scanline
            p.m_state.ScanPos.Dots).1.Registers.PPUStatus.testBit 7
      ∧ r.1.Registers.PPUCtrl = p.Registers.PPUCtrl
      ∧ r.1.m_doDMA = p.m_doDMA
      ∧ r.1.m_remainingOAMDMACycles = p.m_remainingOAMDMACycles
      ∧ r.1.VRAM = p.VRAM
      ∧ r.1.m_videoModeCheck = p.m_videoModeCheck
      ∧ (¬ (r.1.m_frameCounter % 2 ≠ 0 ∧ p.m_state.ScanPos.Scanline = 261
            ∧ p.m_state.ScanPos.Dots = 339) →
          r.1.m_state.ScanPos.Dots =
            (if p.m_state.ScanPos.Dots + 1 > 340 then 0 else p.m_state.ScanPos.Dots + 1)
          ∧ r.1.m_state.ScanPos.Scanline =
            (if p.m_state.ScanPos.Dots + 1 > 340 then
              (if p.m_state.ScanPos.Scanline + 1 > 261 then 0
                else p.m_state.ScanPos.Scanline + 1)
            else p.m_state.ScanPos.Scanline)) := by
  obtain ⟨q, hq, k1, k2, k3, k4, k5, k6, k7, k8, k9⟩ := CycleRenderer_ok cart hcart p
  obtain ⟨f1, f2, f3, f4, f5, f6⟩ :=
    RendererFlags_rest p p.m_state.ScanPos.Scanline p.m_state.ScanPos.Dots
  obtain ⟨a1, a2, a3, a4, a5, a6⟩ :=
    RendererAdvance_rest q p.m_state.ScanPos.Scanline p.m_state.ScanPos.Dots
  refine ⟨_, hq, rfl, ?_, ?_, ?_, ?_, ?_, ?_, ?_, ?_⟩
  · exact a1.trans k2
  · show (q.RendererAdvance _ _).Registers.PPUStatus.testBit 7 = _
    rw [a2]; exact k5
  · show (q.RendererAdvance _ _).Registers.PPUCtrl = _
    rw [a2, k3]; exact f2
  · exact a3.trans (k6.trans f3)
  · exact a4.trans (k7.trans f4)
  · exact a5.trans (k8.trans f5)
  · exact a6.trans (k9.trans f6)
  · intro hs
    have hs2 : ¬ (q.m_frameCounter % 2 ≠ 0 ∧ p.m_state.ScanPos.Scanline = 261
        ∧ p.m_state.ScanPos.Dots = 339) := by
      intro c
      apply hs
      refine ⟨?_, c.2⟩
      show (q.RendererAdvance _ _).m_frameCounter % 2 ≠ 0
      rw [a1]; exact c.1
    have := RendererAdvance_pos q _ _ hs2
    rw [k1, f1] at this
    exact this

/-- The state of the run of `renderTicks` after `k` ticks, up to the tick at
scanline 241, dot 1. -/
theorem renderTicks_before (cart : CartridgeSlot) (hcart : answersPPU cart)
    (between : Nat → RP2C02 → RP2C02)
    (hbetween : ∀ k q, (between k q).m_state.ScanPos = q.m_state.ScanPos
      ∧ (between k q).m_frameCounter = q.m_frameCounter)
    (p : RP2C02) (hpos : p.m_state.ScanPos.Dots = 0 ∧ p.m_state.ScanPos.Scanline = 261)
    (hfc : p.m_frameCounter = 0) (k : Nat) (hk : k ≤ 82523) :
    ∃ q, renderTicks cart between k p = Except.ok (q, [])
      ∧ q.m_state.ScanPos.Dots = ((k % 341 : Nat) : Int)
      ∧ q.m_state.ScanPos.Scanline = (((261 + k / 341) % 262 : Nat) : Int)
      ∧ q.m_frameCounter = 0 := by
  induction k with
  | zero => exact ⟨p, rfl, hpos.1, hpos.2, hfc⟩
  | succ k ih =>
    obtain ⟨q, hq, d, s, fc⟩ := ih (by omega)
    obtain ⟨b1, b2⟩ := hbetween k q
    obtain ⟨r, hr, r1, r2, _, _, _, _, _, _, r3⟩ := CycleRenderer_tick cart hcart (between k q)
    have hmiss : ¬ ((between k q).m_state.ScanPos.Scanline = 241
        ∧ (between k q).m_state.ScanPos.Dots = 1) := by
      rw [b1, d, s]; omega
    obtain ⟨m1, m2, _⟩ := RendererFlags_miss (between k q) _ _ hmiss
    rw [m1] at r1
    rw [m2, b2, fc] at r2
    have r3 := r3 (by rw [r2]; simp)
    rw [b1, d, s] at r3
    rw [renderTicks, hq, bind_ok, hr, bind_ok, r1]
    refine ⟨r.1, rfl, ?_, ?_, r2⟩
    · rw [r3.1]; split_ifs <;> omega
    · rw [r3.2]; split_ifs <;> omega

/-- The tick at scanline 241, dot 1 of the run of `renderTicks`: tick 82523. -/
theorem renderTicks_hit (cart : CartridgeSlot) (hcart : answersPPU cart)
    (between : Nat → RP2C02 → RP2C02)
    (hbetween : ∀ k q, (between k q).m_state.ScanPos = q.m_state.ScanPos
      ∧ (between k q).m_frameCounter = q.m_frameCounter)
    (p : RP2C02) (hpos : p.m_state.ScanPos.Dots = 0 ∧ p.m_state.ScanPos.Scanline = 261)
    (hfc : p.m_frameCounter = 0) :
    ∃ q0 q, renderTicks cart between 82523 p = Except.ok (q0, [])
      ∧ (between 82523 q0).m_state.ScanPos.Scanline = 241
      ∧ (between 82523 q0).m_state.ScanPos.Dots = 1
      ∧ renderTicks cart between 82524 p = Except.ok (q,
          if (between 82523 q0).Registers.PPUCtrl.testBit 7 then [MOS6502.SIGNAL_CPU_NMI]
          else [])
      ∧ q.Registers.PPUStatus.testBit 7 = true
      ∧ q.m_state.ScanPos.Dots = 2 ∧ q.m_state.ScanPos.Scanline = 241
      ∧ q.m_frameCounter = 1 := by
  obtain ⟨q0, hq0, d, s, fc⟩ :=
    renderTicks_before cart hcart between hbetween p hpos hfc 82523 (le_refl _)
  obtain ⟨b1, b2⟩ := hbetween 82523 q0
  have hs : (between 82523 q0).m_state.ScanPos.Scanline = 241 := by rw [b1, s]; rfl
  have hd : (between 82523 q0).m_state.ScanPos.Dots = 1 := by rw [b1, d]; rfl
  obtain ⟨r, hr, r1, r2, r3, _, _, _, _, _, r4⟩ :=
    CycleRenderer_tick cart hcart (between 82523 q0)
  rw [hs, hd, RendererFlags_hit] at r1 r2 r3
  have r4 := r4 (by rw [hs]; omega)
  rw [hs, hd] at r4
  refine ⟨q0, r.1, hq0, hs, hd, ?_, ?_, r4.1, r4.2, ?_⟩
  · rw [renderTicks, hq0, bind_ok, hr, bind_ok, r1]
    rfl
  · rw [r3]
    show ((between 82523 q0).SetFlagStatus StatusFlag.VBlank true).Registers.PPUStatus.testBit 7
      = true
    rw [SetFlagStatus_testBit]
    rfl
  · rw [r2]
    show (between 82523 q0).m_frameCounter + 1 = 1
    rw [b2, fc]

/-- The state of the run of `renderTicks` after the tick at scanline 241,
dot 1, to the end of the first frame. -/
theorem renderTicks_after (cart : CartridgeSlot) (hcart : answersPPU cart)
    (between : Nat → RP2C02 → RP2C02)
    (hbetween : ∀ k q, (between k q).m_state.ScanPos = q.m_state.ScanPos
      ∧ (between k q).m_frameCounter = q.m_frameCounter)
    (p : RP2C02) (sig : List Int) (q1 : RP2C02)
    (h1 : renderTicks cart between 82524 p = Except.ok (q1, sig))
    (hd1 : q1.m_state.ScanPos.Dots = 2) (hs1 : q1.m_state.ScanPos.Scanline = 241)
    (hf1 : q1.m_frameCounter = 1)
    (k : Nat) (hk1 : 82524 ≤ k) (hk2 : k ≤ 89343) :
    ∃ q, renderTicks cart between k p = Except.ok (q, sig)
      ∧ q.m_state.ScanPos.Dots = ((k % 341 : Nat) : Int)
      ∧ q.m_state.ScanPos.Scanline = (((261 + k / 341) % 262 : Nat) : Int)
      ∧ q.m_frameCounter = 1 := by
  induction k, hk1 using Nat.le_induction with
  | base => exact ⟨q1, h1, hd1, hs1, hf1⟩
  | succ k hk ih =>
    obtain ⟨q, hq, d, s, fc⟩ := ih (by omega)
    obtain ⟨b1, b2⟩ := hbetween k q
    obtain ⟨r, hr, r1, r2, _, _, _, _, _, _, r3⟩ := CycleRenderer_tick cart hcart (between k q)
    have hmiss : ¬ ((between k q).m_state.ScanPos.Scanline = 241
        ∧ (between k q).m_state.ScanPos.Dots = 1) := by
      rw [b1, d, s]; omega
    obtain ⟨m1, m2, _⟩ := RendererFlags_miss (between k q) _ _ hmiss
    rw [m1] at r1
    rw [m2, b2, fc] at r2
    have r3 := r3 (by rw [b1, d, s]; omega)
    rw [b1, d, s] at r3
    rw [renderTicks, hq, bind_ok, hr, bind_ok, r1, List.append_nil]
    refine ⟨r.1, rfl, ?_, ?_, r2⟩
    · rw [r3.1]; split_ifs <;> omega
    · rw [r3.2]; split_ifs <;> omega

/-- PPUCTRL during the run of `renderTicks`, when nothing between the ticks
changes it. -/
theorem renderTicks_ctrl (cart : CartridgeSlot) (hcart : answersPPU cart)
    (between : Nat → RP2C02 → RP2C02)
    (hctrl : ∀ k q, (between k q).Registers.PPUCtrl = q.Registers.PPUCtrl)
    (p : RP2C02) (k : Nat) (r : RP2C02 × List Int)
    (h : renderTicks cart between k p = Except.ok r) :
    r.1.Registers.PPUCtrl = p.Registers.PPUCtrl := by
  induction k generalizing r with
  | zero => cases h; rfl
  | succ k ih =>
    rw [renderTicks] at h
    obtain ⟨r0, h0, h⟩ := bind_eq_ok h
    obtain ⟨t, ht, h⟩ := bind_eq_ok h
    cases h
    obtain ⟨t1, ht1, _, _, _, c, _⟩ := CycleRenderer_tick cart hcart (between k r0.1)
    have e : t1 = t := by rw [ht1] at ht; exact Except.ok.inj ht
    subst e
    show t1.1.Registers.PPUCtrl = _
    rw [c, hctrl, ih r0 h0]

end RendererRun

section RegisterFrame

open NES RP2C02 NESConsole

theorem InternalBusWrite_frameCounter (p p1 : RP2C02) (cart cart1 : CartridgeSlot) (a d : Nat)
    (h : p.InternalBusWrite cart a d = Except.ok (p1, cart1)) :
    p1.m_frameCounter = p.m_frameCounter := by
  unfold InternalBusWrite at h
  split_ifs at h
  · cases hc : cart.PPUWriteToDevice a d with
    | error e => rw [hc] at h; cases h
    | ok c => rw [hc] at h; cases h; rfl
  · unfold WriteNametable at h
    cases hc : cart.GetNametableMirrorMode with
    | error e => rw [hc] at h; cases h
    | ok mode =>
      rw [hc] at h
      simp only [] at h
      split_ifs at h <;> cases h <;> rfl
  · cases h; rfl
  · cases h; rfl

/-- A write to a PPU register leaves the scan position and the frame counter. -/
theorem WriteToDevice_timing (range : AddressRange) (p p1 : RP2C02) (cart cart1 : CartridgeSlot)
    (a w : Nat) (h : p.WriteToDevice range cart a w = Except.ok (p1, cart1)) :
    p1.m_state.ScanPos = p.m_state.ScanPos ∧ p1.m_frameCounter = p.m_frameCounter := by
  unfold WriteToDevice at h
  dsimp only at h
  by_cases h0 : (((a : Int) - (range.Min : Int)) == 0) = true
  · rw [if_pos h0] at h
    cases h; exact ⟨rfl, rfl⟩
  rw [if_neg h0] at h
  by_cases h1 : (((a : Int) - (range.Min : Int)) == 1) = true
  · rw [if_pos h1] at h
    cases h; exact ⟨rfl, rfl⟩
  rw [if_neg h1] at h
  by_cases h2 : (((a : Int) - (range.Min : Int)) == 2) = true
  · rw [if_pos h2] at h
    cases h; exact ⟨rfl, rfl⟩
  rw [if_neg h2] at h
  by_cases h3 : (((a : Int) - (range.Min : Int)) == 3) = true
  · rw [if_pos h3] at h
    cases h; exact ⟨rfl, rfl⟩
  rw [if_neg h3] at h
  by_cases h4 : (((a : Int) - (range.Min : Int)) == 4) = true
  · rw [if_pos h4] at h
    cases h; exact ⟨rfl, rfl⟩
  rw [if_neg h4] at h
  by_cases h5 : (((a : Int) - (range.Min : Int)) == 5) = true
  · rw [if_pos h5] at h
    split_ifs at h <;> cases h <;> exact ⟨rfl, rfl⟩
  rw [if_neg h5] at h
  by_cases h6 : (((a : Int) - (range.Min : Int)) == 6) = true
  · rw [if_pos h6] at h
    split_ifs at h <;> cases h <;> exact ⟨rfl, rfl⟩
  rw [if_neg h6] at h
  by_cases h7 : (((a : Int) - (range.Min : Int)) == 7) = true
  · rw [if_pos h7] at h
    cases hc : InternalBusWrite { p with m_ppuRegWriteBuf := w % 256 } cart
        p.m_state.V.Address (w % 256) with
    | error e => rw [hc] at h; cases h
    | ok r =>
      rw [hc] at h
      obtain ⟨r1, r2⟩ := r
      obtain ⟨_, _, e3⟩ := InternalBusWrite_buf _ _ _ _ _ _ hc
      have e4 := InternalBusWrite_frameCounter _ _ _ _ _ _ hc
      cases h
      exact ⟨by rw [← e3], e4⟩
  rw [if_neg h7] at h
  cases h; exact ⟨rfl, rfl⟩

/-- A read of a PPU register leaves the scan position and the frame counter. -/
theorem ReadFromDevice_timing (range : AddressRange) (p p1 : RP2C02) (cart : CartridgeSlot)
    (a v : Nat) (peek : Bool) (h : p.ReadFromDevice range cart a peek = Except.ok (v, p1)) :
    p1.m_state.ScanPos = p.m_state.ScanPos ∧ p1.m_frameCounter = p.m_frameCounter := by
  unfold ReadFromDevice at h
  dsimp only at h
  by_cases h0 : (((a : Int) - (range.Min : Int)) == 0) = true
  · rw [if_pos h0] at h
    split_ifs at h <;> cases h <;> exact ⟨rfl, rfl⟩
  rw [if_neg h0] at h
  by_cases h1 : (((a : Int) - (range.Min : Int)) == 1) = true
  · rw [if_pos h1] at h
    split_ifs at h <;> cases h <;> exact ⟨rfl, rfl⟩
  rw [if_neg h1] at h
  by_cases h2 : (((a : Int) - (range.Min : Int)) == 2) = true
  · rw [if_pos h2] at h
    by_cases hp : peek = true
    · rw [if_pos hp] at h; cases h; exact ⟨rfl, rfl⟩
    rw [if_neg hp] at h
    cases h
    exact ⟨rfl, rfl⟩
  rw [if_neg h2] at h
  by_cases h3 : (((a : Int) - (range.Min : Int)) == 3) = true
  · rw [if_pos h3] at h
    split_ifs at h <;> cases h <;> exact ⟨rfl, rfl⟩
  rw [if_neg h3] at h
  by_cases h4 : (((a : Int) - (range.Min : Int)) == 4) = true
  · rw [if_pos h4] at h
    cases h; exact ⟨rfl, rfl⟩
  rw [if_neg h4] at h
  by_cases h5 : (((a : Int) - (range.Min : Int)) == 5) = true
  · rw [if_pos h5] at h
    split_ifs at h <;> cases h <;> exact ⟨rfl, rfl⟩
  rw [if_neg h5] at h
  by_cases h6 : (((a : Int) - (range.Min : Int)) == 6) = true
  · rw [if_pos h6] at h
    split_ifs at h <;> cases h <;> exact ⟨rfl, rfl⟩
  rw [if_neg h6] at h
  by_cases h7 : (((a : Int) - (range.Min : Int)) == 7) = true
  · rw [if_pos h7] at h
    by_cases hp : peek = true
    · rw [if_pos hp] at h; cases h; exact ⟨rfl, rfl⟩
    rw [if_neg hp] at h
    cases hc : p.InternalBusRead cart p.m_state.V.Address with
    | error e => rw [hc] at h; cases h
    | ok r => rw [hc] at h; cases h; exact ⟨rfl, rfl⟩
  rw [if_neg h7] at h
  cases h; exact ⟨rfl, rfl⟩

theorem OnBusSignal_timing (p : RP2C02) (signalId : Int) :
    (p.OnBusSignal signalId).m_state.ScanPos = p.m_state.ScanPos
      ∧ (p.OnBusSignal signalId).m_frameCounter = p.m_frameCounter := by
  unfold OnBusSignal
  split_ifs <;> exact ⟨rfl, rfl⟩

theorem nromSlot_answersPPU : answersPPU nromSlot := by
  refine ⟨⟨NametableMirrorMode.Horizontal, rfl, by decide⟩, ?_⟩
  intro a ha
  have e : nromSlot.PPUReadFromDevice a false =
      vectorAt (List.replicate 8192 0) (a &&& 8191) := by
    unfold CartridgeSlot.PPUReadFromDevice nromSlot
    dsimp only
    unfold Cartridge.PPUBusRead Mapper000.MapPPUAddress
    have c : (decide (a ≥ 0x0000) && decide (a ≤ 0x1FFF) && (false == false)) = true := by
      simp [ha]
    rw [if_pos c]
    rfl
  rw [e]
  unfold vectorAt
  have hlt : a &&& 8191 < 8192 := Nat.lt_succ_of_le Nat.and_le_right
  rw [List.getElem?_eq_getElem (by rw [List.length_replicate]; exact hlt)]
  exact ⟨_, rfl⟩

end RegisterFrame

section ConsoleBus

open NES NESConsole

theorem find_apu {α : Type} (apu ctr : Bus.Device (Devices α)) (a : Nat) (h1 : 0x4000 ≤ a)
    (h2 : a ≤ 0x4015) :
    (addressableDevices apu ctr).find? (fun device => Bus.CheckAddressBelongsTo device a) =
      some (apuDevice apu) := by
  have r (d : Bus.Device (Devices α)) :
      Bus.CheckAddressBelongsTo d a
        = decide (d.m_addressableRange.Min ≤ a ∧ a ≤ d.m_addressableRange.Max) := by
    rw [Bool.eq_iff_iff, belongs_iff]; simp
  unfold addressableDevices
  simp only [List.find?_cons, r, range_ram, range_rmm, range_cas, range_ppu, range_pmm,
    range_apu]
  have c1 : ¬ a ≤ 0x7FF := by omega
  have c2 : ¬ a ≤ 0x1FFF := by omega
  have c3 : ¬ 0x4020 ≤ a := by omega
  have c4 : ¬ a ≤ 0x2007 := by omega
  have c5 : ¬ a ≤ 0x3FFF := by omega
  simp [c1, c2, c3, c4, c5, h1, h2]

theorem belongs_apu {α : Type} (apu ctr : Bus.Device (Devices α)) (d : Bus.Device (Devices α))
    (hmem : d ∈ addressableDevices apu ctr) (a : Nat) (h1 : 0x4000 ≤ a) (h2 : a ≤ 0x4015)
    (hb : Bus.CheckAddressBelongsTo d a = true) : d = apuDevice apu := by
  rw [belongs_iff] at hb
  unfold addressableDevices at hmem
  simp only [List.mem_cons, List.mem_singleton, List.not_mem_nil, or_false] at hmem
  rcases hmem with h | h | h | h | h | h | h <;> subst h
  · rw [range_ram] at hb; simp only at hb; omega
  · rw [range_rmm] at hb; simp only at hb; omega
  · rw [range_cas] at hb; simp only at hb; omega
  · rw [range_ppu] at hb; simp only at hb; omega
  · rw [range_pmm] at hb; simp only at hb; omega
  · rfl
  · rw [range_ctr] at hb; simp only at hb; omega

theorem apu_mem {α : Type} (apu ctr : Bus.Device (Devices α)) :
    apuDevice apu ∈ addressableDevices apu ctr := by
  simp [addressableDevices]

theorem GetDeviceAt_apu {α : Type} (apu ctr : Bus.Device (Devices α)) (b : Bus (Devices α))
    (h : Wired apu ctr b) (a : Nat) (h1 : 0x4000 ≤ a) (h2 : a ≤ 0x4015) :
    ∃ b', Wired apu ctr b' ∧ b'.m_nonAddressableDevices = b.m_nonAddressableDevices
      ∧ Bus.GetDeviceAt b a = Except.ok (some (apuDevice apu), b') := by
  obtain ⟨hd, d, hmem, hc⟩ := h
  unfold Bus.GetDeviceAt
  rw [hc]
  simp only []
  by_cases hb : Bus.CheckAddressBelongsTo d a = true
  · rw [if_pos hb, belongs_apu apu ctr d hmem a h1 h2 hb]
    refine ⟨b, ⟨hd, apuDevice apu, apu_mem apu ctr, ?_⟩, rfl, rfl⟩
    rw [hc, belongs_apu apu ctr d hmem a h1 h2 hb]
  · rw [if_neg hb, hd, find_apu apu ctr a h1 h2]
    exact ⟨Bus.mk (addressableDevices apu ctr) b.m_nonAddressableDevices
        (some (apuDevice apu)),
      ⟨rfl, apuDevice apu, apu_mem apu ctr, rfl⟩, rfl, rfl⟩

/-- The non-addressable devices after a look-up. -/
theorem GetDeviceAt_non {σ : Type} (b b' : Bus σ) (a : Nat) (d : Option (Bus.Device σ))
    (h : b.GetDeviceAt a = Except.ok (d, b')) :
    b'.m_nonAddressableDevices = b.m_nonAddressableDevices := by
  unfold Bus.GetDeviceAt at h
  cases hc : b.m_cachedDevicePtr with
  | none => rw [hc] at h; cases h
  | some cached =>
    rw [hc] at h
    simp only [] at h
    split_ifs at h
    · cases h; rfl
    · cases hf : b.m_addressableDevices.find?
          (fun device => Bus.CheckAddressBelongsTo device a) with
      | none => rw [hf] at h; cases h; rfl
      | some dev => rw [hf] at h; cases h; rfl

/-- A read of the console bus in the RAM or its mirror. -/
theorem console_read_ram (n : NESConsole) (hb : Wired apu ctr n.m_bus)
    (hnon : n.m_bus.m_nonAddressableDevices = [])
    (hsize : n.m_dev.m_ram.m_size = 0x0800) (a : Nat) (ha : a ≤ 0x1FFF) :
    ∃ b', Wired apu ctr b' ∧ b'.m_nonAddressableDevices = []
      ∧ port.ReadFromBus n a =
          Except.ok (n.m_dev.m_ram.m_data (a &&& 0x07FF), { n with m_bus := b' }) := by
  obtain ⟨b', hw, hg⟩ := GetDeviceAt_wired apu ctr n.m_bus hb a (by omega)
  refine ⟨b', hw, (GetDeviceAt_non _ _ _ _ hg).trans hnon, ?_⟩
  show (n.m_bus.ReadFromBus n.m_dev a).map _ = _
  rw [Bus.ReadFromBus_of n.m_bus b' _ n.m_dev a hg, owner_read_ram n.m_dev hsize a ha, map_ok,
    map_ok]

/-- A read of `0x4014` on the console bus: the byte the APU keeps for the
DMA. -/
theorem console_read_dma (n : NESConsole) (hb : Wired apu ctr n.m_bus)
    (hnon : n.m_bus.m_nonAddressableDevices = []) :
    ∃ b', Wired apu ctr b' ∧ b'.m_nonAddressableDevices = []
      ∧ port.ReadFromBus n 0x4014 =
          Except.ok (n.m_dev.m_io.m_apu.m_addressDMA, { n with m_bus := b' }) := by
  obtain ⟨b', hw, hn, hg⟩ := GetDeviceAt_apu apu ctr n.m_bus hb 0x4014 (by decide) (by decide)
  refine ⟨b', hw, hn.trans hnon, ?_⟩
  show (n.m_bus.ReadFromBus n.m_dev 0x4014).map _ = _
  rw [Bus.ReadFromBus_of n.m_bus b' _ n.m_dev 0x4014 hg]
  rfl

/-- A signal that only the CPU handles leaves the devices of the console. -/
theorem console_emit (n : NESConsole) (hb : Wired apu ctr n.m_bus)
    (hnon : n.m_bus.m_nonAddressableDevices = []) (signalId : Int)
    (h1 : signalId ≠ SIGNAL_PPU_DMA)
    (h2 : ¬ (SIGNAL_APU_FRC_NONE ≤ signalId ∧ signalId ≤ SIGNAL_APU_FRC_MI)) :
    port.EmitSignal n signalId = { n with m_cpu := n.m_cpu.OnBusSignal signalId } := by
  have e : n.m_bus.EmitSignal n.m_dev signalId = n.m_dev := by
    unfold Bus.EmitSignal
    rw [hb.1, hnon]
    have p1 : n.m_dev.m_ppu.OnBusSignal signalId = n.m_dev.m_ppu := by
      unfold RP2C02.OnBusSignal
      rw [if_neg (by simpa using h1)]
    have p2 : n.m_dev.m_io.m_apu.OnBusSignal signalId = n.m_dev.m_io.m_apu := by
      unfold APU.OnBusSignal
      rw [if_neg (by simpa using h2)]
    show ({ ({ n.m_dev with m_ppu := n.m_dev.m_ppu.OnBusSignal signalId } :
        Devices Peripherals) with
      m_io := { n.m_dev.m_io with m_apu := n.m_dev.m_io.m_apu.OnBusSignal signalId } } :
        Devices Peripherals) = n.m_dev
    rw [p1, p2]
  show ({ n with m_dev := n.m_bus.EmitSignal n.m_dev signalId,
                 m_cpu := n.m_cpu.OnBusSignal signalId } : NESConsole) = _
  rw [e]

end ConsoleBus

section ConsoleDMA

open NES NESConsole

theorem dma_address (h lsb : Nat) (hh : h ≤ 0x1F) (hl : lsb < 256) :
    ((((h % 256) <<< 8) % 65536 ||| lsb) % 65536) &&& 0x07FF = (h * 256 + lsb) % 2048
      ∧ (((h % 256) <<< 8) % 65536 ||| lsb) % 65536 ≤ 0x1FFF := by
  have e1 : ((h % 256) <<< 8) % 65536 = 2 ^ 8 * h := by
    rw [Nat.shiftLeft_eq]; omega
  have e2 : 2 ^ 8 * h ||| lsb = 2 ^ 8 * h + lsb := (Nat.mul_add_lt_is_or hl h).symm
  have e3 := Nat.and_pow_two_sub_one_eq_mod ((2 ^ 8 * h + lsb) % 65536) 11
  norm_num at e3
  rw [e1, e2]
  norm_num
  constructor
  · rw [e3]; omega
  · omega

/-- The loop of `OAMDMA` on the console when the source is the RAM. -/
theorem OAMDMALoop_ram (h : Nat) (hh : h ≤ 0x1F) (lsbs : List Nat) (hl : ∀ l ∈ lsbs, l < 256)
    (n : NESConsole) (hb : Wired apu ctr n.m_bus) (hnon : n.m_bus.m_nonAddressableDevices = [])
    (hsize : n.m_dev.m_ram.m_size = 0x0800) :
    ∃ n1, RP2C02.OAMDMALoop port (fun n => n.m_dev.m_ppu)
          (fun n p => { n with m_dev := { n.m_dev with m_ppu := p } })
          (((h % 256) <<< 8) % 65536) lsbs n = Except.ok n1
      ∧ Wired apu ctr n1.m_bus ∧ n1.m_bus.m_nonAddressableDevices = []
      ∧ n1.m_cpu = n.m_cpu ∧ n1.m_systemClockCount = n.m_systemClockCount
      ∧ sameBoard n n1
      ∧ n1.m_dev.m_ppu = { n.m_dev.m_ppu with VRAM := { n.m_dev.m_ppu.VRAM with
          OAM := n1.m_dev.m_ppu.VRAM.OAM } }
      ∧ ∀ i, n1.m_dev.m_ppu.VRAM.OAM i =
          if i ∈ lsbs then n.m_dev.m_ram.m_data ((h * 256 + i) % 2048) % 256
          else n.m_dev.m_ppu.VRAM.OAM i := by
  induction lsbs generalizing n with
  | nil =>
    refine ⟨n, rfl, hb, hnon, rfl, rfl, ⟨rfl, rfl, rfl⟩, rfl, ?_⟩
    intro i; simp
  | cons lsb lsbs ih =>
    have hlsb : lsb < 256 := hl lsb (List.mem_cons_self _ _)
    obtain ⟨a1, a2⟩ := dma_address h lsb hh hlsb
    obtain ⟨b', hw, hn, hr⟩ := console_read_ram n hb hnon hsize _ a2
    rw [RP2C02.OAMDMALoop, hr, bind_ok, a1]
    dsimp only
    obtain ⟨n1, e, w1, w2, w3, w4, ⟨w5, w6, w7⟩, w8, w9⟩ :=
      ih (fun l hl2 => hl l (List.mem_cons_of_mem _ hl2))
        { m_bus := b'
          m_dev := { n.m_dev with m_ppu := { n.m_dev.m_ppu with VRAM := { n.m_dev.m_ppu.VRAM with
            OAM := fun i => if i = lsb then n.m_dev.m_ram.m_data ((h * 256 + lsb) % 2048) % 256
              else n.m_dev.m_ppu.VRAM.OAM i } } }
          m_cpu := n.m_cpu
          m_systemClockCount := n.m_systemClockCount } hw hn hsize
    refine ⟨n1, e, w1, w2, w3, w4, ⟨w5, w6, w7⟩, ?_, ?_⟩
    · rw [w8]
    · intro i
      rw [w9 i]
      by_cases hi : i ∈ lsbs
      · rw [if_pos hi, if_pos (List.mem_cons_of_mem _ hi)]
      · rw [if_neg hi]
        by_cases hi2 : i = lsb
        · subst hi2
          rw [if_pos (List.mem_cons_self _ _)]
          simp
        · rw [if_neg (by simp [hi, hi2])]
          simp [hi2]

/-- `OAMDMA` on the console when the APU keeps the page `h` of the RAM. -/
theorem OAMDMA_ram (n : NESConsole) (hb : Wired apu ctr n.m_bus)
    (hnon : n.m_bus.m_nonAddressableDevices = [])
    (hsize : n.m_dev.m_ram.m_size = 0x0800) (hh : n.m_dev.m_io.m_apu.m_addressDMA ≤ 0x1F) :
    ∃ n1, RP2C02.OAMDMA port (fun n => n.m_dev.m_ppu)
          (fun n p => { n with m_dev := { n.m_dev with m_ppu := p } }) n = Except.ok n1
      ∧ Wired apu ctr n1.m_bus ∧ n1.m_bus.m_nonAddressableDevices = []
      ∧ n1.m_cpu = n.m_cpu ∧ n1.m_systemClockCount = n.m_systemClockCount
      ∧ sameBoard n n1
      ∧ n1.m_dev.m_ppu = { n.m_dev.m_ppu with VRAM := { n.m_dev.m_ppu.VRAM with
          OAM := n1.m_dev.m_ppu.VRAM.OAM } }
      ∧ ∀ i, i < 256 → n1.m_dev.m_ppu.VRAM.OAM i =
          n.m_dev.m_ram.m_data ((n.m_dev.m_io.m_apu.m_addressDMA * 256 + i) % 2048) % 256 := by
  obtain ⟨b', hw, hn, hr⟩ := console_read_dma n hb hnon
  unfold RP2C02.OAMDMA
  rw [hr, bind_ok]
  dsimp only
  obtain ⟨n1, e, w1, w2, w3, w4, w5, w8, w9⟩ :=
    OAMDMALoop_ram n.m_dev.m_io.m_apu.m_addressDMA hh (List.range 256)
      (fun l hl => List.mem_range.1 hl) { n with m_bus := b' } hw hn hsize
  refine ⟨n1, e, w1, w2, w3, w4, w5, w8, ?_⟩
  intro i hi
  rw [w9 i, if_pos (List.mem_range.2 hi)]

end ConsoleDMA

section ConsolePPU

open NES NESConsole

theorem RendererFlags_quiet (p : RP2C02) (s d : Int) (h : p.Registers.PPUCtrl.testBit 7 = false) :
    (p.RendererFlags s d).2 = [] := by
  unfold RP2C02.RendererFlags
  dsimp only
  have e : (p.SetFlagStatus RP2C02.StatusFlag.VBlank true).CheckFlagCtrl RP2C02.CtrlFlag.NMIEnable
      = false := by
    rw [CheckFlagCtrl_eq]; exact h
  rw [e]
  split_ifs <;> first | rfl | contradiction

/-- The call of `CycleRenderer` at the end of `RP2C02::Cycle` on a console
with the NMI disabled. -/
theorem console_render (n : NESConsole) (hr : dmaReady n) :
    ∃ q, ((n.m_dev.m_ppu.CycleRenderer n.m_dev.m_cas).bind fun r =>
          Except.ok (r.2.foldl port.EmitSignal
            ({ n with m_dev := { n.m_dev with m_ppu := r.1 } } : NESConsole)))
        = Except.ok { n with m_dev := { n.m_dev with m_ppu := q } }
      ∧ q.Registers.PPUCtrl = n.m_dev.m_ppu.Registers.PPUCtrl
      ∧ q.m_doDMA = n.m_dev.m_ppu.m_doDMA
      ∧ q.m_remainingOAMDMACycles = n.m_dev.m_ppu.m_remainingOAMDMACycles
      ∧ q.VRAM = n.m_dev.m_ppu.VRAM
      ∧ q.m_videoModeCheck = n.m_dev.m_ppu.m_videoModeCheck := by
  obtain ⟨_, _, _, hcart, _, hnmi⟩ := hr
  obtain ⟨r, hr, r1, _, _, r4, r5, r6, r7, r8, _⟩ :=
    CycleRenderer_tick n.m_dev.m_cas hcart n.m_dev.m_ppu
  rw [RendererFlags_quiet _ _ _ hnmi] at r1
  rw [hr, bind_ok, r1]
  exact ⟨r.1, rfl, r4, r5, r6, r7, r8⟩

theorem ppuCycle_eq (n : NESConsole) (hv : n.m_dev.m_ppu.m_videoModeCheck = true) :
    n.ppuCycle =
      ((if n.m_dev.m_ppu.m_remainingOAMDMACycles > 0 then
        (if n.m_dev.m_ppu.m_doDMA then
          RP2C02.OAMDMA port (fun n => n.m_dev.m_ppu)
            (fun n p => { n with m_dev := { n.m_dev with m_ppu := p } })
            (port.EmitSignal
              ({ n with m_dev := { n.m_dev with m_ppu :=
                { n.m_dev.m_ppu with m_doDMA := false } } } : NESConsole)
              MOS6502.SIGNAL_CPU_HLT)
        else if n.m_dev.m_ppu.m_remainingOAMDMACycles == 1 then
          Except.ok (port.EmitSignal n MOS6502.SIGNAL_CPU_RSM)
        else Except.ok n).bind fun x =>
          Except.ok ({ x with m_dev := { x.m_dev with m_ppu := { x.m_dev.m_ppu with
            m_remainingOAMDMACycles := x.m_dev.m_ppu.m_remainingOAMDMACycles - 1 } } } :
              NESConsole)
      else Except.ok n).bind fun x =>
      (x.m_dev.m_ppu.CycleRenderer x.m_dev.m_cas).bind fun r =>
        Except.ok (r.2.foldl port.EmitSignal
          ({ x with m_dev := { x.m_dev with m_ppu := r.1 } } : NESConsole))) := by
  unfold ppuCycle RP2C02.Cycle
  dsimp only
  rw [show (!n.m_dev.m_ppu.m_videoModeCheck) = false from by rw [hv]; rfl]
  simp only [Bool.false_eq_true, if_false]
  rfl

end ConsolePPU

section ConsolePPUCases

open NES NESConsole

theorem OnBusSignal_HLT (c : MOS6502 Unit) :
    c.OnBusSignal MOS6502.SIGNAL_CPU_HLT = { c with m_halted := true } := rfl

theorem OnBusSignal_RSM (c : MOS6502 Unit) :
    c.OnBusSignal MOS6502.SIGNAL_CPU_RSM = { c with m_halted := false } := rfl

/-- The call `m_ppu->Cycle()` that starts an OAM DMA from the RAM: the CPU is
halted and the page is in the OAM. -/
theorem ppuCycle_transfer (n : NESConsole) (hr : dmaReady n)
    (hdma : n.m_dev.m_ppu.m_doDMA = true) (hrem : 0 < n.m_dev.m_ppu.m_remainingOAMDMACycles)
    (hh : n.m_dev.m_io.m_apu.m_addressDMA ≤ 0x1F) :
    ∃ n1, n.ppuCycle = Except.ok n1 ∧ dmaReady n1 ∧ sameBoard n n1
      ∧ n1.m_systemClockCount = n.m_systemClockCount
      ∧ n1.m_cpu = { n.m_cpu with m_halted := true }
      ∧ n1.m_dev.m_ppu.m_doDMA = false
      ∧ n1.m_dev.m_ppu.m_remainingOAMDMACycles = n.m_dev.m_ppu.m_remainingOAMDMACycles - 1
      ∧ ∀ i, i < 256 → n1.m_dev.m_ppu.VRAM.OAM i =
          n.m_dev.m_ram.m_data ((n.m_dev.m_io.m_apu.m_addressDMA * 256 + i) % 2048) % 256 := by
  obtain ⟨hb, hnon, hsize, hcart, hv, hnmi⟩ := hr
  rw [ppuCycle_eq n hv, if_pos hrem, if_pos hdma]
  rw [console_emit ({ n with m_dev := { n.m_dev with m_ppu :=
      { n.m_dev.m_ppu with m_doDMA := false } } } : NESConsole) hb hnon
    MOS6502.SIGNAL_CPU_HLT (by decide) (by decide), OnBusSignal_HLT]
  obtain ⟨n2, e, w1, w2, w3, w4, ⟨w5, w6, w7⟩, w8, w9⟩ :=
    OAMDMA_ram
      ({ m_bus := n.m_bus
         m_dev := { n.m_dev with m_ppu := { n.m_dev.m_ppu with m_doDMA := false } }
         m_cpu := { n.m_cpu with m_halted := true }
         m_systemClockCount := n.m_systemClockCount } : NESConsole) hb hnon hsize hh
  rw [e, bind_ok, bind_ok]
  have r3 : dmaReady ({ n2 with m_dev := { n2.m_dev with m_ppu := { n2.m_dev.m_ppu with
      m_remainingOAMDMACycles := n2.m_dev.m_ppu.m_remainingOAMDMACycles - 1 } } } :
        NESConsole) := by
    refine ⟨w1, w2, ?_, ?_, ?_, ?_⟩
    · show n2.m_dev.m_ram.m_size = _
      rw [w5]; exact hsize
    · show answersPPU n2.m_dev.m_cas
      rw [w6]; exact hcart
    · show n2.m_dev.m_ppu.m_videoModeCheck = true
      rw [w8]; exact hv
    · show n2.m_dev.m_ppu.Registers.PPUCtrl.testBit 7 = false
      rw [w8]; exact hnmi
  obtain ⟨q, hq, q1, q2, q3, q4, q5⟩ := console_render _ r3
  rw [hq]
  refine ⟨_, rfl, ⟨w1, w2, ?_, ?_, ?_, ?_⟩, ⟨w5, w6, w7⟩, w4, w3, ?_, ?_, ?_⟩
  · show n2.m_dev.m_ram.m_size = _
    rw [w5]; exact hsize
  · show answersPPU n2.m_dev.m_cas
    rw [w6]; exact hcart
  · show q.m_videoModeCheck = true
    rw [q5]; exact r3.2.2.2.2.1
  · show q.Registers.PPUCtrl.testBit 7 = false
    rw [q1]; exact r3.2.2.2.2.2
  · show q.m_doDMA = false
    rw [q2]
    show n2.m_dev.m_ppu.m_doDMA = false
    rw [w8]
  · show q.m_remainingOAMDMACycles = _
    rw [q3]
    show n2.m_dev.m_ppu.m_remainingOAMDMACycles - 1 = _
    rw [w8]
  · intro i hi
    show q.VRAM.OAM i = _
    rw [q4]
    exact w9 i hi

/-- The call `m_ppu->Cycle()` while the OAM DMA counts down with more than one
cycle left. -/
theorem ppuCycle_wait (n : NESConsole) (hr : dmaReady n)
    (hdma : n.m_dev.m_ppu.m_doDMA = false) (hrem : 1 < n.m_dev.m_ppu.m_remainingOAMDMACycles) :
    ∃ n1, n.ppuCycle = Except.ok n1 ∧ dmaReady n1 ∧ sameBoard n n1
      ∧ n1.m_systemClockCount = n.m_systemClockCount
      ∧ n1.m_cpu = n.m_cpu
      ∧ n1.m_dev.m_ppu.m_doDMA = false
      ∧ n1.m_dev.m_ppu.m_remainingOAMDMACycles = n.m_dev.m_ppu.m_remainingOAMDMACycles - 1
      ∧ n1.m_dev.m_ppu.VRAM = n.m_dev.m_ppu.VRAM := by
  have hr0 := hr
  obtain ⟨hb, hnon, hsize, hcart, hv, hnmi⟩ := hr
  rw [ppuCycle_eq n hv, if_pos (by omega), hdma]
  have c : (n.m_dev.m_ppu.m_remainingOAMDMACycles == 1) = false := by
    rw [beq_eq_false_iff_ne]; omega
  rw [c]
  simp only [Bool.false_eq_true, if_false, bind_ok]
  have r3 : dmaReady ({ n with m_dev := { n.m_dev with m_ppu := { n.m_dev.m_ppu with
      m_remainingOAMDMACycles := n.m_dev.m_ppu.m_remainingOAMDMACycles - 1 } } } :
        NESConsole) := ⟨hb, hnon, hsize, hcart, hv, hnmi⟩
  obtain ⟨q, hq, q1, q2, q3, q4, q5⟩ := console_render _ r3
  rw [hq]
  refine ⟨_, rfl, ⟨hb, hnon, hsize, hcart, ?_, ?_⟩, ⟨rfl, rfl, rfl⟩, rfl, rfl, ?_, q3, q4⟩
  · show q.m_videoModeCheck = true
    rw [q5]; exact hv
  · show q.Registers.PPUCtrl.testBit 7 = false
    rw [q1]; exact hnmi
  · show q.m_doDMA = false
    rw [q2]; exact hdma

/-- The call `m_ppu->Cycle()` with one cycle of the OAM DMA left: the CPU is
told to resume. -/
theorem ppuCycle_resume (n : NESConsole) (hr : dmaReady n)
    (hdma : n.m_dev.m_ppu.m_doDMA = false) (hrem : n.m_dev.m_ppu.m_remainingOAMDMACycles = 1) :
    ∃ n1, n.ppuCycle = Except.ok n1 ∧ dmaReady n1 ∧ sameBoard n n1
      ∧ n1.m_systemClockCount = n.m_systemClockCount
      ∧ n1.m_cpu = { n.m_cpu with m_halted := false }
      ∧ n1.m_dev.m_ppu.m_doDMA = false
      ∧ n1.m_dev.m_ppu.m_remainingOAMDMACycles = 0
      ∧ n1.m_dev.m_ppu.VRAM = n.m_dev.m_ppu.VRAM := by
  obtain ⟨hb, hnon, hsize, hcart, hv, hnmi⟩ := hr
  rw [ppuCycle_eq n hv, if_pos (by omega), hdma, hrem]
  simp only [Bool.false_eq_true, if_false, beq_self_eq_true, if_true, bind_ok]
  rw [console_emit n hb hnon MOS6502.SIGNAL_CPU_RSM (by decide) (by decide), OnBusSignal_RSM]
  have r3 : dmaReady ({ m_bus := n.m_bus
                        m_dev := { n.m_dev with m_ppu := { n.m_dev.m_ppu with
                          m_remainingOAMDMACycles := n.m_dev.m_ppu.m_remainingOAMDMACycles - 1 } }
                        m_cpu := { n.m_cpu with m_halted := false }
                        m_systemClockCount := n.m_systemClockCount } : NESConsole) :=
    ⟨hb, hnon, hsize, hcart, hv, hnmi⟩
  obtain ⟨q, hq, q1, q2, q3, q4, q5⟩ := console_render _ r3
  rw [hq]
  refine ⟨_, rfl, ⟨hb, hnon, hsize, hcart, ?_, ?_⟩, ⟨rfl, rfl, rfl⟩, rfl, rfl, ?_, ?_, q4⟩
  · show q.m_videoModeCheck = true
    rw [q5]; exact hv
  · show q.Registers.PPUCtrl.testBit 7 = false
    rw [q1]; exact hnmi
  · show q.m_doDMA = false
    rw [q2]; exact hdma
  · show q.m_remainingOAMDMACycles = 0
    rw [q3]
    show n.m_dev.m_ppu.m_remainingOAMDMACycles - 1 = 0
    rw [hrem]; rfl

end ConsolePPUCases

section ConsoleClock

open NES NESConsole

theorem cpuCycle_halted (n : NESConsole) (h : n.m_cpu.m_halted = true) :
    n.cpuCycle = Except.ok n := by
  unfold cpuCycle
  have e : MOS6502.Cycle boardAccess (n.m_cpu.withBus (Except.ok (n.m_dev, n.m_bus)))
      = n.m_cpu.withBus (Except.ok (n.m_dev, n.m_bus)) := by
    unfold MOS6502.Cycle
    rw [if_pos (by exact h)]
  rw [e]
  rfl

theorem cpuCycle_idle (n : NESConsole) (h : n.m_cpu.m_halted = false)
    (hr : 0 < n.m_cpu.m_remainingCycles) :
    n.cpuCycle = Except.ok { n with m_cpu := { n.m_cpu with
      m_remainingCycles := n.m_cpu.m_remainingCycles - 1
      m_cpuCycleCount := n.m_cpu.m_cpuCycleCount + 1 } } := by
  unfold cpuCycle
  have e : MOS6502.Cycle boardAccess (n.m_cpu.withBus (Except.ok (n.m_dev, n.m_bus)))
      = { n.m_cpu.withBus (Except.ok (n.m_dev, n.m_bus)) with
          m_remainingCycles := n.m_cpu.m_remainingCycles - 1
          m_cpuCycleCount := n.m_cpu.m_cpuCycleCount + 1 } := by
    unfold MOS6502.Cycle
    have h1 : (n.m_cpu.withBus (Except.ok (n.m_dev, n.m_bus)) : MOS6502 Board).m_halted = false := h
    have h2 : ¬ (n.m_cpu.withBus (Except.ok (n.m_dev, n.m_bus)) : MOS6502 Board).m_remainingCycles
        ≤ 0 := by
      show ¬ n.m_cpu.m_remainingCycles ≤ 0
      omega
    rw [h1]
    simp only [Bool.false_eq_true, if_false]
    rw [if_neg h2]
    rfl
  rw [e]
  rfl

theorem Clock_eq (n n1 : NESConsole) (h : n.ppuCycle = Except.ok n1) :
    n.Clock =
      (if n1.m_systemClockCount % 3 == 0 then
        n1.cpuCycle.bind fun n => Except.ok n.apuCycle
      else Except.ok n1).bind fun n =>
      Except.ok { n with m_systemClockCount := n.m_systemClockCount + 1 } := by
  unfold Clock
  rw [h, bind_ok]

/-- A call of `Clock` while the CPU is halted after the PPU part, whatever the
slot. -/
theorem Clock_halted (n n1 : NESConsole) (h : n.ppuCycle = Except.ok n1)
    (hh : n1.m_cpu.m_halted = true) :
    n.Clock = Except.ok { n1 with m_systemClockCount := n1.m_systemClockCount + 1 } := by
  rw [Clock_eq n n1 h, cpuCycle_halted n1 hh, bind_ok]
  split_ifs <;> rfl

/-- The call of `Clock` that starts the OAM DMA. -/
theorem Clock_transfer (n : NESConsole) (hr : dmaReady n)
    (hdma : n.m_dev.m_ppu.m_doDMA = true) (hrem : 0 < n.m_dev.m_ppu.m_remainingOAMDMACycles)
    (hh : n.m_dev.m_io.m_apu.m_addressDMA ≤ 0x1F) :
    ∃ n1, n.Clock = Except.ok n1 ∧ dmaReady n1 ∧ sameBoard n n1
      ∧ n1.m_systemClockCount = n.m_systemClockCount + 1
      ∧ n1.m_cpu = { n.m_cpu with m_halted := true }
      ∧ n1.m_dev.m_ppu.m_doDMA = false
      ∧ n1.m_dev.m_ppu.m_remainingOAMDMACycles = n.m_dev.m_ppu.m_remainingOAMDMACycles - 1
      ∧ ∀ i, i < 256 → n1.m_dev.m_ppu.VRAM.OAM i =
          n.m_dev.m_ram.m_data ((n.m_dev.m_io.m_apu.m_addressDMA * 256 + i) % 2048) % 256 := by
  obtain ⟨n1, e, r1, s1, c1, u1, d1, m1, o1⟩ := ppuCycle_transfer n hr hdma hrem hh
  refine ⟨_, Clock_halted n n1 e (by rw [u1]), r1, s1, ?_, u1, d1, m1, o1⟩
  show n1.m_systemClockCount + 1 = _
  rw [c1]

/-- A call of `Clock` while the OAM DMA counts down with more than one cycle
left and the CPU halted. -/
theorem Clock_wait (n : NESConsole) (hr : dmaReady n)
    (hdma : n.m_dev.m_ppu.m_doDMA = false) (hrem : 1 < n.m_dev.m_ppu.m_remainingOAMDMACycles)
    (hh : n.m_cpu.m_halted = true) :
    ∃ n1, n.Clock = Except.ok n1 ∧ dmaReady n1 ∧ sameBoard n n1
      ∧ n1.m_systemClockCount = n.m_systemClockCount + 1
      ∧ n1.m_cpu = n.m_cpu
      ∧ n1.m_dev.m_ppu.m_doDMA = false
      ∧ n1.m_dev.m_ppu.m_remainingOAMDMACycles = n.m_dev.m_ppu.m_remainingOAMDMACycles - 1
      ∧ n1.m_dev.m_ppu.VRAM = n.m_dev.m_ppu.VRAM := by
  obtain ⟨n1, e, r1, s1, c1, u1, d1, m1, o1⟩ := ppuCycle_wait n hr hdma hrem
  refine ⟨_, Clock_halted n n1 e (by rw [u1]; exact hh), r1, s1, ?_, u1, d1, m1, o1⟩
  show n1.m_systemClockCount + 1 = _
  rw [c1]

/-- The call of `Clock` with one cycle of the OAM DMA left, in a CPU slot:
the CPU, told to resume by the PPU part, runs its cycle in the same call. -/
theorem Clock_resume (n : NESConsole) (hr : dmaReady n)
    (hdma : n.m_dev.m_ppu.m_doDMA = false) (hrem : n.m_dev.m_ppu.m_remainingOAMDMACycles = 1)
    (hslot : n.m_systemClockCount % 3 = 0) (hc : 0 < n.m_cpu.m_remainingCycles) :
    ∃ n1, n.Clock = Except.ok n1 ∧ dmaReady n1 ∧ sameBoard n n1
      ∧ n1.m_systemClockCount = n.m_systemClockCount + 1
      ∧ n1.m_cpu = { n.m_cpu with m_halted := false
                                  m_remainingCycles := n.m_cpu.m_remainingCycles - 1
                                  m_cpuCycleCount := n.m_cpu.m_cpuCycleCount + 1 }
      ∧ n1.m_dev.m_ppu.m_remainingOAMDMACycles = 0
      ∧ n1.m_dev.m_ppu.VRAM = n.m_dev.m_ppu.VRAM := by
  obtain ⟨n1, e, r1, s1, c1, u1, d1, m1, o1⟩ := ppuCycle_resume n hr hdma hrem
  have hslot1 : (n1.m_systemClockCount % 3 == 0) = true := by
    rw [c1, hslot]; rfl
  have hidle := cpuCycle_idle n1 (by rw [u1]) (by rw [u1]; exact hc)
  rw [Clock_eq n n1 e, hslot1, if_pos rfl, hidle, bind_ok, bind_ok]
  refine ⟨_, rfl, r1, s1, ?_, ?_, m1, o1⟩
  · show n1.m_systemClockCount + 1 = _
    rw [c1]
  · show ({ n1.m_cpu with m_remainingCycles := n1.m_cpu.m_remainingCycles - 1
                          m_cpuCycleCount := n1.m_cpu.m_cpuCycleCount + 1 } : MOS6502 Unit) = _
    rw [u1]

end ConsoleClock

section ConsoleRun

open NES NESConsole

theorem sameBoard.chain {a b c : NESConsole} (h1 : sameBoard a b) (h2 : sameBoard b c) :
    sameBoard a c :=
  ⟨h2.1.trans h1.1, h2.2.1.trans h1.2.1, h2.2.2.trans h1.2.2⟩

/-- The calls of `Clock` after a write to `0x4014`, while the OAM DMA counts
down: after `j` of them, `1 ≤ j ≤ 1538`, the CPU is the one of the start,
halted, and the OAM holds the page. -/
theorem clocks_stalled (n : NESConsole) (hr : dmaReady n)
    (hdma : n.m_dev.m_ppu.m_doDMA = true)
    (hrem : n.m_dev.m_ppu.m_remainingOAMDMACycles = 1539)
    (hh : n.m_dev.m_io.m_apu.m_addressDMA ≤ 0x1F) (j : Nat) (h1 : 1 ≤ j) (h2 : j ≤ 1538) :
    ∃ nj, clocks j n = Except.ok nj ∧ dmaReady nj ∧ sameBoard n nj
      ∧ nj.m_systemClockCount = n.m_systemClockCount + j
      ∧ nj.m_cpu = { n.m_cpu with m_halted := true }
      ∧ nj.m_dev.m_ppu.m_doDMA = false
      ∧ nj.m_dev.m_ppu.m_remainingOAMDMACycles = 1539 - (j : Int)
      ∧ ∀ i, i < 256 → nj.m_dev.m_ppu.VRAM.OAM i =
          n.m_dev.m_ram.m_data ((n.m_dev.m_io.m_apu.m_addressDMA * 256 + i) % 2048) % 256 := by
  induction j, h1 using Nat.le_induction with
  | base =>
    obtain ⟨n1, e, r1, s1, c1, u1, d1, m1, o1⟩ :=
      Clock_transfer n hr hdma (by rw [hrem]; decide) hh
    refine ⟨n1, ?_, r1, s1, c1, u1, d1, ?_, o1⟩
    · show (Except.ok n).bind Clock = _
      rw [bind_ok, e]
    · rw [m1, hrem]; rfl
  | succ j hj ih =>
    obtain ⟨nj, e, r1, s1, c1, u1, d1, m1, o1⟩ := ih (by omega)
    obtain ⟨n1, e', r1', s1', c1', u1', d1', m1', o1'⟩ :=
      Clock_wait nj r1 d1 (by rw [m1]; omega) (by rw [u1])
    refine ⟨n1, ?_, r1', s1.chain s1', ?_, u1'.trans u1, d1', ?_, ?_⟩
    · rw [clocks, e, bind_ok, e']
    · rw [c1', c1]; omega
    · rw [m1', m1]; push_cast; omega
    · intro i hi
      rw [o1', o1 i hi]

/-- The call of `Clock` after the 1538 of `clocks_stalled`: it is a CPU slot
when the write was made in one, and the CPU runs in it. -/
theorem clocks_resumed (n : NESConsole) (hr : dmaReady n)
    (hdma : n.m_dev.m_ppu.m_doDMA = true)
    (hrem : n.m_dev.m_ppu.m_remainingOAMDMACycles = 1539)
    (hh : n.m_dev.m_io.m_apu.m_addressDMA ≤ 0x1F)
    (hslot : n.m_systemClockCount % 3 = 1) (hc : 0 < n.m_cpu.m_remainingCycles) :
    ∃ n1, clocks 1539 n = Except.ok n1
      ∧ n1.m_systemClockCount = n.m_systemClockCount + 1539
      ∧ n1.m_cpu = { n.m_cpu with m_halted := false
                                  m_remainingCycles := n.m_cpu.m_remainingCycles - 1
                                  m_cpuCycleCount := n.m_cpu.m_cpuCycleCount + 1 }
      ∧ n1.m_dev.m_ppu.m_remainingOAMDMACycles = 0
      ∧ ∀ i, i < 256 → n1.m_dev.m_ppu.VRAM.OAM i =
          n.m_dev.m_ram.m_data ((n.m_dev.m_io.m_apu.m_addressDMA * 256 + i) % 2048) % 256 := by
  obtain ⟨nj, e, r1, s1, c1, u1, d1, m1, o1⟩ :=
    clocks_stalled n hr hdma hrem hh 1538 (by decide) (le_refl _)
  obtain ⟨n1, e', r1', s1', c1', u1', m1', o1'⟩ :=
    Clock_resume nj r1 d1 (by rw [m1]; rfl) (by rw [c1]; omega) (by rw [u1]; exact hc)
  refine ⟨n1, ?_, ?_, ?_, m1', ?_⟩
  · rw [clocks, e, bind_ok, e']
  · rw [c1', c1]
  · rw [u1', u1]
  · intro i hi
    rw [o1', o1 i hi]

end ConsoleRun

section DmaScenario

open NES NESConsole

/-- The console of the scenario is the console as constructed, with the
cartridge inserted, the RAM filled and `A` set. -/
theorem dmaConsole_constructed :
    NESConsole.construct.map (fun n =>
      ({ (n.InsertCartridge (some nromCartridge)) with
          m_dev := { (n.InsertCartridge (some nromCartridge)).m_dev with
            m_ram := { (n.InsertCartridge (some nromCartridge)).m_dev.m_ram with
              m_data := dmaRam } }
          m_cpu := { n.m_cpu with A := 2 } } : NESConsole)) = Except.ok dmaConsole := by
  rfl

theorem afterWrite_eq : dmaConsole.Clock = Except.ok afterWrite := rfl

theorem afterWrite_ready : dmaReady afterWrite :=
  ⟨⟨rfl, apuDevice apu, apu_mem apu ctr, rfl⟩, rfl, rfl, nromSlot_answersPPU, rfl, rfl⟩

theorem dmaRam_page (i : Nat) (hi : i < 256) :
    dmaRam ((2 * 256 + i) % 2048) % 256 = dmaRam (0x200 + i) := by
  have e : (2 * 256 + i) % 2048 = 0x200 + i := by omega
  have h0 : ¬ (0x200 + i = 0) := by omega
  have h1 : ¬ (0x200 + i = 1) := by omega
  have h2 : ¬ (0x200 + i = 2) := by omega
  rw [e]
  unfold dmaRam
  rw [if_neg h0, if_neg h1, if_neg h2, Nat.mod_mod]

theorem clocks_succ (k : Nat) (n m : NESConsole) (h : clocks k n = Except.ok m) :
    clocks (k + 1) n = m.Clock := by
  rw [clocks, h, bind_ok]

end DmaScenario


/-! ## Lemmas on the decoder, the cartridge, the scan position and the APU -/

set_option maxRecDepth 100000 in
theorem bcd_round_trip (n : Nat) (hn : n < 100) :
    Util.BCDtoBIN (Util.BINtoBCD n) = n
    ∧ Util.ValidateBCD (Util.BINtoBCD n) = true
    ∧ Util.BINtoBCD n < 256
    ∧ Util.BINtoBCD n / 16 ≤ 9 ∧ Util.BINtoBCD n % 16 ≤ 9
    ∧ Util.BINtoBCD n = 16 * (n / 10) + n % 10 := by
  revert n
  decide

section TimerLemmas

open NES

theorem or_low_byte (p lo : Nat) (hlo : lo < 256) :
    (((p &&& 0xFF00) ||| lo) % 65536) &&& 0x00FF = lo := by
  apply Nat.eq_of_testBit_eq
  intro i
  rw [Nat.testBit_and, show (65536 : Nat) = 2 ^ 16 from rfl, Nat.testBit_mod_two_pow,
    Nat.testBit_or, Nat.testBit_and]
  by_cases h8 : i < 8
  · have a : Nat.testBit 0xFF00 i = false := by
      interval_cases i <;> rfl
    have b : Nat.testBit 0x00FF i = true := by
      interval_cases i <;> rfl
    have c : i < 16 := by omega
    simp [a, b, c]
  · have b : Nat.testBit 0x00FF i = false := by
      rw [show (0x00FF : Nat) = 2 ^ 8 - 1 from rfl, Nat.testBit_two_pow_sub_one]
      simp [h8]
    have c : lo.testBit i = false := by
      apply Nat.testBit_lt_two_pow
      have : (2 : Nat) ^ 8 ≤ 2 ^ i := Nat.pow_le_pow_right (by decide) (by omega)
      omega
    simp [b, c]

theorem timer_high_word (hi lo : Nat) (hhi : hi < 256) (hlo : lo < 256) :
    (((hi &&& 0xF8) <<< 8) ||| lo) % 65536 = (hi &&& 0xF8) * 256 + lo := by
  have h1 : hi &&& 0xF8 ≤ hi := Nat.and_le_left
  rw [Nat.shiftLeft_eq, show (2 : Nat) ^ 8 = 256 from rfl, Nat.mul_comm,
    show (256 : Nat) = 2 ^ 8 from rfl, ← Nat.mul_add_lt_is_or hlo]
  norm_num
  omega

/-- The timer period of a pulse channel after a write to the timer-low and
one to the timer-high register. -/
theorem pulse_timer_writes (ch : APU.PulseChannel) (status : APU.StatusRegister) (lo hi : Nat)
    (hlo : lo < 256) (hhi : hi < 256) :
    ((ch.WriteRegisterTimerLow lo).WriteRegisterTimerHigh status hi).TimerPeriod
      = (hi &&& 0xF8) * 256 + lo := by
  have e : ((ch.WriteRegisterTimerLow lo).WriteRegisterTimerHigh status hi).TimerPeriod
      = (((hi &&& 0xF8) <<< 8) |||
          ((((ch.TimerPeriod &&& 0xFF00) ||| lo) % 65536) &&& 0x00FF)) % 65536 := by
    unfold APU.PulseChannel.WriteRegisterTimerHigh APU.PulseChannel.WriteRegisterTimerLow
    dsimp only
    split_ifs <;> rfl
  rw [e, or_low_byte _ _ hlo, timer_high_word hi lo hhi hlo]

/-- The timer period of the triangle channel after a write to the timer-low
and one to the timer-high register. -/
theorem triangle_timer_writes (ch : APU.TriangleChannel) (lo hi : Nat)
    (hlo : lo < 256) (hhi : hi < 256) :
    ((ch.WriteRegisterTimerLow lo).WriteRegisterTimerHigh hi).TimerPeriod
      = (hi &&& 0xF8) * 256 + lo := by
  have e : ((ch.WriteRegisterTimerLow lo).WriteRegisterTimerHigh hi).TimerPeriod
      = (((hi &&& 0xF8) <<< 8) |||
          ((((ch.TimerPeriod &&& 0xFF00) ||| lo) % 65536) &&& 0x00FF)) % 65536 := rfl
  rw [e, or_low_byte _ _ hlo, timer_high_word hi lo hhi hlo]

end TimerLemmas

section UnofficialLemmas

open MOS6502 InstructionHandler

variable {β : Type}

set_option maxRecDepth 1000000 in
theorem table_unofficial :
    OpcodeMap.all (fun e => !(e.Mnemonic == "XXX") || e.Opcode == 0xEB
      || (e.AdressingFunction == AddressingFunction.IMP
          && (e.OperationFunction == OperationFunction.XXX
              || e.OperationFunction == OperationFunction.NOP))) = true := by
  decide

set_option maxRecDepth 1000000 in
theorem table_unofficial_count :
    OpcodeMap.countP (fun e => e.Mnemonic == "XXX") = 103
    ∧ OpcodeMap.countP (fun e => e.Mnemonic == "XXX"
        && e.OperationFunction == OperationFunction.SBC) = 1 := by
  decide

theorem unofficial_entry (k : Nat) (hk : k < 256) (hm : (OpcodeMapAt k).Mnemonic = "XXX")
    (hne : k ≠ 0xEB) :
    (OpcodeMapAt k).AdressingFunction = AddressingFunction.IMP
    ∧ ((OpcodeMapAt k).OperationFunction = OperationFunction.XXX
        ∨ (OpcodeMapAt k).OperationFunction = OperationFunction.NOP) := by
  have h := List.all_eq_true.mp table_unofficial _ (OpcodeMapAt_mem k)
  have ho := (OpcodeMapAt_eq k hk).2
  simp only [Bool.or_eq_true, Bool.and_eq_true, Bool.not_eq_true', beq_iff_eq, beq_eq_false_iff_ne,
    ne_eq] at h
  rcases h with (h | h) | h
  · exact absurd hm h
  · rw [ho] at h
    exact absurd h hne
  · exact h

theorem execute_unofficial (bus : BusAccess β) (c : MOS6502 β) (k : Nat) (hk : k < 256)
    (hm : (OpcodeMapAt k).Mnemonic = "XXX") (hne : k ≠ 0xEB)
    (hop : (Read bus c c.PC).1 = k) :
    (ExecuteNextInstruction bus c).A = c.A
    ∧ (ExecuteNextInstruction bus c).X = c.X
    ∧ (ExecuteNextInstruction bus c).Y = c.Y
    ∧ (ExecuteNextInstruction bus c).S = c.S
    ∧ (ExecuteNextInstruction bus c).P = c.P
    ∧ (ExecuteNextInstruction bus c).PC = (c.PC + 1) % 65536
    ∧ (ExecuteNextInstruction bus c).BUS = (bus.ReadFromBus c.BUS (c.PC % 65536)).2 := by
  obtain ⟨ha, ho⟩ := unofficial_entry k hk hm hne
  have e : (ReadPCInc bus { c with
      m_opcode := 0xEA
      m_cacheAbsoluteWorkingAddress := 0
      m_cacheFetchedData := 0
      m_doFetch := true
      m_additionalCyclesNeeded := 0
      m_didIRQ := false
      m_didNMI := false }).1 = k := hop
  unfold ExecuteNextInstruction
  simp only [e, ha]
  rcases ho with ho | ho <;> rw [ho] <;>
    exact ⟨rfl, rfl, rfl, rfl, rfl, rfl, rfl⟩

end UnofficialLemmas

section SubroutineLemmas

open MOS6502 InstructionHandler

theorem OpcodeMapAt_20 : OpcodeMapAt 0x20 = ⟨"JSR", 0x20, 6, .ABS, .JSR⟩ := by decide

theorem OpcodeMapAt_60 : OpcodeMapAt 0x60 = ⟨"RTS", 0x60, 6, .IMP, .RTS⟩ := by decide

theorem word_from_bytes (lo hi : Nat) (hlo : lo < 256) (hhi : hi < 256) :
    ((hi <<< 8) % 65536 ||| lo) % 65536 = hi * 256 + lo := by
  have h := Nat.mul_add_lt_is_or (show lo < 2 ^ 8 from hlo) hi
  rw [Nat.shiftLeft_eq, Nat.mod_eq_of_lt (show hi * 2 ^ 8 < 65536 by omega)]
  rw [Nat.mul_comm hi, ← h]
  omega

theorem execute_JSR (c : MOS6502 (Nat → Nat)) (tlo thi : Nat)
    (hPC : c.PC < 65536) (hS : c.S < 256) (hlo : tlo < 256) (hhi : thi < 256)
    (h0 : c.BUS c.PC = 0x20) (h1 : c.BUS ((c.PC + 1) % 65536) = tlo)
    (h2 : c.BUS ((c.PC + 2) % 65536) = thi) :
    (ExecuteNextInstruction ramBus c).PC = thi * 256 + tlo
    ∧ (ExecuteNextInstruction ramBus c).S = (c.S + 254) % 256
    ∧ (ExecuteNextInstruction ramBus c).BUS
        = ramBus.WriteToBus (ramBus.WriteToBus c.BUS (0x0100 + c.S) ((c.PC + 2) % 65536 / 256))
            (0x0100 + (c.S + 255) % 256) ((c.PC + 2) % 65536 % 256)
    ∧ (ExecuteNextInstruction ramBus c).A = c.A
    ∧ (ExecuteNextInstruction ramBus c).X = c.X
    ∧ (ExecuteNextInstruction ramBus c).Y = c.Y
    ∧ (ExecuteNextInstruction ramBus c).P = c.P := by
  have e0 : (ReadPCInc ramBus { c with
      m_opcode := 0xEA
      m_cacheAbsoluteWorkingAddress := 0
      m_cacheFetchedData := 0
      m_doFetch := true
      m_additionalCyclesNeeded := 0
      m_didIRQ := false
      m_didNMI := false }).1 = 0x20 := by
    show c.BUS (c.PC % 65536) % 256 = 0x20
    rw [Nat.mod_eq_of_lt hPC, h0]
  unfold ExecuteNextInstruction
  simp only [e0, OpcodeMapAt_20, CallAddressingFunction, CallOperationFunction]
  simp only [ABS, JSR, ReadPCInc, Read, Write, ramBus, GetStackPointerAddress]
  have a1 : ((c.PC + 1) % 65536 + 1) % 65536 % 65536 = (c.PC + 2) % 65536 := by omega
  have a2 : (c.PC + 1) % 65536 % 65536 = (c.PC + 1) % 65536 := by omega
  have a3 : ((((c.PC + 1) % 65536 + 1) % 65536 + 1) % 65536 + 65535) % 65536
      = (c.PC + 2) % 65536 := by omega
  have s0 : (256 ||| c.S) % 65536 % 65536 = 256 + c.S := by
    rw [or_0100 c.S hS]; omega
  have s1 : (256 ||| (c.S + 255) % 256) % 65536 % 65536 = 256 + (c.S + 255) % 256 := by
    rw [or_0100 _ (Nat.mod_lt _ (by decide))]; omega
  have hw : (c.PC + 2) % 65536 < 65536 := Nat.mod_lt _ (by decide)
  have v0 : (((c.PC + 2) % 65536) >>> 8 &&& 255) % 256 % 256 = (c.PC + 2) % 65536 / 256 := by
    rw [Nat.shiftRight_eq_div_pow, Nat.and_pow_two_sub_one_eq_mod _ 8]
    omega
  have v1 : ((c.PC + 2) % 65536 &&& 255) % 256 % 256 = (c.PC + 2) % 65536 % 256 := by
    rw [Nat.and_pow_two_sub_one_eq_mod _ 8]
    omega
  rw [a1, a2, a3, h1, h2, s0, s1, v0, v1, Nat.mod_eq_of_lt hlo, Nat.mod_eq_of_lt hhi,
    Nat.mod_mod, word_from_bytes tlo thi hlo hhi]
  exact ⟨rfl, by omega, rfl, trivial, trivial, trivial, trivial⟩

theorem execute_RTS (e : MOS6502 (Nat → Nat)) (lo hi : Nat)
    (hPC : e.PC < 65536) (hlo : lo < 256) (hhi : hi < 256)
    (h0 : e.BUS e.PC = 0x60)
    (h1 : e.BUS (0x0100 + (e.S + 1) % 256) = lo)
    (h2 : e.BUS (0x0100 + (e.S + 2) % 256) = hi) :
    (ExecuteNextInstruction ramBus e).PC = (hi * 256 + lo + 1) % 65536
    ∧ (ExecuteNextInstruction ramBus e).S = (e.S + 2) % 256
    ∧ (ExecuteNextInstruction ramBus e).BUS = e.BUS
    ∧ (ExecuteNextInstruction ramBus e).A = e.A
    ∧ (ExecuteNextInstruction ramBus e).X = e.X
    ∧ (ExecuteNextInstruction ramBus e).Y = e.Y
    ∧ (ExecuteNextInstruction ramBus e).P = e.P := by
  have e0 : (ReadPCInc ramBus { e with
      m_opcode := 0xEA
      m_cacheAbsoluteWorkingAddress := 0
      m_cacheFetchedData := 0
      m_doFetch := true
      m_additionalCyclesNeeded := 0
      m_didIRQ := false
      m_didNMI := false }).1 = 0x60 := by
    show e.BUS (e.PC % 65536) % 256 = 0x60
    rw [Nat.mod_eq_of_lt hPC, h0]
  unfold ExecuteNextInstruction
  simp only [e0, OpcodeMapAt_60, CallAddressingFunction, CallOperationFunction]
  simp only [IMP, RTS, ReadPCInc, Read, Write, ramBus, GetStackPointerAddress]
  have s1 : (256 ||| (e.S + 1) % 256) % 65536 % 65536 = 256 + (e.S + 1) % 256 := by
    rw [or_0100 _ (Nat.mod_lt _ (by decide))]; omega
  have s2 : (256 ||| ((e.S + 1) % 256 + 1) % 256) % 65536 % 65536 = 256 + (e.S + 2) % 256 := by
    rw [or_0100 _ (Nat.mod_lt _ (by decide))]; omega
  rw [s1, s2, h1, h2, Nat.mod_eq_of_lt hlo, Nat.mod_eq_of_lt hhi,
    Nat.mod_eq_of_lt (show hi < 65536 by omega), Nat.lor_comm, word_from_bytes lo hi hlo hhi]
  exact ⟨rfl, by omega, trivial, trivial, trivial, trivial, trivial⟩

end SubroutineLemmas

section CartridgeLemmas

open NES

theorem and_sizeMask_lt (x size : Nat) (h0 : 0 < size) (h : size < 4294967296) :
    x &&& Mapper000.sizeMask size < size := by
  have e : Mapper000.sizeMask size = size - 1 := by
    unfold Mapper000.sizeMask
    omega
  have := @Nat.and_le_right x (size - 1)
  rw [e]
  omega

theorem and_sizeMask_zero (x : Nat) (hx : x < 4294967296) :
    x &&& Mapper000.sizeMask 0 = x := by
  have e : Mapper000.sizeMask 0 = 2 ^ 32 - 1 := by decide
  rw [e, Nat.and_pow_two_sub_one_eq_mod]
  exact Nat.mod_eq_of_lt hx

theorem vectorResize_length (v : List Nat) (n : Nat) : (vectorResize v n).length = n := by
  unfold vectorResize
  rw [List.length_append, List.length_take, List.length_replicate]
  omega

theorem readAt_length (r : ROMFile) (offset : Nat) (buffer : List Nat) :
    (r.readAt offset buffer).length = buffer.length := by
  unfold ROMFile.readAt
  simp only [List.length_append, List.length_take, List.length_drop]
  omega

theorem LoadPRGROM_length (r : ROMFile) : (r.LoadPRGROM []).length = r.m_meta.PRGROMSize := by
  unfold ROMFile.LoadPRGROM
  by_cases h : r.m_meta.PRGROMSize = 0
  · rw [if_pos (by simpa using h), h]
    rfl
  · rw [if_neg (by simpa using h)]
    simp only [readAt_length, vectorResize_length]

theorem LoadCHRROM_length (r : ROMFile) : (r.LoadCHRROM []).length = r.m_meta.CHRROMSize := by
  unfold ROMFile.LoadCHRROM
  by_cases h : r.m_meta.CHRROMSize = 0
  · rw [if_pos (by simpa using h), h]
    rfl
  · rw [if_neg (by simpa using h)]
    simp only [readAt_length, vectorResize_length]

theorem ParseHeaderiNES_sizes (r : ROMFile) :
    r.ParseHeaderiNES.m_meta.PRGROMSize = r.header 4 * 16 * 1024 % 4294967296
    ∧ r.ParseHeaderiNES.m_meta.CHRROMSize = r.header 5 * 8 * 1024 % 4294967296
    ∧ r.ParseHeaderiNES.m_meta.PRGRAMSize
        = (if r.header 8 = 0 then 8 * 1024 else r.header 8 * 8 * 1024 % 4294967296) := by
  unfold ROMFile.ParseHeaderiNES
  dsimp only
  split_ifs <;> first | exact ⟨rfl, rfl, rfl⟩ | simp_all

theorem header_lt (bytes : List Nat) (i : Nat) :
    ((bytes.map (fun b => b % 256)).take 16).getD i 0 < 256 := by
  rw [List.getD_eq_getElem?_getD]
  cases h : ((bytes.map (fun b => b % 256)).take 16)[i]? with
  | none => decide
  | some x =>
    have hm := List.mem_of_mem_take (List.getElem?_mem h)
    obtain ⟨y, -, hy⟩ := List.mem_map.mp hm
    rw [← hy]
    exact Nat.mod_lt _ (by decide)

theorem ParseHeaderiNES_bounds (r : ROMFile) (h8 : r.header 8 < 256) :
    r.ParseHeaderiNES.m_meta.PRGROMSize < 4294967296
    ∧ r.ParseHeaderiNES.m_meta.CHRROMSize < 4294967296
    ∧ r.ParseHeaderiNES.m_meta.PRGRAMSize < 4294967296
    ∧ 8192 ≤ r.ParseHeaderiNES.m_meta.PRGRAMSize := by
  obtain ⟨e1, e2, e3⟩ := ParseHeaderiNES_sizes r
  rw [e1, e2, e3]
  refine ⟨Nat.mod_lt _ (by decide), Nat.mod_lt _ (by decide), ?_, ?_⟩
  · split_ifs
    · decide
    · exact Nat.mod_lt _ (by decide)
  · split_ifs with h0
    · decide
    · omega

theorem ROMFile_construct_ok (bytes : List Nat) (rom : ROMFile)
    (h : ROMFile.construct (some bytes) = Except.ok rom) :
    rom.m_meta.FileFormat = CartridgeMetadata.FileFormatType.INVALID
    ∨ (rom.m_meta.PRGROMSize < 4294967296 ∧ rom.m_meta.CHRROMSize < 4294967296
        ∧ rom.m_meta.PRGRAMSize < 4294967296 ∧ 8192 ≤ rom.m_meta.PRGRAMSize) := by
  unfold ROMFile.construct at h
  dsimp only at h
  split_ifs at h with h1 h2
  · left
    cases h
    rfl
  all_goals
    right
    cases h
    exact ParseHeaderiNES_bounds _ (header_lt bytes 8)

end CartridgeLemmas

section CartridgeReadLemmas

open NES

theorem Cartridge_construct_ok (bytes : List Nat) (c : Cartridge)
    (h : Cartridge.construct (some bytes) = Except.ok c) :
    c.m_PRGROM.length = c.m_mapper.m_prgromSize
    ∧ c.m_CHRROM.length = c.m_mapper.m_chrromSize
    ∧ c.m_PRGRAM.length = c.m_mapper.m_prgramSize
    ∧ c.m_mapper.m_prgromSize < 4294967296
    ∧ c.m_mapper.m_chrromSize < 4294967296
    ∧ c.m_mapper.m_prgramSize < 4294967296
    ∧ 8192 ≤ c.m_mapper.m_prgramSize
    ∧ c.Metadata.PRGROMSize = c.m_mapper.m_prgromSize
    ∧ c.Metadata.CHRROMSize = c.m_mapper.m_chrromSize
    ∧ c.Metadata.PRGRAMSize = c.m_mapper.m_prgramSize := by
  unfold Cartridge.construct at h
  cases hr : ROMFile.construct (some bytes) with
  | error e =>
    rw [hr] at h
    cases h
  | ok rom =>
    rw [hr] at h
    dsimp only at h
    rcases ROMFile_construct_ok bytes rom hr with hi | ⟨b1, b2, b3, b4⟩
    · rw [if_pos (by rw [ROMFile.GetMetadata, hi]; rfl)] at h
      cases h
    · have hp : rom.GetMetadata.PRGRAMSize > 0 := by
        show rom.m_meta.PRGRAMSize > 0
        omega
      rw [if_pos hp] at h
      unfold Mapper.GetMapper at h
      split_ifs at h with h1 h3
      cases h
      exact ⟨LoadPRGROM_length rom, LoadCHRROM_length rom, vectorResize_length _ _,
        b1, b2, b3, b4, rfl, rfl, rfl⟩

theorem MainBusRead_inside (c : Cartridge) (a : Nat)
    (hrom : c.m_PRGROM.length = c.m_mapper.m_prgromSize)
    (hram : c.m_PRGRAM.length = c.m_mapper.m_prgramSize)
    (b1 : c.m_mapper.m_prgromSize < 4294967296) (b3 : c.m_mapper.m_prgramSize < 4294967296)
    (p1 : 0 < c.m_mapper.m_prgromSize) (p3 : 0 < c.m_mapper.m_prgramSize)
    (h1 : 0x4020 ≤ a) (h2 : a ≤ 0xFFFF) :
    ((Mapper000.MapBusAddress c.m_mapper a false).Target = Mapper.Memory.NONE
      ∧ c.MainBusRead a = Except.ok 0)
    ∨ ((Mapper000.MapBusAddress c.m_mapper a false).Target = Mapper.Memory.PRGRAM
      ∧ (Mapper000.MapBusAddress c.m_mapper a false).Offset < c.m_PRGRAM.length
      ∧ c.MainBusRead a
          = Except.ok (c.m_PRGRAM.getD (Mapper000.MapBusAddress c.m_mapper a false).Offset 0))
    ∨ ((Mapper000.MapBusAddress c.m_mapper a false).Target = Mapper.Memory.PRGROM
      ∧ (Mapper000.MapBusAddress c.m_mapper a false).Offset < c.m_PRGROM.length
      ∧ c.MainBusRead a
          = Except.ok (c.m_PRGROM.getD (Mapper000.MapBusAddress c.m_mapper a false).Offset 0)) := by
  by_cases hA : a < 0x6000
  · left
    have e : Mapper000.MapBusAddress c.m_mapper a false
        = { Target := Mapper.Memory.NONE, Offset := 0 } := by
      unfold Mapper000.MapBusAddress
      have n1 : ¬ 0x6000 ≤ a := by omega
      have n2 : ¬ 0x8000 ≤ a := by omega
      simp [n1, n2]
    unfold Cartridge.MainBusRead
    rw [e]
    exact ⟨rfl, rfl⟩
  · by_cases hB : a < 0x8000
    · right; left
      have e : Mapper000.MapBusAddress c.m_mapper a false
          = { Target := Mapper.Memory.PRGRAM,
              Offset := (a - 0x6000) &&& Mapper000.sizeMask c.m_mapper.m_prgramSize } := by
        unfold Mapper000.MapBusAddress
        have n1 : 0x6000 ≤ a := by omega
        have n2 : a ≤ 0x7FFF := by omega
        simp [n1, n2, p3]
      have hlt := and_sizeMask_lt (a - 0x6000) _ p3 b3
      unfold Cartridge.MainBusRead
      rw [e]
      refine ⟨rfl, by rw [hram]; exact hlt, ?_⟩
      simp only [Cartridge.ReadInternal]
      rw [vectorAt_of_lt _ _ (by rw [hram]; exact hlt)]
    · right; right
      have e := MapBusAddress_read_rom c.m_mapper a (by omega) h2
      have hlt := and_sizeMask_lt (a - 0x8000) _ p1 b1
      unfold Cartridge.MainBusRead
      rw [e]
      refine ⟨rfl, by rw [hrom]; exact hlt, ?_⟩
      simp only [Cartridge.ReadInternal]
      rw [vectorAt_of_lt _ _ (by rw [hrom]; exact hlt)]

theorem MapPPUAddress_read (m : Mapper) (p : Nat) (hp : p ≤ 0x1FFF) :
    Mapper000.MapPPUAddress m p false
      = { Target := Mapper.Memory.CHRROM, Offset := p &&& Mapper000.sizeMask m.m_chrromSize } := by
  unfold Mapper000.MapPPUAddress
  simp [hp]

theorem PPUBusRead_inside (c : Cartridge) (p : Nat)
    (hchr : c.m_CHRROM.length = c.m_mapper.m_chrromSize)
    (b2 : c.m_mapper.m_chrromSize < 4294967296) (p2 : 0 < c.m_mapper.m_chrromSize)
    (hp : p ≤ 0x1FFF) :
    (Mapper000.MapPPUAddress c.m_mapper p false).Target = Mapper.Memory.CHRROM
    ∧ (Mapper000.MapPPUAddress c.m_mapper p false).Offset < c.m_CHRROM.length
    ∧ c.PPUBusRead p
        = Except.ok (c.m_CHRROM.getD (Mapper000.MapPPUAddress c.m_mapper p false).Offset 0) := by
  have hlt := and_sizeMask_lt p _ p2 b2
  unfold Cartridge.PPUBusRead
  rw [MapPPUAddress_read _ _ hp]
  refine ⟨rfl, by rw [hchr]; exact hlt, ?_⟩
  simp only [Cartridge.ReadInternal]
  rw [vectorAt_of_lt _ _ (by rw [hchr]; exact hlt)]

theorem PPUBusRead_outside (c : Cartridge) (p : Nat)
    (hchr : c.m_CHRROM.length = c.m_mapper.m_chrromSize) (z2 : c.m_mapper.m_chrromSize = 0)
    (hp : p ≤ 0x1FFF) :
    (Mapper000.MapPPUAddress c.m_mapper p false).Target = Mapper.Memory.CHRROM
    ∧ (Mapper000.MapPPUAddress c.m_mapper p false).Offset = p
    ∧ c.m_CHRROM = []
    ∧ c.PPUBusRead p = Except.error Fault.outOfBounds := by
  have he : c.m_CHRROM = [] := List.length_eq_zero.mp (by rw [hchr, z2])
  unfold Cartridge.PPUBusRead
  rw [MapPPUAddress_read _ _ hp, z2, and_sizeMask_zero p (by omega)]
  refine ⟨rfl, rfl, he, ?_⟩
  simp only [Cartridge.ReadInternal]
  rw [he]
  rfl

end CartridgeReadLemmas

section TimingLemmas

open MOS6502 InstructionHandler

variable {β : Type}

theorem operation_control (bus : BusAccess β) (o : OperationFunction) (c : MOS6502 β) :
    (CallOperationFunction bus o c).m_halted = c.m_halted
    ∧ (CallOperationFunction bus o c).m_cpuCycleCount = c.m_cpuCycleCount
    ∧ (CallOperationFunction bus o c).m_remainingCycles = c.m_remainingCycles
    ∧ (CallOperationFunction bus o c).m_nmiPending = c.m_nmiPending
    ∧ (CallOperationFunction bus o c).m_irqPending = c.m_irqPending := by
  cases o <;>
    simp only [CallOperationFunction, XXX, NOP, BRK, RTI, LDA, LDX, LDY, STA, STX, STY, TAX, TAY,
      TXA, TYA, TSX, TXS, PHA, PHP, PLA, PLP, AND, EOR, ORA, BIT, ADC, SBC, CMP, CPX, CPY, INC,
      INX, INY, DEC, DEX, DEY, ASL, LSR, ROL, ROR, JMP, JSR, RTS, BCC, BCS, BEQ, BMI, BNE, BPL,
      BVC, BVS, CLC, CLD, CLI, CLV, SEC, SED, SEI, SetFlagTo_eq, SetFlag_eq, ClearFlag_eq] <;>
    (try split_ifs) <;>
    simp only [Read_m_halted, Write_m_halted, Fetch_m_halted, Read_m_cpuCycleCount, Write_m_cpuCycleCount, Fetch_m_cpuCycleCount, Read_m_remainingCycles, Write_m_remainingCycles, Fetch_m_remainingCycles, Read_m_nmiPending, Write_m_nmiPending, Fetch_m_nmiPending, Read_m_irqPending, Write_m_irqPending, Fetch_m_irqPending, and_self]

theorem addressing_control (bus : BusAccess β) (m : AddressingFunction) (c : MOS6502 β) :
    (CallAddressingFunction bus m c).m_halted = c.m_halted
    ∧ (CallAddressingFunction bus m c).m_cpuCycleCount = c.m_cpuCycleCount
    ∧ (CallAddressingFunction bus m c).m_remainingCycles = c.m_remainingCycles
    ∧ (CallAddressingFunction bus m c).m_nmiPending = c.m_nmiPending
    ∧ (CallAddressingFunction bus m c).m_irqPending = c.m_irqPending := by
  cases m <;>
    simp only [CallAddressingFunction, IMP, IMM, ACC, ZP0, ZPX, ZPY, REL, ABS, ABX, ABY, IND,
      IZX, IZY] <;>
    (try split_ifs) <;>
    simp only [Read_m_halted, ReadPCInc_m_halted, Read_m_cpuCycleCount, ReadPCInc_m_cpuCycleCount, Read_m_remainingCycles, ReadPCInc_m_remainingCycles, Read_m_nmiPending, ReadPCInc_m_nmiPending, Read_m_irqPending, ReadPCInc_m_irqPending, and_self]

theorem execute_control (bus : BusAccess β) (c : MOS6502 β) :
    (ExecuteNextInstruction bus c).m_halted = c.m_halted
    ∧ (ExecuteNextInstruction bus c).m_cpuCycleCount = c.m_cpuCycleCount
    ∧ (ExecuteNextInstruction bus c).m_remainingCycles = c.m_remainingCycles
    ∧ (ExecuteNextInstruction bus c).m_nmiPending = c.m_nmiPending
    ∧ (ExecuteNextInstruction bus c).m_irqPending = c.m_irqPending := by
  unfold ExecuteNextInstruction
  obtain ⟨a1, a2, a3, a4, a5⟩ := operation_control bus
    (OpcodeMapAt (ReadPCInc bus { c with
      m_opcode := 0xEA
      m_cacheAbsoluteWorkingAddress := 0
      m_cacheFetchedData := 0
      m_doFetch := true
      m_additionalCyclesNeeded := 0
      m_didIRQ := false
      m_didNMI := false }).1).OperationFunction
    (CallAddressingFunction bus (OpcodeMapAt (ReadPCInc bus { c with
      m_opcode := 0xEA
      m_cacheAbsoluteWorkingAddress := 0
      m_cacheFetchedData := 0
      m_doFetch := true
      m_additionalCyclesNeeded := 0
      m_didIRQ := false
      m_didNMI := false }).1).AdressingFunction
      { (ReadPCInc bus { c with
      m_opcode := 0xEA
      m_cacheAbsoluteWorkingAddress := 0
      m_cacheFetchedData := 0
      m_doFetch := true
      m_additionalCyclesNeeded := 0
      m_didIRQ := false
      m_didNMI := false }).2 with m_opcode := (ReadPCInc bus { c with
      m_opcode := 0xEA
      m_cacheAbsoluteWorkingAddress := 0
      m_cacheFetchedData := 0
      m_doFetch := true
      m_additionalCyclesNeeded := 0
      m_didIRQ := false
      m_didNMI := false }).1 })
  obtain ⟨b1, b2, b3, b4, b5⟩ := addressing_control bus
    (OpcodeMapAt (ReadPCInc bus { c with
      m_opcode := 0xEA
      m_cacheAbsoluteWorkingAddress := 0
      m_cacheFetchedData := 0
      m_doFetch := true
      m_additionalCyclesNeeded := 0
      m_didIRQ := false
      m_didNMI := false }).1).AdressingFunction
      { (ReadPCInc bus { c with
      m_opcode := 0xEA
      m_cacheAbsoluteWorkingAddress := 0
      m_cacheFetchedData := 0
      m_doFetch := true
      m_additionalCyclesNeeded := 0
      m_didIRQ := false
      m_didNMI := false }).2 with m_opcode := (ReadPCInc bus { c with
      m_opcode := 0xEA
      m_cacheAbsoluteWorkingAddress := 0
      m_cacheFetchedData := 0
      m_doFetch := true
      m_additionalCyclesNeeded := 0
      m_didIRQ := false
      m_didNMI := false }).1 }
  exact ⟨a1.trans b1, a2.trans b2, a3.trans b3, a4.trans b4, a5.trans b5⟩

theorem NMI_control (bus : BusAccess β) (c : MOS6502 β) :
    (NMI bus c).m_halted = c.m_halted
    ∧ (NMI bus c).m_cpuCycleCount = c.m_cpuCycleCount
    ∧ (NMI bus c).m_remainingCycles = c.m_remainingCycles
    ∧ (NMI bus c).m_nmiPending = c.m_nmiPending
    ∧ (NMI bus c).m_irqPending = c.m_irqPending := by
  simp only [NMI, SetFlag_eq, ClearFlag_eq, Read_m_halted, Write_m_halted, Read_m_cpuCycleCount, Write_m_cpuCycleCount, Read_m_remainingCycles, Write_m_remainingCycles, Read_m_nmiPending, Write_m_nmiPending, Read_m_irqPending, Write_m_irqPending, and_self]

theorem IRQ_control (bus : BusAccess β) (c : MOS6502 β) :
    (IRQ bus c).m_halted = c.m_halted
    ∧ (IRQ bus c).m_cpuCycleCount = c.m_cpuCycleCount
    ∧ (IRQ bus c).m_remainingCycles = c.m_remainingCycles
    ∧ (IRQ bus c).m_nmiPending = c.m_nmiPending
    ∧ (IRQ bus c).m_irqPending = c.m_irqPending := by
  unfold IRQ
  split_ifs
  · simp only [SetFlag_eq, ClearFlag_eq, Read_m_halted, Write_m_halted, Read_m_cpuCycleCount, Write_m_cpuCycleCount, Read_m_remainingCycles, Write_m_remainingCycles, Read_m_nmiPending, Write_m_nmiPending, Read_m_irqPending, Write_m_irqPending, and_self]
  · exact ⟨rfl, rfl, rfl, rfl, rfl⟩

end TimingLemmas

section BudgetLemmas

open MOS6502 InstructionHandler

variable {β : Type}

theorem serviceNext_control (bus : BusAccess β) (c : MOS6502 β) :
    (serviceNext bus c).m_halted = c.m_halted
    ∧ (serviceNext bus c).m_cpuCycleCount = c.m_cpuCycleCount
    ∧ (serviceNext bus c).m_remainingCycles = c.m_remainingCycles := by
  unfold serviceNext
  split_ifs
  · obtain ⟨a1, a2, a3, -⟩ := NMI_control bus { c with m_nmiPending := false }
    exact ⟨a1, a2, a3⟩
  · obtain ⟨a1, a2, a3, -⟩ := IRQ_control bus { c with m_irqPending := false }
    exact ⟨a1, a2, a3⟩
  · obtain ⟨a1, a2, a3, -⟩ := execute_control bus c
    exact ⟨a1, a2, a3⟩

theorem Cycle_of_halted (bus : BusAccess β) (c : MOS6502 β) (h : c.m_halted = true) :
    Cycle bus c = c := by
  unfold MOS6502.Cycle
  rw [if_pos h]

theorem Cycle_of_budget (bus : BusAccess β) (c : MOS6502 β) (h : c.m_halted = false)
    (hr : 0 < c.m_remainingCycles) :
    Cycle bus c = { c with m_remainingCycles := c.m_remainingCycles - 1,
                           m_cpuCycleCount := c.m_cpuCycleCount + 1 } := by
  unfold MOS6502.Cycle
  rw [if_neg (by rw [h]; decide), if_neg (by omega)]

theorem Cycle_of_service (bus : BusAccess β) (c : MOS6502 β) (h : c.m_halted = false)
    (hr : c.m_remainingCycles ≤ 0) :
    Cycle bus c = { serviceNext bus c with
      m_remainingCycles := c.m_remainingCycles + GetLastInstructionCycles (serviceNext bus c) - 1,
      m_cpuCycleCount := c.m_cpuCycleCount + 1 } := by
  obtain ⟨-, a2, a3⟩ := serviceNext_control bus c
  unfold MOS6502.Cycle
  rw [if_neg (by rw [h]; decide), if_pos hr]
  show ({ serviceNext bus c with
      m_remainingCycles := (serviceNext bus c).m_remainingCycles
        + GetLastInstructionCycles (serviceNext bus c) - 1,
      m_cpuCycleCount := (serviceNext bus c).m_cpuCycleCount + 1 } : MOS6502 β) = _
  rw [a2, a3]

theorem Cycle_count (bus : BusAccess β) (c : MOS6502 β) (h : c.m_halted = false) :
    (Cycle bus c).m_cpuCycleCount = c.m_cpuCycleCount + 1 := by
  by_cases hr : c.m_remainingCycles ≤ 0
  · rw [Cycle_of_service bus c h hr]
  · rw [Cycle_of_budget bus c h (by omega)]

theorem cycles_of_budget (bus : BusAccess β) (c : MOS6502 β) (n : Nat)
    (hh : c.m_halted = false) (hr : c.m_remainingCycles = 0)
    (hn : GetLastInstructionCycles (serviceNext bus c) = (n : Int)) (k : Nat)
    (h1 : 1 ≤ k) (h2 : k ≤ n) :
    (Cycle bus)^[k] c = { serviceNext bus c with
      m_remainingCycles := (n : Int) - (k : Int),
      m_cpuCycleCount := c.m_cpuCycleCount + k } := by
  induction k, h1 using Nat.le_induction with
  | base =>
    rw [Function.iterate_one, Cycle_of_service bus c hh (by omega), hr, hn]
    simp only [zero_add, Nat.cast_one]
  | succ m hm ih =>
    rw [Function.iterate_succ_apply', ih (by omega)]
    rw [Cycle_of_budget bus _ (by
      show (serviceNext bus c).m_halted = false
      rw [(serviceNext_control bus c).1, hh]) (by
      show (0 : Int) < (n : Int) - (m : Int)
      omega)]
    show ({ serviceNext bus c with
      m_remainingCycles := (n : Int) - (m : Int) - 1,
      m_cpuCycleCount := c.m_cpuCycleCount + m + 1 } : MOS6502 β) = _
    rw [show ((m + 1 : Nat) : Int) = (m : Int) + 1 from by push_cast; rfl,
      show (n : Int) - ((m : Int) + 1) = (n : Int) - (m : Int) - 1 from by omega,
      Nat.add_assoc]

end BudgetLemmas

section ScanLemmas

open NES RP2C02 NESConsole

theorem IncrementScanPos_range (s : RenderState)
    (h : 0 ≤ s.ScanPos.Dots ∧ s.ScanPos.Dots ≤ 340
      ∧ 0 ≤ s.ScanPos.Scanline ∧ s.ScanPos.Scanline ≤ 261) :
    0 ≤ s.IncrementScanPos.ScanPos.Dots ∧ s.IncrementScanPos.ScanPos.Dots ≤ 340
      ∧ 0 ≤ s.IncrementScanPos.ScanPos.Scanline ∧ s.IncrementScanPos.ScanPos.Scanline ≤ 261 := by
  obtain ⟨e1, e2⟩ := IncrementScanPos_eq s
  rw [e1, e2]
  split_ifs <;> omega

theorem RendererAdvance_range (q : RP2C02) (s d : Int) (h : scanInRange q) :
    scanInRange (q.RendererAdvance s d) := by
  unfold RendererAdvance
  dsimp only
  split_ifs
  · exact IncrementScanPos_range _ (IncrementScanPos_range _ h)
  · exact IncrementScanPos_range _ h

theorem RendererAdvance_skip (q : RP2C02) (h1 : q.m_frameCounter % 2 = 1)
    (hs : q.m_state.ScanPos.Scanline = 261) (hd : q.m_state.ScanPos.Dots = 339) :
    (q.RendererAdvance 261 339).m_state.ScanPos.Dots = 0
      ∧ (q.RendererAdvance 261 339).m_state.ScanPos.Scanline = 0 := by
  unfold RendererAdvance
  dsimp only
  rw [if_pos (by simp [h1])]
  obtain ⟨a1, a2⟩ := IncrementScanPos_eq q.m_state
  obtain ⟨b1, b2⟩ := IncrementScanPos_eq q.m_state.IncrementScanPos
  show (q.m_state.IncrementScanPos.IncrementScanPos).ScanPos.Dots = 0
    ∧ (q.m_state.IncrementScanPos.IncrementScanPos).ScanPos.Scanline = 0
  rw [b1, b2, a1, a2, hs, hd]
  decide

theorem CycleRenderer_range (cart : CartridgeSlot) (hcart : answersPPU cart) (p : RP2C02)
    (h : scanInRange p) :
    ∃ q signals, p.CycleRenderer cart = Except.ok (q, signals) ∧ scanInRange q := by
  obtain ⟨q0, hq, k⟩ := CycleRenderer_ok cart hcart p
  refine ⟨_, _, hq, RendererAdvance_range q0 _ _ ?_⟩
  have e : q0.m_state.ScanPos = p.m_state.ScanPos := by
    rw [k.1, (RendererFlags_rest p _ _).1]
  unfold scanInRange
  rw [e]
  exact h

theorem ppuReaches_range (p : RP2C02) (h : ppuReaches p) : scanInRange p := by
  induction h with
  | start => exact ⟨by decide, by decide, by decide, by decide⟩
  | tick p q cart signals _ hcart ht ih =>
    obtain ⟨q1, s1, h1, r1⟩ := CycleRenderer_range cart hcart p ih
    rw [h1] at ht
    cases ht
    exact r1
  | read range p q cart a v peek _ hr ih =>
    have e := (ReadFromDevice_timing range p q cart a v peek hr).1
    unfold scanInRange
    rw [e]
    exact ih
  | write range p q cart cart1 a w _ hw ih =>
    have e := (WriteToDevice_timing range p q cart cart1 a w hw).1
    unfold scanInRange
    rw [e]
    exact ih
  | signal p signalId _ ih =>
    have e := (OnBusSignal_timing p signalId).1
    unfold scanInRange
    rw [e]
    exact ih
  | dma p oam check doDMA remaining _ ih => exact ih

theorem DrawPixel_visible (q : RP2C02) (pixel : Pixel) (s d : Int)
    (h1 : 0 ≤ s) (h2 : s ≤ 239) (h3 : 1 ≤ d) (h4 : d ≤ 256) :
    q.DrawPixel pixel (d - 1) s = Except.ok { q with m_framebuffer := fun i =>
      if i = (s * SCREEN_WIDTH + (d - 1)).toNat then pixel else q.m_framebuffer i } := by
  unfold DrawPixel
  dsimp only
  rw [if_pos (by unfold SCREEN_WIDTH SCREEN_HEIGTH; omega)]

theorem RendererPixel_eq (q : RP2C02) (cart : CartridgeSlot) (s d : Int) :
    q.RendererPixel cart s d =
      if 0 ≤ s ∧ s ≤ 239 ∧ 1 ≤ d ∧ d ≤ 256 then
        (q.Muxer cart).bind fun r => Except.ok { r.2 with m_framebuffer := fun i =>
          if i = (s * SCREEN_WIDTH + (d - 1)).toNat then r.1 else r.2.m_framebuffer i }
      else Except.ok q := by
  unfold RendererPixel
  dsimp only
  by_cases hv : 0 ≤ s ∧ s ≤ 239 ∧ 1 ≤ d ∧ d ≤ 256
  · rw [if_pos hv, if_pos (by simp [hv.1, hv.2.1, hv.2.2.1, hv.2.2.2])]
    congr 1
    funext r
    exact DrawPixel_visible r.2 r.1 s d hv.1 hv.2.1 hv.2.2.1 hv.2.2.2
  · rw [if_neg hv, if_neg]
    simp only [Bool.and_eq_true, decide_eq_true_eq, ge_iff_le]
    intro hc
    exact hv ⟨hc.1.1, hc.1.2, hc.2.1, hc.2.2⟩

end ScanLemmas

section AddressLemmas

open NES RP2C02 RenderState

theorem setField_lt (v : VRAMAddress) (x : Nat) (h : v.Address < 0x8000) :
    (v.setCoarseX x).Address < 0x8000 ∧ (v.setCoarseY x).Address < 0x8000
    ∧ (v.setNametableX x).Address < 0x8000 ∧ (v.setNametableY x).Address < 0x8000
    ∧ (v.setFineY x).Address < 0x8000 := by
  simp only [VRAMAddress.setCoarseX, VRAMAddress.setCoarseY, VRAMAddress.setNametableX,
    VRAMAddress.setNametableY, VRAMAddress.setFineY, VRAMAddress.setField, VRAMAddress.field]
  refine ⟨?_, ?_, ?_, ?_, ?_⟩ <;> omega

theorem IncrementHorizontalPos_lt (s : RenderState) (h : s.V.Address < 0x8000) :
    s.IncrementHorizontalPos.V.Address < 0x8000 ∧ s.IncrementHorizontalPos.T = s.T := by
  unfold IncrementHorizontalPos
  dsimp only
  split_ifs
  · exact ⟨(setField_lt _ _ (setField_lt _ _ h).1).2.2.1, rfl⟩
  · exact ⟨(setField_lt _ _ h).1, rfl⟩

theorem IncrementVerticalPos_lt (s : RenderState) (h : s.V.Address < 0x8000) :
    s.IncrementVerticalPos.V.Address < 0x8000 ∧ s.IncrementVerticalPos.T = s.T := by
  unfold IncrementVerticalPos
  dsimp only
  have f0 := (setField_lt s.V 0 h).2.2.2.2
  split_ifs
  · exact ⟨(setField_lt _ _ h).2.2.2.2, rfl⟩
  · exact ⟨(setField_lt _ _ (setField_lt _ _ f0).2.1).2.2.2.1, rfl⟩
  · exact ⟨(setField_lt _ _ f0).2.1, rfl⟩
  · exact ⟨(setField_lt _ _ f0).2.1, rfl⟩

theorem CopyHorizontalPos_lt (s : RenderState) (h : s.V.Address < 0x8000) :
    s.CopyHorizontalPos.V.Address < 0x8000 ∧ s.CopyHorizontalPos.T = s.T :=
  ⟨(setField_lt _ _ (setField_lt _ _ h).1).2.2.1, rfl⟩

theorem CopyVerticalPos_lt (s : RenderState) (h : s.V.Address < 0x8000) :
    s.CopyVerticalPos.V.Address < 0x8000 ∧ s.CopyVerticalPos.T = s.T :=
  ⟨(setField_lt _ _ (setField_lt _ _ (setField_lt _ _ h).2.2.2.2).2.1).2.2.2.1, rfl⟩

theorem addr_first_lt (d t : Nat) :
    ((((d % 256 &&& 0x3F) % 65536) <<< 8) ||| (t &&& 0x00FF)) % 65536 < 0x4000 := by
  have h1 : d % 256 &&& 0x3F ≤ 0x3F := Nat.and_le_right
  have h2 : t &&& 0x00FF ≤ 0xFF := Nat.and_le_right
  have h3 : ((d % 256 &&& 0x3F) % 65536) <<< 8 < 2 ^ 14 := by
    rw [Nat.shiftLeft_eq]
    omega
  have h4 : ((((d % 256 &&& 0x3F) % 65536) <<< 8) ||| (t &&& 0x00FF)) < 2 ^ 14 :=
    Nat.or_lt_two_pow h3 (by omega)
  omega

theorem addr_second_lt (d t : Nat) (ht : t < 0x8000) :
    ((t &&& 0xFF00) ||| d % 256) % 65536 < 0x8000 := by
  have h1 : t &&& 0xFF00 ≤ t := Nat.and_le_left
  have h4 : ((t &&& 0xFF00) ||| d % 256) < 2 ^ 15 :=
    Nat.or_lt_two_pow (by omega) (by omega)
  omega

/-- A write to a PPU register keeps `T` below `0x8000`; it keeps `V` below `0x8000` unless
the register is PPUDATA, and then it adds the increment to `V` as a 16-bit word. -/
theorem WriteToDevice_address (range : AddressRange) (p p1 : RP2C02) (cart cart1 : CartridgeSlot)
    (a w : Nat) (h : p.WriteToDevice range cart a w = Except.ok (p1, cart1))
    (hT : p.m_state.T.Address < 0x8000) :
    p1.m_state.T.Address < 0x8000
    ∧ ((a : Int) - (range.Min : Int) ≠ 7 → p.m_state.V.Address < 0x8000 →
        p1.m_state.V.Address < 0x8000)
    ∧ ((a : Int) - (range.Min : Int) = 7 →
        p1.m_state.V.Address = (p.m_state.V.Address + p1.increment) % 65536) := by
  unfold WriteToDevice at h
  dsimp only at h
  by_cases h0 : (((a : Int) - (range.Min : Int)) == 0) = true
  · rw [if_pos h0] at h
    have e0 : (a : Int) - (range.Min : Int) = 0 := by simpa using h0
    cases h
    exact ⟨(setField_lt _ _ (setField_lt _ _ hT).2.2.1).2.2.2.1, fun _ hV => hV,
      fun e => by omega⟩
  rw [if_neg h0] at h
  by_cases h1 : (((a : Int) - (range.Min : Int)) == 1) = true
  · rw [if_pos h1] at h
    have e0 : (a : Int) - (range.Min : Int) = 1 := by simpa using h1
    cases h; exact ⟨hT, fun _ hV => hV, fun e => by omega⟩
  rw [if_neg h1] at h
  by_cases h2 : (((a : Int) - (range.Min : Int)) == 2) = true
  · rw [if_pos h2] at h
    have e0 : (a : Int) - (range.Min : Int) = 2 := by simpa using h2
    cases h; exact ⟨hT, fun _ hV => hV, fun e => by omega⟩
  rw [if_neg h2] at h
  by_cases h3 : (((a : Int) - (range.Min : Int)) == 3) = true
  · rw [if_pos h3] at h
    have e0 : (a : Int) - (range.Min : Int) = 3 := by simpa using h3
    cases h; exact ⟨hT, fun _ hV => hV, fun e => by omega⟩
  rw [if_neg h3] at h
  by_cases h4 : (((a : Int) - (range.Min : Int)) == 4) = true
  · rw [if_pos h4] at h
    have e0 : (a : Int) - (range.Min : Int) = 4 := by simpa using h4
    cases h; exact ⟨hT, fun _ hV => hV, fun e => by omega⟩
  rw [if_neg h4] at h
  by_cases h5 : (((a : Int) - (range.Min : Int)) == 5) = true
  · rw [if_pos h5] at h
    have e0 : (a : Int) - (range.Min : Int) = 5 := by simpa using h5
    split_ifs at h <;> cases h
    · exact ⟨(setField_lt _ _ hT).1, fun _ hV => hV, fun e => by omega⟩
    · exact ⟨(setField_lt _ _ (setField_lt _ _ hT).2.2.2.2).2.1, fun _ hV => hV,
        fun e => by omega⟩
  rw [if_neg h5] at h
  by_cases h6 : (((a : Int) - (range.Min : Int)) == 6) = true
  · rw [if_pos h6] at h
    have e0 : (a : Int) - (range.Min : Int) = 6 := by simpa using h6
    split_ifs at h <;> cases h
    · exact ⟨Nat.lt_trans (addr_first_lt w _) (by decide), fun _ hV => hV, fun e => by omega⟩
    · exact ⟨addr_second_lt w _ hT, fun _ _ => addr_second_lt w _ hT, fun e => by omega⟩
  rw [if_neg h6] at h
  by_cases h7 : (((a : Int) - (range.Min : Int)) == 7) = true
  · rw [if_pos h7] at h
    have e0 : (a : Int) - (range.Min : Int) = 7 := by simpa using h7
    cases hc : InternalBusWrite { p with m_ppuRegWriteBuf := w % 256 } cart
        p.m_state.V.Address (w % 256) with
    | error e => rw [hc] at h; cases h
    | ok r =>
      rw [hc] at h
      obtain ⟨r1, r2⟩ := r
      obtain ⟨_, e2, e3⟩ := InternalBusWrite_buf _ _ _ _ _ _ hc
      cases h
      refine ⟨by rw [show r1.m_state.T = p.m_state.T from by rw [e3]]; exact hT,
        fun e => absurd e0 e, fun _ => ?_⟩
      show (r1.m_state.V.Address + r1.increment) % 65536 = (p.m_state.V.Address + _) % 65536
      rw [show r1.m_state.V = p.m_state.V from by rw [e3]]
      rfl
  rw [if_neg h7] at h
  have e7 : (a : Int) - (range.Min : Int) ≠ 7 := by simpa using h7
  cases h; exact ⟨hT, fun _ hV => hV, fun e => absurd e e7⟩

/-- A read of a PPU register leaves `T`; it leaves `V` unless it is a read of PPUDATA that
is not a peek, and then it adds the increment to `V` as a 16-bit word. -/
theorem ReadFromDevice_address (range : AddressRange) (p p1 : RP2C02) (cart : CartridgeSlot)
    (a v : Nat) (peek : Bool) (h : p.ReadFromDevice range cart a peek = Except.ok (v, p1)) :
    p1.m_state.T = p.m_state.T
    ∧ (¬ ((a : Int) - (range.Min : Int) = 7 ∧ peek = false) → p1.m_state.V = p.m_state.V)
    ∧ ((a : Int) - (range.Min : Int) = 7 ∧ peek = false →
        p1.m_state.V.Address = (p.m_state.V.Address + p1.increment) % 65536) := by
  unfold ReadFromDevice at h
  dsimp only at h
  by_cases h0 : (((a : Int) - (range.Min : Int)) == 0) = true
  · rw [if_pos h0] at h
    have e0 : (a : Int) - (range.Min : Int) = 0 := by simpa using h0
    split_ifs at h <;> cases h <;> exact ⟨rfl, fun _ => rfl, fun e => by omega⟩
  rw [if_neg h0] at h
  by_cases h1 : (((a : Int) - (range.Min : Int)) == 1) = true
  · rw [if_pos h1] at h
    have e0 : (a : Int) - (range.Min : Int) = 1 := by simpa using h1
    split_ifs at h <;> cases h <;> exact ⟨rfl, fun _ => rfl, fun e => by omega⟩
  rw [if_neg h1] at h
  by_cases h2 : (((a : Int) - (range.Min : Int)) == 2) = true
  · rw [if_pos h2] at h
    have e0 : (a : Int) - (range.Min : Int) = 2 := by simpa using h2
    by_cases hp : peek = true
    · rw [if_pos hp] at h; cases h; exact ⟨rfl, fun _ => rfl, fun e => by omega⟩
    rw [if_neg hp] at h
    cases h
    exact ⟨rfl, fun _ => rfl, fun e => by omega⟩
  rw [if_neg h2] at h
  by_cases h3 : (((a : Int) - (range.Min : Int)) == 3) = true
  · rw [if_pos h3] at h
    have e0 : (a : Int) - (range.Min : Int) = 3 := by simpa using h3
    split_ifs at h <;> cases h <;> exact ⟨rfl, fun _ => rfl, fun e => by omega⟩
  rw [if_neg h3] at h
  by_cases h4 : (((a : Int) - (range.Min : Int)) == 4) = true
  · rw [if_pos h4] at h
    have e0 : (a : Int) - (range.Min : Int) = 4 := by simpa using h4
    cases h; exact ⟨rfl, fun _ => rfl, fun e => by omega⟩
  rw [if_neg h4] at h
  by_cases h5 : (((a : Int) - (range.Min : Int)) == 5) = true
  · rw [if_pos h5] at h
    have e0 : (a : Int) - (range.Min : Int) = 5 := by simpa using h5
    split_ifs at h <;> cases h <;> exact ⟨rfl, fun _ => rfl, fun e => by omega⟩
  rw [if_neg h5] at h
  by_cases h6 : (((a : Int) - (range.Min : Int)) == 6) = true
  · rw [if_pos h6] at h
    have e0 : (a : Int) - (range.Min : Int) = 6 := by simpa using h6
    split_ifs at h <;> cases h <;> exact ⟨rfl, fun _ => rfl, fun e => by omega⟩
  rw [if_neg h6] at h
  by_cases h7 : (((a : Int) - (range.Min : Int)) == 7) = true
  · rw [if_pos h7] at h
    have e0 : (a : Int) - (range.Min : Int) = 7 := by simpa using h7
    by_cases hp : peek = true
    · rw [if_pos hp] at h; cases h
      exact ⟨rfl, fun _ => rfl, fun e => by rw [hp] at e; exact absurd e.2 (by decide)⟩
    rw [if_neg hp] at h
    cases hc : p.InternalBusRead cart p.m_state.V.Address with
    | error e => rw [hc] at h; cases h
    | ok r =>
      rw [hc] at h
      cases h
      exact ⟨rfl, fun e => absurd ⟨e0, by simpa using hp⟩ e, fun _ => rfl⟩
  rw [if_neg h7] at h
  have e7 : (a : Int) - (range.Min : Int) ≠ 7 := by simpa using h7
  cases h; exact ⟨rfl, fun _ => rfl, fun e => absurd e.1 e7⟩

end AddressLemmas

section SpriteLemmas

open NES RP2C02 NESConsole

theorem InternalBusRead_congr (p q : RP2C02) (cart : CartridgeSlot) (a : Nat)
    (h1 : q.Registers = p.Registers) (h2 : q.VRAM = p.VRAM) :
    q.InternalBusRead cart a = p.InternalBusRead cart a := by
  unfold InternalBusRead ReadNametable CheckFlagMask
  rw [h1, h2]

theorem FetchSpriteRow_congr (p q : RP2C02) (cart : CartridgeSlot) (t a : Nat) (row : Int)
    (h1 : q.Registers = p.Registers) (h2 : q.VRAM = p.VRAM) :
    q.FetchSpriteRow cart t a row = p.FetchSpriteRow cart t a row := by
  unfold FetchSpriteRow CheckFlagCtrl
  simp only [h1, InternalBusRead_congr p q cart _ h1 h2]

theorem spriteEntryOf_congr (p q : RP2C02) (cart : CartridgeSlot) (scanl : Int) (i : Nat)
    (e : RenderState.SpriteRow) (h1 : q.Registers = p.Registers) (h2 : q.VRAM = p.VRAM)
    (h : spriteEntryOf q cart scanl i e) : spriteEntryOf p cart scanl i e := by
  unfold spriteEntryOf at h ⊢
  rw [h2, FetchSpriteRow_congr p q cart _ _ _ h1 h2] at h
  exact h

theorem spriteInRange_congr (p q : RP2C02) (scanl h : Int) (h2 : q.VRAM = p.VRAM) :
    spriteInRange q scanl h = spriteInRange p scanl h := by
  funext i
  unfold spriteInRange
  rw [h2]

theorem EvaluateSpritesLoop_skip (cart : CartridgeSlot) (scanl h : Int) (i : Nat)
    (entries : List Nat) (p : RP2C02) (c1 : spriteInRange p scanl h i = false) :
    EvaluateSpritesLoop cart scanl h (i :: entries) p
      = EvaluateSpritesLoop cart scanl h entries p := by
  have c1' : ¬ (decide ((p.VRAM.OAM (4 * i) : Int) - scanl + 8 ≥ 0)
      && decide ((p.VRAM.OAM (4 * i) : Int) - scanl + 8 < h)) = true := by
    rw [Bool.not_eq_true]
    exact c1
  rw [EvaluateSpritesLoop]
  dsimp only
  rw [if_neg c1']

theorem EvaluateSpritesLoop_store (cart : CartridgeSlot) (scanl h : Int) (i : Nat)
    (entries : List Nat) (p : RP2C02) (pattern : Nat)
    (c1 : spriteInRange p scanl h i = true) (c2 : p.m_state.VCache.SpriteCount < 8)
    (hpat : p.FetchSpriteRow cart (p.VRAM.OAM (4 * i + 1)) (p.VRAM.OAM (4 * i + 2))
      ((p.VRAM.OAM (4 * i) : Int) - scanl + 8) = Except.ok pattern) :
    EvaluateSpritesLoop cart scanl h (i :: entries) p
      = EvaluateSpritesLoop cart scanl h entries (storeSprite p i pattern) := by
  have c1' : (decide ((p.VRAM.OAM (4 * i) : Int) - scanl + 8 ≥ 0)
      && decide ((p.VRAM.OAM (4 * i) : Int) - scanl + 8 < h)) = true := c1
  rw [EvaluateSpritesLoop]
  dsimp only
  rw [if_pos c1', if_pos c2]
  have key : ∀ (x : Except Fault Nat) (f : Nat → Except Fault RP2C02),
      x = Except.ok pattern → x.bind f = f pattern := by
    intro x f hx
    rw [hx]
    rfl
  refine (key _ _ ?_).trans ?_
  · exact (FetchSpriteRow_congr p _ cart _ _ _ (by rfl) (by rfl)).trans hpat
  · rfl

theorem EvaluateSpritesLoop_full (cart : CartridgeSlot) (scanl h : Int) (i : Nat)
    (entries : List Nat) (p : RP2C02)
    (c1 : spriteInRange p scanl h i = true) (c2 : ¬ p.m_state.VCache.SpriteCount < 8) :
    EvaluateSpritesLoop cart scanl h (i :: entries) p
      = Except.ok (p.SetFlagStatus StatusFlag.SpriteOverflow true) := by
  have c1' : (decide ((p.VRAM.OAM (4 * i) : Int) - scanl + 8 ≥ 0)
      && decide ((p.VRAM.OAM (4 * i) : Int) - scanl + 8 < h)) = true := c1
  rw [EvaluateSpritesLoop]
  dsimp only
  rw [if_pos c1', if_neg c2]

theorem storeSprite_entry (p : RP2C02) (cart : CartridgeSlot) (scanl : Int) (i pattern k : Nat)
    (hk : p.m_state.VCache.SpriteCount = (k : Int))
    (hpat : p.FetchSpriteRow cart (p.VRAM.OAM (4 * i + 1)) (p.VRAM.OAM (4 * i + 2))
      ((p.VRAM.OAM (4 * i) : Int) - scanl + 8) = Except.ok pattern) :
    (storeSprite p i pattern).VRAM = p.VRAM
    ∧ (storeSprite p i pattern).Registers = p.Registers
    ∧ (storeSprite p i pattern).m_state.VCache.SpriteCount = ((k + 1 : Nat) : Int)
    ∧ (∀ j, j ≠ k → (storeSprite p i pattern).m_state.VCache.BufferSpr j
        = p.m_state.VCache.BufferSpr j)
    ∧ spriteEntryOf p cart scanl i ((storeSprite p i pattern).m_state.VCache.BufferSpr k) := by
  have ek : p.m_state.VCache.SpriteCount.toNat = k := by rw [hk]; rfl
  refine ⟨rfl, rfl, ?_, ?_, ?_⟩
  · show p.m_state.VCache.SpriteCount + 1 = _
    rw [hk]
    push_cast
    rfl
  · intro j hj
    show (if j = p.m_state.VCache.SpriteCount.toNat then _
      else (if j = p.m_state.VCache.SpriteCount.toNat then _
        else p.m_state.VCache.BufferSpr j)) = _
    rw [ek, if_neg hj, if_neg hj]
  · have eb : (storeSprite p i pattern).m_state.VCache.BufferSpr k
        = { PositionX := p.VRAM.OAM (4 * i + 3)
            Palette := ((p.VRAM.OAM (4 * i + 2) &&& 3) + 4) % 256
            Priority := if (p.VRAM.OAM (4 * i + 2) &&& 0x20) != 0 then 0x01 else 0x00
            RowLSB := pattern &&& 0x00FF
            RowMSB := (pattern >>> 8) &&& 0x00FF
            IsSpriteZero := i == 0 } := by
      have hx : ∀ r : RenderState.SpriteRow,
          (p.setBufferSpr p.m_state.VCache.SpriteCount r).m_state.VCache.BufferSpr k = r := by
        intro r
        show (if k = p.m_state.VCache.SpriteCount.toNat then r else _) = r
        rw [ek, if_pos rfl]
      show (if k = p.m_state.VCache.SpriteCount.toNat then _ else _) = _
      rw [ek, if_pos rfl]
      simp only [hx]
    rw [eb]
    exact ⟨rfl, rfl, rfl, rfl, pattern, hpat, rfl, rfl⟩

theorem EvaluateSpritesLoop_spec (cart : CartridgeSlot) (hcart : answersPPU cart) (scanl h : Int)
    (entries : List Nat) (p : RP2C02) (k : Nat)
    (hk : p.m_state.VCache.SpriteCount = (k : Int)) (hk8 : k ≤ 8) :
    ∃ q, EvaluateSpritesLoop cart scanl h entries p = Except.ok q
      ∧ q.VRAM = p.VRAM
      ∧ q.m_state.VCache.SpriteCount
          = ((min 8 (k + (entries.filter (spriteInRange p scanl h)).length) : Nat) : Int)
      ∧ q.Registers = (if 8 < k + (entries.filter (spriteInRange p scanl h)).length
          then (p.SetFlagStatus StatusFlag.SpriteOverflow true).Registers else p.Registers)
      ∧ (∀ j, j < k → q.m_state.VCache.BufferSpr j = p.m_state.VCache.BufferSpr j)
      ∧ (∀ j, j < (entries.filter (spriteInRange p scanl h)).length → k + j < 8 →
          spriteEntryOf p cart scanl ((entries.filter (spriteInRange p scanl h)).getD j 0)
            (q.m_state.VCache.BufferSpr (k + j))) := by
  induction entries generalizing p k with
  | nil =>
    refine ⟨p, rfl, rfl, ?_, ?_, fun _ _ => rfl, ?_⟩
    · rw [hk, List.filter_nil, List.length_nil, Nat.add_zero, Nat.min_eq_right hk8]
    · rw [List.filter_nil, List.length_nil, Nat.add_zero, if_neg (by omega)]
    · intro j hj
      rw [List.filter_nil, List.length_nil] at hj
      omega
  | cons i entries ih =>
    by_cases c1 : spriteInRange p scanl h i = true
    · rw [List.filter_cons_of_pos c1, List.length_cons]
      by_cases c2 : p.m_state.VCache.SpriteCount < 8
      · have hk7 : k < 8 := by rw [hk] at c2; omega
        obtain ⟨pattern, hpat⟩ := FetchSpriteRow_ok cart hcart p (p.VRAM.OAM (4 * i + 1))
          (p.VRAM.OAM (4 * i + 2)) ((p.VRAM.OAM (4 * i) : Int) - scanl + 8)
        obtain ⟨sv, sr, sc, sb, se⟩ := storeSprite_entry p cart scanl i pattern k hk hpat
        rw [EvaluateSpritesLoop_store cart scanl h i entries p pattern c1 c2 hpat]
        obtain ⟨q, hq, v, cnt, regs, early, slots⟩ :=
          ih (storeSprite p i pattern) (k + 1) sc (by omega)
        rw [spriteInRange_congr p (storeSprite p i pattern) scanl h sv] at cnt regs slots
        refine ⟨q, hq, v.trans sv, ?_, ?_, ?_, ?_⟩
        · rw [cnt, show k + 1 + (entries.filter (spriteInRange p scanl h)).length
            = k + ((entries.filter (spriteInRange p scanl h)).length + 1) by omega]
        · rw [regs, show k + 1 + (entries.filter (spriteInRange p scanl h)).length
            = k + ((entries.filter (spriteInRange p scanl h)).length + 1) by omega]
          have e : (SetFlagStatus (storeSprite p i pattern) StatusFlag.SpriteOverflow true).Registers
              = (p.SetFlagStatus StatusFlag.SpriteOverflow true).Registers := rfl
          rw [e, sr]
        · intro j hj
          rw [early j (by omega), sb j (by omega)]
        · intro j hj hj8
          cases j with
          | zero =>
            rw [Nat.add_zero, early k (by omega)]
            exact se
          | succ j =>
            have hs := slots j (by omega) (by omega)
            rw [show k + (j + 1) = k + 1 + j by omega]
            exact spriteEntryOf_congr p _ cart scanl _ _ sr sv hs
      · have hk' : k = 8 := by rw [hk] at c2; omega
        rw [EvaluateSpritesLoop_full cart scanl h i entries p c1 c2]
        refine ⟨_, rfl, rfl, ?_, ?_, fun _ _ => rfl, ?_⟩
        · show p.m_state.VCache.SpriteCount = _
          rw [hk, hk', Nat.min_eq_left (by omega)]
        · rw [if_pos (by omega)]
        · intro j _ hj8
          omega
    · have c1' : spriteInRange p scanl h i = false := by
        rw [← Bool.not_eq_true]; exact c1
      rw [List.filter_cons_of_neg c1, EvaluateSpritesLoop_skip cart scanl h i entries p c1']
      exact ih p k hk hk8

theorem CheckFlagStatus_overflow (p q : RP2C02) (b : Bool)
    (h : q.Registers = (if b then (p.SetFlagStatus StatusFlag.SpriteOverflow true).Registers
      else p.Registers)) :
    q.CheckFlagStatus StatusFlag.SpriteOverflow
      = (b || p.CheckFlagStatus StatusFlag.SpriteOverflow) := by
  rw [CheckFlagStatus_eq, CheckFlagStatus_eq, h]
  cases b
  · rfl
  · rw [if_pos rfl, SetFlagStatus_testBit]
    simp
    exact StatusFlag.bit_lt_eight _

theorem EvaluateSpritesFor_spec (cart : CartridgeSlot) (hcart : answersPPU cart) (p : RP2C02)
    (scanl : Int) :
    ∃ q, p.EvaluateSpritesFor cart scanl = Except.ok q
      ∧ q.VRAM = p.VRAM
      ∧ q.m_state.VCache.SpriteCount = ((min 8 (spritesInRange p scanl
          (if p.CheckFlagCtrl CtrlFlag.SpriteHeight then 16 else 8)).length : Nat) : Int)
      ∧ (∀ j, j < min 8 (spritesInRange p scanl
            (if p.CheckFlagCtrl CtrlFlag.SpriteHeight then 16 else 8)).length →
          spriteEntryOf p cart scanl ((spritesInRange p scanl
            (if p.CheckFlagCtrl CtrlFlag.SpriteHeight then 16 else 8)).getD j 0)
            (q.m_state.VCache.BufferSpr j))
      ∧ q.CheckFlagStatus StatusFlag.SpriteOverflow
          = (decide (8 < (spritesInRange p scanl
              (if p.CheckFlagCtrl CtrlFlag.SpriteHeight then 16 else 8)).length)
            || p.CheckFlagStatus StatusFlag.SpriteOverflow) := by
  obtain ⟨q, hq, v, cnt, regs, -, slots⟩ := EvaluateSpritesLoop_spec cart hcart scanl
    (if p.CheckFlagCtrl CtrlFlag.SpriteHeight then 16 else 8) (List.range 64)
    { p with m_state := { p.m_state with VCache := { p.m_state.VCache with SpriteCount := 0 } } }
    0 rfl (by decide)
  have fe := spriteInRange_congr p
    { p with m_state := { p.m_state with VCache := { p.m_state.VCache with SpriteCount := 0 } } }
    scanl (if p.CheckFlagCtrl CtrlFlag.SpriteHeight then 16 else 8) rfl
  rw [fe, Nat.zero_add] at cnt regs
  rw [fe] at slots
  refine ⟨q, hq, v, cnt, ?_, ?_⟩
  · intro j hj
    have hs := slots j (by
      show j < (spritesInRange p scanl _).length
      omega) (by omega)
    rw [Nat.zero_add] at hs
    exact spriteEntryOf_congr p _ cart scanl _ _ rfl rfl hs
  · refine CheckFlagStatus_overflow p q _ ?_
    rw [regs]
    by_cases hb : 8 < ((List.range 64).filter (spriteInRange p scanl
        (if p.CheckFlagCtrl CtrlFlag.SpriteHeight then 16 else 8))).length
    · rw [if_pos hb, if_pos (by simpa [spritesInRange] using hb)]
      rfl
    · rw [if_neg hb, if_neg (by simpa [spritesInRange] using hb)]

theorem EvaluateSprites_scanline (p : RP2C02) (cart : CartridgeSlot) :
    (p.m_state.ScanPos.Scanline = 261 →
        p.EvaluateSprites cart = p.EvaluateSpritesFor cart 0)
    ∧ (p.m_state.ScanPos.Scanline ≤ 238 →
        p.EvaluateSprites cart = p.EvaluateSpritesFor cart (p.m_state.ScanPos.Scanline + 1))
    ∧ (238 < p.m_state.ScanPos.Scanline → p.m_state.ScanPos.Scanline ≠ 261 →
        p.EvaluateSprites cart = Except.ok p) := by
  refine ⟨?_, ?_, ?_⟩
  · intro h
    unfold EvaluateSprites
    dsimp only
    rw [if_pos (by rw [h]; rfl)]
  · intro h
    unfold EvaluateSprites
    dsimp only
    rw [if_neg (by
      intro hc
      have : p.m_state.ScanPos.Scanline = 261 := by simpa using hc
      omega), if_pos h]
  · intro h1 h2
    unfold EvaluateSprites
    dsimp only
    rw [if_neg (by
      intro hc
      exact h2 (by simpa using hc)), if_neg (by omega)]

theorem spritesPPU_inRange :
    spritesInRange (spritesPPU 8) 1
        (if (spritesPPU 8).CheckFlagCtrl CtrlFlag.SpriteHeight then 16 else 8)
      = [0, 1, 2, 3, 4, 5, 6, 7]
    ∧ spritesInRange (spritesPPU 9) 1
        (if (spritesPPU 9).CheckFlagCtrl CtrlFlag.SpriteHeight then 16 else 8)
      = [0, 1, 2, 3, 4, 5, 6, 7, 8]
    ∧ (spritesPPU 8).CheckFlagStatus StatusFlag.SpriteOverflow = false
    ∧ (spritesPPU 9).CheckFlagStatus StatusFlag.SpriteOverflow = false
    ∧ (spritesPPU 8).m_state.ScanPos.Scanline = 0 := by
  decide

end SpriteLemmas

section FrameCounterLemmas

open NES APU

theorem envelopes_FrameCounter (u : APU) : (envelopes u).FrameCounter = u.FrameCounter := rfl

theorem lengths_FrameCounter (u : APU) : (lengths u).FrameCounter = u.FrameCounter := rfl

theorem sweeps_FrameCounter (u : APU) : (sweeps u).FrameCounter = u.FrameCounter := rfl

/-- The frame counter after a call of `UpdateFrameCounter`, and the signals emitted. -/
theorem UpdateFrameCounter_step (u : APU) :
    u.UpdateFrameCounter.1.FrameCounter
      = { u.FrameCounter with Count :=
          if u.FrameCounter.Count < (u.FrameCounter.Period : Int) then u.FrameCounter.Count + 1
          else 0 }
    ∧ u.UpdateFrameCounter.2
      = (if u.FrameCounter.Period = 4
            ∧ (if u.FrameCounter.Count < (u.FrameCounter.Period : Int)
                then u.FrameCounter.Count + 1 else 0) = 3
            ∧ u.FrameCounter.IRQInhibit = false
          then [MOS6502.SIGNAL_CPU_IRQ] else []) := by
  unfold UpdateFrameCounter do_irq
  by_cases hc : u.FrameCounter.Count < (u.FrameCounter.Period : Int)
  · simp only [hc, if_true]
    by_cases hp : u.FrameCounter.Period = 4
    · simp only [hp, beq_self_eq_true, if_true, true_and]
      by_cases h0 : u.FrameCounter.Count + 1 = 0
      · simp [h0, envelopes_FrameCounter]
      by_cases h1 : u.FrameCounter.Count + 1 = 1
      · simp [h1, envelopes_FrameCounter, lengths_FrameCounter, sweeps_FrameCounter]
      by_cases h2 : u.FrameCounter.Count + 1 = 2
      · simp [h2, envelopes_FrameCounter]
      by_cases h3 : u.FrameCounter.Count + 1 = 3
      · cases hi : u.FrameCounter.IRQInhibit <;>
          simp [h3, hi, envelopes_FrameCounter, lengths_FrameCounter, sweeps_FrameCounter]
      · simp [h0, h1, h2, h3]
    · have hp' : (u.FrameCounter.Period == 4) = false := by simpa using hp
      simp only [hp', hp, false_and, if_false, Bool.false_eq_true]
      split_ifs <;>
        simp [envelopes_FrameCounter, lengths_FrameCounter, sweeps_FrameCounter]
  · simp only [hc, if_false]
    by_cases hp : u.FrameCounter.Period = 4
    · simp [hp, envelopes_FrameCounter]
    · have hp' : (u.FrameCounter.Period == 4) = false := by simpa using hp
      simp [hp', hp, envelopes_FrameCounter]

theorem frameTicks_succ (k : Nat) (u : APU) :
    frameTicks (k + 1) u
      = ((frameTicks k u).1.UpdateFrameCounter.1,
         (frameTicks k u).2 ++ [(frameTicks k u).1.UpdateFrameCounter.2]) := rfl

/-- The frame counter after `k` calls of `UpdateFrameCounter` and the signals of each call,
from a count `c` not above the period `P`: the count runs through the `P + 1` values
`0..P`. -/
theorem frameTicks_spec (P c : Nat) (u : APU) (hP : u.FrameCounter.Period = P)
    (hc : u.FrameCounter.Count = (c : Int)) (hcP : c ≤ P) (k : Nat) :
    (frameTicks k u).1.FrameCounter
      = { u.FrameCounter with Count := (((c + k) % (P + 1) : Nat) : Int) }
    ∧ (frameTicks k u).2
      = (List.range k).map (fun j =>
          if P = 4 ∧ (c + j + 1) % (P + 1) = 3 ∧ u.FrameCounter.IRQInhibit = false
          then [MOS6502.SIGNAL_CPU_IRQ] else []) := by
  induction k with
  | zero =>
    refine ⟨?_, rfl⟩
    show u.FrameCounter = _
    rw [Nat.add_zero, Nat.mod_eq_of_lt (by omega), ← hc]
  | succ k ih =>
    obtain ⟨i1, i2⟩ := ih
    obtain ⟨s1, s2⟩ := UpdateFrameCounter_step (frameTicks k u).1
    rw [frameTicks_succ]
    have hd : (c + k) % (P + 1) < P + 1 := Nat.mod_lt _ (by omega)
    have hm : (c + (k + 1)) % (P + 1)
        = if (c + k) % (P + 1) < P then (c + k) % (P + 1) + 1 else 0 := by
      rw [show c + (k + 1) = c + k + 1 by omega, Nat.add_mod]
      split_ifs with h
      · rw [Nat.mod_eq_of_lt (show 1 < P + 1 by omega), Nat.mod_eq_of_lt (by omega)]
      · have e : (c + k) % (P + 1) = P := by omega
        rw [e]
        by_cases hP0 : P = 0
        · subst hP0; rfl
        · rw [Nat.mod_eq_of_lt (show 1 < P + 1 by omega), Nat.mod_self]
    have cond : ((frameTicks k u).1.FrameCounter.Count
          < ((frameTicks k u).1.FrameCounter.Period : Int))
        ↔ (c + k) % (P + 1) < P := by
      rw [i1]
      show ((((c + k) % (P + 1) : Nat) : Int) < ((u.FrameCounter.Period : Nat) : Int)) ↔ _
      rw [hP]
      omega
    have newc : (if (frameTicks k u).1.FrameCounter.Count
          < ((frameTicks k u).1.FrameCounter.Period : Int)
        then (frameTicks k u).1.FrameCounter.Count + 1 else 0)
        = (((c + (k + 1)) % (P + 1) : Nat) : Int) := by
      rw [hm]
      by_cases h : (c + k) % (P + 1) < P
      · rw [if_pos (cond.mpr h), if_pos h, i1]
        push_cast
        rfl
      · rw [if_neg (fun hx => h (cond.mp hx)), if_neg h]
        rfl
    refine ⟨?_, ?_⟩
    · show (frameTicks k u).1.UpdateFrameCounter.1.FrameCounter = _
      rw [s1, newc, i1]
    · show (frameTicks k u).2 ++ [(frameTicks k u).1.UpdateFrameCounter.2] = _
      rw [s2, newc, i2, List.range_succ, List.map_append, List.map_singleton]
      congr 2
      have e1 : (frameTicks k u).1.FrameCounter.Period = P := by rw [i1]; exact hP
      have e2 : (frameTicks k u).1.FrameCounter.IRQInhibit = u.FrameCounter.IRQInhibit := by
        rw [i1]
      rw [e1, e2, show c + k + 1 = c + (k + 1) by omega]
      by_cases hx : P = 4 ∧ (c + (k + 1)) % (P + 1) = 3 ∧ u.FrameCounter.IRQInhibit = false
      · rw [if_pos hx, if_pos ⟨hx.1, by rw [hx.2.1]; rfl, hx.2.2⟩]
      · rw [if_neg hx, if_neg]
        intro hy
        exact hx ⟨hy.1, by have := hy.2.1; omega, hy.2.2⟩

end FrameCounterLemmas

/-! ## The claims -/

section Claims

open MOS6502 InstructionHandler

variable {β : Type}

/-- The accumulator and the status register binary-mode `ADC` leaves, from the accumulator,
the fetched operand and the carry. -/
theorem adc_binary_regs (bus : BusAccess β) (c : MOS6502 β)
    (hbin : CheckFlag c Flag.DecimalMode = false ∨ c.m_decimalModeAvailable = false)
    (ha : c.A < 256) (m cin : Nat) (hmv : (Fetch bus c).1 = m)
    (hcv : (if CheckFlag c Flag.Carry = true then 1 else 0 : Nat) = cin) :
    (ADC bus c).A = (c.A + m + cin) % 256
    ∧ (ADC bus c).P =
      setP (setP (setP (setP c.P Flag.Carry (((c.A + m + cin) % 65536 &&& 0xFF00) != 0))
        Flag.Zero (((c.A + m + cin) % 65536 &&& 0x00FF) == 0))
        Flag.Overflow
          (((bitNot (c.A ^^^ m) &&& (c.A ^^^ (c.A + m + cin) % 65536)) &&& 0x0080) != 0))
        Flag.Negative (((c.A + m + cin) % 65536 &&& 0x0080) != 0) := by
  have hcond : (!CheckFlag c Flag.DecimalMode || !c.m_decimalModeAvailable) = true := by
    rcases hbin with h | h <;> simp [h]
  have hcf : CheckFlag (Fetch bus c).2 Flag.Carry = CheckFlag c Flag.Carry := by
    rw [CheckFlag_eq, CheckFlag_eq, Fetch_P]
  refine ⟨?_, ?_⟩
  · simp only [ADC, hcond, ↓reduceIte, SetFlagTo_eq, hcf, hmv, hcv,
      Nat.mod_eq_of_lt (show c.A < 65536 by omega)]
    rw [show (0x00FF : Nat) = 2 ^ 8 - 1 from rfl, Nat.and_pow_two_sub_one_eq_mod]
    omega
  · simp only [ADC, hcond, ↓reduceIte, SetFlagTo_eq, hcf, hmv, hcv, Fetch_P,
      Nat.mod_eq_of_lt (show c.A < 65536 by omega)]

/-- C1: binary-mode `ADC` (D clear or decimal mode unavailable) with accumulator `a`,
fetched operand `m` and carry-in `cin` leaves `A = (a + m + cin) mod 256`, sets C iff
`a + m + cin > 255`, Z iff the new `A` is 0, N to bit 7 of the new `A`, and V iff the signed
sum of `a` and `m` plus `cin` lies outside `[-128, 127]`.  The instruction `ADC #$50`
executed with `A = 0x50` and C clear gives `A = 0xA0`, N = 1, V = 1, C = 0, Z = 0. -/
theorem C1_adc_binary (bus : BusAccess β) (c : MOS6502 β)
    (hbin : CheckFlag c Flag.DecimalMode = false ∨ c.m_decimalModeAvailable = false)
    (ha : c.A < 256) :
    ((ADC bus c).A = (c.A + (Fetch bus c).1 + (if CheckFlag c Flag.Carry then 1 else 0)) % 256
    ∧ CheckFlag (ADC bus c) Flag.Carry
        = decide (c.A + (Fetch bus c).1 + (if CheckFlag c Flag.Carry then 1 else 0) > 255)
    ∧ CheckFlag (ADC bus c) Flag.Zero = decide ((ADC bus c).A = 0)
    ∧ CheckFlag (ADC bus c) Flag.Negative = (ADC bus c).A.testBit 7
    ∧ CheckFlag (ADC bus c) Flag.Overflow
        = decide (toSigned c.A + toSigned (Fetch bus c).1
              + (if CheckFlag c Flag.Carry then 1 else 0) < -128
            ∨ 127 < toSigned c.A + toSigned (Fetch bus c).1
              + (if CheckFlag c Flag.Carry then 1 else 0)))
    ∧ ((ExecuteNextInstruction ramBus
          { ramCPU (ramImage 0x8000 [0x69, 0x50]) 0x8000 with A := 0x50 }).A = 0xA0
      ∧ CheckFlag (ExecuteNextInstruction ramBus
          { ramCPU (ramImage 0x8000 [0x69, 0x50]) 0x8000 with A := 0x50 }) Flag.Negative = true
      ∧ CheckFlag (ExecuteNextInstruction ramBus
          { ramCPU (ramImage 0x8000 [0x69, 0x50]) 0x8000 with A := 0x50 }) Flag.Overflow = true
      ∧ CheckFlag (ExecuteNextInstruction ramBus
          { ramCPU (ramImage 0x8000 [0x69, 0x50]) 0x8000 with A := 0x50 }) Flag.Carry = false
      ∧ CheckFlag (ExecuteNextInstruction ramBus
          { ramCPU (ramImage 0x8000 [0x69, 0x50]) 0x8000 with A := 0x50 }) Flag.Zero = false) := by
  refine ⟨?_, by decide⟩
  have hm := Fetch_fst_lt bus c
  generalize hmv : (Fetch bus c).1 = m at hm ⊢
  generalize hcv : (if CheckFlag c Flag.Carry = true then 1 else 0 : Nat) = cin
  have hcin : cin ≤ 1 := by subst hcv; split <;> omega
  obtain ⟨hA, hP⟩ := adc_binary_regs bus c hbin ha m cin hmv hcv
  have hT : (c.A + m + cin) % 65536 = c.A + m + cin := Nat.mod_eq_of_lt (by omega)
  refine ⟨hA, ?_, ?_, ?_, ?_⟩
  · rw [CheckFlag_eq, hP]
    simp only [testBit_setP, Flag.bit_Carry, Flag.bit_Zero, Flag.bit_Overflow, Flag.bit_Negative]
    simp only [hT, and_FF00_bne _ (show c.A + m + cin < 512 by omega)]
    simp
  · rw [CheckFlag_eq, hP, hA]
    simp only [testBit_setP, Flag.bit_Carry, Flag.bit_Zero, Flag.bit_Overflow, Flag.bit_Negative]
    rw [hT, show (0x00FF : Nat) = 2 ^ 8 - 1 from rfl, Nat.and_pow_two_sub_one_eq_mod]
    simp only [show (2 : Nat) ^ 8 = 256 from rfl, show decide (1 < 8) = true from rfl,
      show (1 = 7) = False from by simp, show (1 = 6) = False from by simp, ↓reduceIte,
      Bool.true_and]
    rw [Bool.eq_iff_iff]
    simp
  · rw [CheckFlag_eq, hP, hA]
    simp only [testBit_setP, Flag.bit_Carry, Flag.bit_Zero, Flag.bit_Overflow, Flag.bit_Negative]
    rw [hT, show (0x0080 : Nat) = 2 ^ 7 from rfl, and_two_pow_bne, testBit_mod_256]
    simp
  · rw [CheckFlag_eq, hP]
    simp only [testBit_setP, Flag.bit_Carry, Flag.bit_Zero, Flag.bit_Overflow, Flag.bit_Negative]
    rw [adc_overflow c.A m cin ha hm hcin]
    subst hcv
    simp

/-- Witness of C1: the state in which `ADC #$50` finds the CPU after the immediate
addressing mode, with `A = 0x50` and C clear. -/
theorem C1_adc_binary_witness :
    (CheckFlag adcOperandState Flag.DecimalMode = false
      ∨ adcOperandState.m_decimalModeAvailable = false)
    ∧ adcOperandState.A < 256
    ∧ (ADC ramBus adcOperandState).A = 0xA0
    ∧ CheckFlag (ADC ramBus adcOperandState) Flag.Overflow = true :=
  ⟨Or.inl (by decide), by decide,
    (C1_adc_binary ramBus adcOperandState (Or.inl (by decide)) (by decide)).1.1.trans (by decide),
    (C1_adc_binary ramBus adcOperandState (Or.inl (by decide)) (by decide)).1.2.2.2.2.trans
      (by decide)⟩

/-- C2: binary-mode `SBC` on accumulator `a`, operand `m` and carry `cin` leaves the
accumulator and the status register that binary-mode `ADC` leaves on the same `a` and `cin`
with operand `m XOR 0xFF`, and both leave X, Y, S and PC alone; so
`A = (a - m - (1 - cin)) mod 256` and C is set iff `a >= m + (1 - cin)`. -/
theorem C2_sbc_is_adc_of_complement (bus : BusAccess β) (c c' : MOS6502 β)
    (hbin : CheckFlag c Flag.DecimalMode = false ∨ c.m_decimalModeAvailable = false)
    (hbin' : CheckFlag c' Flag.DecimalMode = false ∨ c'.m_decimalModeAvailable = false)
    (hA : c'.A = c.A) (hP : c'.P = c.P)
    (hm : (Fetch bus c').1 = (Fetch bus c).1 ^^^ 0xFF)
    (ha : c.A < 256) :
    ((SBC bus c).A = (ADC bus c').A ∧ (SBC bus c).P = (ADC bus c').P)
    ∧ ((SBC bus c).X = c.X ∧ (SBC bus c).Y = c.Y ∧ (SBC bus c).S = c.S ∧ (SBC bus c).PC = c.PC)
    ∧ ((ADC bus c').X = c'.X ∧ (ADC bus c').Y = c'.Y ∧ (ADC bus c').S = c'.S
        ∧ (ADC bus c').PC = c'.PC)
    ∧ (((SBC bus c).A : Int)
        = ((c.A : Int) - ((Fetch bus c).1 : Int)
            - (1 - (if CheckFlag c Flag.Carry then 1 else 0))) % 256)
    ∧ CheckFlag (SBC bus c) Flag.Carry
        = decide (c.A ≥ (Fetch bus c).1 + (1 - (if CheckFlag c Flag.Carry then 1 else 0))) := by
  have hcond : (!CheckFlag c Flag.DecimalMode || !c.m_decimalModeAvailable) = true := by
    rcases hbin with h | h <;> simp [h]
  have hcond' : (!CheckFlag c' Flag.DecimalMode || !c'.m_decimalModeAvailable) = true := by
    rcases hbin' with h | h <;> simp [h]
  have hml := Fetch_fst_lt bus c
  have hcf : CheckFlag (Fetch bus c).2 Flag.Carry = CheckFlag c Flag.Carry := by
    rw [CheckFlag_eq, CheckFlag_eq, Fetch_P]
  have hcf' : CheckFlag (Fetch bus c').2 Flag.Carry = CheckFlag c Flag.Carry := by
    rw [CheckFlag_eq, CheckFlag_eq, Fetch_P, hP]
  have hcc : CheckFlag c' Flag.Carry = CheckFlag c Flag.Carry := by
    rw [CheckFlag_eq, CheckFlag_eq, hP]
  generalize hmv : (Fetch bus c).1 = m at hm hml ⊢
  generalize hcv : (if CheckFlag c Flag.Carry = true then 1 else 0 : Nat) = cin
  have hcin : cin ≤ 1 := by subst hcv; split <;> omega
  have hcv' : (if CheckFlag c' Flag.Carry = true then 1 else 0 : Nat) = cin := by
    rw [hcc]; exact hcv
  obtain ⟨hAA, hAP⟩ := adc_binary_regs bus c' hbin' (hA ▸ ha) (m ^^^ 0xFF) cin hm hcv'
  rw [hA] at hAA
  rw [hA, hP] at hAP
  have hx : m ^^^ 0x00FF = 255 - m := xor_FF_eq m hml
  have hx' : m ^^^ 255 = 255 - m := hx
  have hv : (255 - m) % 65536 = 255 - m := Nat.mod_eq_of_lt (by omega)
  have hSA : (SBC bus c).A = (ADC bus c').A := by
    simp only [SBC, ADC, hcond, hcond', ↓reduceIte, SetFlagTo_eq, hcf, hcf', hmv, hcv, hx, hx',
      hv, hm, hA, hP, Fetch_P, Nat.mod_eq_of_lt (show c.A < 65536 by omega)]
  have hSP : (SBC bus c).P = (ADC bus c').P := by
    simp only [SBC, ADC, hcond, hcond', ↓reduceIte, SetFlagTo_eq, hcf, hcf', hmv, hcv, hx, hx',
      hv, hm, hA, hP, Fetch_P, Nat.mod_eq_of_lt (show c.A < 65536 by omega)]
  have hT : (c.A + (255 - m) + cin) % 65536 = c.A + (255 - m) + cin :=
    Nat.mod_eq_of_lt (by omega)
  refine ⟨⟨hSA, hSP⟩, ?_, ?_, ?_, ?_⟩
  · simp [SBC, hcond, SetFlagTo_eq]
  · simp [ADC, hcond', SetFlagTo_eq]
  · rw [hSA, hAA, hx']
    subst hcv
    cases CheckFlag c Flag.Carry <;> simp <;> omega
  · rw [CheckFlag_eq, hSP, hAP, hx']
    simp only [testBit_setP, Flag.bit_Carry, Flag.bit_Zero, Flag.bit_Overflow, Flag.bit_Negative]
    simp only [hT, and_FF00_bne _ (show c.A + (255 - m) + cin < 512 by omega)]
    subst hcv
    cases CheckFlag c Flag.Carry <;> simp <;> omega

/-- Witness of C2: `SBC #$10` after immediate addressing with `A = 0x50`, against `ADC`
on the same registers with the operand `0xEF` held in the operand cache. -/
theorem C2_sbc_is_adc_of_complement_witness :
    (CheckFlag sbcOperandState Flag.DecimalMode = false
      ∨ sbcOperandState.m_decimalModeAvailable = false)
    ∧ (CheckFlag sbcAsAdcState Flag.DecimalMode = false
      ∨ sbcAsAdcState.m_decimalModeAvailable = false)
    ∧ sbcAsAdcState.A = sbcOperandState.A ∧ sbcAsAdcState.P = sbcOperandState.P
    ∧ (Fetch ramBus sbcAsAdcState).1 = (Fetch ramBus sbcOperandState).1 ^^^ 0xFF
    ∧ sbcOperandState.A < 256
    ∧ (SBC ramBus sbcOperandState).A = (ADC ramBus sbcAsAdcState).A
    ∧ (SBC ramBus sbcOperandState).P = (ADC ramBus sbcAsAdcState).P :=
  ⟨Or.inl (by decide), Or.inl (by decide), by decide, by decide, by decide, by decide,
    (C2_sbc_is_adc_of_complement ramBus sbcOperandState sbcAsAdcState (Or.inl (by decide))
      (Or.inl (by decide)) (by decide) (by decide) (by decide) (by decide)).1⟩

/-- C3: for every opcode byte `k` in 0..255 the entry at index `k` of the 256-entry opcode
table, which is the entry the decoder's lookup `OpcodeMap[k]` returns, has opcode field `k`,
and the table has exactly one entry with opcode field `k`. -/
theorem C3_opcode_table :
    OpcodeMap.length = 256
    ∧ ∀ k : Fin 256,
        OpcodeMap.get? k.val = some (OpcodeMapAt k.val)
        ∧ (OpcodeMapAt k.val).Opcode = k.val
        ∧ OpcodeMap.countP (fun i => i.Opcode == k.val) = 1 := by
  refine ⟨OpcodeMap_length, fun k => ?_⟩
  refine ⟨(OpcodeMapAt_eq k.val k.isLt).1, (OpcodeMapAt_eq k.val k.isLt).2, ?_⟩
  have h : OpcodeMap.countP (fun i => i.Opcode == k.val)
      = (OpcodeMap.map Instruction.Opcode).count k.val := by
    rw [List.count, List.countP_map]
    rfl
  rw [h, OpcodeMap_opcodes]
  exact List.count_eq_one_of_mem (List.nodup_range 256) (List.mem_range.mpr k.isLt)

/-- C4: from every prior CPU state and device state, `Reset()` sets PC to
`lo | (hi << 8)` where `lo` and `hi` are the bytes the bus returns for `0xFFFC` and `0xFFFD`,
`Reset(pc)` sets PC to `pc`, and both set `A = X = Y = 0`, `S = 0xFD`, `P = 0x24`; with the
bytes `0x34, 0x12` at `0xFFFC/0xFFFD` the PC becomes `0x1234`. -/
theorem C4_reset (bus : BusAccess β) (c : MOS6502 β) (pc hi lo : Nat) (b1 b2 : β)
    (hpc : pc < 65536)
    (hhi : bus.ReadFromBus c.BUS 0xFFFD = (hi, b1))
    (hlo : bus.ReadFromBus b1 0xFFFC = (lo, b2)) :
    ((Reset bus c).PC = (lo % 256) ||| ((hi % 256) <<< 8)
      ∧ (Reset bus c).A = 0 ∧ (Reset bus c).X = 0 ∧ (Reset bus c).Y = 0
      ∧ (Reset bus c).S = 0xFD ∧ (Reset bus c).P = 0x24 ∧ (Reset bus c).BUS = b2)
    ∧ ((ResetTo c pc).PC = pc
      ∧ (ResetTo c pc).A = 0 ∧ (ResetTo c pc).X = 0 ∧ (ResetTo c pc).Y = 0
      ∧ (ResetTo c pc).S = 0xFD ∧ (ResetTo c pc).P = 0x24 ∧ (ResetTo c pc).BUS = c.BUS)
    ∧ (Reset ramBus (ramCPU (ramImage 0xFFFC [0x34, 0x12]) 0)).PC = 0x1234 := by
  have h1 : hi % 256 < 256 := Nat.mod_lt _ (by decide)
  have h2 : lo % 256 < 256 := Nat.mod_lt _ (by decide)
  refine ⟨⟨?_, rfl, rfl, rfl, rfl, rfl, ?_⟩, ⟨?_, rfl, rfl, rfl, rfl, rfl, rfl⟩, by decide⟩
  · simp only [Reset, ResetTo, Read, hhi, hlo, Nat.reduceMod]
    rw [Nat.mod_eq_of_lt (show hi % 256 < 65536 by omega),
      Nat.mod_eq_of_lt (shl8_lt _ h1), Nat.mod_eq_of_lt (word_of_bytes _ _ h1 h2),
      Nat.mod_eq_of_lt (word_of_bytes _ _ h1 h2), Nat.lor_comm]
  · simp only [Reset, ResetTo, Read, hhi, hlo, Nat.reduceMod]
  · simp only [ResetTo, Nat.mod_eq_of_lt hpc]

/-- Witness of C4: a RAM bus holding `0x34, 0x12` at `0xFFFC/0xFFFD`. -/
theorem C4_reset_witness :
    0x1234 < 65536
    ∧ ramBus.ReadFromBus (ramCPU (ramImage 0xFFFC [0x34, 0x12]) 0).BUS 0xFFFD
        = (0x12, ramImage 0xFFFC [0x34, 0x12])
    ∧ ramBus.ReadFromBus (ramImage 0xFFFC [0x34, 0x12]) 0xFFFC
        = (0x34, ramImage 0xFFFC [0x34, 0x12])
    ∧ (Reset ramBus (ramCPU (ramImage 0xFFFC [0x34, 0x12]) 0)).PC = 0x34 % 256 ||| (0x12 % 256) <<< 8
    ∧ (ResetTo (ramCPU (ramImage 0xFFFC [0x34, 0x12]) 0) 0x1234).PC = 0x1234 :=
  ⟨by decide, rfl, rfl,
    (C4_reset ramBus (ramCPU (ramImage 0xFFFC [0x34, 0x12]) 0) 0x1234 0x12 0x34
      (ramImage 0xFFFC [0x34, 0x12]) (ramImage 0xFFFC [0x34, 0x12]) (by decide) rfl rfl).1.1,
    (C4_reset ramBus (ramCPU (ramImage 0xFFFC [0x34, 0x12]) 0) 0x1234 0x12 0x34
      (ramImage 0xFFFC [0x34, 0x12]) (ramImage 0xFFFC [0x34, 0x12]) (by decide) rfl rfl).2.1.1⟩

/-- C5: bit 5 of `P` is an invariant of the CPU step.  In every state reached from a reset
bit 5 of `P` is 1, and it is 1 again after running any of the 256 table entries, after
`ExecuteNextInstruction`, after servicing an IRQ or an NMI and after `Cycle`; and the status
byte that `PHP`, `BRK`, an IRQ (taken when I is clear) and an NMI write to the stack, the last
of the bytes they push, has bit 5 set. -/
theorem C5_expansion_bit_invariant (bus : BusAccess β) (c : MOS6502 β) (h : Reachable bus c) :
    CheckFlag c Flag.Expansion = true
    ∧ (∀ k : Fin 256,
        CheckFlag (CallOperationFunction bus (OpcodeMapAt k.val).OperationFunction
          (CallAddressingFunction bus (OpcodeMapAt k.val).AdressingFunction c))
          Flag.Expansion = true)
    ∧ CheckFlag (ExecuteNextInstruction bus c) Flag.Expansion = true
    ∧ CheckFlag (IRQ bus c) Flag.Expansion = true
    ∧ CheckFlag (NMI bus c) Flag.Expansion = true
    ∧ CheckFlag (Cycle bus c) Flag.Expansion = true
    ∧ ((PHP bus c).BUS = pushAll bus c.BUS c.S [(c.P ||| 0x10) % 256]
      ∧ (∃ hi lo : Nat, (BRK bus c).BUS
          = (bus.ReadFromBus (bus.ReadFromBus
              (pushAll bus c.BUS c.S [hi, lo, (c.P ||| 0x10) % 256]) 0xFFFE).2 0xFFFF).2)
      ∧ ((c.P ||| 0x10) % 256).testBit 5 = true)
    ∧ ((CheckFlag c Flag.InterruptDisable = false →
          ∃ hi lo : Nat, (IRQ bus c).BUS
            = (bus.ReadFromBus (bus.ReadFromBus
                (pushAll bus c.BUS c.S
                  [hi, lo, ((c.P &&& bitNot 0x10) % 256 ||| 0x04) % 256]) 0xFFFF).2 0xFFFE).2)
      ∧ (∃ hi lo : Nat, (NMI bus c).BUS
          = (bus.ReadFromBus (bus.ReadFromBus
              (pushAll bus c.BUS c.S
                [hi, lo, ((c.P &&& bitNot 0x10) % 256 ||| 0x04) % 256]) 0xFFFB).2 0xFFFA).2)
      ∧ (((c.P &&& bitNot 0x10) % 256 ||| 0x04) % 256).testBit 5 = true) := by
  have h5 := reachable_bit5 bus c h
  have hq : ((c.P ||| 0x10) % 256) = setP c.P Flag.Break true := rfl
  have hq2 : (((c.P &&& bitNot 0x10) % 256 ||| 0x04) % 256)
      = setP (setP c.P Flag.Break false) Flag.InterruptDisable true := rfl
  refine ⟨?_, ?_, ?_, ?_, ?_, ?_, ⟨?_, ?_, ?_⟩, ⟨?_, ?_, ?_⟩⟩
  · rw [CheckFlag_eq]; exact h5
  · intro k
    rw [CheckFlag_eq]
    apply operation_bit5
    rw [addressing_P]
    exact h5
  · rw [CheckFlag_eq]; exact execute_bit5 bus c h5
  · rw [CheckFlag_eq]; exact irq_bit5 bus c h5
  · rw [CheckFlag_eq]; exact nmi_bit5 bus c h5
  · rw [CheckFlag_eq]; exact cycle_bit5 bus c h5
  · rw [hq]
    simp [PHP, pushAll, SetFlag_eq, ClearFlag_eq, GetStackPointerAddress, setP_mod]
  · refine ⟨(((c.PC + 1) % 65536) >>> 8) &&& 0xFF00, ((c.PC + 1) % 65536) &&& 0x00FF, ?_⟩
    rw [hq]
    simp [BRK, pushAll, SetFlag_eq, ClearFlag_eq, GetStackPointerAddress, setP_mod, setP_idem]
  · rw [hq, testBit5_setP]; simpa using h5
  · intro hI
    refine ⟨(c.PC >>> 8) &&& 0x00FF, c.PC &&& 0x00FF, ?_⟩
    rw [hq2]
    simp [IRQ, hI, pushAll, SetFlag_eq, ClearFlag_eq, GetStackPointerAddress, setP_mod]
  · refine ⟨(c.PC >>> 8) &&& 0x00FF, c.PC &&& 0x00FF, ?_⟩
    rw [hq2]
    simp [NMI, pushAll, SetFlag_eq, ClearFlag_eq, GetStackPointerAddress, setP_mod]
  · rw [hq2, testBit5_setP, testBit5_setP]; simpa using h5

/-- Witness of C5: the CPU reset onto a `PLP` that pulls the byte `0x00` from the stack. -/
theorem C5_expansion_bit_invariant_witness :
    Reachable ramBus (ramCPU (ramImage 0x8000 [0x28]) 0x8000)
    ∧ (ExecuteNextInstruction ramBus (ramCPU (ramImage 0x8000 [0x28]) 0x8000)).m_opcode = 0x28
    ∧ CheckFlag (ExecuteNextInstruction ramBus (ramCPU (ramImage 0x8000 [0x28]) 0x8000))
        Flag.Expansion = true :=
  ⟨Reachable.resetTo _ _, by decide,
    (C5_expansion_bit_invariant ramBus (ramCPU (ramImage 0x8000 [0x28]) 0x8000)
      (Reachable.resetTo _ _)).2.2.1⟩

/-- C6: for every 16-bit pointer `ptr` given as the operand of `JMP (ptr)` (opcode `0x6C`),
the instruction sets PC to `tl | (th << 8)` where `tl` is the byte the bus returns for `ptr`
and `th` the byte it returns for `ptr + 1` when the low byte of `ptr` is not `0xFF`, and for
`ptr & 0xFF00` when it is `0xFF`; with `[$02FF] = 0x34`, `[$0300] = 0xCD`, `[$0200] = 0x12`,
`JMP ($02FF)` gives `PC = 0x1234`. -/
theorem C6_jmp_indirect (bus : BusAccess β) (c : MOS6502 β) (ptr th tl : Nat)
    (b1 b2 b3 b4 b5 : β)
    (hpc : c.PC < 65536) (hptr : ptr < 65536)
    (h0 : bus.ReadFromBus c.BUS c.PC = (0x6C, b1))
    (h1 : bus.ReadFromBus b1 ((c.PC + 1) % 65536) = (ptr % 256, b2))
    (h2 : bus.ReadFromBus b2 ((c.PC + 2) % 65536) = (ptr / 256, b3))
    (h3 : bus.ReadFromBus b3 (if ptr % 256 = 0xFF then ptr &&& 0xFF00 else ptr + 1) = (th, b4))
    (h4 : bus.ReadFromBus b4 ptr = (tl, b5)) :
    ((ExecuteNextInstruction bus c).PC = (tl % 256) ||| ((th % 256) <<< 8)
      ∧ (ExecuteNextInstruction bus c).BUS = b5)
    ∧ (ExecuteNextInstruction ramBus (ramCPU jmpBugRam 0x8000)).PC = 0x1234 := by
  refine ⟨?_, by decide⟩
  have hp1 : ptr / 256 < 256 := by omega
  have hw : ((ptr / 256 % 256) <<< 8 % 65536 ||| ptr % 256) % 65536 = ptr := by
    rw [Nat.mod_eq_of_lt (shl8_lt _ (Nat.mod_lt _ (by decide))), bytes_of_word,
      Nat.mod_mod, Nat.mod_eq_of_lt hptr]
  have hpc2 : ((c.PC + 1) % 65536 + 1) % 65536 = (c.PC + 2) % 65536 := by omega
  have hT : ((th % 256) <<< 8 ||| tl % 256) % 65536 = tl % 256 ||| (th % 256) <<< 8 := by
    rw [Nat.mod_eq_of_lt (word_of_bytes _ _ (Nat.mod_lt _ (by decide))
      (Nat.mod_lt _ (by decide))), Nat.lor_comm]
  have hlt : tl % 256 ||| (th % 256) <<< 8 < 65536 := by
    rw [Nat.lor_comm]
    exact word_of_bytes _ _ (Nat.mod_lt _ (by decide)) (Nat.mod_lt _ (by decide))
  by_cases hb : ptr % 256 = 0xFF
  · rw [if_pos hb] at h3
    have hw2 : ((ptr / 256 % 256) <<< 8 % 65536 ||| 255) % 65536 = ptr := by rw [← hb]; exact hw
    have hm : (ptr &&& 0xFF00) % 65536 = ptr &&& 0xFF00 :=
      Nat.mod_eq_of_lt (lt_of_le_of_lt Nat.and_le_left hptr)
    simp [ExecuteNextInstruction, OpcodeMapAt_6C, CallAddressingFunction, CallOperationFunction,
      IND, JMP, Nat.mod_eq_of_lt hpc, Nat.mod_eq_of_lt hptr, h0, h1, h2, h3, h4, hb, hw2, hpc2,
      hm, hT, hlt]
  · rw [if_neg hb] at h3
    have hm : (ptr + 1) % 65536 = ptr + 1 := Nat.mod_eq_of_lt (by omega)
    simp [ExecuteNextInstruction, OpcodeMapAt_6C, CallAddressingFunction, CallOperationFunction,
      IND, JMP, Nat.mod_eq_of_lt hpc, Nat.mod_eq_of_lt hptr, h0, h1, h2, h3, h4, hb, hw, hpc2,
      hm, hT, hlt]

/-- Witness of C6: `JMP ($02FF)` at `0x8000` on the RAM of the page-wrap scenario. -/
theorem C6_jmp_indirect_witness :
    (ramCPU jmpBugRam 0x8000).PC < 65536 ∧ 0x02FF < 65536
    ∧ ramBus.ReadFromBus (ramCPU jmpBugRam 0x8000).BUS (ramCPU jmpBugRam 0x8000).PC
        = (0x6C, jmpBugRam)
    ∧ ramBus.ReadFromBus jmpBugRam (((ramCPU jmpBugRam 0x8000).PC + 1) % 65536)
        = (0x02FF % 256, jmpBugRam)
    ∧ ramBus.ReadFromBus jmpBugRam (((ramCPU jmpBugRam 0x8000).PC + 2) % 65536)
        = (0x02FF / 256, jmpBugRam)
    ∧ ramBus.ReadFromBus jmpBugRam (if 0x02FF % 256 = 0xFF then 0x02FF &&& 0xFF00 else 0x02FF + 1)
        = (0x12, jmpBugRam)
    ∧ ramBus.ReadFromBus jmpBugRam 0x02FF = (0x34, jmpBugRam)
    ∧ (ExecuteNextInstruction ramBus (ramCPU jmpBugRam 0x8000)).PC
        = (0x34 % 256) ||| ((0x12 % 256) <<< 8) :=
  ⟨by decide, by decide, rfl, rfl, rfl, rfl, rfl,
    (C6_jmp_indirect ramBus (ramCPU jmpBugRam 0x8000) 0x02FF 0x12 0x34 jmpBugRam jmpBugRam
      jmpBugRam jmpBugRam jmpBugRam (by decide) (by decide) rfl rfl rfl rfl rfl).1.1⟩

/-- C7: for every stack pointer `S` and accumulator `A`, `PHA` performs exactly one bus
write, of `A` to address `0x0100 | S` (which is `0x0100 + S`), leaves `S = (S - 1) mod 256`
and leaves the other registers alone, also when run as opcode `0x48` by
`ExecuteNextInstruction`; with `S = 0x00` on a RAM bus the byte is written to `0x0100`, no
other byte of memory changes and `S` becomes `0xFF`. -/
theorem C7_pha (bus : BusAccess β) (c : MOS6502 β) (b1 : β)
    (hS : c.S < 256) (hA : c.A < 256)
    (h0 : bus.ReadFromBus c.BUS (c.PC % 65536) = (0x48, b1)) :
    ((PHA bus c).BUS = bus.WriteToBus c.BUS (0x0100 ||| c.S) c.A
      ∧ 0x0100 ||| c.S = 0x0100 + c.S
      ∧ ((PHA bus c).S : Int) = ((c.S : Int) - 1) % 256
      ∧ (PHA bus c).A = c.A ∧ (PHA bus c).X = c.X ∧ (PHA bus c).Y = c.Y
      ∧ (PHA bus c).P = c.P ∧ (PHA bus c).PC = c.PC)
    ∧ ((ExecuteNextInstruction bus c).BUS = bus.WriteToBus b1 (0x0100 ||| c.S) c.A
      ∧ ((ExecuteNextInstruction bus c).S : Int) = ((c.S : Int) - 1) % 256)
    ∧ ((ExecuteNextInstruction ramBus phaState).BUS 0x0100 = 0x77
      ∧ (∀ x, x ≠ 0x0100 → (ExecuteNextInstruction ramBus phaState).BUS x = phaState.BUS x)
      ∧ (ExecuteNextInstruction ramBus phaState).S = 0xFF) := by
  have hor := or_0100 c.S hS
  have ha : (0x0100 ||| c.S) % 65536 = 0x0100 ||| c.S := Nat.mod_eq_of_lt (by omega)
  have ha' : (256 ||| c.S) % 65536 = 256 ||| c.S := ha
  refine ⟨⟨?_, hor, ?_, rfl, rfl, rfl, rfl, rfl⟩, ⟨?_, ?_⟩, by decide, ?_, by decide⟩
  · simp [PHA, GetStackPointerAddress, ha', Nat.mod_eq_of_lt hA]
  · simp only [PHA, Write_S]
    omega
  · simp [ExecuteNextInstruction, h0, OpcodeMapAt_48, CallAddressingFunction,
      CallOperationFunction, IMP, PHA, GetStackPointerAddress, ha', Nat.mod_eq_of_lt hA]
  · simp only [ExecuteNextInstruction, ReadPCInc_fst, h0, Nat.reduceMod, OpcodeMapAt_48,
      CallAddressingFunction, CallOperationFunction, IMP, PHA, Write_S, ReadPCInc_S]
    omega
  · intro x hx
    show (if x = 0x0100 then 0x77 else phaState.BUS x) = phaState.BUS x
    rw [if_neg hx]

/-- Witness of C7: `PHA` with `S = 0x00` and `A = 0x77` on a RAM bus. -/
theorem C7_pha_witness :
    phaState.S < 256 ∧ phaState.A < 256
    ∧ ramBus.ReadFromBus phaState.BUS (phaState.PC % 65536) = (0x48, phaState.BUS)
    ∧ (PHA ramBus phaState).BUS = ramBus.WriteToBus phaState.BUS (0x0100 ||| phaState.S) phaState.A
    ∧ (PHA ramBus phaState).BUS 0x0100 = 0x77
    ∧ (PHA ramBus phaState).S = 0xFF :=
  ⟨by decide, by decide, rfl,
    (C7_pha ramBus phaState phaState.BUS (by decide) (by decide) rfl).1.1, by decide, by decide⟩

/-- C8: servicing an NMI (always) or an IRQ (when I is clear) from a state with program
counter `pc` and stack pointer `S` writes the high byte of `pc` to `0x0100 | S`, the low byte
to `0x0100 | ((S - 1) mod 256)`, then clears B and sets I in `P` and writes that `P`, which
has bit 5 set, to `0x0100 | ((S - 2) mod 256)`, leaves `S = (S - 3) mod 256`, and loads PC
little-endian from the bytes the bus then returns for `0xFFFA/0xFFFB` (NMI) or
`0xFFFE/0xFFFF` (IRQ). -/
theorem C8_interrupt_service (bus : BusAccess β) (c : MOS6502 β)
    (b3 n1 n2 i1 i2 : β) (nh nl ih il : Nat)
    (hS : c.S < 256) (hPC : c.PC < 65536) (hP : c.P < 256) (h5 : c.P.testBit 5 = true)
    (hb3 : b3 = bus.WriteToBus (bus.WriteToBus (bus.WriteToBus c.BUS
        (0x0100 ||| c.S) (c.PC / 256))
        (0x0100 ||| (c.S + 255) % 256) (c.PC % 256))
        (0x0100 ||| (c.S + 254) % 256) ((c.P &&& 0xEF) ||| 0x04))
    (hn1 : bus.ReadFromBus b3 0xFFFB = (nh, n1)) (hn2 : bus.ReadFromBus n1 0xFFFA = (nl, n2))
    (hi1 : bus.ReadFromBus b3 0xFFFF = (ih, i1)) (hi2 : bus.ReadFromBus i1 0xFFFE = (il, i2)) :
    ((NMI bus c).BUS = n2
      ∧ (NMI bus c).P = (c.P &&& 0xEF) ||| 0x04
      ∧ ((NMI bus c).S : Int) = ((c.S : Int) - 3) % 256
      ∧ (NMI bus c).PC = (nl % 256) ||| ((nh % 256) <<< 8))
    ∧ (CheckFlag c Flag.InterruptDisable = false →
        (IRQ bus c).BUS = i2
        ∧ (IRQ bus c).P = (c.P &&& 0xEF) ||| 0x04
        ∧ ((IRQ bus c).S : Int) = ((c.S : Int) - 3) % 256
        ∧ (IRQ bus c).PC = (il % 256) ||| ((ih % 256) <<< 8))
    ∧ (((c.P &&& 0xEF) ||| 0x04).testBit 5 = true
        ∧ ((c.P &&& 0xEF) ||| 0x04).testBit 4 = false
        ∧ ((c.P &&& 0xEF) ||| 0x04).testBit 2 = true) := by
  have hst := status_on_interrupt c.P hP
  have hlt : setP (setP c.P Flag.Break false) Flag.InterruptDisable true < 256 := setP_lt _ _ _
  have e0 : (0x0100 ||| c.S) % 65536 = 0x0100 ||| c.S := by
    rw [or_0100 c.S hS]; omega
  have e1 : (0x0100 ||| (c.S + 255) % 256) % 65536 = 0x0100 ||| (c.S + 255) % 256 := by
    rw [or_0100 _ (Nat.mod_lt _ (by decide))]; omega
  have e2 : (0x0100 ||| ((c.S + 255) % 256 + 255) % 256) % 65536
      = 0x0100 ||| (c.S + 254) % 256 := by
    have : ((c.S + 255) % 256 + 255) % 256 = (c.S + 254) % 256 := by omega
    rw [this, or_0100 _ (Nat.mod_lt _ (by decide))]; omega
  have hN : (nl % 256) ||| ((nh % 256) <<< 8) < 65536 := by
    rw [Nat.lor_comm]
    exact word_of_bytes _ _ (Nat.mod_lt _ (by decide)) (Nat.mod_lt _ (by decide))
  have hI : (il % 256) ||| ((ih % 256) <<< 8) < 65536 := by
    rw [Nat.lor_comm]
    exact word_of_bytes _ _ (Nat.mod_lt _ (by decide)) (Nat.mod_lt _ (by decide))
  have hh := high_byte c.PC hPC
  have hl := low_byte c.PC
  have hh' : (c.PC >>> 8 &&& 255) % 256 = c.PC / 256 := hh
  have hl' : (c.PC &&& 255) % 256 = c.PC % 256 := hl
  have hpm : (c.P &&& 0xEF ||| 0x04) % 256 = c.P &&& 0xEF ||| 0x04 := by
    rw [← hst]; exact Nat.mod_eq_of_lt hlt
  have hS3 : (((c.S + 255) % 256 + 255) % 256 + 255) % 256 = (c.S + 253) % 256 := by omega
  have hSi : (((c.S + 253) % 256 : Nat) : Int) = ((c.S : Int) - 3) % 256 := by omega
  have hbits : ((c.P &&& 0xEF) ||| 0x04).testBit 5 = true
      ∧ ((c.P &&& 0xEF) ||| 0x04).testBit 4 = false
      ∧ ((c.P &&& 0xEF) ||| 0x04).testBit 2 = true := by
    rw [← hst]
    simp only [testBit_setP, Flag.bit_Break, Flag.bit_InterruptDisable]
    simp [h5]
  have hd : c.PC / 256 % 256 = c.PC / 256 := Nat.mod_eq_of_lt (by omega)
  have hS2 : ((c.S + 255) % 256 + 255) % 256 = (c.S + 254) % 256 := by omega
  have e2' : (0x0100 ||| (c.S + 254) % 256) % 65536 = 0x0100 ||| (c.S + 254) % 256 := by
    rw [or_0100 _ (Nat.mod_lt _ (by decide))]; omega
  have hNw : ((nh % 256 % 65536) <<< 8 ||| nl % 256 % 65536) % 65536
      = (nl % 256) ||| ((nh % 256) <<< 8) := by
    rw [Nat.mod_eq_of_lt (show nh % 256 < 65536 by omega),
      Nat.mod_eq_of_lt (show nl % 256 < 65536 by omega), Nat.lor_comm, Nat.mod_eq_of_lt hN]
  have hIw : ((ih % 256 % 65536) <<< 8 ||| il % 256 % 65536) % 65536
      = (il % 256) ||| ((ih % 256) <<< 8) := by
    rw [Nat.mod_eq_of_lt (show ih % 256 < 65536 by omega),
      Nat.mod_eq_of_lt (show il % 256 < 65536 by omega), Nat.lor_comm, Nat.mod_eq_of_lt hI]
  have hS3' : ((c.S + 254) % 256 + 255) % 256 = (c.S + 253) % 256 := by omega
  subst hb3
  have hNMI : NMI bus c =
      { c with BUS := n2, P := (c.P &&& 0xEF) ||| 0x04, S := (c.S + 253) % 256,
               PC := (nl % 256) ||| ((nh % 256) <<< 8), m_didNMI := true } := by
    simp only [NMI, SetFlag_eq, ClearFlag_eq, GetStackPointerAddress, Write, Read, hst, hh', hl',
      hpm, e0, e1, hS2, e2', Nat.mod_mod, hd, hn1, hn2, Nat.reduceMod, hS3, hS3', hNw]
  have hIRQ : CheckFlag c Flag.InterruptDisable = false → IRQ bus c =
      { c with BUS := i2, P := (c.P &&& 0xEF) ||| 0x04, S := (c.S + 253) % 256,
               PC := (il % 256) ||| ((ih % 256) <<< 8), m_didNMI := true } := by
    intro hc
    simp only [IRQ, hc, Bool.not_false, if_true, SetFlag_eq, ClearFlag_eq,
      GetStackPointerAddress, Write, Read, hst, hh', hl',
      hpm, e0, e1, hS2, e2', Nat.mod_mod, hd, hi1, hi2, Nat.reduceMod, hS3, hS3', hIw]
  refine ⟨?_, ?_, hbits⟩
  · rw [hNMI]
    exact ⟨rfl, rfl, hSi, rfl⟩
  · intro hc
    rw [hIRQ hc]
    exact ⟨rfl, rfl, hSi, rfl⟩

/-- Witness of C8: an NMI and an IRQ taken at `PC = 0x1234`, `S = 0xFD`, `P = 0x20`. -/
theorem C8_interrupt_service_witness :
    irqState.S < 256 ∧ irqState.PC < 65536 ∧ irqState.P < 256 ∧ irqState.P.testBit 5 = true
    ∧ CheckFlag irqState Flag.InterruptDisable = false
    ∧ (NMI ramBus irqState).PC = 0x9000 ∧ (IRQ ramBus irqState).PC = 0xA000
    ∧ (NMI ramBus irqState).BUS 0x01FD = 0x12 ∧ (NMI ramBus irqState).BUS 0x01FC = 0x34
    ∧ (NMI ramBus irqState).BUS 0x01FB = 0x24 ∧ (NMI ramBus irqState).S = 0xFA := by
  have h := C8_interrupt_service ramBus irqState _ _ _ _ _ 0x90 0x00 0xA0 0x00
    (by decide) (by decide) (by decide) (by decide) rfl rfl rfl rfl rfl
  exact ⟨by decide, by decide, by decide, by decide, by decide, h.1.2.2.2.trans (by decide),
    ((h.2.1 (by decide)).2.2.2).trans (by decide), by decide, by decide, by decide, by decide⟩

/-- C9 (the code departs from the claim): the `BRK` opcode at `a = 0x1234`, run with
`S = 0xFD` and `P = 0x24`, pushes the bytes `0x00` and `0x37`, not the bytes `0x12` and `0x36`
of `a + 2`: the high byte is masked with `0xFF00` before the conversion to a byte, and PC has
been advanced three times (opcode fetch, the immediate addressing mode of table entry `0x00`,
and the increment in `BRK` itself).  The status byte pushed, `0x34`, has B and bit 5 set,
and PC is loaded from the IRQ vector. -/
theorem C9_brk_pushes_other_bytes :
    brkState.BUS 0x1234 = 0x00
    ∧ (ExecuteNextInstruction ramBus brkState).m_opcode = 0x00
    ∧ (ExecuteNextInstruction ramBus brkState).BUS 0x01FD = 0x00
    ∧ (ExecuteNextInstruction ramBus brkState).BUS 0x01FC = 0x37
    ∧ (ExecuteNextInstruction ramBus brkState).BUS 0x01FB = 0x34
    ∧ (ExecuteNextInstruction ramBus brkState).S = 0xFA
    ∧ (ExecuteNextInstruction ramBus brkState).PC = 0xA000
    ∧ ((0x1234 + 2) >>> 8) &&& 0xFF = 0x12
    ∧ (0x1234 + 2) &&& 0xFF = 0x36 := by
  decide

/-- C10 (the code departs from the claim): `IRQ` records the interrupt in `m_didNMI`, so
the cycle count reported after an IRQ is 8, as after an NMI, and not 7.  With I clear and
the budget at zero, the `Cycle` call that services the IRQ leaves a budget of 7, the next
seven calls fetch nothing, and the opcode at the handler is fetched by the eighth call
after the servicing one; an NMI behaves the same. -/
theorem C10_irq_charged_as_nmi :
    (CheckFlag irqState Flag.InterruptDisable = false
      ∧ irqState.m_remainingCycles = 0 ∧ irqState.m_halted = false)
    ∧ (GetLastInstructionCycles (IRQ ramBus irqState) = 8
      ∧ (Cycle ramBus { irqState with m_irqPending := true }).PC = 0xA000
      ∧ (Cycle ramBus { irqState with m_irqPending := true }).m_remainingCycles = 7
      ∧ ((Cycle ramBus)^[6] (Cycle ramBus { irqState with m_irqPending := true })).PC = 0xA000
      ∧ ((Cycle ramBus)^[6]
          (Cycle ramBus { irqState with m_irqPending := true })).m_remainingCycles = 1
      ∧ ((Cycle ramBus)^[7] (Cycle ramBus { irqState with m_irqPending := true })).PC = 0xA000
      ∧ ((Cycle ramBus)^[8] (Cycle ramBus { irqState with m_irqPending := true })).PC = 0xA001)
    ∧ (GetLastInstructionCycles (NMI ramBus irqState) = 8
      ∧ (Cycle ramBus { irqState with m_nmiPending := true }).PC = 0x9000
      ∧ (Cycle ramBus { irqState with m_nmiPending := true }).m_remainingCycles = 7
      ∧ ((Cycle ramBus)^[7] (Cycle ramBus { irqState with m_nmiPending := true })).PC = 0x9000
      ∧ ((Cycle ramBus)^[8] (Cycle ramBus { irqState with m_nmiPending := true })).PC = 0x9001) := by
  decide

open NES NESConsole

variable {α : Type}

/-- C11 (code as written): with no NMI pending, an IRQ pending and I set, the call of `Cycle`
at an instruction boundary takes the IRQ branch, which clears the latch and does nothing
else: the `LDA #$42` at `PC = 0x8000` is neither fetched nor executed (`PC`, `A` and the
last opcode stay), and the budget is charged from the count of the instruction before.
Executing the opcode, as the claim has it, would leave `PC = 0x8002` and `A = 0x42`. -/
theorem C11_masked_irq_skips_fetch :
    (maskedIrqState.m_halted = false ∧ maskedIrqState.m_remainingCycles = 0
      ∧ maskedIrqState.m_nmiPending = false ∧ maskedIrqState.m_irqPending = true
      ∧ CheckFlag maskedIrqState Flag.InterruptDisable = true
      ∧ maskedIrqState.BUS 0x8000 = 0xA9)
    ∧ ((Cycle ramBus maskedIrqState).PC = 0x8000
      ∧ (Cycle ramBus maskedIrqState).A = 0x00
      ∧ (Cycle ramBus maskedIrqState).m_opcode = maskedIrqState.m_opcode
      ∧ (Cycle ramBus maskedIrqState).m_irqPending = false
      ∧ (Cycle ramBus maskedIrqState).m_remainingCycles
          = GetLastInstructionCycles maskedIrqState - 1)
    ∧ ((ExecuteNextInstruction ramBus maskedIrqState).PC = 0x8002
      ∧ (ExecuteNextInstruction ramBus maskedIrqState).A = 0x42
      ∧ (ExecuteNextInstruction ramBus maskedIrqState).m_opcode = 0xA9) := by
  decide

/-- C12: for every opcode and every CPU state, the cycle count reported after
`ExecuteNextInstruction` is the base count of the table entry of the executed opcode, plus 1
iff the mode is `ABX`, `ABY` or `IZY`, the operation is one of `ADC, SBC, AND, ORA, EOR, CMP,
LDA, LDX, LDY` and the working address lies in another page than the address the same
instruction computes with `X = Y = 0`; plus 1 iff the operation is a conditional branch taken
in the state before; plus 1 more iff that branch is taken and its target lies in another page
than `PC + 2`, the address of the following instruction.  The other operations (stores,
read-modify-write) get no cycle for a page crossing.  On RAM, from `0x80FD` with `X = 1`:
`LDA $80FF,X` costs 4 + 1, `STA $80FF,X` costs 5, `INC $80FF,X` costs 7, and a taken
`BNE +2` at `0x80FD`, whose target `0x8101` is in the page after that of `0x80FF`, costs
2 + 2. -/
theorem C12_cycle_count (bus : BusAccess β) (c : MOS6502 β) :
    (GetLastInstructionCycles (ExecuteNextInstruction bus c) =
      (OpcodeMapAt (GetLastInstructionOpcode (ExecuteNextInstruction bus c))).BaseCycles
      + (if isIndexedMode (OpcodeMapAt (GetLastInstructionOpcode
              (ExecuteNextInstruction bus c))).AdressingFunction = true
            ∧ isReadOperation (OpcodeMapAt (GetLastInstructionOpcode
              (ExecuteNextInstruction bus c))).OperationFunction = true
            ∧ (ExecuteNextInstruction bus c).m_cacheAbsoluteWorkingAddress / 256 ≠
              (ExecuteNextInstruction bus
                { c with X := 0, Y := 0 }).m_cacheAbsoluteWorkingAddress / 256 then 1 else 0)
      + (if branchTaken c (OpcodeMapAt (GetLastInstructionOpcode
              (ExecuteNextInstruction bus c))).OperationFunction = true then 1 else 0)
      + (if branchTaken c (OpcodeMapAt (GetLastInstructionOpcode
              (ExecuteNextInstruction bus c))).OperationFunction = true
            ∧ (ExecuteNextInstruction bus c).m_cacheAbsoluteWorkingAddress / 256 ≠
              (c.PC + 2) % 65536 / 256 then 1 else 0))
    ∧ (GetLastInstructionCycles (ExecuteNextInstruction ramBus (crossingState 0xBD 0xFF 0x80)) = 5
      ∧ GetLastInstructionCycles (ExecuteNextInstruction ramBus (crossingState 0x9D 0xFF 0x80)) = 5
      ∧ GetLastInstructionCycles (ExecuteNextInstruction ramBus (crossingState 0xFE 0xFF 0x80)) = 7
      ∧ GetLastInstructionCycles (ExecuteNextInstruction ramBus (crossingState 0xD0 0x02 0x00)) = 4
      ∧ (ExecuteNextInstruction ramBus (crossingState 0xD0 0x02 0x00)).PC = 0x8101) := by
  refine ⟨?_, by decide⟩
  obtain ⟨c1, h0, hI, hN, hP, hPC, e1, e0⟩ := execute_shape bus c
  have hop : GetLastInstructionOpcode (ExecuteNextInstruction bus c) = c1.m_opcode := by
    unfold GetLastInstructionOpcode
    rw [e1, (operation_frame bus _ _).1, (addressing_frame bus _ _).1]
  have hpc : (c.PC + 2) % 65536 = (c1.PC + 1) % 65536 := by rw [hPC]; omega
  rw [hop, hpc, ← branchTaken_congr c1 c _ hP, e0, e1, (operation_frame bus _ _).2.2.2,
    (operation_frame bus _ _).2.2.2]
  exact cycles_core bus c1 h0 hI hN

/-- C13 (code as written): on a bus that holds a device with the range `[0x10, 0x20]`,
attaching a device with the range `[0x00, 0xFF]`, which contains that range, does not fail:
both devices are on the bus afterwards, though they share the addresses `0x10..0x20`.  The
conflict test looks only at the two ends of the new range. -/
theorem C13_containing_range_accepted :
    ((Bus.Device.construct ({} : Bus Unit) (plainDevice 0x10 0x20)).bind
        (fun b => Bus.Device.construct b (plainDevice 0x00 0xFF))).map
          (fun b => b.m_addressableDevices.map (fun d => d.m_addressableRange))
      = Except.ok [AddressRange.mk 0x10 0x20, AddressRange.mk 0x00 0xFF]
    ∧ Bus.CheckAddressRangeConflict (plainDevice 0x10 0x20) (AddressRange.mk 0x00 0xFF) = false
    ∧ Bus.CheckAddressBelongsTo (plainDevice 0x10 0x20) 0x10 = true
    ∧ Bus.CheckAddressBelongsTo (plainDevice 0x00 0xFF) 0x10 = true :=
  ⟨rfl, rfl, rfl, rfl⟩

/-- C14 (code as written): on a bus with no addressable device the cached device pointer is
null, and a read, a peek and a write at address `0x0000` each dereference it in the device
lookup instead of returning 0 or dropping the write. -/
theorem C14_empty_bus_null_dereference :
    (Bus.ReadFromBus ({} : Bus Unit) () 0x0000).map (fun r => r.1)
      = Except.error Fault.nullDereference
    ∧ (Bus.Peek ({} : Bus Unit) () 0x0000).map (fun r => r.1)
      = Except.error Fault.nullDereference
    ∧ (Bus.WriteToBus ({} : Bus Unit) () 0x0000 0x55).map (fun r => r.1)
      = Except.error Fault.nullDereference
    ∧ (Bus.GetDeviceAt ({} : Bus Unit) 0x0000).map (fun r => r.1.isSome)
      = Except.error Fault.nullDereference :=
  ⟨rfl, rfl, rfl, rfl⟩

/-- C15 (code as written): on the bus of the console, with VBlank and the write latch set,
`V = 0x3F00` and `0x11` in the read buffer: `Peek(0x2002)` and `Peek(0x2007)` return `0x80`
and `0x11` and change nothing, but `Peek(0x200A)`, which the mirror forwards as a plain read
of PPUSTATUS, returns `0x80` and leaves VBlank clear and the write latch reset, and
`Peek(0x200F)`, forwarded as a plain read of PPUDATA, returns the palette byte `0x0F`,
stores it in the read buffer and advances `V` to `0x3F01`. -/
theorem C15_peek_through_mirror_mutates :
    (Bus.Peek plainBus vblankDevices 0x2002).map
        (fun r => (r.1, r.2.1.m_ppu.Registers.PPUStatus, r.2.1.m_ppu.m_state.WriteLatch))
      = Except.ok (0x80, 0x80, true)
    ∧ (Bus.Peek plainBus vblankDevices 0x200A).map
        (fun r => (r.1, r.2.1.m_ppu.Registers.PPUStatus, r.2.1.m_ppu.m_state.WriteLatch))
      = Except.ok (0x80, 0x00, false)
    ∧ (Bus.Peek plainBus vblankDevices 0x2007).map
        (fun r => (r.1, r.2.1.m_ppu.Registers.PPUData, r.2.1.m_ppu.m_state.V.Address))
      = Except.ok (0x11, 0x11, 0x3F00)
    ∧ (Bus.Peek plainBus vblankDevices 0x200F).map
        (fun r => (r.1, r.2.1.m_ppu.Registers.PPUData, r.2.1.m_ppu.m_state.V.Address))
      = Except.ok (0x0F, 0x0F, 0x3F01) :=
  ⟨rfl, rfl, rfl, rfl⟩

/-- C16, counterexample: `0x2000` and `0x2008` have the same offset `a & 7`, and on the bus
of the console a write of `0x55` to `0x2000` (PPUCTRL) followed by a read of `0x2008` returns
0, not `0x55`: the access reaches the register, and the register is not a memory cell. -/
theorem C16_ppu_register_not_read_back :
    ((Bus.WriteToBus plainBus powerOnDevices 0x2000 0x55).bind
        (fun r => Bus.ReadFromBus r.2 r.1 0x2008)).map (fun r => r.1) = Except.ok 0
    ∧ (0x2000 &&& 7) = (0x2008 &&& 7) := ⟨rfl, rfl⟩

/-- C16, amended: the constructor of the console leaves a bus with its seven addressable
devices.  On such a bus, with the RAM of 2 KiB, for every address `a` in `0x0000..0x1FFF` a
read returns, and a write stores into, the RAM cell at offset `a & 0x07FF`, so a byte written
at `a` is read back at every address of that range with the same offset; and for every `a`
in `0x2000..0x3FFF` a read or write is the read or write of the PPU at `0x2000 + (a & 7)`,
with the same result and the same effect on the PPU and the cartridge slot. -/
theorem C16_console_mirrors (apu ctr : Bus.Device (Devices α)) (b : Bus (Devices α))
    (s : Devices α) (a d : Nat) (hb : Wired apu ctr b) (hsize : s.m_ram.m_size = 0x0800) :
    (∀ non cache, ∃ b0,
        connectDevices apu ctr (Bus.mk [] non cache) = Except.ok b0 ∧ Wired apu ctr b0)
    ∧ (a ≤ 0x1FFF →
        (∃ b1, Wired apu ctr b1 ∧
          b.ReadFromBus s a = Except.ok (s.m_ram.m_data (a &&& 0x07FF), s, b1))
        ∧ (∃ b1, Wired apu ctr b1 ∧
          b.WriteToBus s a d = Except.ok ({ s with m_ram := { s.m_ram with
            m_data := fun i => if i = (a &&& 0x07FF) then d % 256 else s.m_ram.m_data i } }, b1))
        ∧ (∀ a2, a2 ≤ 0x1FFF → (a2 &&& 0x07FF) = (a &&& 0x07FF) →
          ∃ s1 b1 b2, b.WriteToBus s a d = Except.ok (s1, b1) ∧
            b1.ReadFromBus s1 a2 = Except.ok (d % 256, s1, b2)))
    ∧ (0x2000 ≤ a ∧ a ≤ 0x3FFF →
        (∃ b1, Wired apu ctr b1 ∧
          b.ReadFromBus s a =
            (s.m_ppu.ReadFromDevice (AddressRange.mk 0x2000 0x2007) s.m_cas (0x2000 + (a &&& 7))
              false).map (fun q => (q.1, { s with m_ppu := q.2 }, b1)))
        ∧ (∃ b1, Wired apu ctr b1 ∧
          b.WriteToBus s a d =
            (s.m_ppu.WriteToDevice (AddressRange.mk 0x2000 0x2007) s.m_cas (0x2000 + (a &&& 7))
              d).map (fun q => ({ s with m_ppu := q.1, m_cas := q.2 }, b1)))) := by
  refine ⟨fun non cache => wired_of_construction apu ctr non cache, ?_, ?_⟩
  · intro ha
    refine ⟨bus_read_ram apu ctr b s hb hsize a ha, bus_write_ram apu ctr b s hb hsize a d ha, ?_⟩
    intro a2 ha2 hm
    obtain ⟨b1, hw, hwr⟩ := bus_write_ram apu ctr b s hb hsize a d ha
    obtain ⟨b2, _, hrd⟩ := bus_read_ram apu ctr b1 _ hw (show ({ s with m_ram := { s.m_ram with
        m_data := fun i => if i = (a &&& 0x07FF) then d % 256 else s.m_ram.m_data i } } :
        Devices α).m_ram.m_size = 0x0800 from hsize) a2 ha2
    refine ⟨_, b1, b2, hwr, ?_⟩
    rw [hrd]
    simp only [hm, if_true]
  · intro ha
    exact ⟨bus_read_ppu apu ctr b s hb a ha.1 ha.2, bus_write_ppu apu ctr b s hb a d ha.1 ha.2⟩

/-- Witness of C16: on the bus of the console after construction, a write of `0x55` to
`0x1234` is read back at every address with the offset `0x234`, such as `0x0A34`. -/
theorem C16_console_mirrors_witness :
    Wired (Bus.Device.base true (AddressRange.mk 0 0)) (Bus.Device.base true (AddressRange.mk 0 0))
      plainBus
    ∧ powerOnDevices.m_ram.m_size = 0x0800
    ∧ (0x1234 ≤ 0x1FFF →
        ∀ a2, a2 ≤ 0x1FFF → (a2 &&& 0x07FF) = (0x1234 &&& 0x07FF) →
          ∃ s1 b1 b2, plainBus.WriteToBus powerOnDevices 0x1234 0x55 = Except.ok (s1, b1) ∧
            b1.ReadFromBus s1 a2 = Except.ok (0x55 % 256, s1, b2))
    ∧ ((plainBus.WriteToBus powerOnDevices 0x1234 0x55).bind
        (fun r => Bus.ReadFromBus r.2 r.1 0x0A34)).map (fun r => r.1) = Except.ok 0x55 :=
  ⟨plainBus_wired, rfl,
    fun h => ((C16_console_mirrors _ _ plainBus powerOnDevices 0x1234 0x55 plainBus_wired rfl).2.1
      h).2.2,
    rfl⟩

/-- C17: for a cartridge whose mapper has a PRG-ROM size of 16 KiB or 32 KiB and whose
PRG-ROM holds that many bytes, every CPU read at `a` in `0x8000..0xFFFF`, by the cartridge or
through the slot, returns the PRG-ROM byte at offset `(a - 0x8000) & (size - 1)`, which is
smaller than the size; with 16 KiB every `a` in `0xC000..0xFFFF` reads what `a - 0x4000`
reads. -/
theorem C17_nrom_prg_read (c : Cartridge) (a : Nat)
    (hsize : c.m_mapper.m_prgromSize = 16384 ∨ c.m_mapper.m_prgromSize = 32768)
    (hlen : c.m_PRGROM.length = c.m_mapper.m_prgromSize)
    (ha : 0x8000 ≤ a ∧ a ≤ 0xFFFF) :
    (a - 0x8000) &&& (c.m_mapper.m_prgromSize - 1) < c.m_mapper.m_prgromSize ∧
    c.MainBusRead a =
      Except.ok (c.m_PRGROM.getD ((a - 0x8000) &&& (c.m_mapper.m_prgromSize - 1)) 0) ∧
    CartridgeSlot.ReadFromDevice { m_cart := some c } a false = c.MainBusRead a ∧
    (c.m_mapper.m_prgromSize = 16384 → 0xC000 ≤ a →
      c.MainBusRead a = c.MainBusRead (a - 0x4000)) := by
  obtain ⟨h1, h2⟩ := ha
  have key : ∀ x, 0x8000 ≤ x → x ≤ 0xFFFF →
      (x - 0x8000) &&& (c.m_mapper.m_prgromSize - 1) = (x - 0x8000) % c.m_mapper.m_prgromSize ∧
      c.MainBusRead x = Except.ok (c.m_PRGROM.getD ((x - 0x8000) % c.m_mapper.m_prgromSize) 0) := by
    intro x hx1 hx2
    unfold Cartridge.MainBusRead
    rw [MapBusAddress_read_rom _ _ hx1 hx2]
    rcases hsize with h | h
    · have e := sizeMask_pow 14 (by decide) (x - 0x8000)
      have e2 := Nat.and_pow_two_sub_one_eq_mod (x - 0x8000) 14
      norm_num at e e2
      rw [h]
      refine ⟨e2, ?_⟩
      simp only [Cartridge.ReadInternal]
      rw [e, vectorAt_of_lt]
      rw [hlen, h]; omega
    · have e := sizeMask_pow 15 (by decide) (x - 0x8000)
      have e2 := Nat.and_pow_two_sub_one_eq_mod (x - 0x8000) 15
      norm_num at e e2
      rw [h]
      refine ⟨e2, ?_⟩
      simp only [Cartridge.ReadInternal]
      rw [e, vectorAt_of_lt]
      rw [hlen, h]; omega
  obtain ⟨k1, k2⟩ := key a h1 h2
  refine ⟨?_, ?_, rfl, ?_⟩
  · rw [k1]; apply Nat.mod_lt; rcases hsize with h | h <;> omega
  · rw [k1]; exact k2
  · intro h16 hC
    obtain ⟨_, k3⟩ := key (a - 0x4000) (by omega) (by omega)
    have e : (a - 0x8000) % 16384 = (a - 0x4000 - 0x8000) % 16384 := by omega
    rw [k2, k3, h16, e]

/-- Witness of C17: the 16 KiB cartridge read at `0xC005`, which is offset 5, as is
`0x8005`. -/
theorem C17_nrom_prg_read_witness :
    (nromCartridge.m_mapper.m_prgromSize = 16384 ∨ nromCartridge.m_mapper.m_prgromSize = 32768)
    ∧ nromCartridge.m_PRGROM.length = nromCartridge.m_mapper.m_prgromSize
    ∧ (0x8000 ≤ 0xC005 ∧ 0xC005 ≤ 0xFFFF)
    ∧ (nromCartridge.m_mapper.m_prgromSize = 16384 → 0xC000 ≤ 0xC005 →
        nromCartridge.MainBusRead 0xC005 = nromCartridge.MainBusRead (0xC005 - 0x4000)) :=
  ⟨Or.inl rfl, nromCartridge_length, by decide,
    (C17_nrom_prg_read nromCartridge 0xC005 (Or.inl rfl) nromCartridge_length
      (by decide)).2.2.2⟩

/-- C18: for every cartridge, data byte `d` and CPU address `a` in `0x8000..0xFFFF`, the CPU
write returns the cartridge as it was, PRG-ROM, CHR-ROM and PRG-RAM included, and so does
the PPU-side write at every address `p`, in particular in `0x0000..0x1FFF`; the same holds
through the cartridge slot. -/
theorem C18_nrom_rom_writes (c : Cartridge) (a d p : Nat) (ha : 0x8000 ≤ a ∧ a ≤ 0xFFFF) :
    c.MainBusWrite a d = Except.ok c ∧
    c.PPUBusWrite p d = Except.ok c ∧
    CartridgeSlot.WriteToDevice { m_cart := some c } a d = Except.ok { m_cart := some c } ∧
    CartridgeSlot.PPUWriteToDevice { m_cart := some c } p d = Except.ok { m_cart := some c } := by
  have e1 : c.MainBusWrite a d = Except.ok c := by
    unfold Cartridge.MainBusWrite
    rw [MapBusAddress_write_rom _ _ ha.1]
    rfl
  have e2 : c.PPUBusWrite p d = Except.ok c := by
    unfold Cartridge.PPUBusWrite
    rw [MapPPUAddress_write]
    rfl
  refine ⟨e1, e2, ?_, ?_⟩
  · simp only [CartridgeSlot.WriteToDevice, e1]
  · simp only [CartridgeSlot.PPUWriteToDevice, e2]

/-- Witness of C18: writes of `0xFF` to CPU address `0x8000` and PPU address `0x0000` of
the 16 KiB cartridge. -/
theorem C18_nrom_rom_writes_witness :
    (0x8000 ≤ 0x8000 ∧ 0x8000 ≤ 0xFFFF)
    ∧ nromCartridge.MainBusWrite 0x8000 0xFF = Except.ok nromCartridge
    ∧ nromCartridge.PPUBusWrite 0x0000 0xFF = Except.ok nromCartridge :=
  ⟨by decide, (C18_nrom_rom_writes nromCartridge 0x8000 0xFF 0x0000 (by decide)).1,
    (C18_nrom_rom_writes nromCartridge 0x8000 0xFF 0x0000 (by decide)).2.1⟩

/-- C19 (code as written): for the header with byte 6 = `0x10` and byte 7 = `0x00` the
parsed mapper number is 16, where `(byte7 & 0xF0) | (byte6 >> 4)` is 1; with byte 7 =
`0x20` it is `0x2010`, where the formula gives `0x21`.  The nibble of byte 6 is not shifted
down and that of byte 7 is shifted up by 8. -/
theorem C19_mapper_number_not_combined :
    (ROMFile.construct (some (headerWith 0x10 0x00))).map (fun r => r.GetMetadata.MapperNumber)
      = Except.ok 16
    ∧ ((0x00 &&& 0xF0) ||| (0x10 >>> 4)) = 1
    ∧ (ROMFile.construct (some (headerWith 0x10 0x20))).map (fun r => r.GetMetadata.MapperNumber)
      = Except.ok 0x2010
    ∧ ((0x20 &&& 0xF0) ||| (0x10 >>> 4)) = 0x21 :=
  ⟨rfl, rfl, rfl, rfl⟩

/-- C20 (code as written): for the header with byte 6 = `0x0E` (bits 1, 2 and 3 set) the
metadata reports no persistent memory, no trainer and horizontal mirroring, and PRG-ROM is
taken from file offset 16; the masked bits are compared with 1, which only bit 0 can equal
(byte 6 = `0x01` gives vertical mirroring). -/
theorem C20_flag_bits_compared_with_one :
    (ROMFile.construct (some (headerWith 0x0E 0x00))).map
        (fun r => (r.GetMetadata.ContainsPersistentMemory, r.GetMetadata.ContainsTrainer,
          r.GetMetadata.DefaultMirrorMode, r.offsetPRGROM))
      = Except.ok (false, false, NametableMirrorMode.Horizontal, 16)
    ∧ (ROMFile.construct (some (headerWith 0x01 0x00))).map
        (fun r => r.GetMetadata.DefaultMirrorMode)
      = Except.ok NametableMirrorMode.Vertical :=
  ⟨rfl, rfl⟩

open RP2C02

/-- C21: after a write of the byte `w` to any PPU register (a write that returns), a read of
PPUSTATUS that is not a peek returns `(status & 0xE0) | (w & 0x1F)`, where `status` is the
status register before the read, which the write has left as it was; after the read the
VBlank bit is clear, the write latch is reset, and the sprite-overflow and sprite-zero-hit
bits are as before. -/
theorem C21_status_read (range : AddressRange) (p p1 : RP2C02) (cart cart1 : CartridgeSlot)
    (address w : Nat) (hw : w < 256)
    (hwrite : p.WriteToDevice range cart address w = Except.ok (p1, cart1)) :
    p1.Registers.PPUStatus = p.Registers.PPUStatus
    ∧ ∃ p2, p1.ReadFromDevice range cart1 (range.Min + 2) false =
        Except.ok ((p1.Registers.PPUStatus &&& 0xE0) ||| (w &&& 0x1F), p2)
      ∧ p2.CheckFlagStatus StatusFlag.VBlank = false
      ∧ p2.m_state.WriteLatch = false
      ∧ p2.CheckFlagStatus StatusFlag.SpriteOverflow =
          p1.CheckFlagStatus StatusFlag.SpriteOverflow
      ∧ p2.CheckFlagStatus StatusFlag.SpriteZeroHit =
          p1.CheckFlagStatus StatusFlag.SpriteZeroHit := by
  obtain ⟨hbuf, hst⟩ := WriteToDevice_buf range p p1 cart cart1 address w hwrite
  rw [Nat.mod_eq_of_lt hw] at hbuf
  have hlt : (p1.Registers.PPUStatus &&& 0xE0) ||| (w &&& 0x1F) < 256 := by
    exact @Nat.or_lt_two_pow _ _ 8 (lt_of_le_of_lt Nat.and_le_right (by decide))
      (lt_of_le_of_lt Nat.and_le_right (by decide))
  have heq := ReadFromDevice_status range p1 cart1
  rw [hbuf, Nat.mod_eq_of_lt hlt] at heq
  refine ⟨hst, _, heq, ?_, ?_, ?_, ?_⟩
  · rw [CheckFlagStatus_eq]
    simp only [SetFlagStatus_testBit, StatusFlag.bit]
    simp
  · rfl
  · rw [CheckFlagStatus_eq, CheckFlagStatus_eq]
    simp only [SetFlagStatus_testBit, StatusFlag.bit, testBit_mod_256, Nat.testBit_or,
      Nat.testBit_and, show (0xE0 : Nat).testBit 5 = true from by decide,
      show (0x1F : Nat).testBit 5 = false from by decide]
    simp
  · rw [CheckFlagStatus_eq, CheckFlagStatus_eq]
    simp only [SetFlagStatus_testBit, StatusFlag.bit, testBit_mod_256, Nat.testBit_or,
      Nat.testBit_and, show (0xE0 : Nat).testBit 6 = true from by decide,
      show (0x1F : Nat).testBit 6 = false from by decide]
    simp

/-- Witness of C21: with VBlank set, a write of `0x15` to PPUMASK and then a read of
PPUSTATUS, which returns `0x80 | 0x15` and leaves VBlank clear. -/
theorem C21_status_read_witness :
    0x15 < 256 ∧
    ∃ p1 p2, vblankDevices.m_ppu.WriteToDevice (AddressRange.mk 0x2000 0x2007) {} 0x2001 0x15 =
        Except.ok (p1, {})
      ∧ p1.ReadFromDevice (AddressRange.mk 0x2000 0x2007) {} 0x2002 false = Except.ok (0x95, p2)
      ∧ p2.CheckFlagStatus StatusFlag.VBlank = false := by
  obtain ⟨_, p2, h1, h2, _⟩ := C21_status_read (AddressRange.mk 0x2000 0x2007)
    vblankDevices.m_ppu _ {} {} 0x2001 0x15 (by decide) rfl
  exact ⟨by decide, _, p2, rfl, h1, h2⟩

/-- C22, counterexample: with the 16 KiB cartridge inserted and the PPU as constructed,
writing `0x55` at PPU address `0x3EFF`, the last address of the nametable range, setting the
address again and reading PPUDATA twice gives `0x0F` on the second read: the first read
advances `V` to `0x3F00`, and a read there returns the palette byte at once. -/
theorem C22_second_read_at_palette :
    (vramRoundTrip (AddressRange.mk 0x2000 0x2007) powerOnPPU nromSlot 0x3E 0xFF 0x55).map
        (fun r => r.2) = Except.ok 0x0F
    ∧ vramAddress 0x3E 0xFF = 0x3EFF := ⟨rfl, rfl⟩

/-- C22, amended: with the write latch clear, writing `hi` then `lo` to PPUADDR sets
`V = T = ((hi & 0x3F) << 8) | lo`.  A read of PPUDATA that is not a peek, where the PPU bus
gives `v` at `V`, returns the previous read buffer when `V` is in `0x0000..0x3EFF` and `v`,
the palette byte, when `V` is in `0x3F00..0x3FFF`, and leaves `v` in the buffer; after it,
and after a write to PPUDATA, `V` is larger by 32 if PPUCTRL bit 2 is set and by 1 otherwise
(modulo `0x10000`).  With a cartridge of horizontal or vertical mirroring, writing `d` at an
address `A` in `0x2000..0x3EFF`, setting the address again and reading PPUDATA twice gives
`d` on the second read when `A` plus the increment is at most `0x3EFF`, as it is for every
`A` up to `0x3EDF`. -/
theorem C22_vram_access (range : AddressRange) (p : RP2C02) (cart : CartridgeSlot)
    (hi lo d : Nat) (hhi : hi < 256) (hlo : lo < 256) (hd : d < 256) :
    (p.m_state.WriteLatch = false →
      ∃ p1 p2, p.WriteToDevice range cart (range.Min + 6) hi = Except.ok (p1, cart)
        ∧ p1.WriteToDevice range cart (range.Min + 6) lo = Except.ok (p2, cart)
        ∧ p2.m_state.V.Address = ((hi &&& 0x3F) <<< 8) ||| lo
        ∧ p2.m_state.T.Address = ((hi &&& 0x3F) <<< 8) ||| lo)
    ∧ (∀ v, p.InternalBusRead cart p.m_state.V.Address = Except.ok v → v < 256 →
        ∃ p1, p.ReadFromDevice range cart (range.Min + 7) false =
            Except.ok (if 0x3F00 ≤ p.m_state.V.Address ∧ p.m_state.V.Address ≤ 0x3FFF then v
              else p.Registers.PPUData, p1)
          ∧ p1.Registers.PPUData = v
          ∧ p1.m_state.V.Address =
              (p.m_state.V.Address + if p.Registers.PPUCtrl.testBit 2 then 32 else 1) % 65536)
    ∧ (0x3F00 ≤ p.m_state.V.Address → p.m_state.V.Address ≤ 0x3FFF →
        p.InternalBusRead cart p.m_state.V.Address =
          Except.ok (if p.Registers.PPUMask.testBit 0
            then p.VRAM.Palette (paletteIndex p.m_state.V.Address) &&& 0x30
            else p.VRAM.Palette (paletteIndex p.m_state.V.Address)))
    ∧ (∀ p1 cart1, p.WriteToDevice range cart (range.Min + 7) d = Except.ok (p1, cart1) →
        p1.m_state.V.Address =
          (p.m_state.V.Address + if p.Registers.PPUCtrl.testBit 2 then 32 else 1) % 65536)
    ∧ (p.m_state.WriteLatch = false →
        (∃ mode, cart.GetNametableMirrorMode = Except.ok mode
          ∧ mode ≠ NametableMirrorMode.FourScreen) →
        0x2000 ≤ vramAddress hi lo →
        vramAddress hi lo + (if p.Registers.PPUCtrl.testBit 2 then 32 else 1) ≤ 0x3EFF →
        vramRoundTrip range p cart hi lo d = Except.ok (p.Registers.PPUData, d))
    ∧ (vramAddress hi lo ≤ 0x3EDF →
        vramAddress hi lo + (if p.Registers.PPUCtrl.testBit 2 then 32 else 1) ≤ 0x3EFF) := by
  refine ⟨?_, ?_, ?_, ?_, ?_, ?_⟩
  · intro hl
    obtain ⟨p1, p2, w1, w2, v2, t2, _⟩ := setAddress range p cart hi lo hhi hlo hl
    exact ⟨p1, p2, w1, w2, v2, t2⟩
  · intro v hv hv256
    have r := ReadFromDevice_data range p cart
    rw [hv, map_ok, Nat.mod_eq_of_lt hv256, increment_eq] at r
    have c : (decide (p.m_state.V.Address ≥ 0x3F00) && decide (p.m_state.V.Address ≤ 0x3FFF))
        = decide (0x3F00 ≤ p.m_state.V.Address ∧ p.m_state.V.Address ≤ 0x3FFF) := by
      simp
    rw [c] at r
    simp only [decide_eq_true_eq] at r
    exact ⟨_, r, rfl, rfl⟩
  · intro h1 h2
    exact InternalBusRead_palette p cart _ h1 h2
  · intro p1 cart1 hw
    rw [WriteToDevice_data] at hw
    obtain ⟨r, hr, hr2⟩ := map_eq_ok hw
    obtain ⟨_, e2, e3⟩ := InternalBusWrite_buf _ _ _ _ _ _
      (show InternalBusWrite _ cart _ _ = Except.ok (r.1, r.2) from hr)
    cases hr2
    show (r.1.m_state.V.Address + r.1.increment) % 65536 = _
    rw [increment_eq, e2, e3]
  · intro hl hmode h1 h2
    obtain ⟨mode, hm, h4⟩ := hmode
    exact vramRoundTrip_eq range p cart hi lo d hhi hlo hd hl mode hm h4 h1
      (by rw [increment_eq]; exact h2)
  · intro h
    split_ifs <;> omega

/-- Witness of C22: with the 16 KiB cartridge, writing `0x55` at `0x2005` and reading it
back on the second read. -/
theorem C22_vram_access_witness :
    0x20 < 256 ∧ 0x05 < 256 ∧ 0x55 < 256 ∧ powerOnPPU.m_state.WriteLatch = false
    ∧ vramRoundTrip (AddressRange.mk 0x2000 0x2007) powerOnPPU nromSlot 0x20 0x05 0x55 =
        Except.ok (powerOnPPU.Registers.PPUData, 0x55) :=
  ⟨by decide, by decide, by decide, rfl,
    (C22_vram_access (AddressRange.mk 0x2000 0x2007) powerOnPPU nromSlot 0x20 0x05 0x55
      (by decide) (by decide) (by decide)).2.2.2.2.1 rfl
      ⟨NametableMirrorMode.Horizontal, rfl, by decide⟩ (by decide) (by decide)⟩

/-- C23: for each pair `(m, b)` of `(0x3F10, 0x3F00)`, `(0x3F14, 0x3F04)`, `(0x3F18, 0x3F08)`,
`(0x3F1C, 0x3F0C)` and every byte `d`, a PPU-bus write of `d` to `m` followed by a read of `b`,
and a write to `b` followed by a read of `m`, returns `d` when the greyscale bit of PPUMASK
is clear and `d & 0x30` when it is set; either write stores `d` itself in the palette cell
`b & 0x1F` and leaves the registers and the cartridge slot as they were. -/
theorem C23_palette_mirrors (p : RP2C02) (cart : CartridgeSlot) (m b d : Nat) (hd : d < 256)
    (hpair : (m, b) ∈ palettePairs) :
    (p.InternalBusWrite cart m d).bind (fun r => r.1.InternalBusRead r.2 b) =
      Except.ok (if p.Registers.PPUMask.testBit 0 then d &&& 0x30 else d)
    ∧ (p.InternalBusWrite cart b d).bind (fun r => r.1.InternalBusRead r.2 m) =
      Except.ok (if p.Registers.PPUMask.testBit 0 then d &&& 0x30 else d)
    ∧ (∃ p1, p.InternalBusWrite cart m d = Except.ok (p1, cart)
        ∧ p1.VRAM.Palette (b &&& 0x1F) = d ∧ p1.Registers = p.Registers)
    ∧ (∃ p1, p.InternalBusWrite cart b d = Except.ok (p1, cart)
        ∧ p1.VRAM.Palette (b &&& 0x1F) = d ∧ p1.Registers = p.Registers) := by
  have key : ∀ x y, 0x3F00 ≤ x → x ≤ 0x3FFF → 0x3F00 ≤ y → y ≤ 0x3FFF →
      paletteIndex x = paletteIndex y →
      (p.InternalBusWrite cart x d).bind (fun r => r.1.InternalBusRead r.2 y) =
        Except.ok (if p.Registers.PPUMask.testBit 0 then d &&& 0x30 else d)
      ∧ ∃ p1, p.InternalBusWrite cart x d = Except.ok (p1, cart)
        ∧ p1.VRAM.Palette (paletteIndex y) = d ∧ p1.Registers = p.Registers := by
    intro x y hx1 hx2 hy1 hy2 hxy
    rw [InternalBusWrite_palette p cart x d hx1 hx2, bind_ok, InternalBusRead_palette _ _ y hy1 hy2]
    refine ⟨?_, _, rfl, ?_, rfl⟩
    · simp only [hxy, if_true, Nat.mod_eq_of_lt hd]
    · simp only [hxy, if_true, Nat.mod_eq_of_lt hd]
  simp only [palettePairs, List.mem_cons, List.mem_singleton, Prod.mk.injEq, List.not_mem_nil,
    or_false] at hpair
  have fin : ∀ x y, 0x3F00 ≤ x → x ≤ 0x3FFF → 0x3F00 ≤ y → y ≤ 0x3FFF →
      paletteIndex x = paletteIndex y → paletteIndex y = (y &&& 0x1F) →
      (p.InternalBusWrite cart x d).bind (fun r => r.1.InternalBusRead r.2 y) =
        Except.ok (if p.Registers.PPUMask.testBit 0 then d &&& 0x30 else d)
      ∧ (p.InternalBusWrite cart y d).bind (fun r => r.1.InternalBusRead r.2 x) =
        Except.ok (if p.Registers.PPUMask.testBit 0 then d &&& 0x30 else d)
      ∧ (∃ p1, p.InternalBusWrite cart x d = Except.ok (p1, cart)
          ∧ p1.VRAM.Palette (y &&& 0x1F) = d ∧ p1.Registers = p.Registers)
      ∧ (∃ p1, p.InternalBusWrite cart y d = Except.ok (p1, cart)
          ∧ p1.VRAM.Palette (y &&& 0x1F) = d ∧ p1.Registers = p.Registers) := by
    intro x y hx1 hx2 hy1 hy2 hxy hy
    rw [← hy]
    exact ⟨(key x y hx1 hx2 hy1 hy2 hxy).1, (key y x hy1 hy2 hx1 hx2 hxy.symm).1,
      (key x y hx1 hx2 hy1 hy2 hxy).2, (key y y hy1 hy2 hy1 hy2 rfl).2⟩
  rcases hpair with ⟨rfl, rfl⟩ | ⟨rfl, rfl⟩ | ⟨rfl, rfl⟩ | ⟨rfl, rfl⟩
  · exact fin 0x3F10 0x3F00 (by decide) (by decide) (by decide) (by decide) (by decide)
      (by decide)
  · exact fin 0x3F14 0x3F04 (by decide) (by decide) (by decide) (by decide) (by decide)
      (by decide)
  · exact fin 0x3F18 0x3F08 (by decide) (by decide) (by decide) (by decide) (by decide)
      (by decide)
  · exact fin 0x3F1C 0x3F0C (by decide) (by decide) (by decide) (by decide) (by decide)
      (by decide)

/-- Witness of C23: the pair `(0x3F14, 0x3F04)` and the byte `0x2D`. -/
theorem C23_palette_mirrors_witness :
    0x2D < 256 ∧ (0x3F14, 0x3F04) ∈ palettePairs
    ∧ (powerOnPPU.InternalBusWrite nromSlot 0x3F14 0x2D).bind
        (fun r => r.1.InternalBusRead r.2 0x3F04) = Except.ok 0x2D :=
  ⟨by decide, by decide,
    (C23_palette_mirrors powerOnPPU nromSlot 0x3F14 0x3F04 0x2D (by decide) (by decide)).1⟩

/-- C27: in the controller interface at `0x4016..0x4017`, a write to `0x4016` emits no
signal and latches both button bytes.  After it and any sequence of reads of `0x4016` and
`0x4017`, of which `k < 8` are reads of `0x4016` that are not peeks, a read of `0x4016`
returns 1 if bit `7 - k` of the button byte of player one is set and 0 otherwise, and a peek
returns the same and leaves the interface as it is; the same holds for `0x4017` and the
button byte of player two, counting the reads of `0x4017`.  The buttons A, B, Select, Start,
Up, Down, Left, Right are the bits 7 down to 0, and with A and Start pressed, eight reads
after the writes of 1 and 0 return 1, 0, 0, 1, 0, 0, 0, 0. -/
theorem C27_controller_serial (c : ControllerInterface) (data : Nat) (ops : List (Nat × Bool))
    (hb1 : c.m_ctlr1Parallel < 256) (hb2 : c.m_ctlr2Parallel < 256)
    (hops : ∀ op ∈ ops, op.1 = 0x4016 ∨ op.1 = 0x4017) :
    (ControllerInterface.WriteToDevice (AddressRange.mk 0x4016 0x4017) c 0x4016 data).2 = []
    ∧ (plainReads 0x4016 ops < 8 →
        ControllerInterface.ReadFromDevice (AddressRange.mk 0x4016 0x4017)
            (readsOf (AddressRange.mk 0x4016 0x4017)
              (ControllerInterface.WriteToDevice (AddressRange.mk 0x4016 0x4017) c 0x4016 data).1
              ops) 0x4016 true =
          (if c.m_ctlr1Parallel.testBit (7 - plainReads 0x4016 ops) then 1 else 0,
            readsOf (AddressRange.mk 0x4016 0x4017)
              (ControllerInterface.WriteToDevice (AddressRange.mk 0x4016 0x4017) c 0x4016 data).1
              ops)
        ∧ (ControllerInterface.ReadFromDevice (AddressRange.mk 0x4016 0x4017)
            (readsOf (AddressRange.mk 0x4016 0x4017)
              (ControllerInterface.WriteToDevice (AddressRange.mk 0x4016 0x4017) c 0x4016 data).1
              ops) 0x4016 false).1 =
          (if c.m_ctlr1Parallel.testBit (7 - plainReads 0x4016 ops) then 1 else 0))
    ∧ (plainReads 0x4017 ops < 8 →
        ControllerInterface.ReadFromDevice (AddressRange.mk 0x4016 0x4017)
            (readsOf (AddressRange.mk 0x4016 0x4017)
              (ControllerInterface.WriteToDevice (AddressRange.mk 0x4016 0x4017) c 0x4016 data).1
              ops) 0x4017 true =
          (if c.m_ctlr2Parallel.testBit (7 - plainReads 0x4017 ops) then 1 else 0,
            readsOf (AddressRange.mk 0x4016 0x4017)
              (ControllerInterface.WriteToDevice (AddressRange.mk 0x4016 0x4017) c 0x4016 data).1
              ops)
        ∧ (ControllerInterface.ReadFromDevice (AddressRange.mk 0x4016 0x4017)
            (readsOf (AddressRange.mk 0x4016 0x4017)
              (ControllerInterface.WriteToDevice (AddressRange.mk 0x4016 0x4017) c 0x4016 data).1
              ops) 0x4017 false).1 =
          (if c.m_ctlr2Parallel.testBit (7 - plainReads 0x4017 ops) then 1 else 0))
    ∧ [Controller.Button.A, Controller.Button.B, Controller.Button.Select,
        Controller.Button.Start, Controller.Button.Up, Controller.Button.Down,
        Controller.Button.Left, Controller.Button.Right].map Controller.Button.val =
        [2 ^ 7, 2 ^ 6, 2 ^ 5, 2 ^ 4, 2 ^ 3, 2 ^ 2, 2 ^ 1, 2 ^ 0]
    ∧ serialReads (AddressRange.mk 0x4016 0x4017) 0x4016 8
        (ControllerInterface.WriteToDevice (AddressRange.mk 0x4016 0x4017)
          (ControllerInterface.WriteToDevice (AddressRange.mk 0x4016 0x4017)
            ((ControllerInterface.PressButton {} Controller.Player.One
              Controller.Button.A).PressButton Controller.Player.One Controller.Button.Start)
            0x4016 1).1 0x4016 0).1 = [1, 0, 0, 1, 0, 0, 0, 0] := by
  obtain ⟨s1, s2, _, _⟩ := readsOf_shift ops
    (ControllerInterface.WriteToDevice (AddressRange.mk 0x4016 0x4017) c 0x4016 data).1 hops
  have w1 : (ControllerInterface.WriteToDevice (AddressRange.mk 0x4016 0x4017) c 0x4016
      data).1.m_ctlr1Shift = c.m_ctlr1Parallel := rfl
  have w2 : (ControllerInterface.WriteToDevice (AddressRange.mk 0x4016 0x4017) c 0x4016
      data).1.m_ctlr2Shift = c.m_ctlr2Parallel := rfl
  rw [w1] at s1
  rw [w2] at s2
  generalize readsOf (AddressRange.mk 0x4016 0x4017)
    (ControllerInterface.WriteToDevice (AddressRange.mk 0x4016 0x4017) c 0x4016 data).1 ops = c1
    at s1 s2
  refine ⟨rfl, ?_, ?_, by decide, by decide⟩
  · intro hk
    have e := shifted_bit c.m_ctlr1Parallel hb1 _ hk
    rw [← s1, ← and_80_mod] at e
    constructor
    · simp only [ControllerInterface.ReadFromDevice, beq_self_eq_true, if_true, e,
        Bool.not_true, Bool.false_eq_true, if_false]
    · simp only [ControllerInterface.ReadFromDevice, beq_self_eq_true, if_true, e,
        Bool.not_false]
  · intro hk
    have e := shifted_bit c.m_ctlr2Parallel hb2 _ hk
    rw [← s2, ← and_80_mod] at e
    have ne : ((0x4017 : Nat) == 0x4016) = false := rfl
    constructor
    · simp only [ControllerInterface.ReadFromDevice, ne, Bool.false_eq_true, if_false, e,
        Bool.not_true]
    · simp only [ControllerInterface.ReadFromDevice, ne, Bool.false_eq_true, if_false, e,
        Bool.not_false, if_true]

/-- Witness of C27: player one holds A and Start, player two holds B; after the write, two
reads of `0x4016`, a peek and a read of `0x4017`, the next read of `0x4016` returns bit 5
(Select, not pressed) and the next read of `0x4017` bit 6 (B, pressed). -/
theorem C27_controller_serial_witness :
    (0x90 < 256 ∧ 0x40 < 256)
    ∧ (ControllerInterface.ReadFromDevice (AddressRange.mk 0x4016 0x4017)
        (readsOf (AddressRange.mk 0x4016 0x4017)
          (ControllerInterface.WriteToDevice (AddressRange.mk 0x4016 0x4017)
            { m_ctlr1Parallel := 0x90, m_ctlr2Parallel := 0x40 } 0x4016 1).1
          [(0x4016, false), (0x4016, false), (0x4016, true), (0x4017, false)]) 0x4016 false).1 = 0
    ∧ (ControllerInterface.ReadFromDevice (AddressRange.mk 0x4016 0x4017)
        (readsOf (AddressRange.mk 0x4016 0x4017)
          (ControllerInterface.WriteToDevice (AddressRange.mk 0x4016 0x4017)
            { m_ctlr1Parallel := 0x90, m_ctlr2Parallel := 0x40 } 0x4016 1).1
          [(0x4016, false), (0x4016, false), (0x4016, true), (0x4017, false)]) 0x4017 false).1 = 1 :=
  ⟨⟨by decide, by decide⟩,
    ((C27_controller_serial { m_ctlr1Parallel := 0x90, m_ctlr2Parallel := 0x40 } 1
      [(0x4016, false), (0x4016, false), (0x4016, true), (0x4017, false)] (by decide) (by decide)
      (by decide)).2.1 (by decide)).2,
    ((C27_controller_serial { m_ctlr1Parallel := 0x90, m_ctlr2Parallel := 0x40 } 1
      [(0x4016, false), (0x4016, false), (0x4016, true), (0x4017, false)] (by decide) (by decide)
      (by decide)).2.2.1 (by decide)).2⟩

/-- C28 (code as written): on the APU as constructed, whose sample buffer holds 2048
samples, a copy-out of 4 samples into an array of four `0xAA` writes three samples and
leaves the fourth element, a copy-out of 1 sample writes nothing, and one of 0 samples has
its range end before the first sample; 2048 samples are copied in full and 2049 fail with
code 710. -/
theorem C28_copy_out_one_short :
    APU.construct.FillAudioBuffer [0xAA, 0xAA, 0xAA, 0xAA] 4 = Except.ok [0, 0, 0, 0xAA]
    ∧ APU.construct.FillAudioBuffer [0xAA] 1 = Except.ok [0xAA]
    ∧ APU.construct.FillAudioBuffer [] 0 = Except.error Fault.outOfBounds
    ∧ APU.construct.FillAudioBuffer (List.replicate 2048 0xAA) 2048 =
        Except.ok (List.replicate 2048 0)
    ∧ APU.construct.FillAudioBuffer (List.replicate 2049 0xAA) 2049 =
        Except.error (Fault.QkError 710) := by
  have len : APU.construct.m_audiobuffer.m_vec.length = 2048 := by
    rw [construct_audiobuffer, List.length_replicate]
  refine ⟨?_, ?_, ?_, ?_, ?_⟩
  · unfold APU.FillAudioBuffer Util.CircularBuffer.GetSize
    rw [Copy_short _ _ _ (by decide) (by rw [len]; decide) (by decide), len,
      if_neg (by decide), construct_audiobuffer]
    rfl
  · unfold APU.FillAudioBuffer Util.CircularBuffer.GetSize
    rw [Copy_short _ _ _ (by decide) (by rw [len]; decide) (by decide), len,
      if_neg (by decide), construct_audiobuffer]
    rfl
  · unfold APU.FillAudioBuffer Util.CircularBuffer.GetSize Util.CircularBuffer.Copy
    rw [len, if_neg (by decide), if_neg (by decide), if_pos rfl]
  · unfold APU.FillAudioBuffer Util.CircularBuffer.GetSize Util.CircularBuffer.Copy
      Util.CircularBuffer.stdCopy
    rw [len, if_neg (by decide), if_pos (by decide), List.length_replicate,
      if_pos (by decide), construct_audiobuffer, List.drop_replicate,
      Nat.sub_self, List.replicate_zero, List.append_nil]
  · unfold APU.FillAudioBuffer Util.CircularBuffer.GetSize
    rw [len, if_pos (by decide)]

/-- C29 (code as written): from the shift register value 1 with mode 0, one update of the
noise channel with the timer expired leaves `0x4000`, the second leaves 0, and every later
one leaves 0, so the register never returns to 1: the update assigns `(a ^ b) << 14` to
the register it has just shifted. -/
theorem C29_noise_register_dies :
    (noiseUpdates {} 0).ShiftRegister = 1 ∧ (noiseUpdates {} 0).Mode = false
    ∧ (noiseUpdates {} 1).ShiftRegister = 0x4000
    ∧ (noiseUpdates {} 2).ShiftRegister = 0
    ∧ ∀ n, (noiseUpdates {} (n + 2)).ShiftRegister = 0
        ∧ (noiseUpdates {} (n + 2)).TimerCounter = 0 ∧ (noiseUpdates {} (n + 2)).TimerPeriod = 0
        ∧ (noiseUpdates {} (n + 2)).Mode = false := by
  refine ⟨rfl, rfl, by decide, by decide, ?_⟩
  intro n
  induction n with
  | zero => decide
  | succ n ih =>
    obtain ⟨h1, h2, h3, h4⟩ := ih
    have e : noiseUpdates {} (n + 1 + 2) = (noiseUpdates {} (n + 2)).UpdateTimer := rfl
    rw [e]
    generalize noiseUpdates {} (n + 2) = ch at h1 h2 h3 h4
    simp [APU.NoiseChannel.UpdateTimer, h1, h2, h3, h4]

/-- C30: for every byte `b`, `ReverseBits(ReverseBits(b)) = b`, and bit `i` of
`ReverseBits(b)` is bit `7 - i` of `b` for every `i` in `0..7`. -/
theorem C30_reverse_bits (b : Nat) (hb : b < 256) :
    Util.ReverseBits (Util.ReverseBits b) = b
    ∧ ∀ i, i < 8 → (Util.ReverseBits b).testBit i = b.testBit (7 - i) :=
  ReverseBits_bits b hb

/-- Witness of C30: the byte `0x1D`, whose reversal is `0xB8`. -/
theorem C30_reverse_bits_witness :
    0x1D < 256 ∧ Util.ReverseBits 0x1D = 0xB8
    ∧ Util.ReverseBits (Util.ReverseBits 0x1D) = 0x1D :=
  ⟨by decide, by decide, (C30_reverse_bits 0x1D (by decide)).1⟩

/-- C24: with a cartridge that answers the PPU, every call of `CycleRenderer`
returns; a call processed at scanline 241, dot 1 sets the VBlank bit, adds
exactly 1 to the frame counter and emits `SIGNAL_CPU_NMI` exactly when bit 7
of PPUCTRL is set, and a call processed at any other position sets no VBlank
bit, leaves the frame counter and emits nothing.  In a run of ticks from the
power-on scan position with frame counter 0, whatever is done to the PPU
between the ticks that leaves the scan position and the frame counter (as
every register read, register write and bus signal does), each of the first
89343 ticks returns and tick 82523 is the only one processed at scanline 241,
dot 1; after the 89343 ticks the frame counter is 1 and the signals emitted
are one `SIGNAL_CPU_NMI` if bit 7 of PPUCTRL was set at that tick, none
otherwise.  The frame counter, an `unsigned long`, is followed without
wrap. -/
theorem C24_vblank_tick (cart : CartridgeSlot) (between : Nat → RP2C02 → RP2C02) (p : RP2C02)
    (hcart : answersPPU cart)
    (hbetween : ∀ k q, (between k q).m_state.ScanPos = q.m_state.ScanPos
      ∧ (between k q).m_frameCounter = q.m_frameCounter)
    (hpos : p.m_state.ScanPos = powerOnPPU.m_state.ScanPos)
    (hfc : p.m_frameCounter = 0) :
    (∀ x : RP2C02, ∃ r, x.CycleRenderer cart = Except.ok r
      ∧ (x.m_state.ScanPos.Scanline = 241 ∧ x.m_state.ScanPos.Dots = 1 →
          r.1.Registers.PPUStatus.testBit 7 = true
          ∧ r.1.m_frameCounter = x.m_frameCounter + 1
          ∧ r.2 = if x.Registers.PPUCtrl.testBit 7 then [MOS6502.SIGNAL_CPU_NMI] else [])
      ∧ (¬ (x.m_state.ScanPos.Scanline = 241 ∧ x.m_state.ScanPos.Dots = 1) →
          (r.1.Registers.PPUStatus.testBit 7 = true → x.Registers.PPUStatus.testBit 7 = true)
          ∧ r.1.m_frameCounter = x.m_frameCounter
          ∧ r.2 = []))
    ∧ (∀ k, k < 89343 → ∃ q sig, renderTicks cart between k p = Except.ok (q, sig)
        ∧ (((between k q).m_state.ScanPos.Scanline = 241
            ∧ (between k q).m_state.ScanPos.Dots = 1) ↔ k = 82523))
    ∧ (∃ q0 q, renderTicks cart between 82523 p = Except.ok (q0, [])
        ∧ renderTicks cart between 89343 p = Except.ok (q,
            if (between 82523 q0).Registers.PPUCtrl.testBit 7 then [MOS6502.SIGNAL_CPU_NMI]
            else [])
        ∧ q.m_frameCounter = 1)
    ∧ ((∀ k q, (between k q).Registers.PPUCtrl = q.Registers.PPUCtrl) →
        ∃ q, renderTicks cart between 89343 p = Except.ok (q,
            if p.Registers.PPUCtrl.testBit 7 then [MOS6502.SIGNAL_CPU_NMI] else [])
          ∧ q.m_frameCounter = 1)
    ∧ (∀ (range : AddressRange) (x x1 : RP2C02) (c c1 : CartridgeSlot) (a w : Nat),
        x.WriteToDevice range c a w = Except.ok (x1, c1) →
          x1.m_state.ScanPos = x.m_state.ScanPos ∧ x1.m_frameCounter = x.m_frameCounter)
    ∧ (∀ (range : AddressRange) (x x1 : RP2C02) (c : CartridgeSlot) (a v : Nat) (peek : Bool),
        x.ReadFromDevice range c a peek = Except.ok (v, x1) →
          x1.m_state.ScanPos = x.m_state.ScanPos ∧ x1.m_frameCounter = x.m_frameCounter)
    ∧ (∀ (x : RP2C02) (signalId : Int),
        (x.OnBusSignal signalId).m_state.ScanPos = x.m_state.ScanPos
          ∧ (x.OnBusSignal signalId).m_frameCounter = x.m_frameCounter) := by
  have hpos2 : p.m_state.ScanPos.Dots = 0 ∧ p.m_state.ScanPos.Scanline = 261 := by
    rw [hpos]; exact ⟨rfl, rfl⟩
  obtain ⟨q0, q1, h0, hs0, hd0, h1, _, d1, s1, f1⟩ :=
    renderTicks_hit cart hcart between hbetween p hpos2 hfc
  obtain ⟨q, hq, _, _, fq⟩ :=
    renderTicks_after cart hcart between hbetween p _ q1 h1 d1 s1 f1 89343 (by omega)
      (le_refl _)
  refine ⟨?_, ?_, ⟨q0, q, h0, hq, fq⟩, ?_,
    fun range x x1 c c1 a w h => WriteToDevice_timing range x x1 c c1 a w h,
    fun range x x1 c a v peek h => ReadFromDevice_timing range x x1 c a v peek h,
    fun x signalId => OnBusSignal_timing x signalId⟩
  · intro x
    obtain ⟨r, hr, r1, r2, r3, _⟩ := CycleRenderer_tick cart hcart x
    refine ⟨r, hr, ?_, ?_⟩
    · intro hx
      rw [hx.1, hx.2, RendererFlags_hit] at r1 r2 r3
      refine ⟨?_, r2, r1⟩
      rw [r3]
      show (x.SetFlagStatus StatusFlag.VBlank true).Registers.PPUStatus.testBit 7 = true
      rw [SetFlagStatus_testBit]
      rfl
    · intro hx
      obtain ⟨m1, m2, _, _, m5, _⟩ := RendererFlags_miss x _ _ hx
      rw [m1] at r1
      rw [m2] at r2
      rw [r3]
      exact ⟨m5, r2, r1⟩
  · intro k hk
    by_cases hle : k ≤ 82523
    · obtain ⟨qk, hqk, d, s, _⟩ :=
        renderTicks_before cart hcart between hbetween p hpos2 hfc k hle
      refine ⟨qk, [], hqk, ?_⟩
      rw [(hbetween k qk).1, d, s]
      omega
    · obtain ⟨qk, hqk, d, s, _⟩ :=
        renderTicks_after cart hcart between hbetween p _ q1 h1 d1 s1 f1 k (by omega)
          (by omega)
      refine ⟨qk, _, hqk, ?_⟩
      rw [(hbetween k qk).1, d, s]
      omega
  · intro hctrl
    refine ⟨q, ?_, fq⟩
    have e : q0.Registers.PPUCtrl = p.Registers.PPUCtrl :=
      renderTicks_ctrl cart hcart between hctrl p 82523 _ h0
    rw [hq, hctrl, e]

/-- Witness of C24: the PPU after power-on with the NMI enabled, the 16 KiB
cartridge and nothing done between the ticks: one NMI in the first 89343
ticks, and the frame counter is 1. -/
theorem C24_vblank_tick_witness :
    answersPPU nromSlot
    ∧ (∀ q : RP2C02, q.m_state.ScanPos = q.m_state.ScanPos
        ∧ q.m_frameCounter = q.m_frameCounter)
    ∧ nmiPPU.m_state.ScanPos = powerOnPPU.m_state.ScanPos
    ∧ nmiPPU.m_frameCounter = 0
    ∧ ∃ q, renderTicks nromSlot (fun _ x => x) 89343 nmiPPU =
          Except.ok (q, [MOS6502.SIGNAL_CPU_NMI])
        ∧ q.m_frameCounter = 1 :=
  ⟨nromSlot_answersPPU, fun _ => ⟨rfl, rfl⟩, rfl, rfl,
    (C24_vblank_tick nromSlot (fun _ x => x) nmiPPU nromSlot_answersPPU
      (fun _ _ => ⟨rfl, rfl⟩) rfl rfl).2.2.2.1 (fun _ _ => rfl)⟩

/-- C25: on the console with the 16 KiB cartridge, `STA $4014` at address 0 and
`A = 2`, the first call of `Clock` (clock count 0, a CPU slot) executes the
write of 2 to `0x4014` and leaves the DMA requested with 1539 PPU cycles.
After each of the next 1538 calls the CPU is the CPU after the write with
`m_halted` set: its `Cycle` changed nothing in the CPU slots at the clock
counts 3, 6, ..., 1536, which are 512 slots.  The call at clock count
1539 = 3 * 513, the 513th CPU slot after the write, is not suppressed: the
PPU part of that call emits `SIGNAL_CPU_RSM` and the CPU part runs, so the
cycle count of the CPU goes from 1 to 2.  The CPU is idle for 512 CPU cycles,
not 513.  After the transfer `OAM[i]` is the byte of the RAM at
`0x0200 + i` for every `i` below 256. -/
theorem C25_oam_dma_stall :
    dmaConsole.Clock = Except.ok afterWrite
    ∧ afterWrite.m_systemClockCount = 1
    ∧ afterWrite.m_cpu.m_cpuCycleCount = 1
    ∧ afterWrite.m_cpu.m_halted = false
    ∧ afterWrite.m_dev.m_io.m_apu.m_addressDMA = 2
    ∧ afterWrite.m_dev.m_ppu.m_doDMA = true
    ∧ afterWrite.m_dev.m_ppu.m_remainingOAMDMACycles = 513 * 3
    ∧ (∀ j, 1 ≤ j → j ≤ 1538 → ∃ n, clocks j afterWrite = Except.ok n
        ∧ n.m_systemClockCount = 1 + j
        ∧ n.m_cpu = { afterWrite.m_cpu with m_halted := true }
        ∧ ∀ i, i < 256 → n.m_dev.m_ppu.VRAM.OAM i = dmaRam (0x200 + i))
    ∧ (∀ k, 1 ≤ k → k ≤ 512 → ∃ n n1, clocks (3 * k - 1) afterWrite = Except.ok n
        ∧ n.m_systemClockCount = 3 * k
        ∧ n.Clock = Except.ok n1
        ∧ n1.m_cpu = n.m_cpu)
    ∧ (∃ n n1, clocks (3 * 513 - 1) afterWrite = Except.ok n
        ∧ n.m_systemClockCount = 3 * 513
        ∧ n.m_cpu.m_halted = true
        ∧ n.m_cpu.m_cpuCycleCount = 1
        ∧ n.Clock = Except.ok n1
        ∧ n1.m_cpu.m_halted = false
        ∧ n1.m_cpu.m_cpuCycleCount = 2
        ∧ ∀ i, i < 256 → n1.m_dev.m_ppu.VRAM.OAM i = dmaRam (0x200 + i)) := by
  have hst := clocks_stalled afterWrite afterWrite_ready rfl rfl (by decide)
  have hst2 : ∀ j, 1 ≤ j → j ≤ 1538 → ∃ n, clocks j afterWrite = Except.ok n
      ∧ n.m_systemClockCount = 1 + j
      ∧ n.m_cpu = { afterWrite.m_cpu with m_halted := true }
      ∧ ∀ i, i < 256 → n.m_dev.m_ppu.VRAM.OAM i = dmaRam (0x200 + i) := by
    intro j h1 h2
    obtain ⟨n, e, _, _, c, u, _, _, o⟩ := hst j h1 h2
    refine ⟨n, e, c, u, ?_⟩
    intro i hi
    rw [o i hi]
    exact dmaRam_page i hi
  refine ⟨afterWrite_eq, rfl, rfl, rfl, rfl, rfl, rfl, hst2, ?_, ?_⟩
  · intro k h1 h2
    obtain ⟨n, e, c, u, _⟩ := hst2 (3 * k - 1) (by omega) (by omega)
    obtain ⟨n1, e1, _, u1, _⟩ := hst2 (3 * k - 1 + 1) (by omega) (by omega)
    rw [clocks_succ _ _ _ e] at e1
    refine ⟨n, n1, e, ?_, e1, ?_⟩
    · rw [c]; omega
    · rw [u1, u]
  · obtain ⟨n, e, c, u, _⟩ := hst2 (3 * 513 - 1) (by decide) (by decide)
    obtain ⟨n1, e1, _, u1, _, o1⟩ :=
      clocks_resumed afterWrite afterWrite_ready rfl rfl (by decide) rfl (by decide)
    rw [show (1539 : Nat) = (3 * 513 - 1) + 1 from rfl, clocks_succ _ _ _ e] at e1
    refine ⟨n, n1, e, ?_, ?_, ?_, e1, ?_, ?_, ?_⟩
    · rw [c]
    · rw [u]
    · rw [u]; rfl
    · rw [u1]
    · rw [u1]; rfl
    · intro i hi
      rw [o1 i hi]
      exact dmaRam_page i hi

/-- C26: the two pixels the multiplexer decides between (after the left-column
masking) are 2-bit values; it returns the colour of the palette and pixel
value that the priority table gives for them (entry 0 of palette 0 when both
are 0, the sprite when only the sprite is non-zero, the background when only
the background is non-zero, and with both non-zero the sprite if its priority
is 0, else the background); the PPU it leaves is the one it found, with the
sprite-zero-hit bit set in PPUSTATUS exactly when both pixels are non-zero and
the sprite supplying the sprite pixel carries the mark of OAM entry 0; a
non-zero sprite pixel is that of the first buffered sprite covering the dot
with a non-zero pixel, whose palette, priority and mark are the ones used; and
on a PPU with sprite 0 over an opaque background pixel the bit does get set. -/
theorem C26_pixel_multiplexer (p : RP2C02) (cart : CartridgeSlot) :
    p.MuxerInputs.bgpix < 4 ∧ p.MuxerInputs.sppix < 4
    ∧ p.Muxer cart =
        (p.GetRGBColorFromPalette cart (specMuxerOutput p.MuxerInputs).1
          (specMuxerOutput p.MuxerInputs).2).map
          (fun pixel => (pixel,
            if p.MuxerInputs.bgpix ≠ 0 ∧ p.MuxerInputs.sppix ≠ 0
                ∧ p.MuxerInputs.spriteZero = true
            then p.SetFlagStatus StatusFlag.SpriteZeroHit true else p))
    ∧ (p.SetFlagStatus StatusFlag.SpriteZeroHit true).Registers.PPUStatus
        = (p.Registers.PPUStatus ||| 0x40) % 256
    ∧ (p.MuxerInputs.sppix = 0 ∨
        ∃ i, i < p.m_state.VCache.SpriteCount.toNat
          ∧ spriteCovers p i = true
          ∧ (∀ j, j < i → spriteCovers p j = true → spritePixelAt p j = 0)
          ∧ p.MuxerInputs.sppix = spritePixelAt p i
          ∧ p.MuxerInputs.sppal = (p.m_state.VCache.BufferSpr i).Palette
          ∧ p.MuxerInputs.sppriority = (p.m_state.VCache.BufferSpr i).Priority
          ∧ p.MuxerInputs.spriteZero = (p.m_state.VCache.BufferSpr i).IsSpriteZero)
    ∧ (overlapPPU.Muxer cart).map (fun r => r.2.CheckFlagStatus StatusFlag.SpriteZeroHit)
        = Except.ok true := by
  refine ⟨(MuxerInputs_lt p).1, (MuxerInputs_lt p).2, ?_, rfl, MuxerInputs_sprite p, rfl⟩
  rw [Muxer_eq]
  unfold specMuxerOutput
  by_cases hb : p.MuxerInputs.bgpix = 0 <;> by_cases hs : p.MuxerInputs.sppix = 0
  · simp [hb, hs]
  · simp [hb, hs]
  · simp [hb, hs]
  · by_cases hp : p.MuxerInputs.sppriority = 0 <;>
      by_cases hz : p.MuxerInputs.spriteZero = true <;> simp [hb, hs, hp, hz]

end Claims

section ClaimC31

/-- C31: for every `n` in `0..99`, `BCDtoBIN(BINtoBCD(n)) = n`, and
`BINtoBCD(n)` is a valid BCD byte: `ValidateBCD` returns true for it and both
its nibbles are at most 9 (the high one is `n / 10`, the low one `n % 10`). -/
theorem C31_bcd_round_trip (n : Nat) (hn : n < 100) :
    Util.BCDtoBIN (Util.BINtoBCD n) = n
    ∧ Util.ValidateBCD (Util.BINtoBCD n) = true
    ∧ Util.BINtoBCD n < 256
    ∧ Util.BINtoBCD n / 16 ≤ 9 ∧ Util.BINtoBCD n % 16 ≤ 9
    ∧ Util.BINtoBCD n = 16 * (n / 10) + n % 10 :=
  bcd_round_trip n hn

/-- Witness of C31: 73, whose BCD byte is `0x73`. -/
theorem C31_bcd_round_trip_witness :
    73 < 100 ∧ Util.BINtoBCD 73 = 0x73 ∧ Util.BCDtoBIN (Util.BINtoBCD 73) = 73 :=
  ⟨by decide, by decide, (C31_bcd_round_trip 73 (by decide)).1⟩

end ClaimC31

section ClaimC32
open MOS6502 InstructionHandler

variable {β : Type}

/-- C32: let the CPU be not halted with its budget at 0, and let the work the next call of
`Cycle` does (the pending NMI, else the pending IRQ, else the next instruction) report the
cycle count `n >= 1`.  Then the first call does that work and leaves the budget `n - 1`;
after `k` calls, for every `k` in `1..n`, the state is the state after that work with the
budget `n - k` and the cycle counter advanced by `k`, so the calls 2 to `n` change nothing
but the budget and the counter; after `n` calls the budget is 0 again and call `n + 1` does
the next work, which is the fetch of the next opcode when no interrupt is pending.  Every
call of a CPU that is not halted adds exactly 1 to the cycle counter, and a call of a
halted CPU returns the state unchanged. -/
theorem C32_cycle_budget (bus : BusAccess β) (c : MOS6502 β) (n : Nat)
    (hh : c.m_halted = false) (hr : c.m_remainingCycles = 0)
    (hn : GetLastInstructionCycles (serviceNext bus c) = (n : Int)) (h1 : 1 ≤ n) :
    (∀ k, 1 ≤ k → k ≤ n →
        (Cycle bus)^[k] c = { serviceNext bus c with
          m_remainingCycles := (n : Int) - (k : Int),
          m_cpuCycleCount := c.m_cpuCycleCount + k })
    ∧ ((Cycle bus)^[n] c).m_remainingCycles = 0
    ∧ ((Cycle bus)^[n] c).m_halted = false
    ∧ (Cycle bus)^[n + 1] c = { serviceNext bus ((Cycle bus)^[n] c) with
          m_remainingCycles := GetLastInstructionCycles (serviceNext bus ((Cycle bus)^[n] c)) - 1,
          m_cpuCycleCount := c.m_cpuCycleCount + n + 1 }
    ∧ (((Cycle bus)^[n] c).m_nmiPending = false → ((Cycle bus)^[n] c).m_irqPending = false →
        serviceNext bus ((Cycle bus)^[n] c) = ExecuteNextInstruction bus ((Cycle bus)^[n] c))
    ∧ (∀ d : MOS6502 β, d.m_halted = false →
        (Cycle bus d).m_cpuCycleCount = d.m_cpuCycleCount + 1)
    ∧ (∀ d : MOS6502 β, d.m_halted = true → Cycle bus d = d) := by
  have key := cycles_of_budget bus c n hh hr hn
  have hN := key n h1 (Nat.le_refl n)
  have r0 : ((Cycle bus)^[n] c).m_remainingCycles = 0 := by
    rw [hN]
    show (n : Int) - (n : Int) = 0
    omega
  have h0 : ((Cycle bus)^[n] c).m_halted = false := by
    rw [hN]
    show (serviceNext bus c).m_halted = false
    rw [(serviceNext_control bus c).1, hh]
  have c0 : ((Cycle bus)^[n] c).m_cpuCycleCount = c.m_cpuCycleCount + n := by
    rw [hN]
  refine ⟨key, r0, h0, ?_, ?_, fun d hd => Cycle_count bus d hd,
    fun d hd => Cycle_of_halted bus d hd⟩
  · rw [Function.iterate_succ_apply', Cycle_of_service bus _ h0 (by omega), r0, c0, zero_add]
  · intro hnmi hirq
    unfold serviceNext
    rw [hnmi, hirq]
    rfl

/-- Witness of C32: the `PHA` of `phaState`, which reports 3 cycles: after calls 1, 2 and
3 the stack pointer is `0xFF`, the budget is 2, 1 and 0, and the cycle counter 1, 2 and
3. -/
theorem C32_cycle_budget_witness :
    phaState.m_halted = false ∧ phaState.m_remainingCycles = 0
    ∧ GetLastInstructionCycles (serviceNext ramBus phaState) = ((3 : Nat) : Int)
    ∧ ((Cycle ramBus)^[1] phaState).S = 0xFF
    ∧ ((Cycle ramBus)^[2] phaState).S = 0xFF
    ∧ ((Cycle ramBus)^[2] phaState).m_remainingCycles = 1
    ∧ ((Cycle ramBus)^[2] phaState).m_cpuCycleCount = 2
    ∧ ((Cycle ramBus)^[3] phaState).m_remainingCycles = 0
    ∧ ((Cycle ramBus)^[3] phaState).m_cpuCycleCount = 3
    ∧ (Cycle ramBus)^[2] phaState = { serviceNext ramBus phaState with
          m_remainingCycles := ((3 : Nat) : Int) - ((2 : Nat) : Int),
          m_cpuCycleCount := phaState.m_cpuCycleCount + 2 } :=
  ⟨rfl, rfl, by decide, by decide, by decide, by decide, by decide, by decide, by decide,
    (C32_cycle_budget ramBus phaState 3 rfl rfl (by decide) (by decide)).1 2
      (by decide) (by decide)⟩

end ClaimC32

section ClaimC33
open NES RP2C02 RenderState

/-- C33, on the code as written: `T` stays below `0x8000` under every write to a PPU
register and is left alone by every register read and by the coarse-X and Y increments
and the horizontal and vertical copies of the renderer; `V` stays below `0x8000` under
those increments and copies, under every register read other than a PPUDATA read and under
every register write other than a PPUDATA write.  A PPUDATA read or write adds the
increment (1 or 32) to `V` as a 16-bit word, so it carries into bit 15: from the
constructed PPU, the writes `0xFF`, `0xFF` to PPUSCROLL, `0x03` to PPUCTRL, `0xFF` to
PPUSCROLL and `0xFF` to PPUADDR leave `V = T = 0x7FFF`, and one more write to PPUDATA, or
one read of PPUDATA, leaves `V = 0x8000`, whose bit-field `Unused` is 1. -/
theorem C33_vram_address_bits :
    (powerOnPPU.m_state.V.Address = 0 ∧ powerOnPPU.m_state.T.Address = 0)
    ∧ (∀ (range : AddressRange) (p p1 : RP2C02) (cart cart1 : CartridgeSlot) (a w : Nat),
        p.WriteToDevice range cart a w = Except.ok (p1, cart1) →
        p.m_state.T.Address < 0x8000 →
          p1.m_state.T.Address < 0x8000
          ∧ ((a : Int) - (range.Min : Int) ≠ 7 → p.m_state.V.Address < 0x8000 →
              p1.m_state.V.Address < 0x8000)
          ∧ ((a : Int) - (range.Min : Int) = 7 →
              p1.m_state.V.Address = (p.m_state.V.Address + p1.increment) % 65536))
    ∧ (∀ (range : AddressRange) (p p1 : RP2C02) (cart : CartridgeSlot) (a v : Nat)
        (peek : Bool), p.ReadFromDevice range cart a peek = Except.ok (v, p1) →
          p1.m_state.T = p.m_state.T
          ∧ (¬ ((a : Int) - (range.Min : Int) = 7 ∧ peek = false) →
              p1.m_state.V = p.m_state.V)
          ∧ ((a : Int) - (range.Min : Int) = 7 ∧ peek = false →
              p1.m_state.V.Address = (p.m_state.V.Address + p1.increment) % 65536))
    ∧ (∀ s : RenderState, s.V.Address < 0x8000 →
        (s.IncrementHorizontalPos.V.Address < 0x8000 ∧ s.IncrementHorizontalPos.T = s.T)
        ∧ (s.IncrementVerticalPos.V.Address < 0x8000 ∧ s.IncrementVerticalPos.T = s.T)
        ∧ (s.CopyHorizontalPos.V.Address < 0x8000 ∧ s.CopyHorizontalPos.T = s.T)
        ∧ (s.CopyVerticalPos.V.Address < 0x8000 ∧ s.CopyVerticalPos.T = s.T))
    ∧ ((registerWrites (unusedBitWrites.take 5) (powerOnPPU, nromSlot)).map
          (fun r => (r.1.m_state.V.Address, r.1.m_state.T.Address))
        = Except.ok (0x7FFF, 0x7FFF)
      ∧ (registerWrites unusedBitWrites (powerOnPPU, nromSlot)).map
          (fun r => (r.1.m_state.V.Address, r.1.m_state.T.Address, r.1.m_state.V.Unused))
        = Except.ok (0x8000, 0x7FFF, 1)
      ∧ ((registerWrites (unusedBitWrites.take 5) (powerOnPPU, nromSlot)).bind
          (fun r => r.1.ReadFromDevice (AddressRange.mk 0x2000 0x2007) r.2 0x2007 false)).map
          (fun x => x.2.m_state.V.Address)
        = Except.ok 0x8000) := by
  refine ⟨⟨rfl, rfl⟩, ?_, ?_, ?_, rfl, rfl, rfl⟩
  · intro range p p1 cart cart1 a w h hT
    exact WriteToDevice_address range p p1 cart cart1 a w h hT
  · intro range p p1 cart a v peek h
    exact ReadFromDevice_address range p p1 cart a v peek h
  · intro s h
    exact ⟨IncrementHorizontalPos_lt s h, IncrementVerticalPos_lt s h,
      CopyHorizontalPos_lt s h, CopyVerticalPos_lt s h⟩

end ClaimC33

section ClaimC34
open NES RP2C02

/-- C34: in every PPU state reachable from the constructed one by ticks, register reads and
writes, bus signals and the OAM DMA, `0 <= dots <= 340` and `0 <= scanline <= 261`; from
such a state a tick with a cartridge that answers returns a state and that state has its
scan position in the same ranges, also when the tick applies the odd-frame double
advance, which from (261, 339) leads to (0, 0).  In every state, the pixel block of the
tick writes to the framebuffer only when `0 <= scanline <= 239` and `1 <= dots <= 256`,
with `x = dots - 1` and `y = scanline`: then `0 <= x <= 255`, the offset `y * 256 + x` is at
least 0 and below `256 * 240`, and `DrawPixel` returns the framebuffer with that one pixel
replaced, not the out-of-bounds error. -/
theorem C34_scan_position (p : RP2C02) (h : ppuReaches p) :
    (0 ≤ p.m_state.ScanPos.Dots ∧ p.m_state.ScanPos.Dots ≤ 340
      ∧ 0 ≤ p.m_state.ScanPos.Scanline ∧ p.m_state.ScanPos.Scanline ≤ 261)
    ∧ (∀ cart, answersPPU cart →
        ∃ q signals, p.CycleRenderer cart = Except.ok (q, signals)
          ∧ ppuReaches q
          ∧ 0 ≤ q.m_state.ScanPos.Dots ∧ q.m_state.ScanPos.Dots ≤ 340
          ∧ 0 ≤ q.m_state.ScanPos.Scanline ∧ q.m_state.ScanPos.Scanline ≤ 261)
    ∧ (∀ q : RP2C02, q.m_frameCounter % 2 = 1 → q.m_state.ScanPos.Scanline = 261 →
        q.m_state.ScanPos.Dots = 339 →
          (q.RendererAdvance 261 339).m_state.ScanPos.Dots = 0
          ∧ (q.RendererAdvance 261 339).m_state.ScanPos.Scanline = 0)
    ∧ (∀ (q : RP2C02) (cart : CartridgeSlot) (s d : Int),
        q.RendererPixel cart s d =
          if 0 ≤ s ∧ s ≤ 239 ∧ 1 ≤ d ∧ d ≤ 256 then
            (q.Muxer cart).bind fun r => Except.ok { r.2 with m_framebuffer := fun i =>
              if i = (s * SCREEN_WIDTH + (d - 1)).toNat then r.1 else r.2.m_framebuffer i }
          else Except.ok q)
    ∧ (∀ (q : RP2C02) (pixel : Pixel) (s d : Int), 0 ≤ s → s ≤ 239 → 1 ≤ d → d ≤ 256 →
        0 ≤ d - 1 ∧ d - 1 ≤ 255
        ∧ 0 ≤ s * SCREEN_WIDTH + (d - 1)
        ∧ s * SCREEN_WIDTH + (d - 1) < SCREEN_WIDTH * SCREEN_HEIGTH
        ∧ SCREEN_WIDTH * SCREEN_HEIGTH = 256 * 240
        ∧ q.DrawPixel pixel (d - 1) s = Except.ok { q with m_framebuffer := fun i =>
            if i = (s * SCREEN_WIDTH + (d - 1)).toNat then pixel else q.m_framebuffer i }) := by
  have hr := ppuReaches_range p h
  refine ⟨hr, ?_, fun q h1 hs hd => RendererAdvance_skip q h1 hs hd,
    fun q cart s d => RendererPixel_eq q cart s d, ?_⟩
  · intro cart hcart
    obtain ⟨q, signals, hq, -⟩ := CycleRenderer_range cart hcart p hr
    have hq2 : ppuReaches q := ppuReaches.tick p q cart signals h hcart hq
    exact ⟨q, signals, hq, hq2, ppuReaches_range q hq2⟩
  · intro q pixel s d h1 h2 h3 h4
    refine ⟨by omega, by omega, ?_, ?_, by decide, DrawPixel_visible q pixel s d h1 h2 h3 h4⟩
    · unfold SCREEN_WIDTH; omega
    · unfold SCREEN_WIDTH SCREEN_HEIGTH; omega

/-- Witness of C34: the PPU after the first tick, which is at scanline 261, dot 1. -/
theorem C34_scan_position_witness :
    ppuReaches firstTickPPU
    ∧ firstTickPPU.m_state.ScanPos.Scanline = 261 ∧ firstTickPPU.m_state.ScanPos.Dots = 1
    ∧ (0 ≤ firstTickPPU.m_state.ScanPos.Dots ∧ firstTickPPU.m_state.ScanPos.Dots ≤ 340
      ∧ 0 ≤ firstTickPPU.m_state.ScanPos.Scanline
      ∧ firstTickPPU.m_state.ScanPos.Scanline ≤ 261) :=
  ⟨ppuReaches.tick powerOnPPU firstTickPPU nromSlot [] ppuReaches.start nromSlot_answersPPU rfl,
    by decide, by decide,
    (C34_scan_position firstTickPPU
      (ppuReaches.tick powerOnPPU firstTickPPU nromSlot [] ppuReaches.start
        nromSlot_answersPPU rfl)).1⟩

end ClaimC34

section ClaimC35
open NES RP2C02

/-- C35, amended: for every OAM content and target scanline, with a cartridge that answers
the pattern reads, sprite evaluation returns a state in which the sprite count is the
number of sprites in range (`row = y - scanline + 8` in `[0, height)`) or 8 if there are
more, so it is at most 8 and the buffer is written at the indices 0 to 7 only; entry `j`
of the buffer, for every `j` below the count, holds the `j`-th sprite in range in ascending
OAM index; and the sprite-overflow flag is set exactly when it was set before or more than
8 sprites are in range, that is when a ninth sprite in range is met.  With exactly 8
sprites in range the flag is left as it was.  `EvaluateSprites` runs this for the target
scanline 0 on scanline 261, for `scanline + 1` up to scanline 238, and does nothing on the
other scanlines. -/
theorem C35_sprite_evaluation (cart : CartridgeSlot) (hcart : answersPPU cart) (p : RP2C02)
    (scanl : Int) :
    (∃ q, p.EvaluateSpritesFor cart scanl = Except.ok q
      ∧ q.m_state.VCache.SpriteCount = ((min 8 (spritesInRange p scanl
          (if p.CheckFlagCtrl CtrlFlag.SpriteHeight then 16 else 8)).length : Nat) : Int)
      ∧ (0 ≤ q.m_state.VCache.SpriteCount ∧ q.m_state.VCache.SpriteCount ≤ 8)
      ∧ (∀ j, j < min 8 (spritesInRange p scanl
            (if p.CheckFlagCtrl CtrlFlag.SpriteHeight then 16 else 8)).length →
          spriteEntryOf p cart scanl ((spritesInRange p scanl
            (if p.CheckFlagCtrl CtrlFlag.SpriteHeight then 16 else 8)).getD j 0)
            (q.m_state.VCache.BufferSpr j))
      ∧ q.CheckFlagStatus StatusFlag.SpriteOverflow
          = (decide (8 < (spritesInRange p scanl
              (if p.CheckFlagCtrl CtrlFlag.SpriteHeight then 16 else 8)).length)
            || p.CheckFlagStatus StatusFlag.SpriteOverflow))
    ∧ (p.m_state.ScanPos.Scanline = 261 →
        p.EvaluateSprites cart = p.EvaluateSpritesFor cart 0)
    ∧ (p.m_state.ScanPos.Scanline ≤ 238 →
        p.EvaluateSprites cart = p.EvaluateSpritesFor cart (p.m_state.ScanPos.Scanline + 1))
    ∧ (238 < p.m_state.ScanPos.Scanline → p.m_state.ScanPos.Scanline ≠ 261 →
        p.EvaluateSprites cart = Except.ok p) := by
  obtain ⟨s1, s2, s3⟩ := EvaluateSprites_scanline p cart
  refine ⟨?_, s1, s2, s3⟩
  obtain ⟨q, hq, -, cnt, slots, flag⟩ := EvaluateSpritesFor_spec cart hcart p scanl
  refine ⟨q, hq, cnt, ?_, slots, flag⟩
  rw [cnt]
  omega

/-- Witness of C35: an OAM whose first nine sprites are in range of the target scanline 1:
eight are selected and the overflow flag is set. -/
theorem C35_sprite_evaluation_witness :
    answersPPU nromSlot
    ∧ spritesInRange (spritesPPU 9) 1 8 = [0, 1, 2, 3, 4, 5, 6, 7, 8]
    ∧ (spritesPPU 9).CheckFlagStatus StatusFlag.SpriteOverflow = false
    ∧ ∃ q, (spritesPPU 9).EvaluateSpritesFor nromSlot 1 = Except.ok q
        ∧ q.m_state.VCache.SpriteCount = 8
        ∧ q.CheckFlagStatus StatusFlag.SpriteOverflow = true := by
  obtain ⟨q, hq, cnt, -, -, flag⟩ :=
    (C35_sprite_evaluation nromSlot nromSlot_answersPPU (spritesPPU 9) 1).1
  rw [spritesPPU_inRange.2.1] at cnt flag
  rw [spritesPPU_inRange.2.2.2.1] at flag
  exact ⟨nromSlot_answersPPU, by decide, by decide, q, hq, cnt, flag⟩

/-- Counterexample to C35 as stated: with an OAM whose first eight sprites, and no others,
are in range of the target scanline 1, `EvaluateSprites` on scanline 0 selects 8 sprites
and the sprite-overflow flag, clear before, is clear afterwards. -/
theorem C35_eight_selected_flag_clear :
    spritesInRange (spritesPPU 8) 1 8 = [0, 1, 2, 3, 4, 5, 6, 7]
    ∧ (spritesPPU 8).CheckFlagStatus StatusFlag.SpriteOverflow = false
    ∧ ∃ q, (spritesPPU 8).EvaluateSprites nromSlot = Except.ok q
        ∧ q.m_state.VCache.SpriteCount = 8
        ∧ q.CheckFlagStatus StatusFlag.SpriteOverflow = false := by
  obtain ⟨q, hq, -, cnt, -, flag⟩ := EvaluateSpritesFor_spec nromSlot nromSlot_answersPPU
    (spritesPPU 8) 1
  rw [spritesPPU_inRange.1] at cnt flag
  rw [spritesPPU_inRange.2.2.1] at flag
  have e := (EvaluateSprites_scanline (spritesPPU 8) nromSlot).2.1
    (by rw [spritesPPU_inRange.2.2.2.2]; decide)
  rw [spritesPPU_inRange.2.2.2.2] at e
  exact ⟨by decide, by decide, q, e.trans hq, cnt, flag⟩

end ClaimC35

section ClaimC36
open NES APU

/-- C36, on the code as written: a call of `UpdateFrameCounter` increments the count while
it is below the period and resets it to 0 otherwise, so from a count not above the period
`P` the count after `k` calls is `(count + k) mod (P + 1)`: it runs through 5 values in
4-step mode and through 6 values in 5-step mode, one more than the mode has steps.  The
call emits `CPU_IRQ` exactly when the period is 4, the new count is 3 and `IRQInhibit` is
clear, which is once in every 5 calls, and never in 5-step mode.  From the constructed
APU in 4-step mode the counts of ten calls are 1, 2, 3, 4, 0, 1, 2, 3, 4, 0, the IRQ is
emitted by calls 3 and 8, and the length counter of the triangle channel is clocked by
calls 1, 3, 6 and 8; the call that leaves the count 4 clocks nothing.  In 5-step mode the
counts of twelve calls are 1, 2, 3, 4, 5, 0, 1, 2, 3, 4, 5, 0, no signal is emitted and
the length counter is clocked by calls 1, 4, 7 and 10. -/
theorem C36_frame_counter_sequence :
    (∀ u : APU,
      u.UpdateFrameCounter.1.FrameCounter
        = { u.FrameCounter with Count :=
            if u.FrameCounter.Count < (u.FrameCounter.Period : Int)
            then u.FrameCounter.Count + 1 else 0 }
      ∧ u.UpdateFrameCounter.2
        = (if u.FrameCounter.Period = 4
              ∧ (if u.FrameCounter.Count < (u.FrameCounter.Period : Int)
                  then u.FrameCounter.Count + 1 else 0) = 3
              ∧ u.FrameCounter.IRQInhibit = false
            then [MOS6502.SIGNAL_CPU_IRQ] else []))
    ∧ (∀ (P c : Nat) (u : APU), u.FrameCounter.Period = P → u.FrameCounter.Count = (c : Int) →
        c ≤ P → ∀ k : Nat,
          (frameTicks k u).1.FrameCounter
            = { u.FrameCounter with Count := (((c + k) % (P + 1) : Nat) : Int) }
          ∧ (frameTicks k u).2
            = (List.range k).map (fun j =>
                if P = 4 ∧ (c + j + 1) % (P + 1) = 3 ∧ u.FrameCounter.IRQInhibit = false
                then [MOS6502.SIGNAL_CPU_IRQ] else []))
    ∧ ((frameProbe 1200).FrameCounter = { Period := 4, IRQInhibit := false, Count := 0 }
      ∧ frameCounts 10 (frameProbe 1200) = [1, 2, 3, 4, 0, 1, 2, 3, 4, 0]
      ∧ (frameTicks 10 (frameProbe 1200)).2
          = [[], [], [MOS6502.SIGNAL_CPU_IRQ], [], [], [], [], [MOS6502.SIGNAL_CPU_IRQ], [], []]
      ∧ triangleLengths 10 (frameProbe 1200) = [9, 9, 8, 8, 8, 7, 7, 6, 6, 6]
      ∧ (frameTicks 10 (frameProbe 1201)).2 = [[], [], [], [], [], [], [], [], [], []])
    ∧ ((frameProbe 1202).FrameCounter = { Period := 5, IRQInhibit := false, Count := 0 }
      ∧ frameCounts 12 (frameProbe 1202) = [1, 2, 3, 4, 5, 0, 1, 2, 3, 4, 5, 0]
      ∧ (frameTicks 12 (frameProbe 1202)).2 = [[], [], [], [], [], [], [], [], [], [], [], []]
      ∧ triangleLengths 12 (frameProbe 1202) = [9, 9, 9, 8, 8, 8, 7, 7, 7, 6, 6, 6]) := by
  refine ⟨UpdateFrameCounter_step, ?_, by decide, by decide⟩
  intro P c u hP hc hcP k
  exact frameTicks_spec P c u hP hc hcP k

end ClaimC36

section ClaimC37
open NES

/-- C37 (code as written): writing `lo` to the timer-low and `hi` to the
timer-high register of a pulse or of the triangle channel leaves
`TimerPeriod = ((hi & 0xF8) << 8) | lo`: the three low bits of `hi` are
dropped and its five high bits, the index of the length table, become the
bits 11 to 15 of the period.  With `lo = 0x34`, `hi = 0x05` the period is
`0x0034`, not `0x0534` (also through the registers `0x4002`, `0x4003` of the
APU), and with `hi = 0xFD` it is `0xF834`, above `0x7FF`.
The length counter of the triangle channel, and that of an enabled pulse
channel, is the entry `hi >> 3` of the length table. -/
theorem C37_timer_high_mask :
    (((APU.construct.ChPulse1.WriteRegisterTimerLow 0x34).WriteRegisterTimerHigh
        APU.construct.Status 0x05).TimerPeriod = 0x0034)
    ∧ (((APU.construct.ChPulse1.WriteRegisterTimerLow 0x34).WriteRegisterTimerHigh
        APU.construct.Status 0xFD).TimerPeriod = 0xF834)
    ∧ (((APU.construct.ChTriangle.WriteRegisterTimerLow 0x34).WriteRegisterTimerHigh
        0x05).TimerPeriod = 0x0034)
    ∧ (((APU.construct.ChTriangle.WriteRegisterTimerLow 0x34).WriteRegisterTimerHigh
        0xFD).TimerPeriod = 0xF834)
    ∧ ((APU.WriteToDevice (AddressRange.mk 0x4000 0x4015)
          (APU.WriteToDevice (AddressRange.mk 0x4000 0x4015) APU.construct 0x4002 0x34).1
          0x4003 0x05).1.ChPulse1.TimerPeriod = 0x0034)
    ∧ (∀ (ch : APU.PulseChannel) (status : APU.StatusRegister) (lo hi : Nat),
        lo < 256 → hi < 256 →
          ((ch.WriteRegisterTimerLow lo).WriteRegisterTimerHigh status hi).TimerPeriod
            = (hi &&& 0xF8) * 256 + lo)
    ∧ (∀ (ch : APU.TriangleChannel) (lo hi : Nat), lo < 256 → hi < 256 →
          ((ch.WriteRegisterTimerLow lo).WriteRegisterTimerHigh hi).TimerPeriod
            = (hi &&& 0xF8) * 256 + lo)
    ∧ (∀ (ch : APU.TriangleChannel) (lo hi : Nat),
          ((ch.WriteRegisterTimerLow lo).WriteRegisterTimerHigh hi).LengthCounter
            = APU.m_tableLength.getD (hi >>> 3) 0)
    ∧ (∀ (ch : APU.PulseChannel) (status : APU.StatusRegister) (lo hi : Nat),
          ((ch.m_pulseChId = 1 ∧ status.EnablePulse1 = true)
            ∨ (ch.m_pulseChId = 2 ∧ status.EnablePulse2 = true)) →
          ((ch.WriteRegisterTimerLow lo).WriteRegisterTimerHigh status hi).LengthCounter
            = APU.m_tableLength.getD (hi >>> 3) 0) := by
  refine ⟨by decide, by decide, by decide, by decide, by decide,
    fun ch status lo hi hlo hhi => pulse_timer_writes ch status lo hi hlo hhi,
    fun ch lo hi hlo hhi => triangle_timer_writes ch lo hi hlo hhi,
    fun ch lo hi => rfl, ?_⟩
  intro ch status lo hi h
  unfold APU.PulseChannel.WriteRegisterTimerHigh APU.PulseChannel.WriteRegisterTimerLow
  dsimp only
  rw [if_pos]
  rcases h with ⟨h1, h2⟩ | ⟨h1, h2⟩
  · simp [h1, h2]
  · simp [h1, h2]

end ClaimC37

section ClaimC38
open MOS6502 InstructionHandler

/-- C38, on the code as written: 103 entries of the opcode table carry the mnemonic XXX.
For each of them except the entry at 0xEB, on every bus and in every CPU state whose next
opcode byte is that entry's, executing the instruction leaves A, X, Y, S and P unchanged,
advances PC by one, and leaves the devices as the opcode read left them (unchanged memory
on a RAM bus).  The entry at 0xEB carries the mnemonic XXX too, but its operation is SBC
with implied addressing, the only such entry: executed with A = 0x50 and P = 0x24 it
leaves A = 0x4F and P = 0x25, so it is not a no-operation. -/
theorem C38_unofficial_opcodes :
    OpcodeMap.countP (fun e => e.Mnemonic == "XXX") = 103
    ∧ (∀ (β : Type) (bus : BusAccess β) (c : MOS6502 β) (k : Nat), k < 256 →
        (OpcodeMapAt k).Mnemonic = "XXX" → k ≠ 0xEB → (Read bus c c.PC).1 = k →
          (ExecuteNextInstruction bus c).A = c.A
          ∧ (ExecuteNextInstruction bus c).X = c.X
          ∧ (ExecuteNextInstruction bus c).Y = c.Y
          ∧ (ExecuteNextInstruction bus c).S = c.S
          ∧ (ExecuteNextInstruction bus c).P = c.P
          ∧ (ExecuteNextInstruction bus c).PC = (c.PC + 1) % 65536
          ∧ (ExecuteNextInstruction bus c).BUS = (bus.ReadFromBus c.BUS (c.PC % 65536)).2)
    ∧ (∀ (c : MOS6502 (Nat → Nat)) (k : Nat), k < 256 →
        (OpcodeMapAt k).Mnemonic = "XXX" → k ≠ 0xEB → (Read ramBus c c.PC).1 = k →
          (ExecuteNextInstruction ramBus c).BUS = c.BUS)
    ∧ ((OpcodeMapAt 0x02).Mnemonic = "XXX"
        ∧ (ExecuteNextInstruction ramBus (filledMemoryCpu 0x02 0x50)).A = 0x50
        ∧ (ExecuteNextInstruction ramBus (filledMemoryCpu 0x02 0x50)).P = 0x24
        ∧ (ExecuteNextInstruction ramBus (filledMemoryCpu 0x02 0x50)).PC = 0x8001)
    ∧ ((OpcodeMapAt 0xEB).Mnemonic = "XXX"
        ∧ (OpcodeMapAt 0xEB).AdressingFunction = AddressingFunction.IMP
        ∧ (OpcodeMapAt 0xEB).OperationFunction = OperationFunction.SBC
        ∧ OpcodeMap.countP (fun e => e.Mnemonic == "XXX"
            && e.OperationFunction == OperationFunction.SBC) = 1)
    ∧ ((filledMemoryCpu 0xEB 0x50).A = 0x50
        ∧ (filledMemoryCpu 0xEB 0x50).P = 0x24
        ∧ (ExecuteNextInstruction ramBus (filledMemoryCpu 0xEB 0x50)).A = 0x4F
        ∧ (ExecuteNextInstruction ramBus (filledMemoryCpu 0xEB 0x50)).P = 0x25
        ∧ (ExecuteNextInstruction ramBus (filledMemoryCpu 0xEB 0x50)).PC = 0x8001) := by
  refine ⟨table_unofficial_count.1, ?_, ?_, by decide, ⟨by decide, by decide, by decide,
    table_unofficial_count.2⟩, by decide⟩
  · intro β bus c k hk hm hne hop
    exact execute_unofficial bus c k hk hm hne hop
  · intro c k hk hm hne hop
    exact (execute_unofficial ramBus c k hk hm hne hop).2.2.2.2.2.2

end ClaimC38

section ClaimC39
open MOS6502 InstructionHandler

/-- C39: on a RAM bus, for every address `a` of a `JSR` (opcode `0x20` with the target bytes
`tlo`, `thi` behind it) and every stack pointer `S`, executing the `JSR` writes the high
byte of `a + 2` to `0x0100 + S` and its low byte to `0x0100 + ((S - 1) mod 256)`, leaves
`S = (S - 2) mod 256` and `PC` at the target; and in every later state `e` that has that
stack pointer and still holds those two stack bytes, executing an `RTS` (opcode `0x60` at
the `PC` of `e`) leaves `PC = (a + 3) mod 65536` and `S` at its value before the `JSR`. -/
theorem C39_jsr_rts_inverse (c e : MOS6502 (Nat → Nat)) (tlo thi : Nat)
    (hPC : c.PC < 65536) (hS : c.S < 256) (hlo : tlo < 256) (hhi : thi < 256)
    (h0 : c.BUS c.PC = 0x20) (h1 : c.BUS ((c.PC + 1) % 65536) = tlo)
    (h2 : c.BUS ((c.PC + 2) % 65536) = thi)
    (heS : e.S = (ExecuteNextInstruction ramBus c).S)
    (hm1 : e.BUS (0x0100 + c.S) = (ExecuteNextInstruction ramBus c).BUS (0x0100 + c.S))
    (hm2 : e.BUS (0x0100 + (c.S + 255) % 256)
      = (ExecuteNextInstruction ramBus c).BUS (0x0100 + (c.S + 255) % 256))
    (hePC : e.PC < 65536) (hr : e.BUS e.PC = 0x60) :
    ((ExecuteNextInstruction ramBus c).PC = thi * 256 + tlo
      ∧ (ExecuteNextInstruction ramBus c).S = (c.S + 254) % 256
      ∧ (ExecuteNextInstruction ramBus c).BUS (0x0100 + c.S) = (c.PC + 2) % 65536 / 256
      ∧ (ExecuteNextInstruction ramBus c).BUS (0x0100 + (c.S + 255) % 256)
          = (c.PC + 2) % 65536 % 256)
    ∧ (ExecuteNextInstruction ramBus e).PC = (c.PC + 3) % 65536
    ∧ (ExecuteNextInstruction ramBus e).S = c.S := by
  obtain ⟨jPC, jS, jB, -⟩ := execute_JSR c tlo thi hPC hS hlo hhi h0 h1 h2
  have b1 : (ExecuteNextInstruction ramBus c).BUS (0x0100 + (c.S + 255) % 256)
      = (c.PC + 2) % 65536 % 256 := by
    rw [jB]
    show (if _ then _ else _) = _
    rw [if_pos rfl]
  have b0 : (ExecuteNextInstruction ramBus c).BUS (0x0100 + c.S) = (c.PC + 2) % 65536 / 256 := by
    rw [jB]
    show (if _ then _ else (if _ then _ else _)) = _
    rw [if_neg (by omega), if_pos rfl]
  refine ⟨⟨jPC, jS, b0, b1⟩, ?_⟩
  rw [jS] at heS
  have k1 : e.BUS (0x0100 + (e.S + 1) % 256) = (c.PC + 2) % 65536 % 256 := by
    rw [heS, show ((c.S + 254) % 256 + 1) % 256 = (c.S + 255) % 256 by omega, hm2, b1]
  have k2 : e.BUS (0x0100 + (e.S + 2) % 256) = (c.PC + 2) % 65536 / 256 := by
    rw [heS, show ((c.S + 254) % 256 + 2) % 256 = c.S by omega, hm1, b0]
  obtain ⟨rPC, rS, -⟩ := execute_RTS e _ _ hePC (Nat.mod_lt _ (by decide)) (by omega) hr k1 k2
  rw [rPC, rS, heS]
  constructor <;> omega

/-- Witness of C39: the `JSR $9000` at `0x8000` run with `S = 0x00` pushes `0x80` to
`0x0100` and `0x02` to `0x01FF`, and the `RTS` at `0x9000` run next returns to `0x8003`
with `S = 0x00` again. -/
theorem C39_jsr_rts_inverse_witness :
    jsrState.PC = 0x8000 ∧ jsrState.S = 0x00
    ∧ (ExecuteNextInstruction ramBus jsrState).PC = 0x9000
    ∧ (ExecuteNextInstruction ramBus jsrState).S = 0xFE
    ∧ (ExecuteNextInstruction ramBus jsrState).BUS 0x0100 = 0x80
    ∧ (ExecuteNextInstruction ramBus jsrState).BUS 0x01FF = 0x02
    ∧ (ExecuteNextInstruction ramBus (ExecuteNextInstruction ramBus jsrState)).PC
        = (jsrState.PC + 3) % 65536
    ∧ (ExecuteNextInstruction ramBus (ExecuteNextInstruction ramBus jsrState)).S = jsrState.S :=
  ⟨by decide, by decide, by decide, by decide, by decide, by decide,
    (C39_jsr_rts_inverse jsrState (ExecuteNextInstruction ramBus jsrState) 0x00 0x90
      (by decide) (by decide) (by decide) (by decide) (by decide) (by decide) (by decide)
      rfl rfl rfl (by decide) (by decide)).2⟩

end ClaimC39

section ClaimC40
open NES

/-- C40, on the code as written: for every cartridge constructed from a ROM file whose
header gives a PRG-ROM size other than 0, the PRG-RAM has 8 KiB or more, every CPU read at
`a` in `0x4020..0xFFFF` is mapped to no memory and returns 0, or to an offset inside the
PRG-RAM, or to an offset inside the PRG-ROM, and, when the CHR-ROM size is not 0, every
PPU-side read at `p` in `0x0000..0x1FFF` is mapped to an offset inside the CHR-ROM.  When
the CHR-ROM size is 0 (CHR-RAM), the CHR buffer is empty and every PPU-side read at `p` in
`0x0000..0x1FFF` is mapped to the CHR-ROM at offset `p`, outside the buffer: the header
with one PRG-ROM unit and no CHR-ROM unit constructs a cartridge whose PPU-side read at 0
indexes the empty buffer. -/
theorem C40_nrom_reads_inside :
    (∀ (bytes : List Nat) (c : Cartridge), Cartridge.construct (some bytes) = Except.ok c →
      c.Metadata.PRGROMSize ≠ 0 →
        8192 ≤ c.Metadata.PRGRAMSize
        ∧ c.m_PRGROM.length = c.Metadata.PRGROMSize
        ∧ c.m_CHRROM.length = c.Metadata.CHRROMSize
        ∧ c.m_PRGRAM.length = c.Metadata.PRGRAMSize
        ∧ (∀ a, 0x4020 ≤ a → a ≤ 0xFFFF →
            ((Mapper000.MapBusAddress c.m_mapper a false).Target = Mapper.Memory.NONE
              ∧ c.MainBusRead a = Except.ok 0)
            ∨ ((Mapper000.MapBusAddress c.m_mapper a false).Target = Mapper.Memory.PRGRAM
              ∧ (Mapper000.MapBusAddress c.m_mapper a false).Offset < c.m_PRGRAM.length
              ∧ c.MainBusRead a = Except.ok
                  (c.m_PRGRAM.getD (Mapper000.MapBusAddress c.m_mapper a false).Offset 0))
            ∨ ((Mapper000.MapBusAddress c.m_mapper a false).Target = Mapper.Memory.PRGROM
              ∧ (Mapper000.MapBusAddress c.m_mapper a false).Offset < c.m_PRGROM.length
              ∧ c.MainBusRead a = Except.ok
                  (c.m_PRGROM.getD (Mapper000.MapBusAddress c.m_mapper a false).Offset 0)))
        ∧ (c.Metadata.CHRROMSize ≠ 0 → ∀ p, p ≤ 0x1FFF →
            (Mapper000.MapPPUAddress c.m_mapper p false).Target = Mapper.Memory.CHRROM
            ∧ (Mapper000.MapPPUAddress c.m_mapper p false).Offset < c.m_CHRROM.length
            ∧ c.PPUBusRead p = Except.ok
                (c.m_CHRROM.getD (Mapper000.MapPPUAddress c.m_mapper p false).Offset 0))
        ∧ (c.Metadata.CHRROMSize = 0 → ∀ p, p ≤ 0x1FFF →
            (Mapper000.MapPPUAddress c.m_mapper p false).Target = Mapper.Memory.CHRROM
            ∧ (Mapper000.MapPPUAddress c.m_mapper p false).Offset = p
            ∧ c.m_CHRROM = []
            ∧ c.PPUBusRead p = Except.error Fault.outOfBounds))
    ∧ ((Cartridge.construct (some (headerWith 0 0))).map
          (fun c => (c.Metadata.PRGROMSize, c.Metadata.CHRROMSize, c.Metadata.PRGRAMSize))
        = Except.ok (16384, 8192, 8192)
      ∧ (Cartridge.construct (some (headerWith 0 0))).bind (fun c => c.MainBusRead 0x4020)
        = Except.ok 0)
    ∧ ((Cartridge.construct (some chrRamFile)).map
          (fun c => (c.Metadata.PRGROMSize, c.Metadata.CHRROMSize, c.Metadata.PRGRAMSize))
        = Except.ok (16384, 0, 8192)
      ∧ (Cartridge.construct (some chrRamFile)).map (fun c => c.m_CHRROM) = Except.ok []
      ∧ (Cartridge.construct (some chrRamFile)).bind (fun c => c.PPUBusRead 0)
        = Except.error Fault.outOfBounds) := by
  refine ⟨?_, ⟨rfl, rfl⟩, ⟨rfl, rfl, rfl⟩⟩
  intro bytes c h hprg
  obtain ⟨l1, l2, l3, b1, b2, b3, b4, m1, m2, m3⟩ := Cartridge_construct_ok bytes c h
  rw [m1, m2, m3]
  rw [m1] at hprg
  refine ⟨b4, l1, l2, l3, ?_, ?_, ?_⟩
  · intro a h1 h2
    exact MainBusRead_inside c a l1 l3 b1 b3 (by omega) (by omega) h1 h2
  · intro hchr p hp
    exact PPUBusRead_inside c p l2 b2 (by omega) hp
  · intro hchr p hp
    exact PPUBusRead_outside c p l2 hchr hp

end ClaimC40

end Qk
